import Mathlib

/-!
# Athos DIF smoke tests: interrupt claim / dispatch / acknowledge / complete

A shallow embedding of `dif_plic_smoketest_uart.c` and `dif_plic_smoketest_gpio.c`, and of the
tests `dif_rstmgr_smoketest.c`, `dif_rv_timer_smoketest_3sec.c` (its handler),
`dif_clkmgr_smoketest.c` and the three UART loopback tests `dif_uart_smoketest.c`,
`dif_uart_helloworld.c`, `dif_uart_bci_test.c`, which have no interrupt handler table.

* The eight (two) `static volatile bool` observation flags are a store indexed by the
  variable name.
* Every driver call, every access to a volatile flag and every `usleep` is appended to a
  chronological trace, tagged with the execution context (main flow or interrupt handler).
* The hardware is an environment: it decides the status every driver call returns and the id
  every claim yields (both may depend on the whole history, here: on the length of the trace),
  and a schedule decides how many times the external interrupt fires in every gap between two
  steps of the main flow.
* `CHECK` failures and the `LOG_FATAL` path stop the program; the failure and the state reached
  are kept. The main flow can be interrupted before every one of its operations and before the
  abort of a `CHECK` of its own that fails; a handler runs to completion.
-/

namespace Athos

/-! ## Types of the absent driver headers -/

/-- Modelled from the spec: the `dif_*_result_t` status codes of the driver headers, which are
not part of the sources. Every driver operation returns "a per-peripheral status code
distinguishing success from named failure kinds (e.g. invalid parameter, invalid peripheral
state)". `kOk` stands for `kDifUartOk`, `kDifUartConfigOk`, `kDifGpioOk` and `kDifPlicOk`. -/
inductive Status
  | kOk
  | kError
  | kBadArg
  deriving DecidableEq, Repr

/-- The two toggle values `kDif*ToggleEnabled` / `kDif*ToggleDisabled`. -/
inductive Toggle
  | kToggleEnabled
  | kToggleDisabled
  deriving DecidableEq, Repr

/-- The PLIC trigger kinds; the tests only use `kDifPlicIrqTriggerLevel`. -/
inductive dif_plic_irq_trigger_t
  | kDifPlicIrqTriggerEdge
  | kDifPlicIrqTriggerLevel
  deriving DecidableEq, Repr

/-- The eight UART interrupt causes named by the sources (`dif_uart_irq_t`). -/
inductive dif_uart_irq_t
  | kDifUartIrqTxWatermark
  | kDifUartIrqRxWatermark
  | kDifUartIrqTxEmpty
  | kDifUartIrqRxOverflow
  | kDifUartIrqRxFrameErr
  | kDifUartIrqRxBreakErr
  | kDifUartIrqRxTimeout
  | kDifUartIrqRxParityErr
  deriving DecidableEq, Repr

/-- The two GPIO interrupt causes named by the sources (`dif_gpio_irq_trigger_t`). -/
inductive dif_gpio_irq_trigger_t
  | kDifGpioIrqTriggerEdgeRising
  | kDifGpioIrqTriggerEdgeFalling
  deriving DecidableEq, Repr

/-- A pointer to a driver handle: one of the file-level statics `plic0`, `uart0`, `gpio`, or
any other object. -/
inductive Ptr
  | plic0
  | uart0
  | gpio
  | other (addr : Nat)
  deriving DecidableEq, Repr

/-- The constants of the generated header `top_athos.h` and of `dif_plic.h` that the tests use.
The headers are not part of the sources, so their values are parameters. Interrupt ids,
peripheral ids, targets and priorities are machine integers (`uint32_t` / enum values). -/
structure Hdr where
  kTopAthosPlicTargetIbex0 : Nat
  kTopAthosPlicIrqIdNone : Nat
  kTopAthosPlicIrqIdGpioGpio0 : Nat
  kTopAthosPlicIrqIdGpioGpio1 : Nat
  kTopAthosPlicIrqIdUart0TxWatermark : Nat
  kTopAthosPlicIrqIdUart0RxWatermark : Nat
  kTopAthosPlicIrqIdUart0TxEmpty : Nat
  kTopAthosPlicIrqIdUart0RxOverflow : Nat
  kTopAthosPlicIrqIdUart0RxFrameErr : Nat
  kTopAthosPlicIrqIdUart0RxBreakErr : Nat
  kTopAthosPlicIrqIdUart0RxTimeout : Nat
  kTopAthosPlicIrqIdUart0RxParityErr : Nat
  kTopAthosPlicPeripheralGpio : Nat
  kTopAthosPlicPeripheralUart0 : Nat
  top_athos_plic_interrupt_for_peripheral : List Nat
  kDifPlicMinPriority : Nat
  kDifPlicMaxPriority : Nat

/-- `static const uint32_t kPlicTarget = kTopAthosPlicTargetIbex0;` -/
def kPlicTarget (h : Hdr) : Nat := h.kTopAthosPlicTargetIbex0

/-! ## Traces -/

/-- A driver call with its arguments. `dif_plic_irq_claim` also records the id it wrote
through its out-pointer. -/
inductive Call
  | dif_uart_init (uart : Ptr)
  | dif_uart_configure (uart : Ptr)
  | dif_gpio_init (dev : Ptr)
  | dif_plic_init (plic : Ptr)
  | dif_uart_irq_set_enabled (uart : Ptr) (irq : dif_uart_irq_t) (state : Toggle)
  | dif_gpio_irq_set_enabled (dev : Ptr) (irq : dif_gpio_irq_trigger_t) (state : Toggle)
  | dif_plic_irq_set_trigger (plic : Ptr) (irq : Nat) (trigger : dif_plic_irq_trigger_t)
  | dif_plic_irq_set_priority (plic : Ptr) (irq : Nat) (priority : Nat)
  | dif_plic_target_set_threshold (plic : Ptr) (target : Nat) (threshold : Nat)
  | dif_plic_irq_set_enabled (plic : Ptr) (irq : Nat) (target : Nat) (state : Toggle)
  | dif_uart_irq_force (uart : Ptr) (irq : dif_uart_irq_t)
  | dif_gpio_irq_force (dev : Ptr) (irq : dif_gpio_irq_trigger_t)
  | dif_plic_irq_claim (plic : Ptr) (target : Nat) (claimed : Nat)
  | dif_uart_irq_acknowledge (uart : Ptr) (irq : dif_uart_irq_t)
  | dif_gpio_irq_acknowledge (dev : Ptr) (irq : dif_gpio_irq_trigger_t)
  | dif_plic_irq_complete (plic : Ptr) (target : Nat) (irq : Nat)
  deriving DecidableEq, Repr

/-- The observable operations of a test whose observation flags are named by `F`. -/
inductive Op (F : Type)
  | call (k : Call) (r : Status)
  | load (f : F) (v : Bool)
  | store (f : F) (v : Bool)
  | usleep (usec : Nat)
  | irq_global_ctrl (en : Bool)
  | irq_external_ctrl (en : Bool)
  deriving DecidableEq, Repr

/-- The execution context of an operation. -/
inductive Ctx
  | main
  | isr
  deriving DecidableEq, Repr

/-- An operation together with the context that performed it. -/
structure Event (F : Type) where
  ctx : Ctx
  op : Op F
  deriving DecidableEq, Repr

/-- How a test stops before `test_main` returns: a failed `CHECK` (which logs
`CHECK-fail: msg` as an error), or the `LOG_FATAL(msg); test_status_set(kTestStatusFailed)`
path. -/
inductive Failure
  | check (msg : String)
  | fatal (msg : String)
  deriving DecidableEq, Repr

/-- The flags and the history. -/
structure St (F : Type) where
  flags : F → Bool
  trace : List (Event F)

/-- The result of running a piece of the program: it returns, it stops the test, or it
indexes the id-to-peripheral table out of bounds (undefined behaviour). -/
inductive Res (F : Type) (α : Type)
  | ret (a : α) (s : St F)
  | abort (e : Failure) (s : St F)
  | undef (s : St F)

/-- The state a result ends in. -/
def Res.st {F α : Type} : Res F α → St F
  | .ret _ s => s
  | .abort _ s => s
  | .undef s => s

/-- A result that returned normally. -/
def Res.returned {F α : Type} : Res F α → Bool
  | .ret _ _ => true
  | _ => false

/-- The failure of a result that stopped the test. -/
def Res.failure {F α : Type} : Res F α → Option Failure
  | .abort e _ => some e
  | _ => none

/-- Programs over the flags `F`. -/
def M (F : Type) (α : Type) : Type := St F → Res F α

/-- Sequencing: a stopped program stays stopped. -/
def M.bind {F α β : Type} (m : M F α) (k : α → M F β) : M F β := fun s =>
  match m s with
  | .ret a s1 => k a s1
  | .abort e s1 => .abort e s1
  | .undef s1 => .undef s1

instance (F : Type) : Monad (M F) where
  pure a := fun s => .ret a s
  bind := M.bind

/-- The environment. `status n` and `claimed n` are the status returned by, and the id claimed
by, the driver call that is made when the trace has length `n`; `fires n` is the number of times
the external interrupt fires before the main flow takes the step it takes when the trace has
length `n`, where a step is an operation of the main flow or the abort of a failed `CHECK`.
Every operation appends to the trace, so every behaviour of the hardware is some
environment. -/
structure Env where
  status : Nat → Status
  claimed : Nat → Nat
  fires : Nat → Nat

/-! ## Primitives -/

/-- Append one event. -/
def emit {F : Type} (ctx : Ctx) (op : Op F) : M F Unit := fun s =>
  .ret () { s with trace := s.trace ++ [⟨ctx, op⟩] }

/-- A driver call: the environment chooses the status. -/
def drv {F : Type} (env : Env) (ctx : Ctx) (k : Call) : M F Status := fun s =>
  .ret (env.status s.trace.length)
    { s with trace := s.trace ++ [⟨ctx, .call k (env.status s.trace.length)⟩] }

/-- The call `dif_plic_irq_claim(plic, target, &interrupt_id)`: the environment chooses the
status and the id. -/
def dif_plic_irq_claim {F : Type} (env : Env) (ctx : Ctx) (plic : Ptr) (target : Nat) :
    M F (Status × Nat) := fun s =>
  .ret (env.status s.trace.length, env.claimed s.trace.length)
    { s with trace := s.trace ++
        [⟨ctx, .call (.dif_plic_irq_claim plic target (env.claimed s.trace.length))
          (env.status s.trace.length)⟩] }

/-- A read of a volatile flag. -/
def load {F : Type} (ctx : Ctx) (f : F) : M F Bool := fun s =>
  .ret (s.flags f) { s with trace := s.trace ++ [⟨ctx, .load f (s.flags f)⟩] }

/-- A write of a volatile flag. -/
def store {F : Type} [DecidableEq F] (ctx : Ctx) (f : F) (v : Bool) : M F Unit := fun s =>
  .ret () { flags := Function.update s.flags f v, trace := s.trace ++ [⟨ctx, .store f v⟩] }

/-- Modelled from the spec: the macro `CHECK(cond, msg)` of the absent `dif/check.h`. "The core
checks status immediately at the call site and converts non-success into a fatal abort". -/
def CHECK {F : Type} (cond : Bool) (msg : String) : M F Unit := fun s =>
  if cond then .ret () s else .abort (.check msg) s

/-- Modelled from the spec: `LOG_FATAL(msg); test_status_set(kTestStatusFailed);` of the absent
`dif/log.h` and `dif/test_status.h`. The handlers note that this path "is effectively
noreturn". -/
def LOG_FATAL_failed {F α : Type} (msg : String) : M F α := fun s =>
  .abort (.fatal msg) s

/-- Indexing of the generated table `top_athos_plic_interrupt_for_peripheral`; the C code does
not check the index. -/
def table_lookup {F : Type} (h : Hdr) (interrupt_id : Nat) : M F Nat := fun s =>
  match h.top_athos_plic_interrupt_for_peripheral[interrupt_id]? with
  | some p => .ret p s
  | none => .undef s

/-- The external interrupt fires `n` times in a row; every firing runs the handler to
completion. -/
def irqs {F : Type} (isr : M F Unit) : Nat → M F Unit
  | 0 => pure ()
  | n + 1 => do isr; irqs isr n

/-- The gap before a step of the main flow: the interrupts scheduled there are served. -/
def gap {F : Type} (isr : M F Unit) (env : Env) : M F Unit := fun s =>
  irqs isr (env.fires s.trace.length) s

/-- A `CHECK(cond, msg)` of the main flow. The main flow is preemptible, so the abort of a check
that fails is a step of its own: the interrupts scheduled between the evaluation of the
condition and the abort are served first, and a handler that stops the test there does so in
the place of the check. -/
def CHECK_main {F : Type} (isr : M F Unit) (env : Env) (cond : Bool) (msg : String) :
    M F Unit := do
  if !cond then gap isr env
  CHECK cond msg

/-- A driver call of the main flow under `CHECK(call == kOk, msg)`. -/
def checked_call {F : Type} (isr : M F Unit) (env : Env) (k : Call) (msg : String) :
    M F Unit := do
  gap isr env
  CHECK_main isr env ((← drv env .main k) == .kOk) msg

/-- The block that `execute_test` repeats for every cause:
`flag = false; CHECK(force(cause) == kOk, force_msg); if (!flag) usleep(10);
CHECK(flag, handled_msg);`. -/
def force_round {F : Type} [DecidableEq F] (isr : M F Unit) (env : Env) (flag : F)
    (force : Call) (force_msg handled_msg : String) : M F Unit := do
  gap isr env
  store .main flag false
  checked_call isr env force force_msg
  gap isr env
  if !(← load .main flag) then
    gap isr env
    emit .main (.usleep 10)
  gap isr env
  CHECK_main isr env (← load .main flag) handled_msg

/-! ## The two handlers in one form

The UART and the GPIO handler are the same code up to the rows of their `switch`, the expected
peripheral and one diagnostic. `router` is that common form; `Uart.uart_handler_eq_router` and
`Gpio.gpio_handler_eq_router` below prove that the two handlers are instances of it. -/

/-- One `case` of a handler's `switch`: the flag it checks and sets, the acknowledge issued for
its cause, and the diagnostic of its `CHECK`. -/
structure Row (F : Type) where
  flag : F
  ack : Call
  msg : String

/-- The common form of `handle_uart_isr` and `handle_gpio_isr`, for the selected row. -/
def handle_row {F : Type} [DecidableEq F] (env : Env) : Option (Row F) → M F Unit
  | none => LOG_FATAL_failed "ISR is not implemented!"
  | some r => do
    CHECK (!(← load .isr r.flag)) r.msg
    store .isr r.flag true
    CHECK ((← drv env .isr r.ack) == .kOk) "ISR failed to clear IRQ!"

/-- The common form of the two `handler_irq_external`. -/
def router {F : Type} [DecidableEq F] (h : Hdr) (env : Env) (expected : Nat) (msg : String)
    (rows : Nat → Option (Row F)) : M F Unit := do
  let claim ← dif_plic_irq_claim env .isr .plic0 (kPlicTarget h)
  CHECK (claim.1 == .kOk) "ISR is not implemented!"
  let peripheral_id ← table_lookup h claim.2
  CHECK (peripheral_id == expected) msg
  handle_row env (rows claim.2)
  CHECK ((← drv env .isr (.dif_plic_irq_complete .plic0 (kPlicTarget h) claim.2)) == .kOk)
    "Unable to complete the IRQ request!"

/-- The rounds of an `execute_test`, one after the other. -/
def run_rounds {F : Type} [DecidableEq F] (isr : M F Unit) (env : Env) :
    List (F × Call × String × String) → M F Unit
  | [] => pure ()
  | r :: rs => do
    force_round isr env r.1 r.2.1 r.2.2.1 r.2.2.2
    run_rounds isr env rs

/-- The driver calls of a trace, with their statuses, in order. -/
def driver_calls {F : Type} (t : List (Event F)) : List (Call × Status) :=
  t.filterMap fun e => match e.op with
    | .call k r => some (k, r)
    | _ => none

/-- The operations of the main flow in a trace, in order. -/
def main_ops {F : Type} (t : List (Event F)) : List (Op F) :=
  t.filterMap fun e => match e.ctx with
    | .main => some e.op
    | .isr => none

/-- The events a run appended to the history it started from. -/
def Res.added {F α : Type} (r : Res F α) (s : St F) : List (Event F) :=
  r.st.trace.drop s.trace.length

/-- An example header, numbered the way the generated headers of this family of chips are:
id 0 is "none", ids 1 to 32 are the GPIO pins, ids 33 to 40 the eight UART0 causes. -/
def example_hdr : Hdr where
  kTopAthosPlicTargetIbex0 := 0
  kTopAthosPlicIrqIdNone := 0
  kTopAthosPlicIrqIdGpioGpio0 := 1
  kTopAthosPlicIrqIdGpioGpio1 := 2
  kTopAthosPlicIrqIdUart0TxWatermark := 33
  kTopAthosPlicIrqIdUart0RxWatermark := 34
  kTopAthosPlicIrqIdUart0TxEmpty := 35
  kTopAthosPlicIrqIdUart0RxOverflow := 36
  kTopAthosPlicIrqIdUart0RxFrameErr := 37
  kTopAthosPlicIrqIdUart0RxBreakErr := 38
  kTopAthosPlicIrqIdUart0RxTimeout := 39
  kTopAthosPlicIrqIdUart0RxParityErr := 40
  kTopAthosPlicPeripheralGpio := 1
  kTopAthosPlicPeripheralUart0 := 2
  top_athos_plic_interrupt_for_peripheral := 0 :: (List.replicate 32 1 ++ List.replicate 8 2)
  kDifPlicMinPriority := 0
  kDifPlicMaxPriority := 3

/-- The state at reset: every flag is false (static storage), nothing has happened. -/
def St.init (F : Type) : St F := ⟨fun _ => false, []⟩

/-! ## `dif_plic_smoketest_uart.c` -/

/-- The eight `static volatile bool` flags of the UART test. -/
inductive UartFlag
  | uart_rx_overflow_handled
  | uart_tx_empty_handled
  | uart_rx_frame_err_handled
  | uart_tx_watermark_handled
  | uart_rx_watermark_handled
  | uart_rx_break_err_handled
  | uart_rx_timeout_handled
  | uart_rx_parity_err_handled
  deriving DecidableEq, Repr

namespace Uart

open UartFlag dif_uart_irq_t

/-- The function `handle_uart_isr`. -/
def handle_uart_isr (h : Hdr) (env : Env) (interrupt_id : Nat) : M UartFlag Unit := do
  let uart_irq ←
    if interrupt_id = h.kTopAthosPlicIrqIdUart0RxParityErr then do
      CHECK (!(← load .isr uart_rx_parity_err_handled))
        "UART rx_parity_err IRQ asserted more than once"
      store .isr uart_rx_parity_err_handled true
      pure kDifUartIrqRxParityErr
    else if interrupt_id = h.kTopAthosPlicIrqIdUart0RxTimeout then do
      CHECK (!(← load .isr uart_rx_timeout_handled))
        "UART rx_timeout IRQ asserted more than once"
      store .isr uart_rx_timeout_handled true
      pure kDifUartIrqRxTimeout
    else if interrupt_id = h.kTopAthosPlicIrqIdUart0RxBreakErr then do
      CHECK (!(← load .isr uart_rx_break_err_handled))
        "UART rx_break_err IRQ asserted more than once"
      store .isr uart_rx_break_err_handled true
      pure kDifUartIrqRxBreakErr
    else if interrupt_id = h.kTopAthosPlicIrqIdUart0RxFrameErr then do
      CHECK (!(← load .isr uart_rx_frame_err_handled))
        "UART RX framing error IRQ asserted more than once"
      store .isr uart_rx_frame_err_handled true
      pure kDifUartIrqRxFrameErr
    else if interrupt_id = h.kTopAthosPlicIrqIdUart0RxOverflow then do
      CHECK (!(← load .isr uart_rx_overflow_handled))
        "UART RX overflow IRQ asserted more than once"
      store .isr uart_rx_overflow_handled true
      pure kDifUartIrqRxOverflow
    else if interrupt_id = h.kTopAthosPlicIrqIdUart0TxEmpty then do
      CHECK (!(← load .isr uart_tx_empty_handled))
        "UART TX empty IRQ asserted more than once"
      store .isr uart_tx_empty_handled true
      pure kDifUartIrqTxEmpty
    else if interrupt_id = h.kTopAthosPlicIrqIdUart0RxWatermark then do
      CHECK (!(← load .isr uart_rx_watermark_handled))
        "UART rx_watermark IRQ asserted more than once"
      store .isr uart_rx_watermark_handled true
      pure kDifUartIrqRxWatermark
    else if interrupt_id = h.kTopAthosPlicIrqIdUart0TxWatermark then do
      CHECK (!(← load .isr uart_tx_watermark_handled))
        "UART tx_watermark IRQ asserted more than once"
      store .isr uart_tx_watermark_handled true
      pure kDifUartIrqTxWatermark
    else
      LOG_FATAL_failed "ISR is not implemented!"
  CHECK ((← drv env .isr (.dif_uart_irq_acknowledge .uart0 uart_irq)) == .kOk)
    "ISR failed to clear IRQ!"

/-- The function `handler_irq_external` of the UART test. -/
def handler_irq_external (h : Hdr) (env : Env) : M UartFlag Unit := do
  let claim ← dif_plic_irq_claim env .isr .plic0 (kPlicTarget h)
  CHECK (claim.1 == .kOk) "ISR is not implemented!"
  let interrupt_id := claim.2
  let peripheral_id ← table_lookup h interrupt_id
  CHECK (peripheral_id == h.kTopAthosPlicPeripheralUart0)
    "ISR interrupted peripheral is not UART!"
  handle_uart_isr h env interrupt_id
  CHECK ((← drv env .isr (.dif_plic_irq_complete .plic0 (kPlicTarget h) interrupt_id)) == .kOk)
    "Unable to complete the IRQ request!"

/-- The function `uart_initialise`; the first `CHECK` has no message of its own, it logs its
condition. -/
def uart_initialise (h : Hdr) (env : Env) (uart : Ptr) : M UartFlag Unit := do
  checked_call (handler_irq_external h env) env (.dif_uart_init uart)
    "dif_uart_init( (dif_uart_params_t)\x7b .base_addr = base_addr, \x7d, uart) == kDifUartOk"
  checked_call (handler_irq_external h env) env (.dif_uart_configure uart)
    "UART config failed!"

/-- The function `plic_initialise` of the UART test. -/
def plic_initialise (h : Hdr) (env : Env) (plic : Ptr) : M UartFlag Unit :=
  checked_call (handler_irq_external h env) env (.dif_plic_init plic) "PLIC init failed!"

/-- The function `uart_configure_irqs`: every call is made on `&uart0`, the argument is not
used. -/
def uart_configure_irqs (h : Hdr) (env : Env) (_uart : Ptr) : M UartFlag Unit := do
  let isr := handler_irq_external h env
  checked_call isr env (.dif_uart_irq_set_enabled .uart0 kDifUartIrqRxParityErr .kToggleEnabled)
    "RX parity error IRQ enable failed!"
  checked_call isr env (.dif_uart_irq_set_enabled .uart0 kDifUartIrqRxTimeout .kToggleEnabled)
    "RX FIFO timeout expires before it is emptied IRQ enable failed!"
  checked_call isr env (.dif_uart_irq_set_enabled .uart0 kDifUartIrqRxBreakErr .kToggleEnabled)
    "RX break condition IRQ enable failed!"
  checked_call isr env (.dif_uart_irq_set_enabled .uart0 kDifUartIrqRxFrameErr .kToggleEnabled)
    "RX framing error IRQ enable failed!"
  checked_call isr env (.dif_uart_irq_set_enabled .uart0 kDifUartIrqRxOverflow .kToggleEnabled)
    "RX overflow IRQ enable failed!"
  checked_call isr env (.dif_uart_irq_set_enabled .uart0 kDifUartIrqTxEmpty .kToggleEnabled)
    "TX empty IRQ enable failed!"
  checked_call isr env (.dif_uart_irq_set_enabled .uart0 kDifUartIrqRxWatermark .kToggleEnabled)
    "RX FIFO goes over its watermark IRQ enable failed!"
  checked_call isr env (.dif_uart_irq_set_enabled .uart0 kDifUartIrqTxWatermark .kToggleEnabled)
    "TX FIFO dips below its watermark IRQ enable failed!"

/-- The function `plic_configure_irqs` of the UART test: the threshold is set on `&plic0`,
every other call on the argument. -/
def plic_configure_irqs (h : Hdr) (env : Env) (plic : Ptr) : M UartFlag Unit := do
  let isr := handler_irq_external h env
  checked_call isr env
    (.dif_plic_irq_set_trigger plic h.kTopAthosPlicIrqIdUart0RxParityErr .kDifPlicIrqTriggerLevel)
    "RX parity error trigger type set failed!"
  checked_call isr env
    (.dif_plic_irq_set_trigger plic h.kTopAthosPlicIrqIdUart0RxTimeout .kDifPlicIrqTriggerLevel)
    "RX FIFO timeout expires before it is emptied trigger type set failed!"
  checked_call isr env
    (.dif_plic_irq_set_trigger plic h.kTopAthosPlicIrqIdUart0RxBreakErr .kDifPlicIrqTriggerLevel)
    "RX break condition trigger type set failed!"
  checked_call isr env
    (.dif_plic_irq_set_trigger plic h.kTopAthosPlicIrqIdUart0RxFrameErr .kDifPlicIrqTriggerLevel)
    "RX framing error trigger type set failed!"
  checked_call isr env
    (.dif_plic_irq_set_trigger plic h.kTopAthosPlicIrqIdUart0RxOverflow .kDifPlicIrqTriggerLevel)
    "RX overflow trigger type set failed!"
  checked_call isr env
    (.dif_plic_irq_set_trigger plic h.kTopAthosPlicIrqIdUart0TxEmpty .kDifPlicIrqTriggerLevel)
    "TX empty trigger type set failed!"
  checked_call isr env
    (.dif_plic_irq_set_trigger plic h.kTopAthosPlicIrqIdUart0RxWatermark .kDifPlicIrqTriggerLevel)
    "RX FIFO goes over its watermark trigger type set failed!"
  checked_call isr env
    (.dif_plic_irq_set_trigger plic h.kTopAthosPlicIrqIdUart0TxWatermark .kDifPlicIrqTriggerLevel)
    "TX FIFO dips below its watermark trigger type set failed!"
  checked_call isr env
    (.dif_plic_irq_set_priority plic h.kTopAthosPlicIrqIdUart0RxParityErr h.kDifPlicMaxPriority)
    "priority set for RX parity error failed!"
  checked_call isr env
    (.dif_plic_irq_set_priority plic h.kTopAthosPlicIrqIdUart0RxTimeout h.kDifPlicMaxPriority)
    "priority set for RX FIFO timeout expires before it is emptied failed!"
  checked_call isr env
    (.dif_plic_irq_set_priority plic h.kTopAthosPlicIrqIdUart0RxBreakErr h.kDifPlicMaxPriority)
    "priority set for RX break condition failed!"
  checked_call isr env
    (.dif_plic_irq_set_priority plic h.kTopAthosPlicIrqIdUart0RxFrameErr h.kDifPlicMaxPriority)
    "priority set for RX framing error failed!"
  checked_call isr env
    (.dif_plic_irq_set_priority plic h.kTopAthosPlicIrqIdUart0RxOverflow h.kDifPlicMaxPriority)
    "priority set for RX overflow failed!"
  checked_call isr env
    (.dif_plic_irq_set_priority plic h.kTopAthosPlicIrqIdUart0TxEmpty h.kDifPlicMaxPriority)
    "priority set for TX empty failed!"
  checked_call isr env
    (.dif_plic_irq_set_priority plic h.kTopAthosPlicIrqIdUart0RxWatermark h.kDifPlicMaxPriority)
    "priority set for RX FIFO goes over its watermark failed!"
  checked_call isr env
    (.dif_plic_irq_set_priority plic h.kTopAthosPlicIrqIdUart0TxWatermark h.kDifPlicMaxPriority)
    "priority set for TX FIFO dips below its watermark failed!"
  checked_call isr env
    (.dif_plic_target_set_threshold .plic0 (kPlicTarget h) h.kDifPlicMinPriority)
    "threshold set failed!"
  checked_call isr env
    (.dif_plic_irq_set_enabled plic h.kTopAthosPlicIrqIdUart0RxParityErr (kPlicTarget h)
      .kToggleEnabled)
    "interrupt Enable for RX parity error failed!"
  checked_call isr env
    (.dif_plic_irq_set_enabled plic h.kTopAthosPlicIrqIdUart0RxTimeout (kPlicTarget h)
      .kToggleEnabled)
    "interrupt Enable for RX FIFO timeout expires before it is emptied error failed!"
  checked_call isr env
    (.dif_plic_irq_set_enabled plic h.kTopAthosPlicIrqIdUart0RxBreakErr (kPlicTarget h)
      .kToggleEnabled)
    "interrupt Enable for  RX break condition failed!"
  checked_call isr env
    (.dif_plic_irq_set_enabled plic h.kTopAthosPlicIrqIdUart0RxFrameErr (kPlicTarget h)
      .kToggleEnabled)
    "interrupt Enable for RX framing error failed!"
  checked_call isr env
    (.dif_plic_irq_set_enabled plic h.kTopAthosPlicIrqIdUart0RxOverflow (kPlicTarget h)
      .kToggleEnabled)
    "interrupt Enable for RX overflow failed!"
  checked_call isr env
    (.dif_plic_irq_set_enabled plic h.kTopAthosPlicIrqIdUart0TxEmpty (kPlicTarget h)
      .kToggleEnabled)
    "interrupt Enable for TX empty failed!"
  checked_call isr env
    (.dif_plic_irq_set_enabled plic h.kTopAthosPlicIrqIdUart0RxWatermark (kPlicTarget h)
      .kToggleEnabled)
    "interrupt Enable for RX FIFO goes over its watermark failed!"
  checked_call isr env
    (.dif_plic_irq_set_enabled plic h.kTopAthosPlicIrqIdUart0TxWatermark (kPlicTarget h)
      .kToggleEnabled)
    "interrupt Enable for  TX FIFO dips below its watermark failed!"

/-- The function `execute_test` of the UART test. -/
def execute_test (h : Hdr) (env : Env) (uart : Ptr) : M UartFlag Unit := do
  let isr := handler_irq_external h env
  force_round isr env uart_rx_parity_err_handled (.dif_uart_irq_force uart kDifUartIrqRxParityErr)
    "failed to force RX parity error IRQ!"
    "RX parity error IRQ has not been handled!"
  force_round isr env uart_rx_timeout_handled (.dif_uart_irq_force uart kDifUartIrqRxTimeout)
    "failed to force RX FIFO timeout expires before it is emptied IRQ!"
    "RX FIFO timeout expires before it is emptied IRQ has not been handled!"
  force_round isr env uart_rx_break_err_handled (.dif_uart_irq_force uart kDifUartIrqRxBreakErr)
    "failed to force RX break condition IRQ!"
    "RX break condition IRQ has not been handled!"
  force_round isr env uart_rx_frame_err_handled (.dif_uart_irq_force uart kDifUartIrqRxFrameErr)
    "failed to force RX framing error IRQ!"
    "RX framing erro IRQ has not been handled!"
  force_round isr env uart_rx_overflow_handled (.dif_uart_irq_force uart kDifUartIrqRxOverflow)
    "failed to force RX overflow IRQ!"
    "RX overflow IRQ has not been handled!"
  force_round isr env uart_tx_empty_handled (.dif_uart_irq_force uart kDifUartIrqTxEmpty)
    "failed to force TX empty IRQ!"
    "TX empty IRQ has not been handled!"
  force_round isr env uart_rx_watermark_handled (.dif_uart_irq_force uart kDifUartIrqRxWatermark)
    "failed to force RX FIFO goes over its watermark IRQ!"
    "RX FIFO goes over its watermark IRQ has not been handled!"
  force_round isr env uart_tx_watermark_handled (.dif_uart_irq_force uart kDifUartIrqTxWatermark)
    "failed to force TX FIFO dips below its watermark IRQ!"
    "TX FIFO dips below its watermark IRQ has not been handled!"

/-- The function `test_main` of the UART test. -/
def test_main (h : Hdr) (env : Env) : M UartFlag Bool := do
  let isr := handler_irq_external h env
  gap isr env
  emit .main (.irq_global_ctrl true)
  gap isr env
  emit .main (.irq_external_ctrl true)
  uart_initialise h env .uart0
  plic_initialise h env .plic0
  uart_configure_irqs h env .uart0
  plic_configure_irqs h env .plic0
  execute_test h env .uart0
  pure true

/-- The rows of the `switch` of `handle_uart_isr`, in source order. -/
def uart_rows (h : Hdr) (interrupt_id : Nat) : Option (Row UartFlag) :=
  if interrupt_id = h.kTopAthosPlicIrqIdUart0RxParityErr then
    some ⟨uart_rx_parity_err_handled, .dif_uart_irq_acknowledge .uart0 kDifUartIrqRxParityErr,
      "UART rx_parity_err IRQ asserted more than once"⟩
  else if interrupt_id = h.kTopAthosPlicIrqIdUart0RxTimeout then
    some ⟨uart_rx_timeout_handled, .dif_uart_irq_acknowledge .uart0 kDifUartIrqRxTimeout,
      "UART rx_timeout IRQ asserted more than once"⟩
  else if interrupt_id = h.kTopAthosPlicIrqIdUart0RxBreakErr then
    some ⟨uart_rx_break_err_handled, .dif_uart_irq_acknowledge .uart0 kDifUartIrqRxBreakErr,
      "UART rx_break_err IRQ asserted more than once"⟩
  else if interrupt_id = h.kTopAthosPlicIrqIdUart0RxFrameErr then
    some ⟨uart_rx_frame_err_handled, .dif_uart_irq_acknowledge .uart0 kDifUartIrqRxFrameErr,
      "UART RX framing error IRQ asserted more than once"⟩
  else if interrupt_id = h.kTopAthosPlicIrqIdUart0RxOverflow then
    some ⟨uart_rx_overflow_handled, .dif_uart_irq_acknowledge .uart0 kDifUartIrqRxOverflow,
      "UART RX overflow IRQ asserted more than once"⟩
  else if interrupt_id = h.kTopAthosPlicIrqIdUart0TxEmpty then
    some ⟨uart_tx_empty_handled, .dif_uart_irq_acknowledge .uart0 kDifUartIrqTxEmpty,
      "UART TX empty IRQ asserted more than once"⟩
  else if interrupt_id = h.kTopAthosPlicIrqIdUart0RxWatermark then
    some ⟨uart_rx_watermark_handled, .dif_uart_irq_acknowledge .uart0 kDifUartIrqRxWatermark,
      "UART rx_watermark IRQ asserted more than once"⟩
  else if interrupt_id = h.kTopAthosPlicIrqIdUart0TxWatermark then
    some ⟨uart_tx_watermark_handled, .dif_uart_irq_acknowledge .uart0 kDifUartIrqTxWatermark,
      "UART tx_watermark IRQ asserted more than once"⟩
  else none

/-- The PLIC interrupt id named like a UART cause. -/
def irq_id (h : Hdr) : dif_uart_irq_t → Nat
  | kDifUartIrqTxWatermark => h.kTopAthosPlicIrqIdUart0TxWatermark
  | kDifUartIrqRxWatermark => h.kTopAthosPlicIrqIdUart0RxWatermark
  | kDifUartIrqTxEmpty => h.kTopAthosPlicIrqIdUart0TxEmpty
  | kDifUartIrqRxOverflow => h.kTopAthosPlicIrqIdUart0RxOverflow
  | kDifUartIrqRxFrameErr => h.kTopAthosPlicIrqIdUart0RxFrameErr
  | kDifUartIrqRxBreakErr => h.kTopAthosPlicIrqIdUart0RxBreakErr
  | kDifUartIrqRxTimeout => h.kTopAthosPlicIrqIdUart0RxTimeout
  | kDifUartIrqRxParityErr => h.kTopAthosPlicIrqIdUart0RxParityErr

/-- The observation flag named like a UART cause. -/
def flag_of : dif_uart_irq_t → UartFlag
  | kDifUartIrqTxWatermark => uart_tx_watermark_handled
  | kDifUartIrqRxWatermark => uart_rx_watermark_handled
  | kDifUartIrqTxEmpty => uart_tx_empty_handled
  | kDifUartIrqRxOverflow => uart_rx_overflow_handled
  | kDifUartIrqRxFrameErr => uart_rx_frame_err_handled
  | kDifUartIrqRxBreakErr => uart_rx_break_err_handled
  | kDifUartIrqRxTimeout => uart_rx_timeout_handled
  | kDifUartIrqRxParityErr => uart_rx_parity_err_handled

/-- The "asserted more than once" diagnostic of a UART cause. -/
def more_than_once_msg : dif_uart_irq_t → String
  | kDifUartIrqTxWatermark => "UART tx_watermark IRQ asserted more than once"
  | kDifUartIrqRxWatermark => "UART rx_watermark IRQ asserted more than once"
  | kDifUartIrqTxEmpty => "UART TX empty IRQ asserted more than once"
  | kDifUartIrqRxOverflow => "UART RX overflow IRQ asserted more than once"
  | kDifUartIrqRxFrameErr => "UART RX framing error IRQ asserted more than once"
  | kDifUartIrqRxBreakErr => "UART rx_break_err IRQ asserted more than once"
  | kDifUartIrqRxTimeout => "UART rx_timeout IRQ asserted more than once"
  | kDifUartIrqRxParityErr => "UART rx_parity_err IRQ asserted more than once"

/-- The "has not been handled" diagnostic of a UART cause. -/
def not_handled_msg : dif_uart_irq_t → String
  | kDifUartIrqTxWatermark => "TX FIFO dips below its watermark IRQ has not been handled!"
  | kDifUartIrqRxWatermark => "RX FIFO goes over its watermark IRQ has not been handled!"
  | kDifUartIrqTxEmpty => "TX empty IRQ has not been handled!"
  | kDifUartIrqRxOverflow => "RX overflow IRQ has not been handled!"
  | kDifUartIrqRxFrameErr => "RX framing erro IRQ has not been handled!"
  | kDifUartIrqRxBreakErr => "RX break condition IRQ has not been handled!"
  | kDifUartIrqRxTimeout =>
    "RX FIFO timeout expires before it is emptied IRQ has not been handled!"
  | kDifUartIrqRxParityErr => "RX parity error IRQ has not been handled!"

/-- The eight UART causes in the order in which the test is meant to force them. -/
def causes : List dif_uart_irq_t :=
  [kDifUartIrqRxParityErr, kDifUartIrqRxTimeout, kDifUartIrqRxBreakErr, kDifUartIrqRxFrameErr,
   kDifUartIrqRxOverflow, kDifUartIrqTxEmpty, kDifUartIrqRxWatermark, kDifUartIrqTxWatermark]

/-- The eight PLIC ids of UART0 are pairwise different (they are enumerators used as the
labels of one `switch`). -/
def ids_distinct (h : Hdr) : Prop := (causes.map (irq_id h)).Nodup

instance (h : Hdr) : Decidable (ids_distinct h) := by
  unfold ids_distinct; infer_instance

end Uart

/-! ## `dif_plic_smoketest_gpio.c` -/

/-- The two `static volatile bool` flags of the GPIO test. -/
inductive GpioFlag
  | gpio_gpio0
  | gpio_gpio1
  deriving DecidableEq, Repr

namespace Gpio

open GpioFlag dif_gpio_irq_trigger_t

/-- The function `handle_gpio_isr`. -/
def handle_gpio_isr (h : Hdr) (env : Env) (interrupt_id : Nat) : M GpioFlag Unit := do
  let gpio_irq ←
    if interrupt_id = h.kTopAthosPlicIrqIdGpioGpio1 then do
      CHECK (!(← load .isr gpio_gpio1))
        "gpio gpio1 input for falling edge detection IRQ asserted more than once"
      store .isr gpio_gpio1 true
      pure kDifGpioIrqTriggerEdgeFalling
    else if interrupt_id = h.kTopAthosPlicIrqIdGpioGpio0 then do
      CHECK (!(← load .isr gpio_gpio0))
        "gpio gpio0 input for rising edge detection IRQ asserted more than once"
      store .isr gpio_gpio0 true
      pure kDifGpioIrqTriggerEdgeRising
    else
      LOG_FATAL_failed "ISR is not implemented!"
  CHECK ((← drv env .isr (.dif_gpio_irq_acknowledge .gpio gpio_irq)) == .kOk)
    "ISR failed to clear IRQ!"

/-- The function `handler_irq_external` of the GPIO test. -/
def handler_irq_external (h : Hdr) (env : Env) : M GpioFlag Unit := do
  let claim ← dif_plic_irq_claim env .isr .plic0 (kPlicTarget h)
  CHECK (claim.1 == .kOk) "ISR is not implemented!"
  let interrupt_id := claim.2
  let peripheral_id ← table_lookup h interrupt_id
  CHECK (peripheral_id == h.kTopAthosPlicPeripheralGpio)
    "ISR interrupted peripheral is not gpio!"
  handle_gpio_isr h env interrupt_id
  CHECK ((← drv env .isr (.dif_plic_irq_complete .plic0 (kPlicTarget h) interrupt_id)) == .kOk)
    "Unable to complete the IRQ request!"

/-- The function `gpio_initialise`. -/
def gpio_initialise (h : Hdr) (env : Env) (dev : Ptr) : M GpioFlag Unit :=
  checked_call (handler_irq_external h env) env (.dif_gpio_init dev) "gpio init failed!"

/-- The function `plic_initialise` of the GPIO test. -/
def plic_initialise (h : Hdr) (env : Env) (plic : Ptr) : M GpioFlag Unit :=
  checked_call (handler_irq_external h env) env (.dif_plic_init plic) "PLIC init failed!"

/-- The function `gpio_configure_irqs`. -/
def gpio_configure_irqs (h : Hdr) (env : Env) (dev : Ptr) : M GpioFlag Unit := do
  let isr := handler_irq_external h env
  checked_call isr env
    (.dif_gpio_irq_set_enabled dev kDifGpioIrqTriggerEdgeFalling .kToggleEnabled)
    "Falling edge IRQ enable failed!"
  checked_call isr env
    (.dif_gpio_irq_set_enabled dev kDifGpioIrqTriggerEdgeRising .kToggleEnabled)
    "Rising edge IRQ enable failed!"

/-- The function `plic_configure_irqs` of the GPIO test: the threshold is set on `&plic0`,
every other call on the argument. -/
def plic_configure_irqs (h : Hdr) (env : Env) (plic : Ptr) : M GpioFlag Unit := do
  let isr := handler_irq_external h env
  checked_call isr env
    (.dif_plic_irq_set_trigger plic h.kTopAthosPlicIrqIdGpioGpio1 .kDifPlicIrqTriggerLevel)
    "Falling edge trigger type set failed!"
  checked_call isr env
    (.dif_plic_irq_set_trigger plic h.kTopAthosPlicIrqIdGpioGpio0 .kDifPlicIrqTriggerLevel)
    "Rising edge trigger type set failed!"
  checked_call isr env
    (.dif_plic_irq_set_priority plic h.kTopAthosPlicIrqIdGpioGpio1 h.kDifPlicMaxPriority)
    "priority set for Falling edge trigger failed!"
  checked_call isr env
    (.dif_plic_irq_set_priority plic h.kTopAthosPlicIrqIdGpioGpio0 h.kDifPlicMaxPriority)
    "priority set for Rising edge trigger failed!"
  checked_call isr env
    (.dif_plic_target_set_threshold .plic0 (kPlicTarget h) h.kDifPlicMinPriority)
    "threshold set failed!"
  checked_call isr env
    (.dif_plic_irq_set_enabled plic h.kTopAthosPlicIrqIdGpioGpio1 (kPlicTarget h)
      .kToggleEnabled)
    "interrupt Enable for Falling edge trigger failed!"
  checked_call isr env
    (.dif_plic_irq_set_enabled plic h.kTopAthosPlicIrqIdGpioGpio0 (kPlicTarget h)
      .kToggleEnabled)
    "interrupt Enable for Rising edge trigger failed!"

/-- The function `execute_test` of the GPIO test. -/
def execute_test (h : Hdr) (env : Env) (dev : Ptr) : M GpioFlag Unit := do
  let isr := handler_irq_external h env
  force_round isr env gpio_gpio1 (.dif_gpio_irq_force dev kDifGpioIrqTriggerEdgeFalling)
    "failed to force Falling edge IRQ!"
    "Falling edge IRQ has not been handled!"
  force_round isr env gpio_gpio0 (.dif_gpio_irq_force dev kDifGpioIrqTriggerEdgeRising)
    "failed to force Rising edge IRQ!"
    "Rising edge IRQ has not been handled!"

/-- The function `test_main` of the GPIO test. -/
def test_main (h : Hdr) (env : Env) : M GpioFlag Bool := do
  let isr := handler_irq_external h env
  gap isr env
  emit .main (.irq_global_ctrl true)
  gap isr env
  emit .main (.irq_external_ctrl true)
  gpio_initialise h env .gpio
  plic_initialise h env .plic0
  gpio_configure_irqs h env .gpio
  plic_configure_irqs h env .plic0
  execute_test h env .gpio
  pure true

/-- The rows of the `switch` of `handle_gpio_isr`, in source order. -/
def gpio_rows (h : Hdr) (interrupt_id : Nat) : Option (Row GpioFlag) :=
  if interrupt_id = h.kTopAthosPlicIrqIdGpioGpio1 then
    some ⟨gpio_gpio1, .dif_gpio_irq_acknowledge .gpio kDifGpioIrqTriggerEdgeFalling,
      "gpio gpio1 input for falling edge detection IRQ asserted more than once"⟩
  else if interrupt_id = h.kTopAthosPlicIrqIdGpioGpio0 then
    some ⟨gpio_gpio0, .dif_gpio_irq_acknowledge .gpio kDifGpioIrqTriggerEdgeRising,
      "gpio gpio0 input for rising edge detection IRQ asserted more than once"⟩
  else none

/-- The PLIC interrupt id of a GPIO cause: pin 1 detects the falling edge, pin 0 the rising
edge. -/
def irq_id (h : Hdr) : dif_gpio_irq_trigger_t → Nat
  | kDifGpioIrqTriggerEdgeRising => h.kTopAthosPlicIrqIdGpioGpio0
  | kDifGpioIrqTriggerEdgeFalling => h.kTopAthosPlicIrqIdGpioGpio1

/-- The observation flag of a GPIO cause. -/
def flag_of : dif_gpio_irq_trigger_t → GpioFlag
  | kDifGpioIrqTriggerEdgeRising => gpio_gpio0
  | kDifGpioIrqTriggerEdgeFalling => gpio_gpio1

/-- The "asserted more than once" diagnostic of a GPIO cause. -/
def more_than_once_msg : dif_gpio_irq_trigger_t → String
  | kDifGpioIrqTriggerEdgeRising =>
    "gpio gpio0 input for rising edge detection IRQ asserted more than once"
  | kDifGpioIrqTriggerEdgeFalling =>
    "gpio gpio1 input for falling edge detection IRQ asserted more than once"

/-- The "has not been handled" diagnostic of a GPIO cause. -/
def not_handled_msg : dif_gpio_irq_trigger_t → String
  | kDifGpioIrqTriggerEdgeRising => "Rising edge IRQ has not been handled!"
  | kDifGpioIrqTriggerEdgeFalling => "Falling edge IRQ has not been handled!"

/-- The two GPIO causes in the order in which the test is meant to force them. -/
def causes : List dif_gpio_irq_trigger_t :=
  [kDifGpioIrqTriggerEdgeFalling, kDifGpioIrqTriggerEdgeRising]

end Gpio

/-- An environment in which every driver call succeeds, every claim yields the id `id`, and the
interrupt never fires on its own. -/
def quiet_env (id : Nat) : Env := ⟨fun _ => .kOk, fun _ => id, fun _ => 0⟩

/-- The five events of one complete dispatch: the row `x.1` is served for the claimed id
`x.2`. -/
def block {F : Type} (h : Hdr) (x : Row F × Nat) : List (Event F) :=
  [⟨.isr, .call (.dif_plic_irq_claim .plic0 h.kTopAthosPlicTargetIbex0 x.2) .kOk⟩,
   ⟨.isr, .load x.1.flag false⟩,
   ⟨.isr, .store x.1.flag true⟩,
   ⟨.isr, .call x.1.ack .kOk⟩,
   ⟨.isr, .call (.dif_plic_irq_complete .plic0 h.kTopAthosPlicTargetIbex0 x.2) .kOk⟩]

/-- The events of a sequence of complete dispatches. -/
def blocks {F : Type} (h : Hdr) : List (Row F × Nat) → List (Event F)
  | [] => []
  | x :: xs => block h x ++ blocks h xs

/-- The flags set by a sequence of complete dispatches. -/
def served {F : Type} (xs : List (Row F × Nat)) : List F := xs.map fun x => x.1.flag

/-- All events of a piece of trace were performed by the interrupt handler. -/
def isr_only {F : Type} (t : List (Event F)) : Prop := ∀ e ∈ t, e.ctx = .isr

/-- What the interrupt did during one passing round of `execute_test`: the value `polled` the
main flow read right after the force, and the dispatches served in the five gaps of the round
(before the reset, after the reset, after the force, after the poll, after the wait). -/
structure RoundLog (F : Type) where
  polled : Bool
  before_reset : List (Row F × Nat)
  after_reset : List (Row F × Nat)
  after_force : List (Row F × Nat)
  after_poll : List (Row F × Nat)
  after_wait : List (Row F × Nat)

/-- The events between the reset of the flag and the assertion on it in a passing round. -/
def window {F : Type} (h : Hdr) (f : F) (k : Call) (l : RoundLog F) : List (Event F) :=
  blocks h l.after_reset ++ [⟨.main, .call k .kOk⟩] ++ blocks h l.after_force ++
    [⟨.main, .load f l.polled⟩] ++ blocks h l.after_poll ++
    (if l.polled then [] else [⟨.main, .usleep 10⟩]) ++ blocks h l.after_wait

/-- The events of a passing round. -/
def round_trace {F : Type} (h : Hdr) (f : F) (k : Call) (l : RoundLog F) : List (Event F) :=
  blocks h l.before_reset ++ [⟨.main, .store f false⟩] ++ window h f k l ++
    [⟨.main, .load f true⟩]

/-- The dispatches served inside the window of a passing round. -/
def RoundLog.in_window {F : Type} (l : RoundLog F) : List (Row F × Nat) :=
  l.after_reset ++ l.after_force ++ l.after_poll ++ l.after_wait

/-- The operations of the main flow in a passing round: reset, force, poll, the wait if the
poll read false, assertion. -/
def round_ops {F : Type} (f : F) (k : Call) (polled : Bool) : List (Op F) :=
  [.store f false, .call k .kOk, .load f polled] ++
    (if polled then [] else [.usleep 10]) ++ [.load f true]

/-- The events of the passing rounds `rs` with the logs `ls`. -/
def rounds_trace {F : Type} (h : Hdr) :
    List (F × Call × String × String) → List (RoundLog F) → List (Event F)
  | r :: rs, l :: ls => round_trace h r.1 r.2.1 l ++ rounds_trace h rs ls
  | _, _ => []

/-- The operations of the main flow in the passing rounds `rs`, given what every poll read. -/
def rounds_ops {F : Type} : List (F × Call) → List Bool → List (Op F)
  | r :: rs, p :: ps => round_ops r.1 r.2 p ++ rounds_ops rs ps
  | _, _ => []

/-- The main flow reads or writes the flag `f` in the event `e`. -/
def touches {F : Type} [DecidableEq F] (f : F) (e : Event F) : Bool :=
  e.ctx == .main && match e.op with
    | .load g _ => g == f
    | .store g _ => g == f
    | _ => false

/-- The number of times the peripheral handler served the cause of the flag `f` in `t`: the
first step of a `case` of the `switch` is the read of its flag. -/
def runs_of {F : Type} [DecidableEq F] (f : F) (t : List (Event F)) : Nat :=
  t.countP fun e => e.ctx == .isr && match e.op with
    | .load g _ => g == f
    | _ => false

/-- The number of times the handler set the flag `f` in `t`. -/
def sets_of {F : Type} [DecidableEq F] (f : F) (t : List (Event F)) : Nat :=
  t.countP fun e => e.ctx == .isr && match e.op with
    | .store g v => g == f && v
    | _ => false

/-- The number of calls `k` in `t`, whatever they returned. -/
def calls_of {F : Type} (k : Call) (t : List (Event F)) : Nat :=
  t.countP fun e => match e.op with
    | .call k' _ => k' == k
    | _ => false

namespace Uart

/-- The "failed to force" diagnostic of a UART cause. -/
def force_msg : dif_uart_irq_t → String
  | .kDifUartIrqTxWatermark => "failed to force TX FIFO dips below its watermark IRQ!"
  | .kDifUartIrqRxWatermark => "failed to force RX FIFO goes over its watermark IRQ!"
  | .kDifUartIrqTxEmpty => "failed to force TX empty IRQ!"
  | .kDifUartIrqRxOverflow => "failed to force RX overflow IRQ!"
  | .kDifUartIrqRxFrameErr => "failed to force RX framing error IRQ!"
  | .kDifUartIrqRxBreakErr => "failed to force RX break condition IRQ!"
  | .kDifUartIrqRxTimeout => "failed to force RX FIFO timeout expires before it is emptied IRQ!"
  | .kDifUartIrqRxParityErr => "failed to force RX parity error IRQ!"

/-- The round of `execute_test` for a UART cause: its flag, its force call, its two
diagnostics. -/
def round (uart : Ptr) (c : dif_uart_irq_t) : UartFlag × Call × String × String :=
  (flag_of c, .dif_uart_irq_force uart c, force_msg c, not_handled_msg c)

end Uart

namespace Gpio

/-- The "failed to force" diagnostic of a GPIO cause. -/
def force_msg : dif_gpio_irq_trigger_t → String
  | .kDifGpioIrqTriggerEdgeRising => "failed to force Rising edge IRQ!"
  | .kDifGpioIrqTriggerEdgeFalling => "failed to force Falling edge IRQ!"

/-- The round of `execute_test` for a GPIO cause. -/
def round (dev : Ptr) (c : dif_gpio_irq_trigger_t) : GpioFlag × Call × String × String :=
  (flag_of c, .dif_gpio_irq_force dev c, force_msg c, not_handled_msg c)

end Gpio

/-- An environment in which every round of `execute_test` passes when the test starts from an
empty history: every driver call succeeds, and the interrupt fires once after every force (a
round then takes nine events, the force is its second) with the id of the forced cause, the ids
descending from `first`. -/
def passing_env (first : Nat) : Env :=
  ⟨fun _ => .kOk, fun n => first - n / 9, fun n => if n % 9 = 2 then 1 else 0⟩

/-- What a log of a passing round must satisfy: the flag of the round was served exactly once
inside the window, and every dispatch took a row of the `switch`. -/
def round_ok {F : Type} [DecidableEq F] (rows : Nat → Option (Row F))
    (r : F × Call × String × String) (l : RoundLog F) : Prop :=
  (served l.in_window).count r.1 = 1 ∧
    ∀ x ∈ l.before_reset ++ l.in_window, rows x.2 = some x.1

namespace Uart

/-- The causes forced by the operations `ops`, in order. -/
def forced (ops : List (Op UartFlag)) : List dif_uart_irq_t :=
  ops.filterMap fun op => match op with
    | .call (.dif_uart_irq_force _ c) _ => some c
    | _ => none

end Uart

namespace Gpio

/-- The causes forced by the operations `ops`, in order. -/
def forced (ops : List (Op GpioFlag)) : List dif_gpio_irq_trigger_t :=
  ops.filterMap fun op => match op with
    | .call (.dif_gpio_irq_force _ c) _ => some c
    | _ => none

end Gpio

/-- The last event of a piece of history was performed by the interrupt handler. -/
def ends_in_isr {F : Type} (t : List (Event F)) : Prop :=
  ∃ e, t.getLast? = some e ∧ e.ctx = .isr

/-- The run with the result `r`, which appended the events `t`, was stopped inside the
interrupt handler `isr`: it did not return, its result is the result of a run of the handler,
and its last event is an event of the handler. -/
def stopped_in_isr {F : Type} (isr : M F Unit) (r : Res F Unit) (t : List (Event F)) : Prop :=
  r.returned = false ∧ ends_in_isr t ∧ ∃ s0, r = isr s0

/-- A round that did not pass, with the events `t` it appended and its result `r`: the
interrupt handler stopped the test before the round was through; or the force did not return
OK, and the test was stopped by the `CHECK` of the force or by a handler that ran before the
abort; or the flag was still false after the wait, and the test was stopped by the `CHECK` of
the flag or by a handler that ran before the abort. -/
def Stopped {F : Type} (isr : M F Unit) (f : F) (k : Call) (m1 m2 : String)
    (t : List (Event F)) (r : Res F Unit) : Prop :=
  ((∃ p, main_ops t <+: round_ops f k p ∧ main_ops t ≠ round_ops f k p) ∧
    stopped_in_isr isr r t) ∨
  (∃ st, st ≠ .kOk ∧ main_ops t = [.store f false, .call k st] ∧
    (r.failure = some (.check m1) ∨ stopped_in_isr isr r t)) ∨
  (main_ops t = [.store f false, .call k .kOk, .load f false, .usleep 10, .load f false] ∧
    (r.failure = some (.check m2) ∨ stopped_in_isr isr r t))

/-- The driver calls among the operations `ops`, in order, without their statuses. -/
def called {F : Type} (ops : List (Op F)) : List Call :=
  ops.filterMap fun op => match op with
    | .call k _ => some k
    | _ => none

/-- Every driver call in `t` returned OK. -/
def all_ok {F : Type} (t : List (Event F)) : Prop :=
  ∀ e ∈ t, ∀ k st, e.op = .call k st → st = .kOk

/-- The result `r` of a run started in `s` keeps the history, every driver call it made except
possibly the last event returned OK, and if some call did not return OK the run was stopped by a
`CHECK`. -/
def Good {F α : Type} (r : Res F α) (s : St F) : Prop :=
  ∃ t, r.st.trace = s.trace ++ t ∧ all_ok t.dropLast ∧
    (¬ all_ok t → ∃ msg, r.failure = some (.check msg))

/-- A program all of whose runs are `Good`: it checks the status of every driver call right
after the call, and nothing can happen between the call and the check. The handlers are such
programs. -/
def Checked {F α : Type} (m : M F α) : Prop := ∀ s, Good (m s) s

/-- An environment in which the driver call made at history length `bad` fails and no
interrupt fires. -/
def failing_env (bad : Nat) : Env :=
  ⟨fun n => if n = bad then .kError else .kOk, fun _ => 0, fun _ => 0⟩

/-- An environment in which the interrupt fires once, when the history has length `n`, and the
claim of that dispatch fails; every other call returns OK. -/
def late_env (n : Nat) : Env :=
  ⟨fun k => if k = n then .kError else .kOk, fun _ => 0, fun k => if k = n then 1 else 0⟩

/-- When the one dispatch that a force leads to arrives: before the flag is polled, between a
poll that read false and the wait, or during the wait (before the flag is read again). -/
inductive Arrival
  | before_poll
  | before_wait
  | during_wait
  deriving DecidableEq, Repr

/-- The number of events of a passing round with one dispatch: five operations of the main flow
when the poll read true, six when it read false, and the five events of the dispatch. -/
def Arrival.round_length : Arrival → Nat
  | .before_poll => 9
  | .before_wait => 10
  | .during_wait => 10

/-- The model in which forcing a cause leads to exactly one dispatch of its id, for the round of
`execute_test` that starts when the history has length `n`: the interrupt fires once between the
force and the last read of the flag, at the point `a`, and in no other gap of the round; the
claim then yields `id`; the force, the claim, the acknowledge and the complete return OK. -/
def dispatches_once (env : Env) (n id : Nat) : Arrival → Prop
  | .before_poll =>
    env.fires n = 0 ∧ env.fires (n + 1) = 0 ∧ env.status (n + 1) = .kOk ∧
    env.fires (n + 2) = 1 ∧ env.status (n + 2) = .kOk ∧ env.claimed (n + 2) = id ∧
    env.status (n + 5) = .kOk ∧ env.status (n + 6) = .kOk ∧ env.fires (n + 8) = 0
  | .before_wait =>
    env.fires n = 0 ∧ env.fires (n + 1) = 0 ∧ env.status (n + 1) = .kOk ∧
    env.fires (n + 2) = 0 ∧
    env.fires (n + 3) = 1 ∧ env.status (n + 3) = .kOk ∧ env.claimed (n + 3) = id ∧
    env.status (n + 6) = .kOk ∧ env.status (n + 7) = .kOk ∧ env.fires (n + 9) = 0
  | .during_wait =>
    env.fires n = 0 ∧ env.fires (n + 1) = 0 ∧ env.status (n + 1) = .kOk ∧
    env.fires (n + 2) = 0 ∧ env.fires (n + 3) = 0 ∧
    env.fires (n + 4) = 1 ∧ env.status (n + 4) = .kOk ∧ env.claimed (n + 4) = id ∧
    env.status (n + 7) = .kOk ∧ env.status (n + 8) = .kOk

instance (env : Env) (n id : Nat) (a : Arrival) : Decidable (dispatches_once env n id a) := by
  cases a <;> unfold dispatches_once <;> infer_instance

/-- The events of a passing round in which the one dispatch arrives at the point `a`. -/
def once_trace {F : Type} (h : Hdr) (f : F) (k : Call) (r : Row F) (id : Nat) :
    Arrival → List (Event F)
  | .before_poll =>
    [⟨.main, .store f false⟩, ⟨.main, .call k .kOk⟩] ++ block h (r, id) ++
      [⟨.main, .load f true⟩, ⟨.main, .load f true⟩]
  | .before_wait =>
    [⟨.main, .store f false⟩, ⟨.main, .call k .kOk⟩, ⟨.main, .load f false⟩] ++
      block h (r, id) ++ [⟨.main, .usleep 10⟩, ⟨.main, .load f true⟩]
  | .during_wait =>
    [⟨.main, .store f false⟩, ⟨.main, .call k .kOk⟩, ⟨.main, .load f false⟩,
      ⟨.main, .usleep 10⟩] ++ block h (r, id) ++ [⟨.main, .load f true⟩]

/-- An environment in which both rounds of the GPIO `execute_test` pass when the test starts
from an empty history, the dispatch arriving during the wait in the first round (events 4 to 8)
and between the poll and the wait in the second (events 13 to 17); the claimed ids are those of
the falling and of the rising edge of `example_hdr`. -/
def waiting_env : Env :=
  ⟨fun _ => .kOk, fun n => if n < 10 then 2 else 1, fun n => if n = 4 ∨ n = 13 then 1 else 0⟩

namespace Gpio

/-- The first half of `execute_test` ("Force gpio Falling edge interrupt."). -/
def force_falling (h : Hdr) (env : Env) (dev : Ptr) : M GpioFlag Unit :=
  force_round (handler_irq_external h env) env .gpio_gpio1
    (.dif_gpio_irq_force dev .kDifGpioIrqTriggerEdgeFalling)
    "failed to force Falling edge IRQ!"
    "Falling edge IRQ has not been handled!"

/-- The second half of `execute_test` ("Force gpio Rising edge trigger interrupt."). -/
def force_rising (h : Hdr) (env : Env) (dev : Ptr) : M GpioFlag Unit :=
  force_round (handler_irq_external h env) env .gpio_gpio0
    (.dif_gpio_irq_force dev .kDifGpioIrqTriggerEdgeRising)
    "failed to force Rising edge IRQ!"
    "Rising edge IRQ has not been handled!"

end Gpio

/-- The diagnostic text of a failure. -/
def Failure.msg : Failure → String
  | .check m => m
  | .fatal m => m

/-- The failure was raised by the macro `CHECK`; the only other way to fail is the
`LOG_FATAL(..); test_status_set(kTestStatusFailed);` path. -/
def Failure.by_CHECK : Failure → Bool
  | .check _ => true
  | .fatal _ => false

/-- Modelled from the spec: the settings the drivers keep for a peripheral and for the
controller, per driver handle ("ControllerRoutingState: per-target priority threshold, per-cause
enable bit, per-cause priority, per-cause trigger kind. Mutated only by configuration calls";
a peripheral source "owns only its own pending/enable bits"). A setting that no call has written
is `none`. -/
structure Config where
  uart_irq_enabled : Ptr → dif_uart_irq_t → Option Toggle
  gpio_irq_enabled : Ptr → dif_gpio_irq_trigger_t → Option Toggle
  plic_trigger : Ptr → Nat → Option dif_plic_irq_trigger_t
  plic_priority : Ptr → Nat → Option Nat
  plic_threshold : Ptr → Nat → Option Nat
  plic_enabled : Ptr → Nat → Nat → Option Toggle

/-- Modelled from the spec: the effect of one driver call on the settings. A configuration call
that returned OK writes its setting for its handle and its cause (and target); a call that did
not return OK, and every call that is not a configuration call, writes nothing. -/
def Config.apply (c : Config) : Call → Status → Config
  | .dif_uart_irq_set_enabled uart irq state, .kOk =>
    { c with uart_irq_enabled := fun u i =>
        if u = uart ∧ i = irq then some state else c.uart_irq_enabled u i }
  | .dif_gpio_irq_set_enabled dev irq state, .kOk =>
    { c with gpio_irq_enabled := fun d i =>
        if d = dev ∧ i = irq then some state else c.gpio_irq_enabled d i }
  | .dif_plic_irq_set_trigger plic irq trigger, .kOk =>
    { c with plic_trigger := fun p i =>
        if p = plic ∧ i = irq then some trigger else c.plic_trigger p i }
  | .dif_plic_irq_set_priority plic irq priority, .kOk =>
    { c with plic_priority := fun p i =>
        if p = plic ∧ i = irq then some priority else c.plic_priority p i }
  | .dif_plic_target_set_threshold plic target threshold, .kOk =>
    { c with plic_threshold := fun p t =>
        if p = plic ∧ t = target then some threshold else c.plic_threshold p t }
  | .dif_plic_irq_set_enabled plic irq target state, .kOk =>
    { c with plic_enabled := fun p i t =>
        if p = plic ∧ i = irq ∧ t = target then some state else c.plic_enabled p i t }
  | _, _ => c

/-- The settings at reset: nothing has been written. -/
def Config.reset : Config :=
  ⟨fun _ _ => none, fun _ _ => none, fun _ _ => none, fun _ _ => none, fun _ _ => none,
    fun _ _ _ => none⟩

/-- The settings after the history `t`, starting from the settings `c`. -/
def Config.after {F : Type} (c : Config) (t : List (Event F)) : Config :=
  t.foldl (fun c e => match e.op with
    | .call k r => c.apply k r
    | _ => c) c

/-- A sequence of driver calls of the main flow, each under its `CHECK`. -/
def checked_calls {F : Type} (isr : M F Unit) (env : Env) : List (Call × String) → M F Unit
  | [] => pure ()
  | k :: ks => do
    checked_call isr env k.1 k.2
    checked_calls isr env ks

namespace Uart

/-- The calls of `uart_configure_irqs` with their diagnostics, in source order. -/
def uart_config_calls : List (Call × String) :=
  [(.dif_uart_irq_set_enabled .uart0 .kDifUartIrqRxParityErr .kToggleEnabled,
      "RX parity error IRQ enable failed!"),
   (.dif_uart_irq_set_enabled .uart0 .kDifUartIrqRxTimeout .kToggleEnabled,
      "RX FIFO timeout expires before it is emptied IRQ enable failed!"),
   (.dif_uart_irq_set_enabled .uart0 .kDifUartIrqRxBreakErr .kToggleEnabled,
      "RX break condition IRQ enable failed!"),
   (.dif_uart_irq_set_enabled .uart0 .kDifUartIrqRxFrameErr .kToggleEnabled,
      "RX framing error IRQ enable failed!"),
   (.dif_uart_irq_set_enabled .uart0 .kDifUartIrqRxOverflow .kToggleEnabled,
      "RX overflow IRQ enable failed!"),
   (.dif_uart_irq_set_enabled .uart0 .kDifUartIrqTxEmpty .kToggleEnabled,
      "TX empty IRQ enable failed!"),
   (.dif_uart_irq_set_enabled .uart0 .kDifUartIrqRxWatermark .kToggleEnabled,
      "RX FIFO goes over its watermark IRQ enable failed!"),
   (.dif_uart_irq_set_enabled .uart0 .kDifUartIrqTxWatermark .kToggleEnabled,
      "TX FIFO dips below its watermark IRQ enable failed!")]

/-- The calls of `plic_configure_irqs` of the UART test with their diagnostics, in source
order. -/
def plic_config_calls (h : Hdr) (plic : Ptr) : List (Call × String) :=
  [(.dif_plic_irq_set_trigger plic h.kTopAthosPlicIrqIdUart0RxParityErr .kDifPlicIrqTriggerLevel,
      "RX parity error trigger type set failed!"),
   (.dif_plic_irq_set_trigger plic h.kTopAthosPlicIrqIdUart0RxTimeout .kDifPlicIrqTriggerLevel,
      "RX FIFO timeout expires before it is emptied trigger type set failed!"),
   (.dif_plic_irq_set_trigger plic h.kTopAthosPlicIrqIdUart0RxBreakErr .kDifPlicIrqTriggerLevel,
      "RX break condition trigger type set failed!"),
   (.dif_plic_irq_set_trigger plic h.kTopAthosPlicIrqIdUart0RxFrameErr .kDifPlicIrqTriggerLevel,
      "RX framing error trigger type set failed!"),
   (.dif_plic_irq_set_trigger plic h.kTopAthosPlicIrqIdUart0RxOverflow .kDifPlicIrqTriggerLevel,
      "RX overflow trigger type set failed!"),
   (.dif_plic_irq_set_trigger plic h.kTopAthosPlicIrqIdUart0TxEmpty .kDifPlicIrqTriggerLevel,
      "TX empty trigger type set failed!"),
   (.dif_plic_irq_set_trigger plic h.kTopAthosPlicIrqIdUart0RxWatermark .kDifPlicIrqTriggerLevel,
      "RX FIFO goes over its watermark trigger type set failed!"),
   (.dif_plic_irq_set_trigger plic h.kTopAthosPlicIrqIdUart0TxWatermark .kDifPlicIrqTriggerLevel,
      "TX FIFO dips below its watermark trigger type set failed!"),
   (.dif_plic_irq_set_priority plic h.kTopAthosPlicIrqIdUart0RxParityErr h.kDifPlicMaxPriority,
      "priority set for RX parity error failed!"),
   (.dif_plic_irq_set_priority plic h.kTopAthosPlicIrqIdUart0RxTimeout h.kDifPlicMaxPriority,
      "priority set for RX FIFO timeout expires before it is emptied failed!"),
   (.dif_plic_irq_set_priority plic h.kTopAthosPlicIrqIdUart0RxBreakErr h.kDifPlicMaxPriority,
      "priority set for RX break condition failed!"),
   (.dif_plic_irq_set_priority plic h.kTopAthosPlicIrqIdUart0RxFrameErr h.kDifPlicMaxPriority,
      "priority set for RX framing error failed!"),
   (.dif_plic_irq_set_priority plic h.kTopAthosPlicIrqIdUart0RxOverflow h.kDifPlicMaxPriority,
      "priority set for RX overflow failed!"),
   (.dif_plic_irq_set_priority plic h.kTopAthosPlicIrqIdUart0TxEmpty h.kDifPlicMaxPriority,
      "priority set for TX empty failed!"),
   (.dif_plic_irq_set_priority plic h.kTopAthosPlicIrqIdUart0RxWatermark h.kDifPlicMaxPriority,
      "priority set for RX FIFO goes over its watermark failed!"),
   (.dif_plic_irq_set_priority plic h.kTopAthosPlicIrqIdUart0TxWatermark h.kDifPlicMaxPriority,
      "priority set for TX FIFO dips below its watermark failed!"),
   (.dif_plic_target_set_threshold .plic0 (kPlicTarget h) h.kDifPlicMinPriority,
      "threshold set failed!"),
   (.dif_plic_irq_set_enabled plic h.kTopAthosPlicIrqIdUart0RxParityErr (kPlicTarget h)
      .kToggleEnabled, "interrupt Enable for RX parity error failed!"),
   (.dif_plic_irq_set_enabled plic h.kTopAthosPlicIrqIdUart0RxTimeout (kPlicTarget h)
      .kToggleEnabled,
      "interrupt Enable for RX FIFO timeout expires before it is emptied error failed!"),
   (.dif_plic_irq_set_enabled plic h.kTopAthosPlicIrqIdUart0RxBreakErr (kPlicTarget h)
      .kToggleEnabled, "interrupt Enable for  RX break condition failed!"),
   (.dif_plic_irq_set_enabled plic h.kTopAthosPlicIrqIdUart0RxFrameErr (kPlicTarget h)
      .kToggleEnabled, "interrupt Enable for RX framing error failed!"),
   (.dif_plic_irq_set_enabled plic h.kTopAthosPlicIrqIdUart0RxOverflow (kPlicTarget h)
      .kToggleEnabled, "interrupt Enable for RX overflow failed!"),
   (.dif_plic_irq_set_enabled plic h.kTopAthosPlicIrqIdUart0TxEmpty (kPlicTarget h)
      .kToggleEnabled, "interrupt Enable for TX empty failed!"),
   (.dif_plic_irq_set_enabled plic h.kTopAthosPlicIrqIdUart0RxWatermark (kPlicTarget h)
      .kToggleEnabled, "interrupt Enable for RX FIFO goes over its watermark failed!"),
   (.dif_plic_irq_set_enabled plic h.kTopAthosPlicIrqIdUart0TxWatermark (kPlicTarget h)
      .kToggleEnabled, "interrupt Enable for  TX FIFO dips below its watermark failed!")]

end Uart

namespace Gpio

/-- The calls of `gpio_configure_irqs` with their diagnostics, in source order. -/
def gpio_config_calls (dev : Ptr) : List (Call × String) :=
  [(.dif_gpio_irq_set_enabled dev .kDifGpioIrqTriggerEdgeFalling .kToggleEnabled,
      "Falling edge IRQ enable failed!"),
   (.dif_gpio_irq_set_enabled dev .kDifGpioIrqTriggerEdgeRising .kToggleEnabled,
      "Rising edge IRQ enable failed!")]

/-- The calls of `plic_configure_irqs` of the GPIO test with their diagnostics, in source
order. -/
def plic_config_calls (h : Hdr) (plic : Ptr) : List (Call × String) :=
  [(.dif_plic_irq_set_trigger plic h.kTopAthosPlicIrqIdGpioGpio1 .kDifPlicIrqTriggerLevel,
      "Falling edge trigger type set failed!"),
   (.dif_plic_irq_set_trigger plic h.kTopAthosPlicIrqIdGpioGpio0 .kDifPlicIrqTriggerLevel,
      "Rising edge trigger type set failed!"),
   (.dif_plic_irq_set_priority plic h.kTopAthosPlicIrqIdGpioGpio1 h.kDifPlicMaxPriority,
      "priority set for Falling edge trigger failed!"),
   (.dif_plic_irq_set_priority plic h.kTopAthosPlicIrqIdGpioGpio0 h.kDifPlicMaxPriority,
      "priority set for Rising edge trigger failed!"),
   (.dif_plic_target_set_threshold .plic0 (kPlicTarget h) h.kDifPlicMinPriority,
      "threshold set failed!"),
   (.dif_plic_irq_set_enabled plic h.kTopAthosPlicIrqIdGpioGpio1 (kPlicTarget h)
      .kToggleEnabled, "interrupt Enable for Falling edge trigger failed!"),
   (.dif_plic_irq_set_enabled plic h.kTopAthosPlicIrqIdGpioGpio0 (kPlicTarget h)
      .kToggleEnabled, "interrupt Enable for Rising edge trigger failed!")]

end Gpio

/-- A step of a history in which no dispatch was cut short: one operation of the main flow, or
one complete dispatch by the interrupt handler. -/
inductive Step (F : Type)
  | main (op : Op F)
  | served (x : Row F × Nat)

/-- The events of a sequence of steps. -/
def steps_trace {F : Type} (h : Hdr) : List (Step F) → List (Event F)
  | [] => []
  | .main op :: r => ⟨.main, op⟩ :: steps_trace h r
  | .served x :: r => block h x ++ steps_trace h r

/-- The flags after one step. -/
def step_flags {F : Type} [DecidableEq F] (fl : F → Bool) : Step F → F → Bool
  | .main (.store f v) => Function.update fl f v
  | .main _ => fl
  | .served x => Function.update fl x.1.flag true

/-- The flags after a sequence of steps. -/
def steps_flags {F : Type} [DecidableEq F] (fl : F → Bool) : List (Step F) → F → Bool
  | [] => fl
  | st :: r => steps_flags (step_flags fl st) r

/-- A step that fits the flags `fl` it starts from: a read of the main flow logs the value of
the flag, the main flow writes nothing but `false`, and a dispatch finds its flag false. -/
def step_ok {F : Type} (fl : F → Bool) : Step F → Prop
  | .main (.load f v) => v = fl f
  | .main (.store _ v) => v = false
  | .main _ => True
  | .served x => fl x.1.flag = false

/-- A sequence of steps each of which fits the flags left by the steps before it. -/
def steps_ok {F : Type} [DecidableEq F] (fl : F → Bool) : List (Step F) → Prop
  | [] => True
  | st :: r => step_ok fl st ∧ steps_ok (step_flags fl st) r

/-- A program all of whose runs consist of fitting steps, followed, if the run was stopped
inside the interrupt handler, by the events of the dispatch that was cut short. -/
def Tidy {F α : Type} [DecidableEq F] (h : Hdr) (rows : Nat → Option (Row F)) (m : M F α) :
    Prop :=
  ∀ s, ∃ ss tail, (m s).st.trace = s.trace ++ steps_trace h ss ++ tail ∧ isr_only tail ∧
    steps_ok s.flags ss ∧ (∀ x, Step.served x ∈ ss → rows x.2 = some x.1) ∧
    ((m s).returned = true → tail = [] ∧ (m s).st.flags = steps_flags s.flags ss)

/-! ## Tests without an interrupt handler table

`dif_rstmgr_smoketest.c`, `dif_rv_timer_smoketest_3sec.c` and `dif_clkmgr_smoketest.c` are
straight-line programs over a device: state passing with a log of the driver calls, stopped by
the first failed `CHECK`. -/

/-- The result of running a piece of such a test from a state `σ`: it returns, or a failed
`CHECK` stops the test; the state reached is kept. -/
inductive Out (σ α : Type)
  | ok (a : α) (s : σ)
  | fail (e : Failure) (s : σ)

/-- The state a result ends in. -/
def Out.st {σ α : Type} : Out σ α → σ
  | .ok _ s => s
  | .fail _ s => s

/-- The value a result returns. -/
def Out.value {σ α : Type} : Out σ α → Option α
  | .ok a _ => some a
  | .fail _ _ => none

/-- The failure of a result that stopped the test. -/
def Out.failure {σ α : Type} : Out σ α → Option Failure
  | .ok _ _ => none
  | .fail e _ => some e

/-- Programs over the state `σ`. -/
def Prog (σ α : Type) : Type := σ → Out σ α

/-- Sequencing: a stopped program stays stopped. -/
def Prog.bind {σ α β : Type} (m : Prog σ α) (k : α → Prog σ β) : Prog σ β := fun s =>
  match m s with
  | .ok a s1 => k a s1
  | .fail e s1 => .fail e s1

instance (σ : Type) : Monad (Prog σ) where
  pure a := fun s => .ok a s
  bind := Prog.bind

/-- Modelled from the spec: the macro `CHECK(cond, msg)` of the absent `dif/check.h` ("converts
non-success into a fatal abort"). A `CHECK` without a message reports its condition. -/
def Prog.CHECK {σ : Type} (cond : Bool) (msg : String) : Prog σ Unit := fun s =>
  if cond then .ok () s else .fail (.check msg) s

namespace Rstmgr

/-- The driver calls of the reset manager test; `dif_rstmgr_reset_info_get` records the
bitfield it wrote through its out-pointer. -/
inductive Call
  | dif_rstmgr_init
  | dif_rstmgr_reset_info_get (info : Nat)
  deriving DecidableEq, Repr

/-- What the reset manager answers: the status of the two calls and the reset-info bitfield (a
`uint32_t`). -/
structure Env where
  init_status : Status
  info_status : Status
  info : Nat

/-- The call `dif_rstmgr_init(params, &rstmgr)`. -/
def dif_rstmgr_init (env : Env) : Prog (List (Call × Status)) Status := fun s =>
  .ok env.init_status (s ++ [(.dif_rstmgr_init, env.init_status)])

/-- The call `dif_rstmgr_reset_info_get(&rstmgr, &info)`: it yields the status and the
bitfield. -/
def dif_rstmgr_reset_info_get (env : Env) : Prog (List (Call × Status)) (Status × Nat) :=
  fun s => .ok (env.info_status, env.info)
    (s ++ [(.dif_rstmgr_reset_info_get env.info, env.info_status)])

/-- The function `test_main` of `dif_rstmgr_smoketest.c`; the state is the log of the driver
calls. `kDifRstmgrResetInfoPor` is a constant of the absent `dif_rstmgr.h`. The operator `&` on
`uint32_t` cannot overflow. -/
def test_main (kDifRstmgrResetInfoPor : Nat) (env : Env) : Prog (List (Call × Status)) Bool := do
  Prog.CHECK ((← dif_rstmgr_init env) == .kOk)
    "dif_rstmgr_init(params, &rstmgr) == kDifRstmgrOk"
  let r ← dif_rstmgr_reset_info_get env
  Prog.CHECK (r.1 == .kOk) "dif_rstmgr_reset_info_get(&rstmgr, &info) == kDifRstmgrOk"
  let info := r.2
  Prog.CHECK ((info &&& kDifRstmgrResetInfoPor) == info)
    "(info & kDifRstmgrResetInfoPor) == info"
  pure true

end Rstmgr

namespace RvTimer

/-- The driver calls of `test_handler`; `dif_rv_timer_irq_get` records the flag it wrote
through its out-pointer. -/
inductive Call
  | dif_rv_timer_irq_get (hart comparator : Nat) (flag_out : Bool)
  | dif_rv_timer_counter_set_enabled (hart : Nat) (state : Toggle)
  | dif_rv_timer_irq_clear (hart comparator : Nat)
  deriving DecidableEq, Repr

/-- The observable steps of the timer handler: driver calls, accesses to the volatile
`irq_fired`, and `LOG_INFO` lines. -/
inductive Ev
  | call (k : Call) (r : Status)
  | load_irq_fired (v : Bool)
  | store_irq_fired (v : Bool)
  | log_info (msg : String)
  deriving DecidableEq, Repr

/-- The variable `irq_fired` and the history. -/
structure St where
  irq_fired : Bool
  trace : List Ev
  deriving DecidableEq, Repr

/-- The state at reset: `static volatile bool irq_fired = true;`. -/
def St.init : St := ⟨true, []⟩

/-- What the timer answers: the status of the call made when the history has length `n`, and
the interrupt flag of the comparator that `dif_rv_timer_irq_get` reads then. -/
structure Env where
  status : Nat → Status
  irq_flag : Nat → Bool

/-- `static const uint32_t kComparator = 0;` -/
def kComparator : Nat := 0

/-- A driver call: the environment chooses the status. -/
def drv (env : Env) (k : Call) : Prog St Status := fun s =>
  .ok (env.status s.trace.length)
    { s with trace := s.trace ++ [.call k (env.status s.trace.length)] }

/-- The call `dif_rv_timer_irq_get(&timer, hart, comparator, &irq_flag)`: the environment
chooses the status and the flag. -/
def dif_rv_timer_irq_get (env : Env) (hart comparator : Nat) : Prog St (Status × Bool) :=
  fun s =>
  .ok (env.status s.trace.length, env.irq_flag s.trace.length)
    { s with trace := s.trace ++
        [.call (.dif_rv_timer_irq_get hart comparator (env.irq_flag s.trace.length))
          (env.status s.trace.length)] }

/-- A read of the volatile `irq_fired`. -/
def load_irq_fired : Prog St Bool := fun s =>
  .ok s.irq_fired { s with trace := s.trace ++ [.load_irq_fired s.irq_fired] }

/-- A write of the volatile `irq_fired`. -/
def store_irq_fired (v : Bool) : Prog St Unit := fun s =>
  .ok () { irq_fired := v, trace := s.trace ++ [.store_irq_fired v] }

/-- The macro `LOG_INFO`: a line of the log. -/
def LOG_INFO (msg : String) : Prog St Unit := fun s =>
  .ok () { s with trace := s.trace ++ [.log_info msg] }

/-- The function `test_handler`; `kHart` is `kTopAthosPlicTargetIbex0` of the absent generated
header. -/
def test_handler (kHart : Nat) (env : Env) : Prog St Unit := do
  Prog.CHECK (!(← load_irq_fired)) "Entered IRQ handler, but `irq_fired` was not false!"
  let r ← dif_rv_timer_irq_get env kHart kComparator
  Prog.CHECK (r.1 == .kOk)
    "dif_rv_timer_irq_get(&timer, kHart, kComparator, &irq_flag) == kDifRvTimerOk"
  let irq_flag := r.2
  Prog.CHECK irq_flag "Entered IRQ handler but the expected IRQ flag wasn't set!"
  Prog.CHECK ((← drv env (.dif_rv_timer_counter_set_enabled kHart .kToggleDisabled)) == .kOk)
    "dif_rv_timer_counter_set_enabled(&timer, kHart, kDifRvTimerDisabled) == kDifRvTimerOk"
  Prog.CHECK ((← drv env (.dif_rv_timer_irq_clear kHart kComparator)) == .kOk)
    "dif_rv_timer_irq_clear(&timer, kHart, kComparator) == kDifRvTimerOk"
  store_irq_fired true

/-- The function `handler_irq_timer`. -/
def handler_irq_timer (kHart : Nat) (env : Env) : Prog St Unit := do
  LOG_INFO "Entering handler_irq_timer()"
  test_handler kHart env
  LOG_INFO "Exiting handler_irq_timer()"

end RvTimer

/-- The loop `for (int j = 0; j < n; ++j) body`, where `body` reads and writes the local
variables `β` of the enclosing block. -/
def Prog.times {σ β : Type} : Nat → (β → Prog σ β) → β → Prog σ β
  | 0, _, b => pure b
  | n + 1, body, b => do
    let b1 ← body b
    Prog.times n body b1

/-- The loop `for (int i = 0; i < ARRAYSIZE(xs); ++i) body(xs[i])`. -/
def Prog.for_each {σ α : Type} : List α → (α → Prog σ Unit) → Prog σ Unit
  | [], _ => pure ()
  | x :: xs, body => do
    body x
    Prog.for_each xs body

namespace Clkmgr

/-- The clock ids the test uses, constants of the absent generated header `top_athos.h`. -/
structure Clocks where
  kTopAthosGateableClocksIoDiv4Peri : Nat
  kTopAthosGateableClocksUsbPeri : Nat
  kTopAthosHintableClocksMainHmac : Nat
  kTopAthosHintableClocksMainKmac : Nat

/-- The clock manager driver, whose sources are absent, as a parameter: every operation maps
the hardware state `H` to a status, the value it writes through its out-pointer (if it has one)
and the next hardware state. -/
structure Driver (H : Type) where
  dif_clkmgr_init : H → Status × H
  dif_clkmgr_gateable_clock_get_enabled : H → Nat → Status × Bool × H
  dif_clkmgr_gateable_clock_set_enabled : H → Nat → Toggle → Status × H
  dif_clkmgr_hintable_clock_get_hint : H → Nat → Status × Bool × H
  dif_clkmgr_hintable_clock_set_hint : H → Nat → Toggle → Status × H
  dif_clkmgr_hintable_clock_get_enabled : H → Nat → Status × Bool × H

/-- A driver call with its arguments and the value it wrote through its out-pointer. -/
inductive Call
  | dif_clkmgr_init
  | dif_clkmgr_gateable_clock_get_enabled (clock : Nat) (is_enabled : Bool)
  | dif_clkmgr_gateable_clock_set_enabled (clock : Nat) (state : Toggle)
  | dif_clkmgr_hintable_clock_get_hint (clock : Nat) (hint : Bool)
  | dif_clkmgr_hintable_clock_set_hint (clock : Nat) (state : Toggle)
  | dif_clkmgr_hintable_clock_get_enabled (clock : Nat) (is_enabled : Bool)
  deriving DecidableEq, Repr

/-- The hardware and the log of the driver calls with their statuses. -/
structure St (H : Type) where
  hw : H
  trace : List (Call × Status)

/-- The call `dif_clkmgr_init(params, &clkmgr)`. -/
def init {H : Type} (d : Driver H) : Prog (St H) Status := fun s =>
  .ok (d.dif_clkmgr_init s.hw).1
    ⟨(d.dif_clkmgr_init s.hw).2, s.trace ++ [(.dif_clkmgr_init, (d.dif_clkmgr_init s.hw).1)]⟩

/-- The call `dif_clkmgr_gateable_clock_get_enabled(clkmgr, clock, &enabled)`. -/
def gateable_clock_get_enabled {H : Type} (d : Driver H) (clock : Nat) :
    Prog (St H) (Status × Bool) := fun s =>
  .ok ((d.dif_clkmgr_gateable_clock_get_enabled s.hw clock).1,
      (d.dif_clkmgr_gateable_clock_get_enabled s.hw clock).2.1)
    ⟨(d.dif_clkmgr_gateable_clock_get_enabled s.hw clock).2.2, s.trace ++
      [(.dif_clkmgr_gateable_clock_get_enabled clock
          (d.dif_clkmgr_gateable_clock_get_enabled s.hw clock).2.1,
        (d.dif_clkmgr_gateable_clock_get_enabled s.hw clock).1)]⟩

/-- The call `dif_clkmgr_gateable_clock_set_enabled(clkmgr, clock, state)`. -/
def gateable_clock_set_enabled {H : Type} (d : Driver H) (clock : Nat) (state : Toggle) :
    Prog (St H) Status := fun s =>
  .ok (d.dif_clkmgr_gateable_clock_set_enabled s.hw clock state).1
    ⟨(d.dif_clkmgr_gateable_clock_set_enabled s.hw clock state).2, s.trace ++
      [(.dif_clkmgr_gateable_clock_set_enabled clock state,
        (d.dif_clkmgr_gateable_clock_set_enabled s.hw clock state).1)]⟩

/-- The call `dif_clkmgr_hintable_clock_get_hint(clkmgr, clock, &enabled)`. -/
def hintable_clock_get_hint {H : Type} (d : Driver H) (clock : Nat) :
    Prog (St H) (Status × Bool) := fun s =>
  .ok ((d.dif_clkmgr_hintable_clock_get_hint s.hw clock).1,
      (d.dif_clkmgr_hintable_clock_get_hint s.hw clock).2.1)
    ⟨(d.dif_clkmgr_hintable_clock_get_hint s.hw clock).2.2, s.trace ++
      [(.dif_clkmgr_hintable_clock_get_hint clock
          (d.dif_clkmgr_hintable_clock_get_hint s.hw clock).2.1,
        (d.dif_clkmgr_hintable_clock_get_hint s.hw clock).1)]⟩

/-- The call `dif_clkmgr_hintable_clock_set_hint(clkmgr, clock, state)`. -/
def hintable_clock_set_hint {H : Type} (d : Driver H) (clock : Nat) (state : Toggle) :
    Prog (St H) Status := fun s =>
  .ok (d.dif_clkmgr_hintable_clock_set_hint s.hw clock state).1
    ⟨(d.dif_clkmgr_hintable_clock_set_hint s.hw clock state).2, s.trace ++
      [(.dif_clkmgr_hintable_clock_set_hint clock state,
        (d.dif_clkmgr_hintable_clock_set_hint s.hw clock state).1)]⟩

/-- The call `dif_clkmgr_hintable_clock_get_enabled(clkmgr, clock, &status)`. -/
def hintable_clock_get_enabled {H : Type} (d : Driver H) (clock : Nat) :
    Prog (St H) (Status × Bool) := fun s =>
  .ok ((d.dif_clkmgr_hintable_clock_get_enabled s.hw clock).1,
      (d.dif_clkmgr_hintable_clock_get_enabled s.hw clock).2.1)
    ⟨(d.dif_clkmgr_hintable_clock_get_enabled s.hw clock).2.2, s.trace ++
      [(.dif_clkmgr_hintable_clock_get_enabled clock
          (d.dif_clkmgr_hintable_clock_get_enabled s.hw clock).2.1,
        (d.dif_clkmgr_hintable_clock_get_enabled s.hw clock).1)]⟩

/-- The expression `expected ? kDifClkmgrToggleEnabled : kDifClkmgrToggleDisabled`. -/
def toggle_of (expected : Bool) : Toggle :=
  if expected then .kToggleEnabled else .kToggleDisabled

/-- The body of the loop over `j` in `test_gateable_clocks`: the local variable `enabled` of the
enclosing block goes in and comes out. -/
def gateable_toggle {H : Type} (d : Driver H) (clock : Nat) (enabled : Bool) :
    Prog (St H) Bool := do
  let expected := !enabled
  Prog.CHECK ((← gateable_clock_set_enabled d clock (toggle_of expected)) == .kOk)
    "dif_clkmgr_gateable_clock_set_enabled( clkmgr, clock, expected ? kDifClkmgrToggleEnabled : kDifClkmgrToggleDisabled) == kDifClkmgrOk"
  let r ← gateable_clock_get_enabled d clock
  Prog.CHECK (r.1 == .kOk)
    "dif_clkmgr_gateable_clock_get_enabled(clkmgr, clock, &enabled) == kDifClkmgrOk"
  let enabled := r.2
  Prog.CHECK (enabled == expected) "enabled == expected"
  pure enabled

/-- The body of the loop over `i` in `test_gateable_clocks`, for `clock = clocks[i]`. -/
def gateable_clock_test {H : Type} (d : Driver H) (clock : Nat) : Prog (St H) Unit := do
  let r ← gateable_clock_get_enabled d clock
  Prog.CHECK (r.1 == .kOk)
    "dif_clkmgr_gateable_clock_get_enabled(clkmgr, clock, &enabled) == kDifClkmgrOk"
  let enabled := r.2
  let _ ← Prog.times 2 (gateable_toggle d clock) enabled
  pure ()

/-- The function `test_gateable_clocks`. -/
def test_gateable_clocks {H : Type} (d : Driver H) (c : Clocks) : Prog (St H) Unit :=
  Prog.for_each [c.kTopAthosGateableClocksIoDiv4Peri, c.kTopAthosGateableClocksUsbPeri]
    (gateable_clock_test d)

/-- The body of the loop over `j` in `test_hintable_clocks`. -/
def hintable_toggle {H : Type} (d : Driver H) (clock : Nat) (enabled : Bool) :
    Prog (St H) Bool := do
  let expected := !enabled
  Prog.CHECK ((← hintable_clock_set_hint d clock (toggle_of expected)) == .kOk)
    "dif_clkmgr_hintable_clock_set_hint( clkmgr, clock, expected ? kDifClkmgrToggleEnabled : kDifClkmgrToggleDisabled) == kDifClkmgrOk"
  let r ← hintable_clock_get_hint d clock
  Prog.CHECK (r.1 == .kOk)
    "dif_clkmgr_hintable_clock_get_hint(clkmgr, clock, &enabled) == kDifClkmgrOk"
  let enabled := r.2
  Prog.CHECK (enabled == expected) "enabled == expected"
  if enabled then
    let g ← hintable_clock_get_enabled d clock
    Prog.CHECK (g.1 == .kOk)
      "dif_clkmgr_hintable_clock_get_enabled(clkmgr, clock, &status) == kDifClkmgrOk"
    let status := g.2
    Prog.CHECK status "clock %u hint is enabled but status is disabled"
  pure enabled

/-- The body of the loop over `i` in `test_hintable_clocks`, for `clock = clocks[i]`. -/
def hintable_clock_test {H : Type} (d : Driver H) (clock : Nat) : Prog (St H) Unit := do
  let r ← hintable_clock_get_hint d clock
  Prog.CHECK (r.1 == .kOk)
    "dif_clkmgr_hintable_clock_get_hint(clkmgr, clock, &enabled) == kDifClkmgrOk"
  let enabled := r.2
  let _ ← Prog.times 2 (hintable_toggle d clock) enabled
  pure ()

/-- The function `test_hintable_clocks`; the AES and the OTBN clock are commented out in the
array. -/
def test_hintable_clocks {H : Type} (d : Driver H) (c : Clocks) : Prog (St H) Unit :=
  Prog.for_each [c.kTopAthosHintableClocksMainHmac, c.kTopAthosHintableClocksMainKmac]
    (hintable_clock_test d)

/-- The function `test_main` of `dif_clkmgr_smoketest.c`. -/
def test_main {H : Type} (d : Driver H) (c : Clocks) : Prog (St H) Bool := do
  Prog.CHECK ((← init d) == .kOk) "dif_clkmgr_init(params, &clkmgr) == kDifClkmgrOk"
  test_gateable_clocks d c
  test_hintable_clocks d c
  pure true

/-- The hardware of the driver model: the enable bit of every gateable clock and the hint bit
of every hintable clock. -/
structure Hw where
  gate : Nat → Bool
  hint : Nat → Bool

/-- Modelled from the spec: a driver in which every call returns OK and a get returns the
value of the last set ("`get_enabled` always agrees with the last `set_enabled`/`set_hint`
call"); nothing else changes a bit. The status of a hintable clock is a function `status` of
the clock and of its hint; in the model of the spec it is the hint itself. -/
def last_set (status : Nat → Bool → Bool) : Driver Hw where
  dif_clkmgr_init hw := (.kOk, hw)
  dif_clkmgr_gateable_clock_get_enabled hw clock := (.kOk, hw.gate clock, hw)
  dif_clkmgr_gateable_clock_set_enabled hw clock state :=
    (.kOk, { hw with gate := Function.update hw.gate clock (state == .kToggleEnabled) })
  dif_clkmgr_hintable_clock_get_hint hw clock := (.kOk, hw.hint clock, hw)
  dif_clkmgr_hintable_clock_set_hint hw clock state :=
    (.kOk, { hw with hint := Function.update hw.hint clock (state == .kToggleEnabled) })
  dif_clkmgr_hintable_clock_get_enabled hw clock := (.kOk, status clock (hw.hint clock), hw)

/-- Example clock ids: the gateable clocks 0 and 3, the hintable clocks 1 and 2. -/
def example_clocks : Clocks := ⟨0, 3, 1, 2⟩

end Clkmgr

/-- Every driver call that a run of `m` makes, whether the run returns or not, satisfies
`P`. -/
def only_calls {F α : Type} (P : Call → Prop) (m : M F α) : Prop :=
  ∀ s, ∃ t, (m s).st.trace = s.trace ++ t ∧ ∀ e ∈ t, ∀ k st, e.op = .call k st → P k

namespace Loopback

/-- The driver calls of the UART loopback tests (`dif_uart_smoketest.c`,
`dif_uart_helloworld.c`, `dif_uart_bci_test.c`), with the bytes that go in and the bytes that
come out through the out-pointers. All calls are made on the local handle `uart`. -/
inductive Call
  | dif_uart_init
  | dif_uart_configure
  | dif_uart_loopback_set (enable : Toggle)
  | dif_uart_fifo_reset
  | dif_uart_byte_send_polled (byte : Nat)
  | dif_uart_byte_receive_polled (byte_out : Nat)
  | dif_uart_send_N_bytes (data : List Nat)
  | dif_uart_receive_N_bytes (n : Nat) (data_out : List Nat)
  deriving DecidableEq, Repr

/-- The observable steps of a loopback test: driver calls with their status, and `LOG_INFO`
lines. -/
inductive Ev
  | call (k : Call) (r : Status)
  | log_info (msg : String)
  deriving DecidableEq, Repr

/-- The history and the two global arrays `debugSendData[128]`, `debugRecvData[128]`. -/
structure St where
  trace : List Ev
  debugSendData : Nat → Nat
  debugRecvData : Nat → Nat

/-- The state at reset: nothing has happened, the arrays are zero (static storage). -/
def St.init : St := ⟨[], fun _ => 0, fun _ => 0⟩

/-- The number of bytes the receive calls of a history have asked for. -/
def received : List Ev → Nat
  | [] => 0
  | .call (.dif_uart_byte_receive_polled _) _ :: t => received t + 1
  | .call (.dif_uart_receive_N_bytes n _) _ :: t => received t + n
  | _ :: t => received t

/-- What the UART answers: `status n` is the status of the call made when the history has
length `n`, `rx i` is the `i`-th byte the receiver delivers (counted from 0 over the whole
history); a received byte is a `uint8_t`, so it is taken modulo 256. -/
structure Env where
  status : Nat → Status
  rx : Nat → Nat

/-- A driver call without an out-pointer: the environment chooses the status. -/
def drv (env : Env) (k : Call) : Prog St Status := fun s =>
  .ok (env.status s.trace.length)
    { s with trace := s.trace ++ [.call k (env.status s.trace.length)] }

/-- The call `dif_uart_byte_receive_polled(&uart, &receive_byte)`: it yields the status and the
next byte. -/
def dif_uart_byte_receive_polled (env : Env) : Prog St (Status × Nat) := fun s =>
  .ok (env.status s.trace.length, env.rx (received s.trace) % 256)
    { s with trace := s.trace ++
        [.call (.dif_uart_byte_receive_polled (env.rx (received s.trace) % 256))
          (env.status s.trace.length)] }

/-- The call `dif_uart_receive_N_bytes(&uart, receive_bytes, n)`: it
yields the status and the next `n` bytes, which it has written to `receive_bytes[0..n-1]`. -/
def dif_uart_receive_N_bytes (env : Env) (n : Nat) : Prog St (Status × List Nat) := fun s =>
  .ok (env.status s.trace.length,
      (List.range n).map fun j => env.rx (received s.trace + j) % 256)
    { s with trace := s.trace ++
        [.call (.dif_uart_receive_N_bytes n
            ((List.range n).map fun j => env.rx (received s.trace + j) % 256))
          (env.status s.trace.length)] }

/-- The macro `LOG_INFO`: a line of the log. -/
def LOG_INFO (msg : String) : Prog St Unit := fun s =>
  .ok () { s with trace := s.trace ++ [.log_info msg] }

/-- The two stores `debugSendData[i] = sent; debugRecvData[i] = got;`. -/
def store_debug (i sent got : Nat) : Prog St Unit := fun s =>
  .ok () { s with debugSendData := Function.update s.debugSendData i sent,
                  debugRecvData := Function.update s.debugRecvData i got }

/-- The four calls that all three tests make before they send: init, configure, system
loopback on, reset of both FIFOs, each under its `CHECK`. -/
def setup (env : Env) : Prog St Unit := do
  Prog.CHECK ((← drv env .dif_uart_init) == .kOk)
    "dif_uart_init( (dif_uart_params_t)\x7b .base_addr = mmio_region_from_addr(TOP_ATHOS_UART0_BASE_ADDR), \x7d, &uart) == kDifUartOk"
  Prog.CHECK ((← drv env .dif_uart_configure) == .kOk) "UART config failed!"
  Prog.CHECK ((← drv env (.dif_uart_loopback_set .kToggleEnabled)) == .kOk)
    "dif_uart_loopback_set(&uart, kDifUartLoopbackSystem, kDifUartToggleEnabled) == kDifUartOk"
  Prog.CHECK ((← drv env .dif_uart_fifo_reset) == .kOk)
    "dif_uart_fifo_reset(&uart, kDifUartFifoResetAll) == kDifUartOk"

/-- The events of the four setup calls when they return OK. -/
def setup_events : List Ev :=
  [.call .dif_uart_init .kOk, .call .dif_uart_configure .kOk,
   .call (.dif_uart_loopback_set .kToggleEnabled) .kOk, .call .dif_uart_fifo_reset .kOk]

/-- The two events of the iteration `i` of a byte-by-byte loop over `data` when both calls
return OK and `c` bytes had been received before the loop: the byte `data[i]` is sent, the
byte number `c + i` is received. -/
def echo (data : List Nat) (env : Env) (c i : Nat) : List Ev :=
  [.call (.dif_uart_byte_send_polled (data.getD i 0)) .kOk,
   .call (.dif_uart_byte_receive_polled (env.rx (c + i) % 256)) .kOk]

namespace Smoketest

/-- `static const uint8_t kSendData[] = "Smoke test!";` with its terminating NUL. -/
def kSendData : List Nat := "Smoke test!".toList.map Char.toNat ++ [0]

/-- The body of the loop of `test_main` in `dif_uart_smoketest.c`. -/
def loop_body (env : Env) (i : Nat) : Prog St Unit := do
  Prog.CHECK ((← drv env (.dif_uart_byte_send_polled (kSendData.getD i 0))) == .kOk)
    "dif_uart_byte_send_polled(&uart, kSendData[i]) == kDifUartOk"
  let r ← dif_uart_byte_receive_polled env
  Prog.CHECK (r.1 == .kOk)
    "dif_uart_byte_receive_polled(&uart, &receive_byte) == kDifUartOk"
  let receive_byte := r.2
  Prog.CHECK (receive_byte == kSendData.getD i 0) "receive_byte == kSendData[i]"
  store_debug i (kSendData.getD i 0) receive_byte

/-- The function `test_main` of `dif_uart_smoketest.c`. -/
def test_main (env : Env) : Prog St Bool := do
  LOG_INFO "Running uart smoketest"
  setup env
  Prog.for_each (List.range kSendData.length) (loop_body env)
  LOG_INFO "Completed Running uart smoketest"
  pure true

end Smoketest

namespace Helloworld

/-- `static const uint8_t kSendData[] = "Helloworld!";` with its terminating NUL. -/
def kSendData : List Nat := "Helloworld!".toList.map Char.toNat ++ [0]

/-- The body of the loop of `test_main` in `dif_uart_helloworld.c`. -/
def loop_body (env : Env) (i : Nat) : Prog St Unit := do
  Prog.CHECK ((← drv env (.dif_uart_byte_send_polled (kSendData.getD i 0))) == .kOk)
    "dif_uart_byte_send_polled(&uart, kSendData[i]) == kDifUartOk"
  let r ← dif_uart_byte_receive_polled env
  Prog.CHECK (r.1 == .kOk)
    "dif_uart_byte_receive_polled(&uart, &receive_byte) == kDifUartOk"
  let receive_byte := r.2
  Prog.CHECK (receive_byte == kSendData.getD i 0) "receive_byte == kSendData[i]"

/-- The function `test_main` of `dif_uart_helloworld.c`. -/
def test_main (env : Env) : Prog St Bool := do
  LOG_INFO "Running uart helloworld test"
  setup env
  Prog.for_each (List.range kSendData.length) (loop_body env)
  pure true

end Helloworld

namespace BciTest

/-- `static const uint8_t kSendData[] = "BCI DIF Test!";` with its terminating NUL. -/
def kSendData : List Nat := "BCI DIF Test!".toList.map Char.toNat ++ [0]

/-- The body of the loop of `test_main` in `dif_uart_bci_test.c`, over the local array
`receive_bytes`. -/
def loop_body (receive_bytes : List Nat) (i : Nat) : Prog St Unit := do
  Prog.CHECK (receive_bytes.getD i 0 == kSendData.getD i 0) "receive_bytes[i] == kSendData[i]"
  store_debug i (kSendData.getD i 0) (receive_bytes.getD i 0)

/-- The function `test_main` of `dif_uart_bci_test.c`. -/
def test_main (env : Env) : Prog St Bool := do
  LOG_INFO "Running new BCI uart dif test"
  setup env
  Prog.CHECK ((← drv env (.dif_uart_send_N_bytes kSendData)) == .kOk)
    "dif_uart_send_N_bytes(&uart, (uint8_t *) kSendData, sizeof(kSendData)) == kDifUartOk"
  let r ← dif_uart_receive_N_bytes env kSendData.length
  Prog.CHECK (r.1 == .kOk)
    "dif_uart_receive_N_bytes(&uart, (uint8_t *) receive_bytes, sizeof(kSendData)) == kDifUartOk"
  let receive_bytes := r.2
  Prog.for_each (List.range kSendData.length) (loop_body receive_bytes)
  LOG_INFO "Completed Running BCI uart dif test"
  pure true

end BciTest

/-- A receiver that delivers the bytes of `data` in order, as a UART in system loopback does
with the bytes that were sent, and a driver whose calls all return OK. -/
def mirror (data : List Nat) : Env := ⟨fun _ => .kOk, fun i => data.getD i 0⟩


end Loopback

/-! ## Theorems -/

section Basics

variable {F : Type} {α β : Type}

theorem bind_apply (m : M F α) (k : α → M F β) (s : St F) :
    (m >>= k) s = match m s with
      | .ret a s1 => k a s1
      | .abort e s1 => .abort e s1
      | .undef s1 => .undef s1 := rfl

theorem pure_apply (a : α) (s : St F) : (pure a : M F α) s = .ret a s := rfl

/-- A `CHECK` of the main flow that passes is no step. -/
theorem CHECK_main_pass (isr : M F Unit) (env : Env) (msg : String) (s : St F) :
    CHECK_main isr env true msg s = .ret () s := rfl

/-- A `CHECK` of the main flow that fails: the interrupts scheduled before the abort are served,
and the test is stopped by the check unless a handler stopped it. -/
theorem CHECK_main_fail (isr : M F Unit) (env : Env) (msg : String) (s : St F) :
    CHECK_main isr env false msg s = match gap isr env s with
      | .ret _ s1 => .abort (.check msg) s1
      | .abort e s1 => .abort e s1
      | .undef s1 => .undef s1 := by
  show (gap isr env >>= fun _ => CHECK false msg) s = _
  rw [bind_apply]
  cases gap isr env s <;> rfl

/-- A `CHECK` of the main flow, by its condition. -/
theorem CHECK_main_apply (isr : M F Unit) (env : Env) (c : Bool) (msg : String) (s : St F) :
    CHECK_main isr env c msg s = if c = true then .ret () s else
      match gap isr env s with
      | .ret _ s1 => .abort (.check msg) s1
      | .abort e s1 => .abort e s1
      | .undef s1 => .undef s1 := by
  cases c
  · rw [CHECK_main_fail]; rfl
  · rfl

/-- A `CHECK` of the main flow returns exactly when its condition holds, and then it has done
nothing. -/
theorem CHECK_main_ret_iff (isr : M F Unit) (env : Env) (c : Bool) (m : String) (s s' : St F)
    (a : Unit) : CHECK_main isr env c m s = .ret a s' ↔ c = true ∧ s' = s := by
  cases c
  · rw [CHECK_main_fail]
    cases gap isr env s <;> simp
  · rw [CHECK_main_pass]
    simp [eq_comm]

/-- A `CHECK` of the main flow that fails does not return. -/
theorem CHECK_main_fail_returned (isr : M F Unit) (env : Env) (msg : String) (s : St F) :
    (CHECK_main isr env false msg s).returned = false := by
  rw [CHECK_main_fail]
  cases gap isr env s <;> rfl

end Basics

namespace Uart

theorem handle_uart_isr_eq (h : Hdr) (env : Env) (id : Nat) :
    handle_uart_isr h env id = handle_row env (uart_rows h id) := by
  funext s
  unfold handle_uart_isr uart_rows
  split_ifs <;> rfl

theorem uart_handler_eq_router (h : Hdr) (env : Env) :
    handler_irq_external h env =
      router h env h.kTopAthosPlicPeripheralUart0 "ISR interrupted peripheral is not UART!"
        (uart_rows h) := by
  funext s
  simp only [handler_irq_external, router, handle_uart_isr_eq]

end Uart

namespace Gpio

theorem handle_gpio_isr_eq (h : Hdr) (env : Env) (id : Nat) :
    handle_gpio_isr h env id = handle_row env (gpio_rows h id) := by
  funext s
  unfold handle_gpio_isr gpio_rows
  split_ifs <;> rfl

theorem gpio_handler_eq_router (h : Hdr) (env : Env) :
    handler_irq_external h env =
      router h env h.kTopAthosPlicPeripheralGpio "ISR interrupted peripheral is not gpio!"
        (gpio_rows h) := by
  funext s
  simp only [handler_irq_external, router, handle_gpio_isr_eq]

end Gpio

section RouterLemmas
variable {F : Type} [DecidableEq F]

theorem handle_row_none (env : Env) (s : St F) :
    handle_row env (none : Option (Row F)) s = .abort (.fatal "ISR is not implemented!") s := rfl

theorem handle_row_some (env : Env) (r : Row F) (s : St F) :
    handle_row env (some r) s =
      if s.flags r.flag = true then
        .abort (.check r.msg) ⟨s.flags, s.trace ++ [⟨.isr, .load r.flag true⟩]⟩
      else if env.status (s.trace.length + 2) = .kOk then
        .ret () ⟨Function.update s.flags r.flag true,
          s.trace ++ [⟨.isr, .load r.flag false⟩, ⟨.isr, .store r.flag true⟩,
            ⟨.isr, .call r.ack .kOk⟩]⟩
      else
        .abort (.check "ISR failed to clear IRQ!") ⟨Function.update s.flags r.flag true,
          s.trace ++ [⟨.isr, .load r.flag false⟩, ⟨.isr, .store r.flag true⟩,
            ⟨.isr, .call r.ack (env.status (s.trace.length + 2))⟩]⟩ := by
  simp only [handle_row, bind_apply, load, store, drv, CHECK]
  cases hf : s.flags r.flag
  · simp
    split_ifs with h1 <;> simp [h1]
  · simp


/-- The claim event of a handler run started in `s`. -/
theorem router_apply (h : Hdr) (env : Env) (expected : Nat) (msg : String)
    (rows : Nat → Option (Row F)) (s : St F) :
    router h env expected msg rows s =
      if env.status s.trace.length = .kOk then
        match h.top_athos_plic_interrupt_for_peripheral[env.claimed s.trace.length]? with
        | none => .undef ⟨s.flags, s.trace ++ [⟨.isr, .call (.dif_plic_irq_claim .plic0
            h.kTopAthosPlicTargetIbex0 (env.claimed s.trace.length)) .kOk⟩]⟩
        | some p =>
          if p = expected then
            match rows (env.claimed s.trace.length) with
            | none => .abort (.fatal "ISR is not implemented!") ⟨s.flags, s.trace ++
                [⟨.isr, .call (.dif_plic_irq_claim .plic0
                  h.kTopAthosPlicTargetIbex0 (env.claimed s.trace.length)) .kOk⟩]⟩
            | some r =>
              if s.flags r.flag = true then
                .abort (.check r.msg) ⟨s.flags, s.trace ++
                  [⟨.isr, .call (.dif_plic_irq_claim .plic0
                    h.kTopAthosPlicTargetIbex0 (env.claimed s.trace.length)) .kOk⟩,
                   ⟨.isr, .load r.flag true⟩]⟩
              else if env.status (s.trace.length + 3) = .kOk then
                if env.status (s.trace.length + 4) = .kOk then
                  .ret () ⟨Function.update s.flags r.flag true, s.trace ++
                    [⟨.isr, .call (.dif_plic_irq_claim .plic0
                      h.kTopAthosPlicTargetIbex0 (env.claimed s.trace.length)) .kOk⟩,
                     ⟨.isr, .load r.flag false⟩, ⟨.isr, .store r.flag true⟩,
                     ⟨.isr, .call r.ack .kOk⟩,
                     ⟨.isr, .call (.dif_plic_irq_complete .plic0 h.kTopAthosPlicTargetIbex0
                       (env.claimed s.trace.length)) .kOk⟩]⟩
                else
                  .abort (.check "Unable to complete the IRQ request!")
                    ⟨Function.update s.flags r.flag true, s.trace ++
                    [⟨.isr, .call (.dif_plic_irq_claim .plic0
                      h.kTopAthosPlicTargetIbex0 (env.claimed s.trace.length)) .kOk⟩,
                     ⟨.isr, .load r.flag false⟩, ⟨.isr, .store r.flag true⟩,
                     ⟨.isr, .call r.ack .kOk⟩,
                     ⟨.isr, .call (.dif_plic_irq_complete .plic0 h.kTopAthosPlicTargetIbex0
                       (env.claimed s.trace.length)) (env.status (s.trace.length + 4))⟩]⟩
              else
                .abort (.check "ISR failed to clear IRQ!")
                  ⟨Function.update s.flags r.flag true, s.trace ++
                  [⟨.isr, .call (.dif_plic_irq_claim .plic0
                    h.kTopAthosPlicTargetIbex0 (env.claimed s.trace.length)) .kOk⟩,
                   ⟨.isr, .load r.flag false⟩, ⟨.isr, .store r.flag true⟩,
                   ⟨.isr, .call r.ack (env.status (s.trace.length + 3))⟩]⟩
          else
            .abort (.check msg) ⟨s.flags, s.trace ++ [⟨.isr, .call (.dif_plic_irq_claim .plic0
              h.kTopAthosPlicTargetIbex0 (env.claimed s.trace.length)) .kOk⟩]⟩
      else
        .abort (.check "ISR is not implemented!") ⟨s.flags, s.trace ++
          [⟨.isr, .call (.dif_plic_irq_claim .plic0 h.kTopAthosPlicTargetIbex0
            (env.claimed s.trace.length)) (env.status s.trace.length)⟩]⟩ := by
  simp only [router, bind_apply, dif_plic_irq_claim, CHECK, table_lookup, kPlicTarget, drv]
  by_cases h0 : env.status s.trace.length = .kOk
  · simp only [h0, beq_self_eq_true, if_true]
    cases h.top_athos_plic_interrupt_for_peripheral[env.claimed s.trace.length]? with
    | none => rfl
    | some p =>
      by_cases hp : p = expected
      · subst hp
        simp only [beq_self_eq_true, if_true]
        cases rows (env.claimed s.trace.length) with
        | none => rfl
        | some r =>
          simp only [handle_row_some]
          by_cases hf : s.flags r.flag = true
          · simp [hf]
          · by_cases h3 : env.status (s.trace.length + 3) = .kOk
            · by_cases h4 : env.status (s.trace.length + 4) = .kOk
              · simp [hf, h3, h4, Nat.add_assoc]
              · simp [hf, h3, h4, Nat.add_assoc]
            · simp [hf, h3, Nat.add_assoc]
      · simp [hp]
  · simp [h0]

end RouterLemmas

namespace Uart

open UartFlag dif_uart_irq_t

theorem uart_rows_some (h : Hdr) (id : Nat) (r : Row UartFlag) (hr : uart_rows h id = some r) :
    ∃ c, id = irq_id h c ∧ r = ⟨flag_of c, .dif_uart_irq_acknowledge .uart0 c,
      more_than_once_msg c⟩ := by
  unfold uart_rows at hr
  split_ifs at hr with h1 h2 h3 h4 h5 h6 h7 h8 <;> cases hr
  · exact ⟨kDifUartIrqRxParityErr, h1, rfl⟩
  · exact ⟨kDifUartIrqRxTimeout, h2, rfl⟩
  · exact ⟨kDifUartIrqRxBreakErr, h3, rfl⟩
  · exact ⟨kDifUartIrqRxFrameErr, h4, rfl⟩
  · exact ⟨kDifUartIrqRxOverflow, h5, rfl⟩
  · exact ⟨kDifUartIrqTxEmpty, h6, rfl⟩
  · exact ⟨kDifUartIrqRxWatermark, h7, rfl⟩
  · exact ⟨kDifUartIrqTxWatermark, h8, rfl⟩

theorem uart_rows_irq_id (h : Hdr) (hd : ids_distinct h) (c : dif_uart_irq_t) :
    uart_rows h (irq_id h c) = some ⟨flag_of c, .dif_uart_irq_acknowledge .uart0 c,
      more_than_once_msg c⟩ := by
  have hd' : (causes.map (irq_id h)).Nodup := hd
  simp [causes, irq_id] at hd'
  clear hd
  cases c <;> simp only [uart_rows, irq_id, flag_of, more_than_once_msg] <;> split_ifs <;>
    first | rfl | (exfalso; simp_all)

theorem uart_rows_none (h : Hdr) (id : Nat) (hid : ∀ c, id ≠ irq_id h c) :
    uart_rows h id = none := by
  cases hr : uart_rows h id with
  | none => rfl
  | some r =>
    obtain ⟨c, hc, _⟩ := uart_rows_some h id r hr
    exact absurd hc (hid c)

end Uart

namespace Gpio

open GpioFlag dif_gpio_irq_trigger_t

theorem gpio_rows_some (h : Hdr) (id : Nat) (r : Row GpioFlag) (hr : gpio_rows h id = some r) :
    ∃ c, id = irq_id h c ∧ r = ⟨flag_of c, .dif_gpio_irq_acknowledge .gpio c,
      more_than_once_msg c⟩ := by
  unfold gpio_rows at hr
  split_ifs at hr with h1 h2 <;> cases hr
  · exact ⟨kDifGpioIrqTriggerEdgeFalling, h1, rfl⟩
  · exact ⟨kDifGpioIrqTriggerEdgeRising, h2, rfl⟩

theorem gpio_rows_irq_id (h : Hdr)
    (hd : h.kTopAthosPlicIrqIdGpioGpio0 ≠ h.kTopAthosPlicIrqIdGpioGpio1)
    (c : dif_gpio_irq_trigger_t) :
    gpio_rows h (irq_id h c) = some ⟨flag_of c, .dif_gpio_irq_acknowledge .gpio c,
      more_than_once_msg c⟩ := by
  cases c <;> simp only [gpio_rows, irq_id, flag_of, more_than_once_msg] <;> split_ifs <;>
    first | rfl | (exfalso; simp_all)

theorem gpio_rows_none (h : Hdr) (id : Nat) (hid : ∀ c, id ≠ irq_id h c) :
    gpio_rows h id = none := by
  cases hr : gpio_rows h id with
  | none => rfl
  | some r =>
    obtain ⟨c, hc, _⟩ := gpio_rows_some h id r hr
    exact absurd hc (hid c)

end Gpio

section RouterFacts
variable {F : Type} [DecidableEq F]

/-- A handler run that returns took one row, whose flag was false, and did the five steps. -/
theorem router_ret (h : Hdr) (env : Env) (expected : Nat) (msg : String)
    (rows : Nat → Option (Row F)) (s : St F)
    (hret : (router h env expected msg rows s).returned = true) :
    ∃ r, rows (env.claimed s.trace.length) = some r ∧ s.flags r.flag = false ∧
      h.top_athos_plic_interrupt_for_peripheral[env.claimed s.trace.length]? = some expected ∧
      router h env expected msg rows s =
        .ret () ⟨Function.update s.flags r.flag true, s.trace ++
          [⟨.isr, .call (.dif_plic_irq_claim .plic0
              h.kTopAthosPlicTargetIbex0 (env.claimed s.trace.length)) .kOk⟩,
           ⟨.isr, .load r.flag false⟩, ⟨.isr, .store r.flag true⟩,
           ⟨.isr, .call r.ack .kOk⟩,
           ⟨.isr, .call (.dif_plic_irq_complete .plic0 h.kTopAthosPlicTargetIbex0
             (env.claimed s.trace.length)) .kOk⟩]⟩ := by
  rw [router_apply] at hret ⊢
  by_cases h0 : env.status s.trace.length = .kOk
  swap
  · simp [h0, Res.returned] at hret
  simp only [h0, if_true] at hret ⊢
  cases hp : h.top_athos_plic_interrupt_for_peripheral[env.claimed s.trace.length]? with
  | none => simp [hp, Res.returned] at hret
  | some p =>
    simp only [hp] at hret ⊢
    by_cases h1 : p = expected
    swap
    · simp [h1, Res.returned] at hret
    subst h1
    simp only [if_true] at hret ⊢
    cases hr : rows (env.claimed s.trace.length) with
    | none => simp [hr, Res.returned] at hret
    | some r =>
      simp only [hr] at hret ⊢
      by_cases h2 : s.flags r.flag = true
      · simp [h2, Res.returned] at hret
      by_cases h3 : env.status (s.trace.length + 3) = .kOk
      swap
      · simp [h2, h3, Res.returned] at hret
      by_cases h4 : env.status (s.trace.length + 4) = .kOk
      swap
      · simp [h2, h3, h4, Res.returned] at hret
      exact ⟨r, by simp, by simpa using h2, by simp, by simp [h2, h3, h4]⟩

end RouterFacts


theorem added_of_trace {F α : Type} (r : Res F α) (s : St F) (t : List (Event F))
    (h : r.st.trace = s.trace ++ t) : r.added s = t := by
  simp [Res.added, h]

/-- C1: a run of `handler_irq_external` (UART and GPIO variant) that returns has made exactly
three driver calls, in this order: `dif_plic_irq_claim` on `plic0` for target Ibex0, one
acknowledge on the peripheral, `dif_plic_irq_complete` on `plic0` for the same target with the id
the claim yielded; all three returned OK and the earlier history is kept. -/
theorem handler_irq_external_calls (h : Hdr) (env : Env) :
    (∀ s : St UartFlag, (Uart.handler_irq_external h env s).returned = true →
      (∃ c : dif_uart_irq_t,
        driver_calls ((Uart.handler_irq_external h env s).added s) =
          [(.dif_plic_irq_claim .plic0 h.kTopAthosPlicTargetIbex0
              (env.claimed s.trace.length), .kOk),
           (.dif_uart_irq_acknowledge .uart0 c, .kOk),
           (.dif_plic_irq_complete .plic0 h.kTopAthosPlicTargetIbex0
              (env.claimed s.trace.length), .kOk)]) ∧
        s.trace <+: (Uart.handler_irq_external h env s).st.trace) ∧
    (∀ s : St GpioFlag, (Gpio.handler_irq_external h env s).returned = true →
      (∃ c : dif_gpio_irq_trigger_t,
        driver_calls ((Gpio.handler_irq_external h env s).added s) =
          [(.dif_plic_irq_claim .plic0 h.kTopAthosPlicTargetIbex0
              (env.claimed s.trace.length), .kOk),
           (.dif_gpio_irq_acknowledge .gpio c, .kOk),
           (.dif_plic_irq_complete .plic0 h.kTopAthosPlicTargetIbex0
              (env.claimed s.trace.length), .kOk)]) ∧
        s.trace <+: (Gpio.handler_irq_external h env s).st.trace) := by
  constructor
  · intro s hret
    rw [Uart.uart_handler_eq_router] at hret ⊢
    obtain ⟨r, hr, -, -, heq⟩ := router_ret h env _ _ _ s hret
    obtain ⟨c, -, rfl⟩ := Uart.uart_rows_some h _ r hr
    rw [heq]
    refine ⟨⟨c, ?_⟩, ?_⟩
    · simp [Res.added, Res.st, driver_calls]
    · exact List.prefix_append _ _
  · intro s hret
    rw [Gpio.gpio_handler_eq_router] at hret ⊢
    obtain ⟨r, hr, -, -, heq⟩ := router_ret h env _ _ _ s hret
    obtain ⟨c, -, rfl⟩ := Gpio.gpio_rows_some h _ r hr
    rw [heq]
    refine ⟨⟨c, ?_⟩, ?_⟩
    · simp [Res.added, Res.st, driver_calls]
    · exact List.prefix_append _ _

theorem handler_irq_external_calls_witness :
    ((∃ c : dif_uart_irq_t,
        driver_calls ((Uart.handler_irq_external example_hdr (quiet_env 40)
            (St.init UartFlag)).added (St.init UartFlag)) =
          [(.dif_plic_irq_claim .plic0 0 40, .kOk),
           (.dif_uart_irq_acknowledge .uart0 c, .kOk),
           (.dif_plic_irq_complete .plic0 0 40, .kOk)]) ∧
      (St.init UartFlag).trace <+:
        (Uart.handler_irq_external example_hdr (quiet_env 40) (St.init UartFlag)).st.trace) ∧
    ((∃ c : dif_gpio_irq_trigger_t,
        driver_calls ((Gpio.handler_irq_external example_hdr (quiet_env 2)
            (St.init GpioFlag)).added (St.init GpioFlag)) =
          [(.dif_plic_irq_claim .plic0 0 2, .kOk),
           (.dif_gpio_irq_acknowledge .gpio c, .kOk),
           (.dif_plic_irq_complete .plic0 0 2, .kOk)]) ∧
      (St.init GpioFlag).trace <+:
        (Gpio.handler_irq_external example_hdr (quiet_env 2) (St.init GpioFlag)).st.trace) :=
  ⟨(handler_irq_external_calls example_hdr (quiet_env 40)).1 (St.init UartFlag) (by decide),
   (handler_irq_external_calls example_hdr (quiet_env 2)).2 (St.init GpioFlag) (by decide)⟩


/-- C4: when `handle_uart_isr` (`handle_gpio_isr`) is entered with the id of a cause whose
observation flag is already true, it stops the test with that cause's "asserted more than once"
diagnostic right after reading the flag: no acknowledge is issued and the flags are unchanged.
The ids are assumed pairwise different. -/
theorem handle_isr_flag_already_set (h : Hdr) (env : Env) :
    (∀ (c : dif_uart_irq_t) (s : St UartFlag), Uart.ids_distinct h →
      s.flags (Uart.flag_of c) = true →
      Uart.handle_uart_isr h env (Uart.irq_id h c) s =
        .abort (.check (Uart.more_than_once_msg c))
          ⟨s.flags, s.trace ++ [⟨.isr, .load (Uart.flag_of c) true⟩]⟩) ∧
    (∀ (c : dif_gpio_irq_trigger_t) (s : St GpioFlag),
      h.kTopAthosPlicIrqIdGpioGpio0 ≠ h.kTopAthosPlicIrqIdGpioGpio1 →
      s.flags (Gpio.flag_of c) = true →
      Gpio.handle_gpio_isr h env (Gpio.irq_id h c) s =
        .abort (.check (Gpio.more_than_once_msg c))
          ⟨s.flags, s.trace ++ [⟨.isr, .load (Gpio.flag_of c) true⟩]⟩) ∧
    (∀ c, ∃ p, Uart.more_than_once_msg c = p ++ " IRQ asserted more than once") ∧
    (∀ c, ∃ p, Gpio.more_than_once_msg c = p ++ " IRQ asserted more than once") := by
  refine ⟨?_, ?_, ?_, ?_⟩
  · intro c s hd hf
    rw [Uart.handle_uart_isr_eq, Uart.uart_rows_irq_id h hd, handle_row_some]
    simp [hf]
  · intro c s hd hf
    rw [Gpio.handle_gpio_isr_eq, Gpio.gpio_rows_irq_id h hd, handle_row_some]
    simp [hf]
  · intro c
    cases c
    · exact ⟨"UART tx_watermark", by decide⟩
    · exact ⟨"UART rx_watermark", by decide⟩
    · exact ⟨"UART TX empty", by decide⟩
    · exact ⟨"UART RX overflow", by decide⟩
    · exact ⟨"UART RX framing error", by decide⟩
    · exact ⟨"UART rx_break_err", by decide⟩
    · exact ⟨"UART rx_timeout", by decide⟩
    · exact ⟨"UART rx_parity_err", by decide⟩
  · intro c
    cases c
    · exact ⟨"gpio gpio0 input for rising edge detection", by decide⟩
    · exact ⟨"gpio gpio1 input for falling edge detection", by decide⟩

theorem handle_isr_flag_already_set_witness :
    Uart.handle_uart_isr example_hdr (quiet_env 36) 36 ⟨fun _ => true, []⟩ =
      .abort (.check "UART RX overflow IRQ asserted more than once")
        ⟨fun _ => true, [⟨.isr, .load .uart_rx_overflow_handled true⟩]⟩ ∧
    Gpio.handle_gpio_isr example_hdr (quiet_env 2) 2 ⟨fun _ => true, []⟩ =
      .abort (.check "gpio gpio1 input for falling edge detection IRQ asserted more than once")
        ⟨fun _ => true, [⟨.isr, .load .gpio_gpio1 true⟩]⟩ :=
  ⟨(handle_isr_flag_already_set example_hdr (quiet_env 36)).1 .kDifUartIrqRxOverflow
      ⟨fun _ => true, []⟩ (by decide) rfl,
   (handle_isr_flag_already_set example_hdr (quiet_env 2)).2.1 .kDifGpioIrqTriggerEdgeFalling
      ⟨fun _ => true, []⟩ (by decide) rfl⟩

/-- C5: when the claim succeeds and the entry of the claimed id in
`top_athos_plic_interrupt_for_peripheral` is not the peripheral of the build (UART0, resp. GPIO),
`handler_irq_external` stops the test right after the claim: the flags are unchanged and the
claim is the only event, so neither the peripheral handler ran nor was an acknowledge or a
complete issued. -/
theorem handler_irq_external_wrong_peripheral (h : Hdr) (env : Env) :
    (∀ (s : St UartFlag) (p : Nat), env.status s.trace.length = .kOk →
      h.top_athos_plic_interrupt_for_peripheral[env.claimed s.trace.length]? = some p →
      p ≠ h.kTopAthosPlicPeripheralUart0 →
      Uart.handler_irq_external h env s =
        .abort (.check "ISR interrupted peripheral is not UART!")
          ⟨s.flags, s.trace ++ [⟨.isr, .call (.dif_plic_irq_claim .plic0
            h.kTopAthosPlicTargetIbex0 (env.claimed s.trace.length)) .kOk⟩]⟩) ∧
    (∀ (s : St GpioFlag) (p : Nat), env.status s.trace.length = .kOk →
      h.top_athos_plic_interrupt_for_peripheral[env.claimed s.trace.length]? = some p →
      p ≠ h.kTopAthosPlicPeripheralGpio →
      Gpio.handler_irq_external h env s =
        .abort (.check "ISR interrupted peripheral is not gpio!")
          ⟨s.flags, s.trace ++ [⟨.isr, .call (.dif_plic_irq_claim .plic0
            h.kTopAthosPlicTargetIbex0 (env.claimed s.trace.length)) .kOk⟩]⟩) := by
  constructor
  · intro s p h0 hp hne
    rw [Uart.uart_handler_eq_router, router_apply]
    simp [h0, hp, hne]
  · intro s p h0 hp hne
    rw [Gpio.gpio_handler_eq_router, router_apply]
    simp [h0, hp, hne]

theorem handler_irq_external_wrong_peripheral_witness :
    Uart.handler_irq_external example_hdr (quiet_env 1) (St.init UartFlag) =
      .abort (.check "ISR interrupted peripheral is not UART!")
        ⟨(St.init UartFlag).flags, [⟨.isr, .call (.dif_plic_irq_claim .plic0 0 1) .kOk⟩]⟩ ∧
    Gpio.handler_irq_external example_hdr (quiet_env 33) (St.init GpioFlag) =
      .abort (.check "ISR interrupted peripheral is not gpio!")
        ⟨(St.init GpioFlag).flags, [⟨.isr, .call (.dif_plic_irq_claim .plic0 0 33) .kOk⟩]⟩ :=
  ⟨(handler_irq_external_wrong_peripheral example_hdr (quiet_env 1)).1 (St.init UartFlag) 1
      rfl rfl (by decide),
   (handler_irq_external_wrong_peripheral example_hdr (quiet_env 33)).2 (St.init GpioFlag) 2
      rfl rfl (by decide)⟩

/-- C6: when the claim succeeds but yields the "no interrupt" id `kTopAthosPlicIrqIdNone`,
`handler_irq_external` stops the test right after the claim: no flag is set, nothing is
acknowledged and no complete is issued. The header is assumed to list the sentinel in the
id-to-peripheral table and to give it a value different from the handled ids; the handler has no
test of its own for the sentinel, it is stopped by the peripheral `CHECK` or by the `default`
branch of the `switch`. -/
theorem handler_irq_external_none_claimed (h : Hdr) (env : Env) :
    (∀ s : St UartFlag, env.status s.trace.length = .kOk →
      env.claimed s.trace.length = h.kTopAthosPlicIrqIdNone →
      h.kTopAthosPlicIrqIdNone < h.top_athos_plic_interrupt_for_peripheral.length →
      (∀ c, h.kTopAthosPlicIrqIdNone ≠ Uart.irq_id h c) →
      ∃ e, Uart.handler_irq_external h env s =
        .abort e ⟨s.flags, s.trace ++ [⟨.isr, .call (.dif_plic_irq_claim .plic0
          h.kTopAthosPlicTargetIbex0 h.kTopAthosPlicIrqIdNone) .kOk⟩]⟩) ∧
    (∀ s : St GpioFlag, env.status s.trace.length = .kOk →
      env.claimed s.trace.length = h.kTopAthosPlicIrqIdNone →
      h.kTopAthosPlicIrqIdNone < h.top_athos_plic_interrupt_for_peripheral.length →
      (∀ c, h.kTopAthosPlicIrqIdNone ≠ Gpio.irq_id h c) →
      ∃ e, Gpio.handler_irq_external h env s =
        .abort e ⟨s.flags, s.trace ++ [⟨.isr, .call (.dif_plic_irq_claim .plic0
          h.kTopAthosPlicTargetIbex0 h.kTopAthosPlicIrqIdNone) .kOk⟩]⟩) := by
  constructor
  · intro s h0 hid hlt hne
    rw [Uart.uart_handler_eq_router, router_apply]
    simp only [h0, hid, if_true, List.getElem?_eq_getElem hlt, Uart.uart_rows_none h _ hne]
    split_ifs
    · exact ⟨_, rfl⟩
    · exact ⟨_, rfl⟩
  · intro s h0 hid hlt hne
    rw [Gpio.gpio_handler_eq_router, router_apply]
    simp only [h0, hid, if_true, List.getElem?_eq_getElem hlt, Gpio.gpio_rows_none h _ hne]
    split_ifs
    · exact ⟨_, rfl⟩
    · exact ⟨_, rfl⟩

theorem handler_irq_external_none_claimed_witness :
    (∃ e, Uart.handler_irq_external example_hdr (quiet_env 0) (St.init UartFlag) =
      .abort e ⟨(St.init UartFlag).flags, (St.init UartFlag).trace ++
        [⟨.isr, .call (.dif_plic_irq_claim .plic0 0 0) .kOk⟩]⟩) ∧
    (∃ e, Gpio.handler_irq_external example_hdr (quiet_env 0) (St.init GpioFlag) =
      .abort e ⟨(St.init GpioFlag).flags, (St.init GpioFlag).trace ++
        [⟨.isr, .call (.dif_plic_irq_claim .plic0 0 0) .kOk⟩]⟩) :=
  ⟨(handler_irq_external_none_claimed example_hdr (quiet_env 0)).1 (St.init UartFlag)
      rfl rfl (by decide) (fun c => by cases c <;> decide),
   (handler_irq_external_none_claimed example_hdr (quiet_env 0)).2 (St.init GpioFlag)
      rfl rfl (by decide) (fun c => by cases c <;> decide)⟩

/-- C7: when `handle_uart_isr` (`handle_gpio_isr`) is entered with the id of a cause and
returns, the flag of that cause was false and is now true, and every other flag has the value it
had. The ids are assumed pairwise different. -/
theorem handle_isr_frame (h : Hdr) (env : Env) :
    (∀ (c : dif_uart_irq_t) (s s' : St UartFlag), Uart.ids_distinct h →
      Uart.handle_uart_isr h env (Uart.irq_id h c) s = .ret () s' →
      s.flags (Uart.flag_of c) = false ∧ s'.flags (Uart.flag_of c) = true ∧
        ∀ f, f ≠ Uart.flag_of c → s'.flags f = s.flags f) ∧
    (∀ (c : dif_gpio_irq_trigger_t) (s s' : St GpioFlag),
      h.kTopAthosPlicIrqIdGpioGpio0 ≠ h.kTopAthosPlicIrqIdGpioGpio1 →
      Gpio.handle_gpio_isr h env (Gpio.irq_id h c) s = .ret () s' →
      s.flags (Gpio.flag_of c) = false ∧ s'.flags (Gpio.flag_of c) = true ∧
        ∀ f, f ≠ Gpio.flag_of c → s'.flags f = s.flags f) := by
  constructor
  · intro c s s' hd hret
    rw [Uart.handle_uart_isr_eq, Uart.uart_rows_irq_id h hd, handle_row_some] at hret
    split_ifs at hret with h1 h2
    cases hret
    refine ⟨by simpa using h1, by simp, fun f hf => by simp [Function.update, hf]⟩
  · intro c s s' hd hret
    rw [Gpio.handle_gpio_isr_eq, Gpio.gpio_rows_irq_id h hd, handle_row_some] at hret
    split_ifs at hret with h1 h2
    cases hret
    refine ⟨by simpa using h1, by simp, fun f hf => by simp [Function.update, hf]⟩

theorem handle_isr_frame_witness :
    ((St.init UartFlag).flags .uart_rx_overflow_handled = false ∧
      (Uart.handle_uart_isr example_hdr (quiet_env 36) 36 (St.init UartFlag)).st.flags
        .uart_rx_overflow_handled = true ∧
      ∀ f, f ≠ .uart_rx_overflow_handled →
        (Uart.handle_uart_isr example_hdr (quiet_env 36) 36 (St.init UartFlag)).st.flags f =
          (St.init UartFlag).flags f) ∧
    ((St.init GpioFlag).flags .gpio_gpio0 = false ∧
      (Gpio.handle_gpio_isr example_hdr (quiet_env 1) 1 (St.init GpioFlag)).st.flags
        .gpio_gpio0 = true ∧
      ∀ f, f ≠ .gpio_gpio0 →
        (Gpio.handle_gpio_isr example_hdr (quiet_env 1) 1 (St.init GpioFlag)).st.flags f =
          (St.init GpioFlag).flags f) :=
  ⟨(handle_isr_frame example_hdr (quiet_env 36)).1 .kDifUartIrqRxOverflow (St.init UartFlag)
      (Uart.handle_uart_isr example_hdr (quiet_env 36) 36 (St.init UartFlag)).st
      (by decide) rfl,
   (handle_isr_frame example_hdr (quiet_env 1)).2 .kDifGpioIrqTriggerEdgeRising (St.init GpioFlag)
      (Gpio.handle_gpio_isr example_hdr (quiet_env 1) 1 (St.init GpioFlag)).st
      (by decide) rfl⟩

section TraceLemmas
variable {F : Type}

theorem isr_only_nil : isr_only ([] : List (Event F)) := by
  intro e he; cases he

theorem isr_only_append {a b : List (Event F)} (ha : isr_only a) (hb : isr_only b) :
    isr_only (a ++ b) := by
  intro e he
  rcases List.mem_append.1 he with h | h
  · exact ha e h
  · exact hb e h

theorem isr_only_block (h : Hdr) (x : Row F × Nat) : isr_only (block h x) := by
  intro e he
  simp [block] at he
  rcases he with rfl | rfl | rfl | rfl | rfl <;> rfl

theorem isr_only_blocks (h : Hdr) (xs : List (Row F × Nat)) : isr_only (blocks h xs) := by
  induction xs with
  | nil => exact isr_only_nil
  | cons x xs ih => exact isr_only_append (isr_only_block h x) ih

theorem main_ops_isr_only {t : List (Event F)} (ht : isr_only t) : main_ops t = [] := by
  induction t with
  | nil => rfl
  | cons e t ih =>
    have he : e.ctx = .isr := ht e (List.mem_cons_self _ _)
    have ht' : isr_only t := fun x hx => ht x (List.mem_cons_of_mem _ hx)
    simp [main_ops, List.filterMap_cons, he] at ih ⊢
    exact ih ht'

theorem main_ops_append (a b : List (Event F)) : main_ops (a ++ b) = main_ops a ++ main_ops b := by
  simp [main_ops]

end TraceLemmas

section GapLemmas
variable {F : Type} [DecidableEq F]

/-- Whatever a handler run does, it only appends handler events and never clears a flag. -/
theorem router_any (h : Hdr) (env : Env) (expected : Nat) (msg : String)
    (rows : Nat → Option (Row F)) (s : St F) :
    ∃ t, (router h env expected msg rows s).st.trace = s.trace ++ t ∧ isr_only t ∧
      ∀ f, s.flags f = true → (router h env expected msg rows s).st.flags f = true := by
  have key : ∀ (r : Res F Unit) (t : List (Event F)) (fl : F → Bool),
      r.st = ⟨fl, s.trace ++ t⟩ → isr_only t → (∀ f, s.flags f = true → fl f = true) →
      ∃ t, r.st.trace = s.trace ++ t ∧ isr_only t ∧ ∀ f, s.flags f = true → r.st.flags f = true := by
    intro r t fl hr ht hfl
    exact ⟨t, by rw [hr], ht, by rw [hr]; exact hfl⟩
  have hup : ∀ g : F, ∀ f, s.flags f = true → Function.update s.flags g true f = true := by
    intro g f hf
    by_cases hfg : f = g
    · subst hfg; simp
    · simp [Function.update, hfg, hf]
  have hio : ∀ l : List (Event F), (∀ e ∈ l, e.ctx = .isr) → isr_only l := fun l hl => hl
  rw [router_apply]
  by_cases h0 : env.status s.trace.length = .kOk
  swap
  · simp only [h0, if_false]
    exact key _ _ _ rfl (hio _ (by simp)) (fun f hf => hf)
  simp only [h0, if_true]
  cases hp : h.top_athos_plic_interrupt_for_peripheral[env.claimed s.trace.length]? with
  | none => exact key _ _ _ rfl (hio _ (by simp)) (fun f hf => hf)
  | some p =>
    simp only []
    by_cases h1 : p = expected
    swap
    · simp only [h1, if_false]
      exact key _ _ _ rfl (hio _ (by simp)) (fun f hf => hf)
    simp only [h1, if_true]
    cases hr : rows (env.claimed s.trace.length) with
    | none => exact key _ _ _ rfl (hio _ (by simp)) (fun f hf => hf)
    | some r =>
      simp only []
      by_cases h2 : s.flags r.flag = true
      · simp only [h2, if_true]
        exact key _ _ _ rfl (hio _ (by simp)) (fun f hf => hf)
      simp only [h2, if_false]
      by_cases h3 : env.status (s.trace.length + 3) = .kOk
      swap
      · simp only [h3, if_false]
        exact key _ _ _ rfl (hio _ (by simp)) (hup _)
      simp only [h3, if_true]
      by_cases h4 : env.status (s.trace.length + 4) = .kOk
      · simp only [h4, if_true]
        exact key _ _ _ rfl (hio _ (by simp)) (hup _)
      · simp only [h4, if_false]
        exact key _ _ _ rfl (hio _ (by simp)) (hup _)

omit [DecidableEq F] in
theorem irqs_zero (isr : M F Unit) (s : St F) : irqs isr 0 s = .ret () s := rfl

omit [DecidableEq F] in
theorem irqs_succ (isr : M F Unit) (n : Nat) (s : St F) :
    irqs isr (n + 1) s = match isr s with
      | .ret _ s1 => irqs isr n s1
      | .abort e s1 => .abort e s1
      | .undef s1 => .undef s1 := by
  rw [irqs, bind_apply]
  cases isr s <;> rfl

theorem irqs_any (h : Hdr) (env : Env) (expected : Nat) (msg : String)
    (rows : Nat → Option (Row F)) (n : Nat) (s : St F) :
    ∃ t, (irqs (router h env expected msg rows) n s).st.trace = s.trace ++ t ∧ isr_only t ∧
      ∀ f, s.flags f = true → (irqs (router h env expected msg rows) n s).st.flags f = true := by
  induction n generalizing s with
  | zero => exact ⟨[], by simp [irqs_zero, Res.st], isr_only_nil, fun f hf => hf⟩
  | succ n ih =>
    obtain ⟨t, ht, hi, hm⟩ := router_any h env expected msg rows s
    rw [irqs_succ]
    cases hr : router h env expected msg rows s with
    | ret a s1 =>
      rw [hr] at ht hm
      obtain ⟨t', ht', hi', hm'⟩ := ih s1
      refine ⟨t ++ t', ?_, isr_only_append hi hi', fun f hf => hm' f (hm f hf)⟩
      simp only [Res.st] at ht
      rw [ht', ht, List.append_assoc]
    | abort e s1 =>
      rw [hr] at ht hm
      exact ⟨t, ht, hi, hm⟩
    | undef s1 =>
      rw [hr] at ht hm
      exact ⟨t, ht, hi, hm⟩

theorem irqs_ret (h : Hdr) (env : Env) (expected : Nat) (msg : String)
    (rows : Nat → Option (Row F)) (n : Nat) (s s' : St F)
    (hret : irqs (router h env expected msg rows) n s = .ret () s') :
    ∃ xs : List (Row F × Nat), s'.trace = s.trace ++ blocks h xs ∧
      (∀ x ∈ xs, rows x.2 = some x.1) ∧
      ∀ f, (s.flags f).toNat + (served xs).count f = (s'.flags f).toNat := by
  induction n generalizing s with
  | zero =>
    rw [irqs_zero] at hret
    cases hret
    exact ⟨[], by simp [blocks], by simp, by simp [served]⟩
  | succ n ih =>
    rw [irqs_succ] at hret
    cases hr : router h env expected msg rows s with
    | ret a s1 =>
      rw [hr] at hret
      obtain ⟨r, hrow, hf0, -, heq⟩ := router_ret h env expected msg rows s (by rw [hr]; rfl)
      rw [hr] at heq
      cases heq
      obtain ⟨xs, ht, hx, hc⟩ := ih _ hret
      refine ⟨(r, env.claimed s.trace.length) :: xs, ?_, ?_, ?_⟩
      · rw [ht]; simp [blocks, block]
      · intro x hxm
        rcases List.mem_cons.1 hxm with rfl | hxm
        · exact hrow
        · exact hx x hxm
      · intro f
        have := hc f
        simp only [served, List.map_cons, List.count_cons] at this ⊢
        by_cases hfr : f = r.flag
        · subst hfr
          simp [hf0] at this ⊢
          omega
        · have hne : ¬ r.flag = f := fun h' => hfr h'.symm
          simp [Function.update, hfr, hne] at this ⊢
          omega
    | abort e s1 => rw [hr] at hret; cases hret
    | undef s1 => rw [hr] at hret; cases hret

end GapLemmas

section RoundLemmas
variable {F : Type} [DecidableEq F]

omit [DecidableEq F] in
theorem bind_ret_iff {α β : Type} (m : M F α) (k : α → M F β) (s s' : St F) (b : β) :
    (m >>= k) s = .ret b s' ↔ ∃ a s1, m s = .ret a s1 ∧ k a s1 = .ret b s' := by
  rw [bind_apply]
  cases m s with
  | ret a s1 =>
    constructor
    · intro hk; exact ⟨a, s1, rfl, hk⟩
    · rintro ⟨a', s1', heq, hk⟩; cases heq; exact hk
  | abort e s1 => simp
  | undef s1 => simp

theorem store_ret_iff (ctx : Ctx) (f : F) (v : Bool) (s s' : St F) (a : Unit) :
    store ctx f v s = .ret a s' ↔
      s' = ⟨Function.update s.flags f v, s.trace ++ [⟨ctx, .store f v⟩]⟩ := by
  simp [store, eq_comm]

omit [DecidableEq F] in
theorem load_ret_iff (ctx : Ctx) (f : F) (s s' : St F) (a : Bool) :
    load ctx f s = .ret a s' ↔
      a = s.flags f ∧ s' = ⟨s.flags, s.trace ++ [⟨ctx, .load f (s.flags f)⟩]⟩ := by
  simp [load, eq_comm]

omit [DecidableEq F] in
theorem drv_ret_iff (env : Env) (ctx : Ctx) (k : Call) (s s' : St F) (a : Status) :
    drv env ctx k s = .ret a s' ↔
      a = env.status s.trace.length ∧
        s' = ⟨s.flags, s.trace ++ [⟨ctx, .call k (env.status s.trace.length)⟩]⟩ := by
  simp [drv, eq_comm]

omit [DecidableEq F] in
theorem emit_ret_iff (ctx : Ctx) (op : Op F) (s s' : St F) (a : Unit) :
    emit ctx op s = .ret a s' ↔ s' = ⟨s.flags, s.trace ++ [⟨ctx, op⟩]⟩ := by
  simp [emit, eq_comm]

omit [DecidableEq F] in
theorem CHECK_ret_iff (c : Bool) (m : String) (s s' : St F) (a : Unit) :
    CHECK c m s = .ret a s' ↔ c = true ∧ s' = s := by
  unfold CHECK
  split_ifs with hc <;> simp [hc, eq_comm]

omit [DecidableEq F] in
theorem pure_ret_iff {α : Type} (a b : α) (s s' : St F) :
    (pure a : M F α) s = .ret b s' ↔ b = a ∧ s' = s := by
  simp [pure_apply, eq_comm]

theorem gap_any (h : Hdr) (env : Env) (expected : Nat) (msg : String)
    (rows : Nat → Option (Row F)) (s : St F) :
    ∃ t, (gap (router h env expected msg rows) env s).st.trace = s.trace ++ t ∧ isr_only t ∧
      ∀ f, s.flags f = true →
        (gap (router h env expected msg rows) env s).st.flags f = true :=
  irqs_any h env expected msg rows _ s

theorem gap_ret (h : Hdr) (env : Env) (expected : Nat) (msg : String)
    (rows : Nat → Option (Row F)) (s s' : St F) (a : Unit)
    (hret : gap (router h env expected msg rows) env s = .ret a s') :
    ∃ xs : List (Row F × Nat), s'.trace = s.trace ++ blocks h xs ∧
      (∀ x ∈ xs, rows x.2 = some x.1) ∧
      ∀ f, (s.flags f).toNat + (served xs).count f = (s'.flags f).toNat :=
  irqs_ret h env expected msg rows _ s s' hret

omit [DecidableEq F] in
theorem served_append (a b : List (Row F × Nat)) : served (a ++ b) = served a ++ served b := by
  simp [served]

/-- A round that passes: its events, and how often each flag was served. -/
theorem force_round_ret (h : Hdr) (env : Env) (expected : Nat) (msg : String)
    (rows : Nat → Option (Row F)) (f : F) (k : Call) (m1 m2 : String) (s s' : St F)
    (hret : force_round (router h env expected msg rows) env f k m1 m2 s = .ret () s') :
    ∃ l : RoundLog F, s'.trace = s.trace ++ round_trace h f k l ∧
      (∀ x ∈ l.before_reset ++ l.in_window, rows x.2 = some x.1) ∧
      (served l.in_window).count f = 1 ∧ s'.flags f = true ∧
      ∀ g, g ≠ f →
        (s.flags g).toNat + (served (l.before_reset ++ l.in_window)).count g =
          (s'.flags g).toNat := by
  simp only [force_round, checked_call, bind_ret_iff, store_ret_iff, load_ret_iff, drv_ret_iff,
    CHECK_main_ret_iff] at hret
  obtain ⟨_, s1, hg0, _, s2, rfl, _, s5, ⟨_, s3, hg1, st, s4, ⟨rfl, rfl⟩, hst, rfl⟩,
    _, s6, hg2, p, s7, ⟨rfl, rfl⟩, hrest⟩ := hret
  obtain ⟨x0, ht0, hr0, hc0⟩ := gap_ret h env expected msg rows _ _ _ hg0
  obtain ⟨x1, ht1, hr1, hc1⟩ := gap_ret h env expected msg rows _ _ _ hg1
  obtain ⟨x2, ht2, hr2, hc2⟩ := gap_ret h env expected msg rows _ _ _ hg2
  have hst' : env.status s3.trace.length = .kOk := by simpa using hst
  simp only [] at ht1 ht2 hc1 hc2
  rw [hst'] at ht2
  cases hp : s6.flags f with
  | false =>
    simp only [hp, Bool.not_false, if_true, bind_ret_iff, emit_ret_iff, load_ret_iff,
      CHECK_main_ret_iff] at hrest
    obtain ⟨_, s8, hg3, _, s9, rfl, _, s10, hg4, v, s11, ⟨rfl, rfl⟩, hv, rfl⟩ := hrest
    obtain ⟨x3, ht3, hr3, hc3⟩ := gap_ret h env expected msg rows _ _ _ hg3
    obtain ⟨x4, ht4, hr4, hc4⟩ := gap_ret h env expected msg rows _ _ _ hg4
    simp only [] at ht3 ht4 hc3 hc4
    refine ⟨⟨false, x0, x1, x2, x3, x4⟩, ?_, ?_, ?_, hv, ?_⟩
    · simp only [ht4, ht3, ht2, ht1, ht0, hv, round_trace, window]
      simp [List.append_assoc]
    · intro x hx
      simp only [RoundLog.in_window, List.mem_append] at hx
      rcases hx with hx | ((hx | hx) | hx) | hx
      · exact hr0 x hx
      · exact hr1 x hx
      · exact hr2 x hx
      · exact hr3 x hx
      · exact hr4 x hx
    · have e1 := hc1 f
      have e2 := hc2 f
      have e3 := hc3 f
      have e4 := hc4 f
      simp only [Function.update_same, hp, hv, Bool.toNat_false, Bool.toNat_true] at e1 e2 e3 e4
      simp only [RoundLog.in_window, served_append, List.count_append]
      omega
    · intro g hg
      have e0 := hc0 g
      have e1 := hc1 g
      have e2 := hc2 g
      have e3 := hc3 g
      have e4 := hc4 g
      simp only [Function.update_noteq hg] at e1
      simp only [RoundLog.in_window, served_append, List.count_append]
      omega
  | true =>
    simp only [hp, Bool.not_true, Bool.false_eq_true, if_false, bind_ret_iff, pure_ret_iff,
      load_ret_iff, CHECK_main_ret_iff] at hrest
    obtain ⟨_, s8, ⟨-, rfl⟩, _, s10, hg4, v, s11, ⟨rfl, rfl⟩, hv, rfl⟩ := hrest
    obtain ⟨x4, ht4, hr4, hc4⟩ := gap_ret h env expected msg rows _ _ _ hg4
    simp only [] at ht4 hc4
    refine ⟨⟨true, x0, x1, x2, [], x4⟩, ?_, ?_, ?_, hv, ?_⟩
    · simp only [ht4, ht2, ht1, ht0, hv, round_trace, window]
      simp [List.append_assoc, blocks]
    · intro x hx
      simp only [RoundLog.in_window, List.mem_append] at hx
      rcases hx with hx | ((hx | hx) | hx) | hx
      · exact hr0 x hx
      · exact hr1 x hx
      · exact hr2 x hx
      · cases hx
      · exact hr4 x hx
    · have e1 := hc1 f
      have e2 := hc2 f
      have e4 := hc4 f
      simp only [Function.update_same, hp, hv, Bool.toNat_false, Bool.toNat_true] at e1 e2 e4
      simp only [RoundLog.in_window, List.append_nil, served_append, List.count_append]
      omega
    · intro g hg
      have e0 := hc0 g
      have e1 := hc1 g
      have e2 := hc2 g
      have e4 := hc4 g
      simp only [Function.update_noteq hg] at e1
      simp only [RoundLog.in_window, List.append_nil, served_append, List.count_append]
      omega

end RoundLemmas

theorem bind_pure_unit {F : Type} (m : M F Unit) :
    (m >>= fun _ => (pure () : M F Unit)) = m := by
  funext s
  rw [bind_apply]
  cases m s <;> rfl

theorem uart_execute_test_eq (h : Hdr) (env : Env) (uart : Ptr) :
    Uart.execute_test h env uart =
      run_rounds (Uart.handler_irq_external h env) env (Uart.causes.map (Uart.round uart)) := by
  simp only [Uart.execute_test, Uart.causes, List.map, Uart.round, run_rounds, Uart.flag_of,
    Uart.force_msg, Uart.not_handled_msg, bind_pure_unit]

theorem gpio_execute_test_eq (h : Hdr) (env : Env) (dev : Ptr) :
    Gpio.execute_test h env dev =
      run_rounds (Gpio.handler_irq_external h env) env (Gpio.causes.map (Gpio.round dev)) := by
  simp only [Gpio.execute_test, Gpio.causes, List.map, Gpio.round, run_rounds, Gpio.flag_of,
    Gpio.force_msg, Gpio.not_handled_msg, bind_pure_unit]

section RunLemmas
variable {F : Type} [DecidableEq F]

theorem run_rounds_ret (h : Hdr) (env : Env) (expected : Nat) (msg : String)
    (rows : Nat → Option (Row F)) (rs : List (F × Call × String × String)) (s s' : St F)
    (hret : run_rounds (router h env expected msg rows) env rs s = .ret () s') :
    ∃ ls : List (RoundLog F), List.Forall₂ (round_ok rows) rs ls ∧
      s'.trace = s.trace ++ rounds_trace h rs ls := by
  induction rs generalizing s with
  | nil =>
    simp only [run_rounds, pure_ret_iff] at hret
    obtain ⟨-, rfl⟩ := hret
    exact ⟨[], List.Forall₂.nil, by simp [rounds_trace]⟩
  | cons r rs ih =>
    simp only [run_rounds, bind_ret_iff] at hret
    obtain ⟨_, s1, h1, h2⟩ := hret
    obtain ⟨l, ht, hrows, hcount, -, -⟩ := force_round_ret h env expected msg rows _ _ _ _ s s1 h1
    obtain ⟨ls, hls, ht'⟩ := ih s1 h2
    refine ⟨l :: ls, List.Forall₂.cons ⟨hcount, hrows⟩ hls, ?_⟩
    rw [ht', ht]
    simp [rounds_trace, List.append_assoc]

omit [DecidableEq F] in
theorem main_ops_round_trace (h : Hdr) (f : F) (k : Call) (l : RoundLog F) :
    main_ops (round_trace h f k l) = round_ops f k l.polled := by
  simp only [round_trace, window, main_ops_append, main_ops_isr_only (isr_only_blocks h _)]
  cases l.polled <;> simp [main_ops, round_ops]

theorem main_ops_rounds_trace (h : Hdr) (rows : Nat → Option (Row F))
    (rs : List (F × Call × String × String)) (ls : List (RoundLog F))
    (hls : List.Forall₂ (round_ok rows) rs ls) :
    main_ops (rounds_trace h rs ls) =
      rounds_ops (rs.map fun r => (r.1, r.2.1)) (ls.map fun l => l.polled) := by
  induction hls with
  | nil => simp [rounds_trace, rounds_ops, main_ops]
  | cons hr _ ih =>
    simp only [rounds_trace, main_ops_append, main_ops_round_trace, List.map_cons, rounds_ops, ih]

end RunLemmas

/-- C8: in every run of `execute_test` that returns, the operations of the main flow are, for
the eight UART causes in the order RxParityErr, RxTimeout, RxBreakErr, RxFrameErr, RxOverflow,
TxEmpty, RxWatermark, TxWatermark (for the two GPIO causes in the order falling, rising), the
round of that cause and nothing else: the store of false to the flag of the cause, the force of
the cause returning OK, the poll of the flag (followed by `usleep(10)` when it read false), and
the read of the flag by the assertion, which read true. -/
theorem execute_test_order (h : Hdr) (env : Env) (dev : Ptr) :
    (∀ s : St UartFlag, (Uart.execute_test h env dev s).returned = true →
      ∃ ps : List Bool, ps.length = 8 ∧
        main_ops ((Uart.execute_test h env dev s).added s) =
          rounds_ops (Uart.causes.map fun c => (Uart.flag_of c, .dif_uart_irq_force dev c)) ps) ∧
    (∀ s : St GpioFlag, (Gpio.execute_test h env dev s).returned = true →
      ∃ ps : List Bool, ps.length = 2 ∧
        main_ops ((Gpio.execute_test h env dev s).added s) =
          rounds_ops (Gpio.causes.map fun c => (Gpio.flag_of c, .dif_gpio_irq_force dev c)) ps) := by
  constructor
  · intro s hret
    rw [uart_execute_test_eq, Uart.uart_handler_eq_router] at hret ⊢
    cases hr : run_rounds _ env (Uart.causes.map (Uart.round dev)) s with
    | ret a s' =>
      obtain ⟨ls, hls, ht⟩ := run_rounds_ret h env _ _ _ _ s s' hr
      refine ⟨ls.map fun l => l.polled, ?_, ?_⟩
      · rw [List.length_map, ← hls.length_eq]; rfl
      · rw [added_of_trace (Res.ret a s') s _ ht, main_ops_rounds_trace h _ _ _ hls]
        rfl
    | abort e s' => rw [hr] at hret; cases hret
    | undef s' => rw [hr] at hret; cases hret
  · intro s hret
    rw [gpio_execute_test_eq, Gpio.gpio_handler_eq_router] at hret ⊢
    cases hr : run_rounds _ env (Gpio.causes.map (Gpio.round dev)) s with
    | ret a s' =>
      obtain ⟨ls, hls, ht⟩ := run_rounds_ret h env _ _ _ _ s s' hr
      refine ⟨ls.map fun l => l.polled, ?_, ?_⟩
      · rw [List.length_map, ← hls.length_eq]; rfl
      · rw [added_of_trace (Res.ret a s') s _ ht, main_ops_rounds_trace h _ _ _ hls]
        rfl
    | abort e s' => rw [hr] at hret; cases hret
    | undef s' => rw [hr] at hret; cases hret

set_option maxRecDepth 8000 in
theorem execute_test_order_witness :
    (∃ ps : List Bool, ps.length = 8 ∧
      main_ops ((Uart.execute_test example_hdr (passing_env 40) .uart0
          (St.init UartFlag)).added (St.init UartFlag)) =
        rounds_ops (Uart.causes.map fun c => (Uart.flag_of c, .dif_uart_irq_force .uart0 c))
          ps) ∧
    (∃ ps : List Bool, ps.length = 2 ∧
      main_ops ((Gpio.execute_test example_hdr (passing_env 2) .gpio
          (St.init GpioFlag)).added (St.init GpioFlag)) =
        rounds_ops (Gpio.causes.map fun c => (Gpio.flag_of c, .dif_gpio_irq_force .gpio c))
          ps) :=
  ⟨(execute_test_order example_hdr (passing_env 40) .uart0).1 (St.init UartFlag) (by
      simp [Uart.execute_test, force_round, checked_call, CHECK_main_apply, gap, bind_apply,
        store, load, drv,
        CHECK, emit, irqs, Uart.uart_handler_eq_router, router_apply, passing_env, example_hdr,
        St.init, Uart.uart_rows, Res.returned, pure_apply, Function.update]),
   (execute_test_order example_hdr (passing_env 2) .gpio).2 (St.init GpioFlag) (by
      simp [Gpio.execute_test, force_round, checked_call, CHECK_main_apply, gap, bind_apply,
        store, load, drv,
        CHECK, emit, irqs, Gpio.gpio_handler_eq_router, router_apply, passing_env, example_hdr,
        St.init, Gpio.gpio_rows, Res.returned, pure_apply, Function.update])⟩

section WindowLemmas
variable {F : Type} [DecidableEq F]

theorem touches_isr_only (f : F) {t : List (Event F)} (ht : isr_only t) :
    ∀ e ∈ t, touches f e = false := by
  intro e he
  simp [touches, ht e he]

theorem touches_round_trace (h : Hdr) (f g : F) (k : Call) (l : RoundLog F) (hg : g ≠ f) :
    ∀ e ∈ round_trace h f k l, touches g e = false := by
  have hfg : ¬ f = g := fun h' => hg h'.symm
  intro e he
  simp only [round_trace, window, List.mem_append, List.mem_singleton] at he
  rcases he with ((he | rfl) | ((((((he | rfl) | he) | rfl) | he) | he) | he)) | rfl
  · exact touches_isr_only g (isr_only_blocks h _) e he
  · simp [touches, hfg]
  · exact touches_isr_only g (isr_only_blocks h _) e he
  · simp [touches]
  · exact touches_isr_only g (isr_only_blocks h _) e he
  · simp [touches, hfg]
  · exact touches_isr_only g (isr_only_blocks h _) e he
  · split_ifs at he
    · cases he
    · simp only [List.mem_singleton] at he
      subst he
      simp [touches]
  · exact touches_isr_only g (isr_only_blocks h _) e he
  · simp [touches, hfg]

theorem touches_rounds_trace (h : Hdr) (g : F) (rs : List (F × Call × String × String))
    (ls : List (RoundLog F)) (hg : g ∉ rs.map (fun r => r.1)) :
    ∀ e ∈ rounds_trace h rs ls, touches g e = false := by
  induction rs generalizing ls with
  | nil => intro e he; simp [rounds_trace] at he
  | cons r rs ih =>
    cases ls with
    | nil => intro e he; simp [rounds_trace] at he
    | cons l ls =>
      simp only [List.map_cons, List.mem_cons, not_or] at hg
      intro e he
      simp only [rounds_trace, List.mem_append] at he
      rcases he with he | he
      · exact touches_round_trace h r.1 g r.2.1 l hg.1 e he
      · exact ih ls hg.2 e he

/-- In the trace of passing rounds with pairwise different flags, every round has its window:
the reset of its flag is the first and the assertion the last access of the main flow to that
flag. -/
theorem window_of_round (h : Hdr) (rows : Nat → Option (Row F))
    (rs : List (F × Call × String × String)) (ls : List (RoundLog F))
    (hls : List.Forall₂ (round_ok rows) rs ls) (hnd : (rs.map fun r => r.1).Nodup) :
    ∀ r ∈ rs, ∃ l pre post, round_ok rows r l ∧
      rounds_trace h rs ls =
        pre ++ [⟨.main, .store r.1 false⟩] ++ window h r.1 r.2.1 l ++
          [⟨.main, .load r.1 true⟩] ++ post ∧
      (∀ e ∈ pre, touches r.1 e = false) ∧ (∀ e ∈ post, touches r.1 e = false) := by
  induction hls with
  | nil => intro r hr; cases hr
  | @cons r0 l0 rs ls h0 _ ih =>
    simp only [List.map_cons, List.nodup_cons] at hnd
    intro r hr
    rcases List.mem_cons.1 hr with rfl | hr
    · refine ⟨l0, blocks h l0.before_reset, rounds_trace h rs ls, h0, ?_, ?_, ?_⟩
      · simp [rounds_trace, round_trace, List.append_assoc]
      · exact touches_isr_only _ (isr_only_blocks h _)
      · exact touches_rounds_trace h _ rs ls hnd.1
    · obtain ⟨l, pre, post, hok, ht, hpre, hpost⟩ := ih hnd.2 r hr
      refine ⟨l, round_trace h r0.1 r0.2.1 l0 ++ pre, post, hok, ?_, ?_, hpost⟩
      · simp only [rounds_trace, ht, List.append_assoc]
      · intro e he
        rcases List.mem_append.1 he with he | he
        · refine touches_round_trace h r0.1 r.1 r0.2.1 l0 ?_ e he
          intro hrr
          exact hnd.1 (hrr ▸ List.mem_map_of_mem (fun r => r.1) hr)
        · exact hpre e he

omit [DecidableEq F] in
theorem blocks_append (h : Hdr) (xs ys : List (Row F × Nat)) :
    blocks h (xs ++ ys) = blocks h xs ++ blocks h ys := by
  induction xs with
  | nil => rfl
  | cons x xs ih => simp [blocks, ih, List.append_assoc]

theorem runs_of_blocks (h : Hdr) (f : F) (xs : List (Row F × Nat)) :
    runs_of f (blocks h xs) = (served xs).count f := by
  induction xs with
  | nil => rfl
  | cons x xs ih =>
    simp only [runs_of] at ih
    simp only [runs_of, blocks, block, served, List.map_cons, List.count_cons,
      List.countP_append, ih]
    by_cases hx : x.1.flag = f
    · simp [List.countP_cons, hx, served]; omega
    · simp [List.countP_cons, hx, served]

theorem sets_of_blocks (h : Hdr) (f : F) (xs : List (Row F × Nat)) :
    sets_of f (blocks h xs) = (served xs).count f := by
  induction xs with
  | nil => rfl
  | cons x xs ih =>
    simp only [sets_of] at ih
    simp only [sets_of, blocks, block, served, List.map_cons, List.count_cons,
      List.countP_append, ih]
    by_cases hx : x.1.flag = f
    · simp [List.countP_cons, hx, served]; omega
    · simp [List.countP_cons, hx, served]

/-- The calls `k` in a sequence of dispatches, when `k` is the acknowledge of exactly the rows
with flag `f`. -/
theorem calls_of_blocks (h : Hdr) (f : F) (k : Call) (xs : List (Row F × Nat))
    (hk : ∀ x ∈ xs, (x.1.ack = k ↔ x.1.flag = f))
    (hclaim : ∀ p t i, Call.dif_plic_irq_claim p t i ≠ k)
    (hcomplete : ∀ p t i, Call.dif_plic_irq_complete p t i ≠ k) :
    calls_of k (blocks h xs) = (served xs).count f := by
  induction xs with
  | nil => rfl
  | cons x xs ih =>
    have ih' := ih (fun y hy => hk y (List.mem_cons_of_mem _ hy))
    have hx := hk x (List.mem_cons_self _ _)
    simp only [calls_of] at ih'
    simp only [calls_of, blocks, block, served, List.map_cons, List.count_cons,
      List.countP_append, ih']
    by_cases hxf : x.1.flag = f
    · simp [List.countP_cons, hxf, served, hx.2 hxf, hclaim, hcomplete]; omega
    · have hxa : ¬ x.1.ack = k := fun h' => hxf (hx.1 h')
      simp [List.countP_cons, hxf, served, hxa, hclaim, hcomplete]

/-- Inside the window of a passing round the handler served the flag of the round exactly
once, and the main flow did not write the flag. -/
theorem window_counts (h : Hdr) (f : F) (kf k : Call) (l : RoundLog F)
    (hcount : (served l.in_window).count f = 1)
    (hk : ∀ x ∈ l.in_window, (x.1.ack = k ↔ x.1.flag = f))
    (hclaim : ∀ p t i, Call.dif_plic_irq_claim p t i ≠ k)
    (hcomplete : ∀ p t i, Call.dif_plic_irq_complete p t i ≠ k) (hkf : kf ≠ k) :
    runs_of f (window h f kf l) = 1 ∧ sets_of f (window h f kf l) = 1 ∧
      calls_of k (window h f kf l) = 1 ∧
      ∀ e ∈ window h f kf l, e.ctx = .main → ∀ v, e.op ≠ .store f v := by
  have hw : ∀ P : Event F → Bool, (∀ e : Event F, e.ctx = .main → P e = false) →
      List.countP P (window h f kf l) = List.countP P (blocks h l.in_window) := by
    intro P hP
    simp only [window, RoundLog.in_window, blocks_append, List.countP_append]
    cases l.polled <;> simp [List.countP_cons, hP]
  refine ⟨?_, ?_, ?_, ?_⟩
  · unfold runs_of
    rw [hw _ (fun e he => by simp [he])]
    exact (runs_of_blocks h f _).trans hcount
  · unfold sets_of
    rw [hw _ (fun e he => by simp [he])]
    exact (sets_of_blocks h f _).trans hcount
  · have : calls_of k (window h f kf l) = calls_of k (blocks h l.in_window) := by
      simp only [calls_of, window, RoundLog.in_window, blocks_append, List.countP_append]
      cases l.polled <;> simp [List.countP_cons, hkf]
    rw [this, calls_of_blocks h f k _ hk hclaim hcomplete]
    exact hcount
  · intro e he hmain v hop
    simp only [window, List.mem_append, List.mem_singleton] at he
    rcases he with (((((he | rfl) | he) | rfl) | he) | he) | he
    · exact absurd (isr_only_blocks h _ e he) (by rw [hmain]; decide)
    · cases hop
    · exact absurd (isr_only_blocks h _ e he) (by rw [hmain]; decide)
    · cases hop
    · exact absurd (isr_only_blocks h _ e he) (by rw [hmain]; decide)
    · split_ifs at he
      · cases he
      · simp only [List.mem_singleton] at he
        subst he
        cases hop
    · exact absurd (isr_only_blocks h _ e he) (by rw [hmain]; decide)

end WindowLemmas

theorem uart_flag_of_injective : Function.Injective Uart.flag_of := by
  intro a b hab
  cases a <;> cases b <;> first | rfl | cases hab

theorem gpio_flag_of_injective : Function.Injective Gpio.flag_of := by
  intro a b hab
  cases a <;> cases b <;> first | rfl | cases hab

theorem uart_round_mem (dev : Ptr) (c : dif_uart_irq_t) :
    Uart.round dev c ∈ Uart.causes.map (Uart.round dev) := by
  apply List.mem_map_of_mem
  cases c <;> simp [Uart.causes]

theorem gpio_round_mem (dev : Ptr) (c : dif_gpio_irq_trigger_t) :
    Gpio.round dev c ∈ Gpio.causes.map (Gpio.round dev) := by
  apply List.mem_map_of_mem
  cases c <;> simp [Gpio.causes]

theorem uart_rounds_nodup (dev : Ptr) :
    ((Uart.causes.map (Uart.round dev)).map fun r => r.1).Nodup := by
  simp only [Uart.causes, Uart.round, List.map, Uart.flag_of]
  decide

theorem gpio_rounds_nodup (dev : Ptr) :
    ((Gpio.causes.map (Gpio.round dev)).map fun r => r.1).Nodup := by
  simp only [Gpio.causes, Gpio.round, List.map, Gpio.flag_of]
  decide

/-- C2: in every run of `execute_test` that returns, whatever the interrupt did and whenever it
fired, the events of the run split for every cause `c` under test into what came before the reset
of the flag of `c`, the reset, the window, the assertion on the flag (which read true), and what
came after; the main flow does not access the flag before the reset or after the assertion and
does not write it inside the window; and inside the window the handler served `c` exactly once:
one read of the flag by the handler, one store of true, one acknowledge of `c`. -/
theorem execute_test_serves_once (h : Hdr) (env : Env) (dev : Ptr) :
    (∀ s : St UartFlag, (Uart.execute_test h env dev s).returned = true →
      ∀ c : dif_uart_irq_t, ∃ pre win post,
        (Uart.execute_test h env dev s).added s =
          pre ++ [⟨.main, .store (Uart.flag_of c) false⟩] ++ win ++
            [⟨.main, .load (Uart.flag_of c) true⟩] ++ post ∧
        (∀ e ∈ pre, touches (Uart.flag_of c) e = false) ∧
        (∀ e ∈ post, touches (Uart.flag_of c) e = false) ∧
        (∀ e ∈ win, e.ctx = .main → ∀ v, e.op ≠ .store (Uart.flag_of c) v) ∧
        runs_of (Uart.flag_of c) win = 1 ∧ sets_of (Uart.flag_of c) win = 1 ∧
        calls_of (.dif_uart_irq_acknowledge .uart0 c) win = 1) ∧
    (∀ s : St GpioFlag, (Gpio.execute_test h env dev s).returned = true →
      ∀ c : dif_gpio_irq_trigger_t, ∃ pre win post,
        (Gpio.execute_test h env dev s).added s =
          pre ++ [⟨.main, .store (Gpio.flag_of c) false⟩] ++ win ++
            [⟨.main, .load (Gpio.flag_of c) true⟩] ++ post ∧
        (∀ e ∈ pre, touches (Gpio.flag_of c) e = false) ∧
        (∀ e ∈ post, touches (Gpio.flag_of c) e = false) ∧
        (∀ e ∈ win, e.ctx = .main → ∀ v, e.op ≠ .store (Gpio.flag_of c) v) ∧
        runs_of (Gpio.flag_of c) win = 1 ∧ sets_of (Gpio.flag_of c) win = 1 ∧
        calls_of (.dif_gpio_irq_acknowledge .gpio c) win = 1) := by
  constructor
  · intro s hret c
    rw [uart_execute_test_eq, Uart.uart_handler_eq_router] at hret ⊢
    cases hr : run_rounds _ env (Uart.causes.map (Uart.round dev)) s with
    | ret a s' =>
      obtain ⟨ls, hls, ht⟩ := run_rounds_ret h env _ _ _ _ s s' hr
      obtain ⟨l, pre, post, hok, hsplit, hpre, hpost⟩ :=
        window_of_round h _ _ _ hls (uart_rounds_nodup dev) _ (uart_round_mem dev c)
      have hk : ∀ x ∈ l.in_window,
          (x.1.ack = .dif_uart_irq_acknowledge .uart0 c ↔ x.1.flag = Uart.flag_of c) := by
        intro x hx
        obtain ⟨c', -, hx'⟩ := Uart.uart_rows_some h _ _
          (hok.2 x (List.mem_append_right _ hx))
        rw [hx']
        constructor
        · intro hc; cases hc; rfl
        · intro hc; rw [uart_flag_of_injective hc]
      obtain ⟨h1, h2, h3, h4⟩ := window_counts h (Uart.flag_of c)
        (.dif_uart_irq_force dev c) (.dif_uart_irq_acknowledge .uart0 c) l hok.1 hk
        (fun _ _ _ hc => by cases hc) (fun _ _ _ hc => by cases hc) (fun hc => by cases hc)
      refine ⟨pre, window h (Uart.flag_of c) (.dif_uart_irq_force dev c) l, post, ?_, hpre,
        hpost, h4, h1, h2, h3⟩
      rw [added_of_trace (Res.ret a s') s _ ht, hsplit]
      rfl
    | abort e s' => rw [hr] at hret; cases hret
    | undef s' => rw [hr] at hret; cases hret
  · intro s hret c
    rw [gpio_execute_test_eq, Gpio.gpio_handler_eq_router] at hret ⊢
    cases hr : run_rounds _ env (Gpio.causes.map (Gpio.round dev)) s with
    | ret a s' =>
      obtain ⟨ls, hls, ht⟩ := run_rounds_ret h env _ _ _ _ s s' hr
      obtain ⟨l, pre, post, hok, hsplit, hpre, hpost⟩ :=
        window_of_round h _ _ _ hls (gpio_rounds_nodup dev) _ (gpio_round_mem dev c)
      have hk : ∀ x ∈ l.in_window,
          (x.1.ack = .dif_gpio_irq_acknowledge .gpio c ↔ x.1.flag = Gpio.flag_of c) := by
        intro x hx
        obtain ⟨c', -, hx'⟩ := Gpio.gpio_rows_some h _ _
          (hok.2 x (List.mem_append_right _ hx))
        rw [hx']
        constructor
        · intro hc; cases hc; rfl
        · intro hc; rw [gpio_flag_of_injective hc]
      obtain ⟨h1, h2, h3, h4⟩ := window_counts h (Gpio.flag_of c)
        (.dif_gpio_irq_force dev c) (.dif_gpio_irq_acknowledge .gpio c) l hok.1 hk
        (fun _ _ _ hc => by cases hc) (fun _ _ _ hc => by cases hc) (fun hc => by cases hc)
      refine ⟨pre, window h (Gpio.flag_of c) (.dif_gpio_irq_force dev c) l, post, ?_, hpre,
        hpost, h4, h1, h2, h3⟩
      rw [added_of_trace (Res.ret a s') s _ ht, hsplit]
      rfl
    | abort e s' => rw [hr] at hret; cases hret
    | undef s' => rw [hr] at hret; cases hret


set_option maxRecDepth 8000 in
theorem execute_test_serves_once_witness :
    (∃ pre win post,
      (Uart.execute_test example_hdr (passing_env 40) .uart0 (St.init UartFlag)).added
          (St.init UartFlag) =
        pre ++ [⟨.main, .store UartFlag.uart_rx_overflow_handled false⟩] ++ win ++
          [⟨.main, .load UartFlag.uart_rx_overflow_handled true⟩] ++ post ∧
      (∀ e ∈ pre, touches UartFlag.uart_rx_overflow_handled e = false) ∧
      (∀ e ∈ post, touches UartFlag.uart_rx_overflow_handled e = false) ∧
      (∀ e ∈ win, e.ctx = .main → ∀ v, e.op ≠ .store UartFlag.uart_rx_overflow_handled v) ∧
      runs_of UartFlag.uart_rx_overflow_handled win = 1 ∧
      sets_of UartFlag.uart_rx_overflow_handled win = 1 ∧
      calls_of (.dif_uart_irq_acknowledge .uart0 .kDifUartIrqRxOverflow) win = 1) ∧
    (∃ pre win post,
      (Gpio.execute_test example_hdr (passing_env 2) .gpio (St.init GpioFlag)).added
          (St.init GpioFlag) =
        pre ++ [⟨.main, .store GpioFlag.gpio_gpio0 false⟩] ++ win ++
          [⟨.main, .load GpioFlag.gpio_gpio0 true⟩] ++ post ∧
      (∀ e ∈ pre, touches GpioFlag.gpio_gpio0 e = false) ∧
      (∀ e ∈ post, touches GpioFlag.gpio_gpio0 e = false) ∧
      (∀ e ∈ win, e.ctx = .main → ∀ v, e.op ≠ .store GpioFlag.gpio_gpio0 v) ∧
      runs_of GpioFlag.gpio_gpio0 win = 1 ∧ sets_of GpioFlag.gpio_gpio0 win = 1 ∧
      calls_of (.dif_gpio_irq_acknowledge .gpio .kDifGpioIrqTriggerEdgeRising) win = 1) :=
  ⟨(execute_test_serves_once example_hdr (passing_env 40) .uart0).1 (St.init UartFlag) (by
      simp [Uart.execute_test, force_round, checked_call, CHECK_main_apply, gap, bind_apply,
        store, load, drv,
        CHECK, emit, irqs, Uart.uart_handler_eq_router, router_apply, passing_env, example_hdr,
        St.init, Uart.uart_rows, Res.returned, pure_apply, Function.update])
      .kDifUartIrqRxOverflow,
   (execute_test_serves_once example_hdr (passing_env 2) .gpio).2 (St.init GpioFlag) (by
      simp [Gpio.execute_test, force_round, checked_call, CHECK_main_apply, gap, bind_apply,
        store, load, drv,
        CHECK, emit, irqs, Gpio.gpio_handler_eq_router, router_apply, passing_env, example_hdr,
        St.init, Gpio.gpio_rows, Res.returned, pure_apply, Function.update])
      .kDifGpioIrqTriggerEdgeRising⟩

theorem uart_forced_rounds_ops (dev : Ptr) (cs : List dif_uart_irq_t) (ps : List Bool)
    (hlen : ps.length = cs.length) :
    Uart.forced (rounds_ops (cs.map fun c => (Uart.flag_of c, .dif_uart_irq_force dev c)) ps) =
      cs := by
  induction cs generalizing ps with
  | nil => cases ps <;> rfl
  | cons c cs ih =>
    cases ps with
    | nil => cases hlen
    | cons p ps =>
      have := ih ps (by simpa using hlen)
      simp only [Uart.forced] at this
      cases p <;> simp [Uart.forced, rounds_ops, round_ops, List.filterMap_cons, this]

theorem gpio_forced_rounds_ops (dev : Ptr) (cs : List dif_gpio_irq_trigger_t) (ps : List Bool)
    (hlen : ps.length = cs.length) :
    Gpio.forced (rounds_ops (cs.map fun c => (Gpio.flag_of c, .dif_gpio_irq_force dev c)) ps) =
      cs := by
  induction cs generalizing ps with
  | nil => cases ps <;> rfl
  | cons c cs ih =>
    cases ps with
    | nil => cases hlen
    | cons p ps =>
      have := ih ps (by simpa using hlen)
      simp only [Gpio.forced] at this
      cases p <;> simp [Gpio.forced, rounds_ops, round_ops, List.filterMap_cons, this]

theorem uart_forced_of_returned (h : Hdr) (env : Env) (dev : Ptr) (s : St UartFlag)
    (hret : (Uart.execute_test h env dev s).returned = true) :
    Uart.forced (main_ops ((Uart.execute_test h env dev s).added s)) = Uart.causes := by
  rw [uart_execute_test_eq, Uart.uart_handler_eq_router] at hret ⊢
  cases hr : run_rounds _ env (Uart.causes.map (Uart.round dev)) s with
  | ret a s' =>
    obtain ⟨ls, hls, ht⟩ := run_rounds_ret h env _ _ _ _ s s' hr
    rw [added_of_trace (Res.ret a s') s _ ht, main_ops_rounds_trace h _ _ _ hls]
    have hlen : (ls.map fun l => l.polled).length = Uart.causes.length := by
      rw [List.length_map, ← hls.length_eq, List.length_map]
    exact uart_forced_rounds_ops dev Uart.causes _ hlen
  | abort e s' => rw [hr] at hret; cases hret
  | undef s' => rw [hr] at hret; cases hret

theorem gpio_forced_of_returned (h : Hdr) (env : Env) (dev : Ptr) (s : St GpioFlag)
    (hret : (Gpio.execute_test h env dev s).returned = true) :
    Gpio.forced (main_ops ((Gpio.execute_test h env dev s).added s)) = Gpio.causes := by
  rw [gpio_execute_test_eq, Gpio.gpio_handler_eq_router] at hret ⊢
  cases hr : run_rounds _ env (Gpio.causes.map (Gpio.round dev)) s with
  | ret a s' =>
    obtain ⟨ls, hls, ht⟩ := run_rounds_ret h env _ _ _ _ s s' hr
    rw [added_of_trace (Res.ret a s') s _ ht, main_ops_rounds_trace h _ _ _ hls]
    have hlen : (ls.map fun l => l.polled).length = Gpio.causes.length := by
      rw [List.length_map, ← hls.length_eq, List.length_map]
    exact gpio_forced_rounds_ops dev Gpio.causes _ hlen
  | abort e s' => rw [hr] at hret; cases hret
  | undef s' => rw [hr] at hret; cases hret

/-- The driver calls of a run of the common peripheral handler. -/
theorem handle_row_calls {F : Type} [DecidableEq F] (env : Env) (row : Option (Row F))
    (s : St F) :
    driver_calls ((handle_row env row s).added s) =
      match row with
      | none => []
      | some r => if s.flags r.flag = true then []
          else [(r.ack, env.status (s.trace.length + 2))] := by
  cases row with
  | none => simp [handle_row_none, Res.added, Res.st, driver_calls]
  | some r =>
    rw [handle_row_some]
    by_cases hf : s.flags r.flag = true
    · simp [hf, Res.added, Res.st, driver_calls]
    · by_cases h2 : env.status (s.trace.length + 2) = .kOk
      · simp [hf, h2, Res.added, Res.st, driver_calls]
      · simp [hf, h2, Res.added, Res.st, driver_calls]

/-- C3: `handle_uart_isr` entered with the PLIC id named like a UART cause acknowledges that
cause on `uart0` and nothing else (nothing at all when the flag of the cause is already true);
`handle_gpio_isr` does so with id `GpioGpio1` for the falling edge and id `GpioGpio0` for the
rising edge. Whatever the id, a cause that the handler acknowledges is the cause of that id, so
no two ids are mapped to one cause, and different causes have different ids. The causes that a
returning `execute_test` forces are the eight UART causes (the two GPIO causes), each once, and
they are exactly the causes some id is mapped to. The ids are assumed pairwise different. -/
theorem isr_cause_mapping (h : Hdr) (env : Env) :
    (Uart.ids_distinct h →
      (∀ (c : dif_uart_irq_t) (s : St UartFlag),
        driver_calls ((Uart.handle_uart_isr h env (Uart.irq_id h c) s).added s) =
          if s.flags (Uart.flag_of c) = true then []
          else [(.dif_uart_irq_acknowledge .uart0 c, env.status (s.trace.length + 2))]) ∧
      Function.Injective (Uart.irq_id h) ∧
      ∀ (dev : Ptr) (s : St UartFlag), (Uart.execute_test h env dev s).returned = true →
        Uart.forced (main_ops ((Uart.execute_test h env dev s).added s)) = Uart.causes ∧
        Uart.causes.Nodup ∧ Uart.causes.length = 8 ∧
        ∀ c, c ∈ Uart.forced (main_ops ((Uart.execute_test h env dev s).added s)) ↔
          ∃ id s1 st, (Call.dif_uart_irq_acknowledge .uart0 c, st) ∈
            driver_calls ((Uart.handle_uart_isr h env id s1).added s1)) ∧
    (∀ (id : Nat) (s : St UartFlag) (k : Call) (st : Status),
      (k, st) ∈ driver_calls ((Uart.handle_uart_isr h env id s).added s) →
        ∃ c, id = Uart.irq_id h c ∧ k = .dif_uart_irq_acknowledge .uart0 c) ∧
    (h.kTopAthosPlicIrqIdGpioGpio0 ≠ h.kTopAthosPlicIrqIdGpioGpio1 →
      (∀ (c : dif_gpio_irq_trigger_t) (s : St GpioFlag),
        driver_calls ((Gpio.handle_gpio_isr h env (Gpio.irq_id h c) s).added s) =
          if s.flags (Gpio.flag_of c) = true then []
          else [(.dif_gpio_irq_acknowledge .gpio c, env.status (s.trace.length + 2))]) ∧
      Function.Injective (Gpio.irq_id h) ∧
      ∀ (dev : Ptr) (s : St GpioFlag), (Gpio.execute_test h env dev s).returned = true →
        Gpio.forced (main_ops ((Gpio.execute_test h env dev s).added s)) = Gpio.causes ∧
        Gpio.causes.Nodup ∧ Gpio.causes.length = 2 ∧
        ∀ c, c ∈ Gpio.forced (main_ops ((Gpio.execute_test h env dev s).added s)) ↔
          ∃ id s1 st, (Call.dif_gpio_irq_acknowledge .gpio c, st) ∈
            driver_calls ((Gpio.handle_gpio_isr h env id s1).added s1)) ∧
    (∀ (id : Nat) (s : St GpioFlag) (k : Call) (st : Status),
      (k, st) ∈ driver_calls ((Gpio.handle_gpio_isr h env id s).added s) →
        ∃ c, id = Gpio.irq_id h c ∧ k = .dif_gpio_irq_acknowledge .gpio c) := by
  refine ⟨?_, ?_, ?_, ?_⟩
  · intro hd
    have hmap : ∀ (c : dif_uart_irq_t) (s : St UartFlag),
        driver_calls ((Uart.handle_uart_isr h env (Uart.irq_id h c) s).added s) =
          if s.flags (Uart.flag_of c) = true then []
          else [(.dif_uart_irq_acknowledge .uart0 c, env.status (s.trace.length + 2))] := by
      intro c s
      rw [Uart.handle_uart_isr_eq, handle_row_calls, Uart.uart_rows_irq_id h hd]
    refine ⟨hmap, ?_, ?_⟩
    · intro a b hab
      have ha := Uart.uart_rows_irq_id h hd a
      rw [hab, Uart.uart_rows_irq_id h hd b] at ha
      exact (uart_flag_of_injective (by injection ha with ha; injection ha)).symm
    · intro dev s hret
      have hf := uart_forced_of_returned h env dev s hret
      refine ⟨hf, by decide, rfl, ?_⟩
      intro c
      rw [hf]
      constructor
      · intro _
        refine ⟨Uart.irq_id h c, St.init UartFlag, env.status 2, ?_⟩
        rw [hmap]
        simp [St.init]
      · intro _
        cases c <;> simp [Uart.causes]
  · intro id s k st hmem
    rw [Uart.handle_uart_isr_eq, handle_row_calls] at hmem
    cases hr : Uart.uart_rows h id with
    | none => rw [hr] at hmem; cases hmem
    | some r =>
      rw [hr] at hmem
      obtain ⟨c, hid, hrc⟩ := Uart.uart_rows_some h id r hr
      refine ⟨c, hid, ?_⟩
      simp only [] at hmem
      split_ifs at hmem
      · cases hmem
      · simp only [List.mem_singleton, Prod.mk.injEq] at hmem
        rw [hmem.1, hrc]
  · intro hd
    have hmap : ∀ (c : dif_gpio_irq_trigger_t) (s : St GpioFlag),
        driver_calls ((Gpio.handle_gpio_isr h env (Gpio.irq_id h c) s).added s) =
          if s.flags (Gpio.flag_of c) = true then []
          else [(.dif_gpio_irq_acknowledge .gpio c, env.status (s.trace.length + 2))] := by
      intro c s
      rw [Gpio.handle_gpio_isr_eq, handle_row_calls, Gpio.gpio_rows_irq_id h hd]
    refine ⟨hmap, ?_, ?_⟩
    · intro a b hab
      have ha := Gpio.gpio_rows_irq_id h hd a
      rw [hab, Gpio.gpio_rows_irq_id h hd b] at ha
      exact (gpio_flag_of_injective (by injection ha with ha; injection ha)).symm
    · intro dev s hret
      have hf := gpio_forced_of_returned h env dev s hret
      refine ⟨hf, by decide, rfl, ?_⟩
      intro c
      rw [hf]
      constructor
      · intro _
        refine ⟨Gpio.irq_id h c, St.init GpioFlag, env.status 2, ?_⟩
        rw [hmap]
        simp [St.init]
      · intro _
        cases c <;> simp [Gpio.causes]
  · intro id s k st hmem
    rw [Gpio.handle_gpio_isr_eq, handle_row_calls] at hmem
    cases hr : Gpio.gpio_rows h id with
    | none => rw [hr] at hmem; cases hmem
    | some r =>
      rw [hr] at hmem
      obtain ⟨c, hid, hrc⟩ := Gpio.gpio_rows_some h id r hr
      refine ⟨c, hid, ?_⟩
      simp only [] at hmem
      split_ifs at hmem
      · cases hmem
      · simp only [List.mem_singleton, Prod.mk.injEq] at hmem
        rw [hmem.1, hrc]


set_option maxRecDepth 8000 in
theorem isr_cause_mapping_witness :
    (driver_calls ((Uart.handle_uart_isr example_hdr (passing_env 40) 36
        (St.init UartFlag)).added (St.init UartFlag)) =
      [(.dif_uart_irq_acknowledge .uart0 .kDifUartIrqRxOverflow, .kOk)] ∧
     Uart.forced (main_ops ((Uart.execute_test example_hdr (passing_env 40) .uart0
        (St.init UartFlag)).added (St.init UartFlag))) = Uart.causes) ∧
    (driver_calls ((Gpio.handle_gpio_isr example_hdr (passing_env 2) 2
        (St.init GpioFlag)).added (St.init GpioFlag)) =
      [(.dif_gpio_irq_acknowledge .gpio .kDifGpioIrqTriggerEdgeFalling, .kOk)] ∧
     Gpio.forced (main_ops ((Gpio.execute_test example_hdr (passing_env 2) .gpio
        (St.init GpioFlag)).added (St.init GpioFlag))) = Gpio.causes) :=
  ⟨⟨((isr_cause_mapping example_hdr (passing_env 40)).1 (by decide)).1
      .kDifUartIrqRxOverflow (St.init UartFlag),
    (((isr_cause_mapping example_hdr (passing_env 40)).1 (by decide)).2.2 .uart0
      (St.init UartFlag) (by
        simp [Uart.execute_test, force_round, checked_call, CHECK_main_apply, gap, bind_apply,
          store, load, drv,
          CHECK, emit, irqs, Uart.uart_handler_eq_router, router_apply, passing_env,
          example_hdr, St.init, Uart.uart_rows, Res.returned, pure_apply,
          Function.update])).1⟩,
   ⟨((isr_cause_mapping example_hdr (passing_env 2)).2.2.1 (by decide)).1
      .kDifGpioIrqTriggerEdgeFalling (St.init GpioFlag),
    (((isr_cause_mapping example_hdr (passing_env 2)).2.2.1 (by decide)).2.2 .gpio
      (St.init GpioFlag) (by
        simp [Gpio.execute_test, force_round, checked_call, CHECK_main_apply, gap, bind_apply,
          store, load, drv,
          CHECK, emit, irqs, Gpio.gpio_handler_eq_router, router_apply, passing_env,
          example_hdr, St.init, Gpio.gpio_rows, Res.returned, pure_apply,
          Function.update])).1⟩⟩

section AnyLemmas
variable {F : Type} [DecidableEq F]

omit [DecidableEq F] in
theorem main_ops_nil : main_ops ([] : List (Event F)) = [] := rfl

omit [DecidableEq F] in
theorem main_ops_cons_main (op : Op F) (t : List (Event F)) :
    main_ops (⟨.main, op⟩ :: t) = op :: main_ops t := rfl

omit [DecidableEq F] in
/-- A history that ends with events of the handler ends in the handler. -/
theorem ends_in_isr_append (a : List (Event F)) {t : List (Event F)} (ht : isr_only t)
    (hne : t ≠ []) : ends_in_isr (a ++ t) := by
  rw [ends_in_isr, List.getLast?_append_of_ne_nil _ hne]
  cases hl : t.getLast? with
  | none => exact absurd (List.getLast?_eq_none_iff.1 hl) hne
  | some e => exact ⟨e, rfl, ht e (List.mem_of_getLast?_eq_some hl)⟩

omit [DecidableEq F] in
/-- A history whose last event is an event of the main flow does not end in the handler. -/
theorem not_ends_in_isr_of_main {t : List (Event F)} {op : Op F}
    (hl : t.getLast? = some ⟨.main, op⟩) : ¬ ends_in_isr t := by
  rintro ⟨e, he, hc⟩
  rw [hl] at he
  cases he
  cases hc

/-- A handler run appends at least its claim. -/
theorem router_grows (h : Hdr) (env : Env) (expected : Nat) (msg : String)
    (rows : Nat → Option (Row F)) (s : St F) :
    (router h env expected msg rows s).st.trace ≠ s.trace := by
  intro hc
  have hl := congrArg List.length hc
  rw [router_apply] at hl
  split_ifs at hl <;> (try split at hl) <;> (try split_ifs at hl) <;> (try split at hl) <;>
    (try split_ifs at hl) <;> simp [Res.st] at hl

omit [DecidableEq F] in
/-- Interrupts that do not all return: the run ends as the handler run that stopped the test
ended. -/
theorem irqs_stopped (isr : M F Unit) (n : Nat) (s : St F)
    (hr : (irqs isr n s).returned = false) : ∃ s0, irqs isr n s = isr s0 := by
  induction n generalizing s with
  | zero => cases hr
  | succ n ih =>
    rw [irqs_succ] at hr ⊢
    cases hi : isr s with
    | ret a s1 =>
      rw [hi] at hr
      exact ih s1 hr
    | abort e s1 => exact ⟨s, by rw [hi]⟩
    | undef s1 => exact ⟨s, by rw [hi]⟩

/-- Interrupts that do not all return have appended something. -/
theorem irqs_stopped_grows (h : Hdr) (env : Env) (expected : Nat) (msg : String)
    (rows : Nat → Option (Row F)) (n : Nat) (s : St F)
    (hr : (irqs (router h env expected msg rows) n s).returned = false) :
    (irqs (router h env expected msg rows) n s).st.trace ≠ s.trace := by
  induction n generalizing s with
  | zero => cases hr
  | succ n ih =>
    have hg := router_grows h env expected msg rows s
    obtain ⟨t, ht, -, -⟩ := router_any h env expected msg rows s
    rw [irqs_succ] at hr ⊢
    cases hi : router h env expected msg rows s with
    | ret a s1 =>
      rw [hi] at hr ht hg
      simp only [Res.st] at ht hg
      obtain ⟨t', ht', -, -⟩ := irqs_any h env expected msg rows n s1
      simp only []
      rw [ht', ht, List.append_assoc]
      intro hc
      have hne : t ≠ [] := fun h0 => hg (by rw [ht, h0, List.append_nil])
      have h2 : t ++ t' = [] := List.append_cancel_left (hc.trans (List.append_nil _).symm)
      exact hne (List.append_eq_nil.1 h2).1
    | abort e s1 => rw [hi] at hg; exact hg
    | undef s1 => rw [hi] at hg; exact hg

/-- A gap either returns or stops the test; in both cases it appends handler events only and
clears no flag, and when it stops the test it has appended something and ends as a handler run
ends. -/
theorem gap_cases (h : Hdr) (env : Env) (expected : Nat) (msg : String)
    (rows : Nat → Option (Row F)) (s : St F) :
    ∃ t, isr_only t ∧
      ((∃ s1, gap (router h env expected msg rows) env s = .ret () s1 ∧
          s1.trace = s.trace ++ t ∧ ∀ f, s.flags f = true → s1.flags f = true) ∨
       (∃ e s1, gap (router h env expected msg rows) env s = .abort e s1 ∧
          s1.trace = s.trace ++ t ∧ t ≠ [] ∧
          ∃ s0, .abort e s1 = router h env expected msg rows s0) ∨
       (∃ s1, gap (router h env expected msg rows) env s = .undef s1 ∧
          s1.trace = s.trace ++ t ∧ t ≠ [] ∧
          ∃ s0, .undef s1 = router h env expected msg rows s0)) := by
  obtain ⟨t, ht, hi, hm⟩ := gap_any h env expected msg rows s
  refine ⟨t, hi, ?_⟩
  have hst := irqs_stopped (router h env expected msg rows) (env.fires s.trace.length) s
  have hgr := irqs_stopped_grows h env expected msg rows (env.fires s.trace.length) s
  have hne : ∀ s1 : St F, s1.trace = s.trace ++ t → s1.trace ≠ s.trace → t ≠ [] := by
    intro s1 h1 h2 h0
    exact h2 (by rw [h1, h0, List.append_nil])
  change (irqs (router h env expected msg rows) (env.fires s.trace.length) s).returned = false →
    _ at hst
  cases hg : gap (router h env expected msg rows) env s with
  | ret a s1 => rw [hg] at ht hm; exact Or.inl ⟨s1, rfl, ht, hm⟩
  | abort e s1 =>
    have hg' : irqs (router h env expected msg rows) (env.fires s.trace.length) s =
      .abort e s1 := hg
    rw [hg] at ht
    rw [hg'] at hst hgr
    obtain ⟨s0, hs0⟩ := hst rfl
    exact Or.inr (Or.inl ⟨e, s1, rfl, ht, hne s1 ht (hgr rfl), s0, hs0⟩)
  | undef s1 =>
    have hg' : irqs (router h env expected msg rows) (env.fires s.trace.length) s =
      .undef s1 := hg
    rw [hg] at ht
    rw [hg'] at hst hgr
    obtain ⟨s0, hs0⟩ := hst rfl
    exact Or.inr (Or.inr ⟨s1, rfl, ht, hne s1 ht (hgr rfl), s0, hs0⟩)

/-- Every run of a round: it passes, or it is stopped. -/
theorem force_round_any (h : Hdr) (env : Env) (expected : Nat) (msg : String)
    (rows : Nat → Option (Row F)) (f : F) (k : Call) (m1 m2 : String) (s : St F) :
    ∃ t, (force_round (router h env expected msg rows) env f k m1 m2 s).st.trace =
        s.trace ++ t ∧
      (((force_round (router h env expected msg rows) env f k m1 m2 s).returned = true ∧
          (∃ p, main_ops t = round_ops f k p) ∧ t.getLast? = some ⟨.main, .load f true⟩) ∨
       ((force_round (router h env expected msg rows) env f k m1 m2 s).returned = false ∧
          Stopped (router h env expected msg rows) f k m1 m2 t
            (force_round (router h env expected msg rows) env f k m1 m2 s))) := by
  have inisr : ∀ (r : Res F Unit) (t tg : List (Event F)),
      r.returned = false → isr_only tg → tg ≠ [] →
      (∃ s0, r = router h env expected msg rows s0) →
      stopped_in_isr (router h env expected msg rows) r (t ++ tg) := by
    intro r t tg hr hi hne hs0
    exact ⟨hr, ends_in_isr_append t hi hne, hs0⟩
  have stop : ∀ (r : Res F Unit) (t tg : List (Event F)) (p : Bool),
      r.st.trace = s.trace ++ (t ++ tg) → r.returned = false → isr_only tg → tg ≠ [] →
      (∃ s0, r = router h env expected msg rows s0) →
      main_ops t <+: round_ops f k p → main_ops t ≠ round_ops f k p →
      ∃ t, r.st.trace = s.trace ++ t ∧
        ((r.returned = true ∧ (∃ p, main_ops t = round_ops f k p) ∧
            t.getLast? = some ⟨.main, .load f true⟩) ∨
         (r.returned = false ∧ Stopped (router h env expected msg rows) f k m1 m2 t r)) := by
    intro r t tg p ht hr hi hne hs0 hp hpne
    have hm : main_ops (t ++ tg) = main_ops t := by
      rw [main_ops_append, main_ops_isr_only hi, List.append_nil]
    exact ⟨t ++ tg, ht, Or.inr ⟨hr, Or.inl ⟨⟨p, by rw [hm]; exact hp, by rw [hm]; exact hpne⟩,
      inisr r t tg hr hi hne hs0⟩⟩⟩
  simp only [force_round, checked_call, bind_apply]
  -- the gap before the reset
  obtain ⟨t0, hi0, hg0⟩ := gap_cases h env expected msg rows s
  have hm0 := main_ops_isr_only hi0
  rcases hg0 with ⟨s1, hg0, ht0, -⟩ | ⟨e, s1, hg0, ht0, hn0, hs0⟩ | ⟨s1, hg0, ht0, hn0, hs0⟩
  rotate_left
  · rw [hg0]
    exact stop _ [] t0 true (by simpa using ht0) rfl hi0 hn0 hs0 (by simp [main_ops_nil])
      (by simp [main_ops_nil, round_ops])
  · rw [hg0]
    exact stop _ [] t0 true (by simpa using ht0) rfl hi0 hn0 hs0 (by simp [main_ops_nil])
      (by simp [main_ops_nil, round_ops])
  rw [hg0]
  simp only [store]
  -- the gap after the reset
  obtain ⟨t1, hi1, hg1⟩ := gap_cases h env expected msg rows
    ⟨Function.update s1.flags f false, s1.trace ++ [⟨.main, .store f false⟩]⟩
  have hm1 := main_ops_isr_only hi1
  rcases hg1 with ⟨s3, hg1, ht1, -⟩ | ⟨e, s3, hg1, ht1, hn1, hs1⟩ | ⟨s3, hg1, ht1, hn1, hs1⟩
  rotate_left
  · rw [hg1]
    refine stop _ (t0 ++ [⟨.main, .store f false⟩]) t1 true ?_ rfl hi1 hn1 hs1 ?_ ?_
    · simp [Res.st, ht1, ht0]
    · simp [main_ops_append, hm0, main_ops_cons_main, main_ops_nil, round_ops]
    · simp [main_ops_append, hm0, main_ops_cons_main, main_ops_nil, round_ops]
  · rw [hg1]
    refine stop _ (t0 ++ [⟨.main, .store f false⟩]) t1 true ?_ rfl hi1 hn1 hs1 ?_ ?_
    · simp [Res.st, ht1, ht0]
    · simp [main_ops_append, hm0, main_ops_cons_main, main_ops_nil, round_ops]
    · simp [main_ops_append, hm0, main_ops_cons_main, main_ops_nil, round_ops]
  rw [hg1]
  simp only [drv]
  simp only [] at ht1
  -- the force
  by_cases hst : env.status s3.trace.length = .kOk
  swap
  · have hb : (env.status s3.trace.length == Status.kOk) = false := by simpa using hst
    simp only [hb, CHECK_main_fail]
    -- the gap before the abort
    obtain ⟨tf, hif, hgf⟩ := gap_cases h env expected msg rows
      ⟨s3.flags, s3.trace ++ [⟨.main, .call k (env.status s3.trace.length)⟩]⟩
    have hmf := main_ops_isr_only hif
    have hops : main_ops (t0 ++ [⟨.main, .store f false⟩] ++ t1 ++
        [⟨.main, .call k (env.status s3.trace.length)⟩] ++ tf) =
        [.store f false, .call k (env.status s3.trace.length)] := by
      simp [main_ops_append, hm0, hm1, hmf, main_ops_cons_main, main_ops_nil]
    rcases hgf with ⟨s5, hgf, htf, -⟩ | ⟨e, s5, hgf, htf, hnf, hsf⟩ | ⟨s5, hgf, htf, hnf, hsf⟩
    · rw [hgf]
      refine ⟨t0 ++ [⟨.main, .store f false⟩] ++ t1 ++
        [⟨.main, .call k (env.status s3.trace.length)⟩] ++ tf, ?_, Or.inr ⟨rfl, Or.inr (Or.inl
          ⟨env.status s3.trace.length, hst, hops, Or.inl rfl⟩)⟩⟩
      simp [Res.st, htf, ht1, ht0]
    · rw [hgf]
      refine ⟨t0 ++ [⟨.main, .store f false⟩] ++ t1 ++
        [⟨.main, .call k (env.status s3.trace.length)⟩] ++ tf, ?_, Or.inr ⟨rfl, Or.inr (Or.inl
          ⟨env.status s3.trace.length, hst, hops, Or.inr (inisr _ _ tf rfl hif hnf hsf)⟩)⟩⟩
      simp [Res.st, htf, ht1, ht0]
    · rw [hgf]
      refine ⟨t0 ++ [⟨.main, .store f false⟩] ++ t1 ++
        [⟨.main, .call k (env.status s3.trace.length)⟩] ++ tf, ?_, Or.inr ⟨rfl, Or.inr (Or.inl
          ⟨env.status s3.trace.length, hst, hops, Or.inr (inisr _ _ tf rfl hif hnf hsf)⟩)⟩⟩
      simp [Res.st, htf, ht1, ht0]
  simp only [hst, beq_self_eq_true, CHECK_main_pass]
  -- the gap after the force
  obtain ⟨t2, hi2, hg2⟩ := gap_cases h env expected msg rows
    ⟨s3.flags, s3.trace ++ [⟨.main, .call k .kOk⟩]⟩
  have hm2 := main_ops_isr_only hi2
  rcases hg2 with ⟨s6, hg2, ht2, -⟩ | ⟨e, s6, hg2, ht2, hn2, hs2⟩ | ⟨s6, hg2, ht2, hn2, hs2⟩
  rotate_left
  · rw [hg2]
    refine stop _ (t0 ++ [⟨.main, .store f false⟩] ++ t1 ++ [⟨.main, .call k .kOk⟩]) t2
      true ?_ rfl hi2 hn2 hs2 ?_ ?_
    · simp [Res.st, ht2, ht1, ht0]
    · simp [main_ops_append, hm0, hm1, main_ops_cons_main, main_ops_nil, round_ops]
    · simp [main_ops_append, hm0, hm1, main_ops_cons_main, main_ops_nil, round_ops]
  · rw [hg2]
    refine stop _ (t0 ++ [⟨.main, .store f false⟩] ++ t1 ++ [⟨.main, .call k .kOk⟩]) t2
      true ?_ rfl hi2 hn2 hs2 ?_ ?_
    · simp [Res.st, ht2, ht1, ht0]
    · simp [main_ops_append, hm0, hm1, main_ops_cons_main, main_ops_nil, round_ops]
    · simp [main_ops_append, hm0, hm1, main_ops_cons_main, main_ops_nil, round_ops]
  rw [hg2]
  simp only [load]
  simp only [] at ht2
  cases hp : s6.flags f with
  | false =>
    simp only [Bool.not_false, if_true, bind_apply]
    -- the gap after the poll
    obtain ⟨t3, hi3, hg3⟩ := gap_cases h env expected msg rows
      ⟨s6.flags, s6.trace ++ [⟨.main, .load f false⟩]⟩
    have hm3 := main_ops_isr_only hi3
    rcases hg3 with ⟨s8, hg3, ht3, -⟩ | ⟨e, s8, hg3, ht3, hn3, hs3⟩ | ⟨s8, hg3, ht3, hn3, hs3⟩
    rotate_left
    · rw [hg3]
      refine stop _ (t0 ++ [⟨.main, .store f false⟩] ++ t1 ++ [⟨.main, .call k .kOk⟩] ++ t2 ++
        [⟨.main, .load f false⟩]) t3 false ?_ rfl hi3 hn3 hs3 ?_ ?_
      · simp [Res.st, ht3, ht2, ht1, ht0]
      · simp [main_ops_append, hm0, hm1, hm2, main_ops_cons_main, main_ops_nil, round_ops]
      · simp [main_ops_append, hm0, hm1, hm2, main_ops_cons_main, main_ops_nil, round_ops]
    · rw [hg3]
      refine stop _ (t0 ++ [⟨.main, .store f false⟩] ++ t1 ++ [⟨.main, .call k .kOk⟩] ++ t2 ++
        [⟨.main, .load f false⟩]) t3 false ?_ rfl hi3 hn3 hs3 ?_ ?_
      · simp [Res.st, ht3, ht2, ht1, ht0]
      · simp [main_ops_append, hm0, hm1, hm2, main_ops_cons_main, main_ops_nil, round_ops]
      · simp [main_ops_append, hm0, hm1, hm2, main_ops_cons_main, main_ops_nil, round_ops]
    rw [hg3]
    simp only [emit]
    simp only [] at ht3
    -- the gap after the wait
    obtain ⟨t4, hi4, hg4⟩ := gap_cases h env expected msg rows
      ⟨s8.flags, s8.trace ++ [⟨.main, .usleep 10⟩]⟩
    have hm4 := main_ops_isr_only hi4
    rcases hg4 with ⟨s10, hg4, ht4, -⟩ | ⟨e, s10, hg4, ht4, hn4, hs4⟩ |
      ⟨s10, hg4, ht4, hn4, hs4⟩
    rotate_left
    · rw [hg4]
      refine stop _ (t0 ++ [⟨.main, .store f false⟩] ++ t1 ++ [⟨.main, .call k .kOk⟩] ++ t2 ++
        [⟨.main, .load f false⟩] ++ t3 ++ [⟨.main, .usleep 10⟩]) t4 false ?_ rfl hi4 hn4 hs4
        ?_ ?_
      · simp [Res.st, ht4, ht3, ht2, ht1, ht0]
      · simp [main_ops_append, hm0, hm1, hm2, hm3, main_ops_cons_main, main_ops_nil,
          round_ops]
      · simp [main_ops_append, hm0, hm1, hm2, hm3, main_ops_cons_main, main_ops_nil,
          round_ops]
    · rw [hg4]
      refine stop _ (t0 ++ [⟨.main, .store f false⟩] ++ t1 ++ [⟨.main, .call k .kOk⟩] ++ t2 ++
        [⟨.main, .load f false⟩] ++ t3 ++ [⟨.main, .usleep 10⟩]) t4 false ?_ rfl hi4 hn4 hs4
        ?_ ?_
      · simp [Res.st, ht4, ht3, ht2, ht1, ht0]
      · simp [main_ops_append, hm0, hm1, hm2, hm3, main_ops_cons_main, main_ops_nil,
          round_ops]
      · simp [main_ops_append, hm0, hm1, hm2, hm3, main_ops_cons_main, main_ops_nil,
          round_ops]
    rw [hg4]
    simp only [load]
    simp only [] at ht4
    cases hv : s10.flags f with
    | true =>
      simp only [CHECK_main_pass]
      refine ⟨t0 ++ [⟨.main, .store f false⟩] ++ t1 ++ [⟨.main, .call k .kOk⟩] ++ t2 ++
        [⟨.main, .load f false⟩] ++ t3 ++ [⟨.main, .usleep 10⟩] ++ t4 ++
        [⟨.main, .load f true⟩], ?_, Or.inl ⟨rfl, ⟨false, ?_⟩, List.getLast?_concat _⟩⟩
      · simp [Res.st, ht4, ht3, ht2, ht1, ht0]
      · simp [main_ops_append, hm0, hm1, hm2, hm3, hm4, main_ops_cons_main, main_ops_nil,
          round_ops]
    | false =>
      simp only [CHECK_main_fail]
      -- the gap before the abort
      obtain ⟨t5, hi5, hg5⟩ := gap_cases h env expected msg rows
        ⟨s10.flags, s10.trace ++ [⟨.main, .load f false⟩]⟩
      have hm5 := main_ops_isr_only hi5
      have hops : main_ops (t0 ++ [⟨.main, .store f false⟩] ++ t1 ++ [⟨.main, .call k .kOk⟩] ++
          t2 ++ [⟨.main, .load f false⟩] ++ t3 ++ [⟨.main, .usleep 10⟩] ++ t4 ++
          [⟨.main, .load f false⟩] ++ t5) =
          [.store f false, .call k .kOk, .load f false, .usleep 10, .load f false] := by
        simp [main_ops_append, hm0, hm1, hm2, hm3, hm4, hm5, main_ops_cons_main, main_ops_nil]
      rcases hg5 with ⟨s12, hg5, ht5, -⟩ | ⟨e, s12, hg5, ht5, hn5, hs5⟩ |
        ⟨s12, hg5, ht5, hn5, hs5⟩
      · rw [hg5]
        refine ⟨_, ?_, Or.inr ⟨rfl, Or.inr (Or.inr ⟨hops, Or.inl rfl⟩)⟩⟩
        simp [Res.st, ht5, ht4, ht3, ht2, ht1, ht0]
      · rw [hg5]
        refine ⟨_, ?_, Or.inr ⟨rfl, Or.inr (Or.inr
          ⟨hops, Or.inr (inisr _ _ t5 rfl hi5 hn5 hs5)⟩)⟩⟩
        simp [Res.st, ht5, ht4, ht3, ht2, ht1, ht0]
      · rw [hg5]
        refine ⟨_, ?_, Or.inr ⟨rfl, Or.inr (Or.inr
          ⟨hops, Or.inr (inisr _ _ t5 rfl hi5 hn5 hs5)⟩)⟩⟩
        simp [Res.st, ht5, ht4, ht3, ht2, ht1, ht0]
  | true =>
    simp only [Bool.not_true, Bool.false_eq_true, if_false, bind_apply, pure_apply]
    -- the gap between the poll and the assertion
    obtain ⟨t4, hi4, hg4⟩ := gap_cases h env expected msg rows
      ⟨s6.flags, s6.trace ++ [⟨.main, .load f true⟩]⟩
    have hm4 := main_ops_isr_only hi4
    rcases hg4 with ⟨s10, hg4, ht4, hmono⟩ | ⟨e, s10, hg4, ht4, hn4, hs4⟩ |
      ⟨s10, hg4, ht4, hn4, hs4⟩
    rotate_left
    · rw [hg4]
      refine stop _ (t0 ++ [⟨.main, .store f false⟩] ++ t1 ++ [⟨.main, .call k .kOk⟩] ++ t2 ++
        [⟨.main, .load f true⟩]) t4 true ?_ rfl hi4 hn4 hs4 ?_ ?_
      · simp [Res.st, ht4, ht2, ht1, ht0]
      · simp [main_ops_append, hm0, hm1, hm2, main_ops_cons_main, main_ops_nil, round_ops]
      · simp [main_ops_append, hm0, hm1, hm2, main_ops_cons_main, main_ops_nil, round_ops]
    · rw [hg4]
      refine stop _ (t0 ++ [⟨.main, .store f false⟩] ++ t1 ++ [⟨.main, .call k .kOk⟩] ++ t2 ++
        [⟨.main, .load f true⟩]) t4 true ?_ rfl hi4 hn4 hs4 ?_ ?_
      · simp [Res.st, ht4, ht2, ht1, ht0]
      · simp [main_ops_append, hm0, hm1, hm2, main_ops_cons_main, main_ops_nil, round_ops]
      · simp [main_ops_append, hm0, hm1, hm2, main_ops_cons_main, main_ops_nil, round_ops]
    rw [hg4]
    have hv : s10.flags f = true := hmono f hp
    simp only [load, hv, CHECK_main_pass]
    simp only [] at ht4
    refine ⟨t0 ++ [⟨.main, .store f false⟩] ++ t1 ++ [⟨.main, .call k .kOk⟩] ++ t2 ++
      [⟨.main, .load f true⟩] ++ t4 ++ [⟨.main, .load f true⟩], ?_,
      Or.inl ⟨rfl, ⟨true, ?_⟩, List.getLast?_concat _⟩⟩
    · simp [Res.st, ht4, ht2, ht1, ht0]
    · simp [main_ops_append, hm0, hm1, hm2, hm4, main_ops_cons_main, main_ops_nil, round_ops]

end AnyLemmas

section ShapeLemmas
variable {F : Type}

theorem round_ops_split_usleep (f : F) (k : Call) (p : Bool) (pre post : List (Op F)) (n : Nat)
    (hsplit : round_ops f k p = pre ++ .usleep n :: post) :
    p = false ∧ n = 10 ∧ pre = [.store f false, .call k .kOk, .load f false] ∧
      post = [.load f true] := by
  cases p
  · simp only [round_ops, Bool.false_eq_true, if_false, List.cons_append, List.nil_append,
      List.singleton_append] at hsplit
    rcases pre with _ | ⟨a, _ | ⟨b, _ | ⟨c, _ | ⟨d, _ | ⟨e, pre⟩⟩⟩⟩⟩ <;>
      simp at hsplit
    obtain ⟨rfl, rfl, rfl, rfl, rfl⟩ := hsplit
    simp
  · simp only [round_ops, if_true, List.cons_append, List.nil_append, List.append_nil,
      List.singleton_append] at hsplit
    rcases pre with _ | ⟨a, _ | ⟨b, _ | ⟨c, _ | ⟨d, pre⟩⟩⟩⟩ <;> simp at hsplit

theorem round_ops_length (f : F) (k : Call) (p : Bool) : (round_ops f k p).length ≤ 5 := by
  cases p <;> simp [round_ops]

theorem called_round_ops (f : F) (k : Call) (p : Bool) : called (round_ops f k p) = [k] := by
  cases p <;> simp [called, round_ops]

theorem called_append (a b : List (Op F)) : called (a ++ b) = called a ++ called b := by
  simp [called]

/-- The calls of an initial part are an initial part of the calls. -/
theorem called_prefix {a b : List (Op F)} (hp : a <+: b) : called a <+: called b := by
  obtain ⟨c, rfl⟩ := hp
  rw [called_append]
  exact List.prefix_append _ _

theorem Stopped.ops_cases {isr : M F Unit} {f : F} {k : Call} {m1 m2 : String}
    {t : List (Event F)} {r : Res F Unit} (hs : Stopped isr f k m1 m2 t r) :
    (∃ p rest, main_ops t ++ rest = round_ops f k p ∧ rest ≠ [] ∧ stopped_in_isr isr r t) ∨
    (∃ st, st ≠ .kOk ∧ main_ops t = [.store f false, .call k st] ∧
      (r.failure = some (.check m1) ∨ stopped_in_isr isr r t)) ∨
    (main_ops t = [.store f false, .call k .kOk, .load f false, .usleep 10, .load f false] ∧
      (r.failure = some (.check m2) ∨ stopped_in_isr isr r t)) := by
  rcases hs with ⟨⟨p, ⟨rest, hrest⟩, hne⟩, hin⟩ | hs | hs
  · refine Or.inl ⟨p, rest, hrest, ?_, hin⟩
    rintro rfl
    exact hne (by simpa using hrest)
  · exact Or.inr (Or.inl hs)
  · exact Or.inr (Or.inr hs)

/-- A run that was stopped inside the handler was stopped there also when it is seen as the
last part of a longer run. -/
theorem stopped_in_isr_append {isr : M F Unit} {r : Res F Unit} (a : List (Event F))
    {t : List (Event F)} (hs : stopped_in_isr isr r t) : stopped_in_isr isr r (a ++ t) := by
  obtain ⟨hr, ⟨e, he, hc⟩, hs0⟩ := hs
  refine ⟨hr, ⟨e, ?_, hc⟩, hs0⟩
  have hne : t ≠ [] := by
    rintro rfl
    simp at he
  rw [List.getLast?_append_of_ne_nil _ hne, he]

/-- The operations of the main flow in a history whose last event is an operation of the main
flow end with that operation. -/
theorem main_ops_getLast {t : List (Event F)} {op : Op F}
    (hl : t.getLast? = some ⟨.main, op⟩) : (main_ops t).getLast? = some op := by
  obtain ⟨pre, rfl⟩ : ∃ pre, t = pre ++ [⟨.main, op⟩] := by
    rcases List.eq_nil_or_concat t with rfl | ⟨l, x, rfl⟩
    · simp at hl
    · rw [List.concat_eq_append, List.getLast?_concat] at hl
      cases hl
      exact ⟨l, by simp⟩
  rw [main_ops_append]
  exact List.getLast?_concat _

end ShapeLemmas

section AllRuns
variable {F : Type} [DecidableEq F]

/-- Induction over the rounds for every run, passing or not: a property of the events of a run
and of its result holds for every run of `run_rounds` if it holds for no round at all, for a
stopped round, and is kept when a passing round is put in front. -/
theorem run_rounds_induct (h : Hdr) (env : Env) (expected : Nat) (msg : String)
    (rows : Nat → Option (Row F))
    (P : List (F × Call × String × String) → List (Event F) → Res F Unit → Prop)
    (hnil : ∀ s, P [] [] (.ret () s))
    (hstop : ∀ r rs t res, res.returned = false →
      Stopped (router h env expected msg rows) r.1 r.2.1 r.2.2.1 r.2.2.2 t res →
      P (r :: rs) t res)
    (hcons : ∀ r rs p t1 t res, main_ops t1 = round_ops r.1 r.2.1 p →
      t1.getLast? = some ⟨.main, .load r.1 true⟩ → P rs t res → P (r :: rs) (t1 ++ t) res)
    (rs : List (F × Call × String × String)) (s : St F) :
    ∃ t, (run_rounds (router h env expected msg rows) env rs s).st.trace = s.trace ++ t ∧
      P rs t (run_rounds (router h env expected msg rows) env rs s) := by
  induction rs generalizing s with
  | nil => exact ⟨[], by simp [run_rounds, pure_apply, Res.st], hnil s⟩
  | cons r rs ih =>
    obtain ⟨t, ht, hcase⟩ := force_round_any h env expected msg rows r.1 r.2.1 r.2.2.1 r.2.2.2 s
    simp only [run_rounds, bind_apply]
    cases hf : force_round (router h env expected msg rows) env r.1 r.2.1 r.2.2.1 r.2.2.2 s with
    | ret a s1 =>
      rw [hf] at ht hcase
      rcases hcase with ⟨-, ⟨p, hp⟩, hl⟩ | ⟨hret, -⟩
      · obtain ⟨t', ht', hP⟩ := ih s1
        refine ⟨t ++ t', ?_, hcons r rs p t t' _ hp hl hP⟩
        simp only [Res.st] at ht
        rw [ht', ht, List.append_assoc]
      · cases hret
    | abort e s1 =>
      rw [hf] at ht hcase
      rcases hcase with ⟨hret, -⟩ | ⟨hret, hs⟩
      · cases hret
      · exact ⟨t, ht, hstop r rs t _ hret hs⟩
    | undef s1 =>
      rw [hf] at ht hcase
      rcases hcase with ⟨hret, -⟩ | ⟨hret, hs⟩
      · cases hret
      · exact ⟨t, ht, hstop r rs t _ hret hs⟩

/-- What every run of the rounds `rs` satisfies, whether it passes or not. -/
theorem run_rounds_any (h : Hdr) (env : Env) (expected : Nat) (msg : String)
    (rows : Nat → Option (Row F)) (rs : List (F × Call × String × String)) (s : St F) :
    ∃ t, (run_rounds (router h env expected msg rows) env rs s).st.trace = s.trace ++ t ∧
      ((main_ops t).count (.usleep 10) ≤ rs.length ∧ (∀ n, Op.usleep n ∈ main_ops t → n = 10) ∧
        (main_ops t).length ≤ 5 * rs.length) ∧
      (∀ pre post n, main_ops t = pre ++ .usleep n :: post →
        ∃ r ∈ rs, ∃ pre', pre = pre' ++ [.store r.1 false, .call r.2.1 .kOk, .load r.1 false]) ∧
      called (main_ops t) <+: rs.map (fun r => r.2.1) ∧
      (∀ pre f post, main_ops t = pre ++ [.usleep 10, .load f false] ++ post →
        post = [] ∧
          (run_rounds (router h env expected msg rows) env rs s).returned = false ∧
          ∃ r ∈ rs, r.1 = f ∧
            ((run_rounds (router h env expected msg rows) env rs s).failure =
                some (.check r.2.2.2) ∨
              stopped_in_isr (router h env expected msg rows)
                (run_rounds (router h env expected msg rows) env rs s) t)) ∧
      (∀ f, t.getLast? = some ⟨.main, .load f false⟩ →
        ∃ r ∈ rs, r.1 = f ∧
          (run_rounds (router h env expected msg rows) env rs s).failure =
            some (.check r.2.2.2)) := by
  refine run_rounds_induct h env expected msg rows
    (fun rs t res =>
      ((main_ops t).count (.usleep 10) ≤ rs.length ∧ (∀ n, Op.usleep n ∈ main_ops t → n = 10) ∧
        (main_ops t).length ≤ 5 * rs.length) ∧
      (∀ pre post n, main_ops t = pre ++ .usleep n :: post →
        ∃ r ∈ rs, ∃ pre', pre = pre' ++ [.store r.1 false, .call r.2.1 .kOk, .load r.1 false]) ∧
      called (main_ops t) <+: rs.map (fun r => r.2.1) ∧
      (∀ pre f post, main_ops t = pre ++ [.usleep 10, .load f false] ++ post →
        post = [] ∧ res.returned = false ∧ ∃ r ∈ rs, r.1 = f ∧
          (res.failure = some (.check r.2.2.2) ∨
            stopped_in_isr (router h env expected msg rows) res t)) ∧
      (∀ f, t.getLast? = some ⟨.main, .load f false⟩ →
        ∃ r ∈ rs, r.1 = f ∧ res.failure = some (.check r.2.2.2)))
    ?_ ?_ ?_ rs s
  · -- no round
    intro s
    refine ⟨⟨by simp [main_ops_nil], by simp [main_ops_nil], by simp [main_ops_nil]⟩, ?_,
      by simp [called, main_ops_nil], ?_, ?_⟩
    · intro pre post n hsplit
      simp [main_ops_nil] at hsplit
    · intro pre f post hsplit
      simp [main_ops_nil] at hsplit
    · intro f hl
      simp at hl
  · -- a stopped round
    intro r rs t res hret hs
    rcases hs.ops_cases with ⟨p, rest, hrest, hne, hin⟩ | ⟨st, hst, hops, hfail⟩ |
      ⟨hops, hfail⟩
    · have hpre : main_ops t <+: round_ops r.1 r.2.1 p := ⟨rest, hrest⟩
      refine ⟨⟨?_, ?_, ?_⟩, ?_, ?_, ?_, ?_⟩
      · calc (main_ops t).count (.usleep 10) ≤ (round_ops r.1 r.2.1 p).count (.usleep 10) :=
              hpre.sublist.count_le _
          _ ≤ 1 := by cases p <;> simp [round_ops, List.count_cons]
          _ ≤ (r :: rs).length := by simp
      · intro n hn
        have hn' := hpre.subset hn
        cases p <;> simp [round_ops] at hn'
        exact hn'
      · have := hpre.length_le
        have := round_ops_length r.1 r.2.1 p
        simp only [List.length_cons]
        omega
      · intro pre post n hsplit
        rw [hsplit, List.append_assoc, List.cons_append] at hrest
        obtain ⟨-, -, hpre', -⟩ := round_ops_split_usleep _ _ _ _ _ _ hrest.symm
        exact ⟨r, List.mem_cons_self _ _, [], by simpa using hpre'⟩
      · have := called_prefix hpre
        rw [called_round_ops] at this
        exact this.trans ⟨rs.map (fun r => r.2.1), by simp⟩
      · intro pre f post hsplit
        rw [hsplit] at hrest
        simp only [List.append_assoc, List.cons_append, List.nil_append] at hrest
        obtain ⟨-, -, -, hpost⟩ := round_ops_split_usleep _ _ _ _ _ _ hrest.symm
        simp at hpost
      · intro f hl
        exact absurd hin.2.1 (not_ends_in_isr_of_main hl)
    · refine ⟨⟨by simp [hops, List.count_cons], by simp [hops], by simp [hops]; omega⟩, ?_,
        ⟨rs.map (fun r => r.2.1), by simp [hops, called]⟩, ?_, ?_⟩
      · intro pre post n hsplit
        rw [hops] at hsplit
        rcases pre with _ | ⟨a, _ | ⟨b, pre⟩⟩ <;> simp at hsplit
      · intro pre f post hsplit
        rw [hops] at hsplit
        rcases pre with _ | ⟨a, _ | ⟨b, pre⟩⟩ <;> simp at hsplit
      · intro f hl
        have := main_ops_getLast hl
        rw [hops] at this
        simp at this
    · refine ⟨⟨by simp [hops, List.count_cons], by simp [hops], by simp [hops]⟩, ?_,
        ⟨rs.map (fun r => r.2.1), by simp [hops, called]⟩, ?_, ?_⟩
      · intro pre post n hsplit
        rw [hops] at hsplit
        rcases pre with _ | ⟨a, _ | ⟨b, _ | ⟨c, _ | ⟨d, _ | ⟨e, pre⟩⟩⟩⟩⟩ <;> simp at hsplit
        obtain ⟨rfl, rfl, rfl, -, -⟩ := hsplit
        exact ⟨r, List.mem_cons_self _ _, [], by simp⟩
      · intro pre f post hsplit
        rw [hops] at hsplit
        rcases pre with _ | ⟨a, _ | ⟨b, _ | ⟨c, _ | ⟨d, _ | ⟨e, pre⟩⟩⟩⟩⟩ <;> simp at hsplit
        obtain ⟨-, -, -, rfl, rfl⟩ := hsplit
        exact ⟨rfl, hret, r, List.mem_cons_self _ _, rfl, hfail⟩
      · intro f hl
        have hm := main_ops_getLast hl
        rw [hops] at hm
        simp at hm
        subst hm
        rcases hfail with hfail | hin
        · exact ⟨r, List.mem_cons_self _ _, rfl, hfail⟩
        · exact absurd hin.2.1 (not_ends_in_isr_of_main hl)
  · -- a passing round in front
    intro r rs p t1 t res hp hl1 ⟨⟨hcount, hten, hlen⟩, hprec, hcalled, hnot, hlast⟩
    rw [main_ops_append, hp]
    refine ⟨⟨?_, ?_, ?_⟩, ?_, ?_, ?_, ?_⟩
    · rw [List.count_append]
      have : (round_ops r.1 r.2.1 p).count (.usleep 10) ≤ 1 := by
        cases p <;> simp [round_ops, List.count_cons]
      simp only [List.length_cons]
      omega
    · intro n hn
      rcases List.mem_append.1 hn with hn | hn
      · cases p <;> simp [round_ops] at hn
        exact hn
      · exact hten n hn
    · have := round_ops_length r.1 r.2.1 p
      simp only [List.length_append, List.length_cons]
      omega
    · intro pre post n hsplit
      rcases List.append_eq_append_iff.1 hsplit with ⟨a', hpre, hops⟩ | ⟨c', hround, hc⟩
      · obtain ⟨r', hr', pre', hpre'⟩ := hprec a' post n hops
        exact ⟨r', List.mem_cons_of_mem _ hr', round_ops r.1 r.2.1 p ++ pre',
          by rw [hpre, hpre', List.append_assoc]⟩
      · rcases c' with _ | ⟨x, c'⟩
        · simp only [List.nil_append] at hc
          obtain ⟨r', hr', pre', hpre'⟩ := hprec [] post n hc.symm
          simp at hpre'
        · simp only [List.cons_append, List.cons.injEq] at hc
          obtain ⟨rfl, -⟩ := hc
          obtain ⟨-, -, hpre', -⟩ := round_ops_split_usleep _ _ _ _ _ _ hround
          exact ⟨r, List.mem_cons_self _ _, [], by simpa using hpre'⟩
    · rw [called_append, called_round_ops]
      simpa using hcalled
    · intro pre f post hsplit
      rw [List.append_assoc] at hsplit
      have key : ∀ pre', main_ops t = pre' ++ [.usleep 10, .load f false] ++ post →
          post = [] ∧ res.returned = false ∧ ∃ r' ∈ r :: rs, r'.1 = f ∧
            (res.failure = some (.check r'.2.2.2) ∨
              stopped_in_isr (router h env expected msg rows) res (t1 ++ t)) := by
        intro pre' hops
        obtain ⟨hpost, hr, r', hr', hrf, hfail⟩ := hnot pre' f post hops
        refine ⟨hpost, hr, r', List.mem_cons_of_mem _ hr', hrf, ?_⟩
        rcases hfail with hfail | hin
        · exact Or.inl hfail
        · exact Or.inr (stopped_in_isr_append t1 hin)
      rcases List.append_eq_append_iff.1 hsplit with ⟨a', hpre, hops⟩ | ⟨c', hround, hc⟩
      · exact key a' (by simpa using hops)
      · rcases c' with _ | ⟨x, c'⟩
        · simp only [List.nil_append] at hc
          exact key [] (by simpa using hc.symm)
        · simp only [List.cons_append, List.singleton_append, List.cons.injEq] at hc
          obtain ⟨rfl, hc⟩ := hc
          obtain ⟨-, -, -, hpost⟩ := round_ops_split_usleep _ _ _ _ _ _ hround
          subst hpost
          simp at hc
    · intro f hl
      by_cases hne : t = []
      · subst hne
        rw [List.append_nil, hl1] at hl
        simp at hl
      · rw [List.getLast?_append_of_ne_nil _ hne] at hl
        obtain ⟨r', hr', hrf, hfail⟩ := hlast f hl
        exact ⟨r', List.mem_cons_of_mem _ hr', hrf, hfail⟩

end AllRuns

/-- C9, as stated, fails: in the GPIO test and in the UART test started from the reset state,
with the force returning OK and no interrupt before the read that follows the wait, that read
finds the flag still false; the interrupt that fires between that read and the abort runs the
handler, whose claim fails, and the test is stopped with the diagnostic of the handler, not
with the "has not been handled" diagnostic of the cause. -/
theorem execute_test_stopped_by_late_handler :
    (main_ops ((Gpio.execute_test example_hdr (late_env 5) .gpio (St.init GpioFlag)).added
        (St.init GpioFlag)) =
        [.store .gpio_gpio1 false,
         .call (.dif_gpio_irq_force .gpio .kDifGpioIrqTriggerEdgeFalling) .kOk,
         .load .gpio_gpio1 false, .usleep 10, .load .gpio_gpio1 false] ∧
      (Gpio.execute_test example_hdr (late_env 5) .gpio (St.init GpioFlag)).failure =
        some (.check "ISR is not implemented!") ∧
      (Gpio.execute_test example_hdr (late_env 5) .gpio (St.init GpioFlag)).failure ≠
        some (.check (Gpio.not_handled_msg .kDifGpioIrqTriggerEdgeFalling))) ∧
    (main_ops ((Uart.execute_test example_hdr (late_env 5) .uart0 (St.init UartFlag)).added
        (St.init UartFlag)) =
        [.store .uart_rx_parity_err_handled false,
         .call (.dif_uart_irq_force .uart0 .kDifUartIrqRxParityErr) .kOk,
         .load .uart_rx_parity_err_handled false, .usleep 10,
         .load .uart_rx_parity_err_handled false] ∧
      (Uart.execute_test example_hdr (late_env 5) .uart0 (St.init UartFlag)).failure =
        some (.check "ISR is not implemented!") ∧
      (Uart.execute_test example_hdr (late_env 5) .uart0 (St.init UartFlag)).failure ≠
        some (.check (Uart.not_handled_msg .kDifUartIrqRxParityErr))) := by
  have eg : Gpio.execute_test example_hdr (late_env 5) .gpio (St.init GpioFlag) =
      .abort (.check "ISR is not implemented!") ⟨fun _ => false,
        [⟨.main, .store .gpio_gpio1 false⟩,
         ⟨.main, .call (.dif_gpio_irq_force .gpio .kDifGpioIrqTriggerEdgeFalling) .kOk⟩,
         ⟨.main, .load .gpio_gpio1 false⟩, ⟨.main, .usleep 10⟩,
         ⟨.main, .load .gpio_gpio1 false⟩,
         ⟨.isr, .call (.dif_plic_irq_claim .plic0 0 0) .kError⟩]⟩ := by
    simp [Gpio.execute_test, force_round, checked_call, CHECK_main_apply, gap,
      bind_apply, store, load, drv, CHECK, emit, irqs, Gpio.gpio_handler_eq_router,
      router_apply, late_env, example_hdr, St.init, pure_apply, Function.update]
  have eu : Uart.execute_test example_hdr (late_env 5) .uart0 (St.init UartFlag) =
      .abort (.check "ISR is not implemented!") ⟨fun _ => false,
        [⟨.main, .store .uart_rx_parity_err_handled false⟩,
         ⟨.main, .call (.dif_uart_irq_force .uart0 .kDifUartIrqRxParityErr) .kOk⟩,
         ⟨.main, .load .uart_rx_parity_err_handled false⟩, ⟨.main, .usleep 10⟩,
         ⟨.main, .load .uart_rx_parity_err_handled false⟩,
         ⟨.isr, .call (.dif_plic_irq_claim .plic0 0 0) .kError⟩]⟩ := by
    simp [Uart.execute_test, force_round, checked_call, CHECK_main_apply, gap,
      bind_apply, store, load, drv, CHECK, emit, irqs, Uart.uart_handler_eq_router,
      router_apply, late_env, example_hdr, St.init, pure_apply, Function.update]
  rw [eg, eu]
  exact ⟨⟨rfl, rfl, by decide⟩, ⟨rfl, rfl, by decide⟩⟩

/-- C9, amended: in every run of `execute_test`, passing or not, the main flow waits only with
`usleep(10)` and at most 8 times (UART; 2 times for GPIO), and performs at most 40 (10)
operations. Every wait comes right after the reset of the flag of a cause, the force of that
cause returning OK and a poll of that flag that read false; the forces of a run are an initial
part of the fixed list of causes, so a cause is forced, and waited for, at most once. When the
read after a wait finds the flag still false, that read is the last operation of the main flow
and the test does not return: it was stopped with the "has not been handled" diagnostic of that
cause, or an interrupt handler that ran between that read and the abort stopped it first. When
that read is the last event of the run, so that no handler ran after it, the test was stopped
with the "has not been handled" diagnostic of that cause. -/
theorem execute_test_waits (h : Hdr) (env : Env) (dev : Ptr) :
    (∀ s : St UartFlag,
      ((main_ops ((Uart.execute_test h env dev s).added s)).count (.usleep 10) ≤ 8 ∧
        (∀ n, Op.usleep n ∈ main_ops ((Uart.execute_test h env dev s).added s) → n = 10) ∧
        (main_ops ((Uart.execute_test h env dev s).added s)).length ≤ 40) ∧
      (∀ pre post n,
        main_ops ((Uart.execute_test h env dev s).added s) = pre ++ .usleep n :: post →
        ∃ c pre', pre = pre' ++ [.store (Uart.flag_of c) false,
          .call (.dif_uart_irq_force dev c) .kOk, .load (Uart.flag_of c) false]) ∧
      called (main_ops ((Uart.execute_test h env dev s).added s)) <+:
        Uart.causes.map (fun c => Call.dif_uart_irq_force dev c) ∧
      (∀ pre f post,
        main_ops ((Uart.execute_test h env dev s).added s) =
          pre ++ [.usleep 10, .load f false] ++ post →
        post = [] ∧ (Uart.execute_test h env dev s).returned = false ∧
          ∃ c, f = Uart.flag_of c ∧
            ((Uart.execute_test h env dev s).failure = some (.check (Uart.not_handled_msg c)) ∨
              stopped_in_isr (Uart.handler_irq_external h env) (Uart.execute_test h env dev s)
                ((Uart.execute_test h env dev s).added s))) ∧
      (∀ f, ((Uart.execute_test h env dev s).added s).getLast? = some ⟨.main, .load f false⟩ →
        ∃ c, f = Uart.flag_of c ∧
          (Uart.execute_test h env dev s).failure = some (.check (Uart.not_handled_msg c)))) ∧
    (∀ s : St GpioFlag,
      ((main_ops ((Gpio.execute_test h env dev s).added s)).count (.usleep 10) ≤ 2 ∧
        (∀ n, Op.usleep n ∈ main_ops ((Gpio.execute_test h env dev s).added s) → n = 10) ∧
        (main_ops ((Gpio.execute_test h env dev s).added s)).length ≤ 10) ∧
      (∀ pre post n,
        main_ops ((Gpio.execute_test h env dev s).added s) = pre ++ .usleep n :: post →
        ∃ c pre', pre = pre' ++ [.store (Gpio.flag_of c) false,
          .call (.dif_gpio_irq_force dev c) .kOk, .load (Gpio.flag_of c) false]) ∧
      called (main_ops ((Gpio.execute_test h env dev s).added s)) <+:
        Gpio.causes.map (fun c => Call.dif_gpio_irq_force dev c) ∧
      (∀ pre f post,
        main_ops ((Gpio.execute_test h env dev s).added s) =
          pre ++ [.usleep 10, .load f false] ++ post →
        post = [] ∧ (Gpio.execute_test h env dev s).returned = false ∧
          ∃ c, f = Gpio.flag_of c ∧
            ((Gpio.execute_test h env dev s).failure = some (.check (Gpio.not_handled_msg c)) ∨
              stopped_in_isr (Gpio.handler_irq_external h env) (Gpio.execute_test h env dev s)
                ((Gpio.execute_test h env dev s).added s))) ∧
      (∀ f, ((Gpio.execute_test h env dev s).added s).getLast? = some ⟨.main, .load f false⟩ →
        ∃ c, f = Gpio.flag_of c ∧
          (Gpio.execute_test h env dev s).failure = some (.check (Gpio.not_handled_msg c)))) := by
  constructor
  · intro s
    rw [uart_execute_test_eq, Uart.uart_handler_eq_router]
    obtain ⟨t, ht, hbound, hprec, hcalled, hnot, hlast⟩ := run_rounds_any h env
      h.kTopAthosPlicPeripheralUart0 "ISR interrupted peripheral is not UART!" (Uart.uart_rows h)
      (Uart.causes.map (Uart.round dev)) s
    rw [added_of_trace _ s t ht]
    refine ⟨hbound, ?_, ?_, ?_, ?_⟩
    · intro pre post n hsplit
      obtain ⟨r, hr, pre', hpre'⟩ := hprec pre post n hsplit
      obtain ⟨c, -, rfl⟩ := List.mem_map.1 hr
      exact ⟨c, pre', hpre'⟩
    · simpa [List.map_map, Function.comp_def, Uart.round] using hcalled
    · intro pre f post hsplit
      obtain ⟨hpost, hret, r, hr, hrf, hfail⟩ := hnot pre f post hsplit
      obtain ⟨c, -, rfl⟩ := List.mem_map.1 hr
      exact ⟨hpost, hret, c, hrf.symm, hfail⟩
    · intro f hl
      obtain ⟨r, hr, hrf, hfail⟩ := hlast f hl
      obtain ⟨c, -, rfl⟩ := List.mem_map.1 hr
      exact ⟨c, hrf.symm, hfail⟩
  · intro s
    rw [gpio_execute_test_eq, Gpio.gpio_handler_eq_router]
    obtain ⟨t, ht, hbound, hprec, hcalled, hnot, hlast⟩ := run_rounds_any h env
      h.kTopAthosPlicPeripheralGpio "ISR interrupted peripheral is not gpio!" (Gpio.gpio_rows h)
      (Gpio.causes.map (Gpio.round dev)) s
    rw [added_of_trace _ s t ht]
    refine ⟨hbound, ?_, ?_, ?_, ?_⟩
    · intro pre post n hsplit
      obtain ⟨r, hr, pre', hpre'⟩ := hprec pre post n hsplit
      obtain ⟨c, -, rfl⟩ := List.mem_map.1 hr
      exact ⟨c, pre', hpre'⟩
    · simpa [List.map_map, Function.comp_def, Gpio.round] using hcalled
    · intro pre f post hsplit
      obtain ⟨hpost, hret, r, hr, hrf, hfail⟩ := hnot pre f post hsplit
      obtain ⟨c, -, rfl⟩ := List.mem_map.1 hr
      exact ⟨hpost, hret, c, hrf.symm, hfail⟩
    · intro f hl
      obtain ⟨r, hr, hrf, hfail⟩ := hlast f hl
      obtain ⟨c, -, rfl⟩ := List.mem_map.1 hr
      exact ⟨c, hrf.symm, hfail⟩

set_option maxRecDepth 8000 in
/-- C9 at concrete inputs: with every call returning OK and no interrupt at all, the first round
of either test waits once and is stopped with the "has not been handled" diagnostic of its
cause; with the interrupt of `late_env 5`, the GPIO test is stopped after the same five
operations, inside the handler. -/
theorem execute_test_waits_witness :
    ((∃ c pre', [Op.store UartFlag.uart_rx_parity_err_handled false,
          .call (.dif_uart_irq_force .uart0 .kDifUartIrqRxParityErr) .kOk,
          .load UartFlag.uart_rx_parity_err_handled false] =
        pre' ++ [.store (Uart.flag_of c) false, .call (.dif_uart_irq_force .uart0 c) .kOk,
          .load (Uart.flag_of c) false]) ∧
      (∃ c, UartFlag.uart_rx_parity_err_handled = Uart.flag_of c ∧
        (Uart.execute_test example_hdr (quiet_env 0) .uart0 (St.init UartFlag)).failure =
          some (.check (Uart.not_handled_msg c)))) ∧
    ((∃ c pre', [Op.store GpioFlag.gpio_gpio1 false,
          .call (.dif_gpio_irq_force .gpio .kDifGpioIrqTriggerEdgeFalling) .kOk,
          .load GpioFlag.gpio_gpio1 false] =
        pre' ++ [.store (Gpio.flag_of c) false, .call (.dif_gpio_irq_force .gpio c) .kOk,
          .load (Gpio.flag_of c) false]) ∧
      (∃ c, GpioFlag.gpio_gpio1 = Gpio.flag_of c ∧
        (Gpio.execute_test example_hdr (quiet_env 0) .gpio (St.init GpioFlag)).failure =
          some (.check (Gpio.not_handled_msg c)))) ∧
    (([] : List (Op GpioFlag)) = [] ∧
      (Gpio.execute_test example_hdr (late_env 5) .gpio (St.init GpioFlag)).returned = false ∧
      ∃ c, GpioFlag.gpio_gpio1 = Gpio.flag_of c ∧
        ((Gpio.execute_test example_hdr (late_env 5) .gpio (St.init GpioFlag)).failure =
            some (.check (Gpio.not_handled_msg c)) ∨
          stopped_in_isr (Gpio.handler_irq_external example_hdr (late_env 5))
            (Gpio.execute_test example_hdr (late_env 5) .gpio (St.init GpioFlag))
            ((Gpio.execute_test example_hdr (late_env 5) .gpio (St.init GpioFlag)).added
              (St.init GpioFlag)))) :=
  ⟨⟨((execute_test_waits example_hdr (quiet_env 0) .uart0).1 (St.init UartFlag)).2.1
      [.store .uart_rx_parity_err_handled false,
        .call (.dif_uart_irq_force .uart0 .kDifUartIrqRxParityErr) .kOk,
        .load .uart_rx_parity_err_handled false]
      [.load .uart_rx_parity_err_handled false] 10 (by
        simp [Uart.execute_test, force_round, checked_call, CHECK_main_apply,
          gap, bind_apply, store, load, drv, CHECK, emit, irqs, quiet_env, St.init, Res.added,
          Res.st, main_ops, pure_apply, Function.update]),
    ((execute_test_waits example_hdr (quiet_env 0) .uart0).1 (St.init UartFlag)).2.2.2.2
      .uart_rx_parity_err_handled (by
        simp [Uart.execute_test, force_round, checked_call, CHECK_main_apply,
          gap, bind_apply, store, load, drv, CHECK, emit, irqs, quiet_env, St.init, Res.added,
          Res.st, pure_apply, Function.update])⟩,
   ⟨((execute_test_waits example_hdr (quiet_env 0) .gpio).2 (St.init GpioFlag)).2.1
      [.store .gpio_gpio1 false,
        .call (.dif_gpio_irq_force .gpio .kDifGpioIrqTriggerEdgeFalling) .kOk,
        .load .gpio_gpio1 false]
      [.load .gpio_gpio1 false] 10 (by
        simp [Gpio.execute_test, force_round, checked_call, CHECK_main_apply,
          gap, bind_apply, store, load, drv, CHECK, emit, irqs, quiet_env, St.init, Res.added,
          Res.st, main_ops, pure_apply, Function.update]),
    ((execute_test_waits example_hdr (quiet_env 0) .gpio).2 (St.init GpioFlag)).2.2.2.2
      .gpio_gpio1 (by
        simp [Gpio.execute_test, force_round, checked_call, CHECK_main_apply,
          gap, bind_apply, store, load, drv, CHECK, emit, irqs, quiet_env, St.init, Res.added,
          Res.st, pure_apply, Function.update])⟩,
   ((execute_test_waits example_hdr (late_env 5) .gpio).2 (St.init GpioFlag)).2.2.2.1
      [.store .gpio_gpio1 false,
        .call (.dif_gpio_irq_force .gpio .kDifGpioIrqTriggerEdgeFalling) .kOk,
        .load .gpio_gpio1 false]
      .gpio_gpio1 [] (by
        simp [Gpio.execute_test, force_round, checked_call, CHECK_main_apply,
          gap, bind_apply, store, load, drv, CHECK, emit, irqs, Gpio.gpio_handler_eq_router,
          router_apply, late_env, example_hdr, St.init, Res.added, Res.st, main_ops,
          pure_apply, Function.update])⟩

section CheckedLemmas
variable {F : Type}

theorem all_ok_nil : all_ok ([] : List (Event F)) := by
  intro e he; cases he

theorem all_ok_append {a b : List (Event F)} (ha : all_ok a) (hb : all_ok b) :
    all_ok (a ++ b) := by
  intro e he
  rcases List.mem_append.1 he with h | h
  · exact ha e h
  · exact hb e h



theorem all_ok_dropLast {a : List (Event F)} (h : all_ok a) : all_ok a.dropLast :=
  fun e he => h e (List.dropLast_subset a he)

/-- A run that appended nothing is good. -/
theorem Good.of_same {α : Type} (r : Res F α) (s : St F) (h : r.st = s) : Good r s :=
  ⟨[], by rw [h]; simp, all_ok_nil, fun hn => absurd all_ok_nil hn⟩

/-- A run that appended one event which is not a failed call is good. -/
theorem Good.of_one {α : Type} (r : Res F α) (s : St F) (e : Event F)
    (h : r.st.trace = s.trace ++ [e]) (he : ∀ k st, e.op = .call k st → st = .kOk) :
    Good r s :=
  ⟨[e], h, all_ok_nil, fun hn => absurd (by
    intro x hx k st hop
    rw [List.mem_singleton] at hx
    subst hx
    exact he k st hop) hn⟩

theorem Checked.bind {α β : Type} {m : M F α} {k : α → M F β} (hm : Checked m)
    (hk : ∀ a, Checked (k a)) : Checked (m >>= k) := by
  intro s
  obtain ⟨t1, ht1, hd1, hf1⟩ := hm s
  rw [bind_apply]
  cases hr : m s with
  | ret a s1 =>
    rw [hr] at ht1 hf1
    have hok1 : all_ok t1 := by
      by_contra hn
      obtain ⟨msg, hmsg⟩ := hf1 hn
      cases hmsg
    obtain ⟨t2, ht2, hd2, hf2⟩ := hk a s1
    refine ⟨t1 ++ t2, ?_, ?_, ?_⟩
    · simp only [Res.st] at ht1
      rw [ht2, ht1, List.append_assoc]
    · rcases List.eq_nil_or_concat t2 with rfl | ⟨l, x, rfl⟩
      · simpa using all_ok_dropLast hok1
      · simp only [List.concat_eq_append] at hd2 ⊢
        rw [List.dropLast_concat] at hd2
        rw [← List.append_assoc, List.dropLast_concat]
        exact all_ok_append hok1 hd2
    · intro hn
      exact hf2 (fun h2 => hn (all_ok_append hok1 h2))
  | abort e s1 =>
    rw [hr] at ht1 hf1
    exact ⟨t1, ht1, hd1, hf1⟩
  | undef s1 =>
    rw [hr] at ht1 hf1
    exact ⟨t1, ht1, hd1, hf1⟩

theorem Checked.pure {α : Type} (a : α) : Checked (pure a : M F α) :=
  fun s => Good.of_same _ s rfl

theorem Checked.emit (ctx : Ctx) (op : Op F) (hop : ∀ k st, op ≠ .call k st) :
    Checked (emit ctx op) :=
  fun s => Good.of_one _ s ⟨ctx, op⟩ rfl (fun k st h => absurd h (hop k st))

theorem Checked.load (ctx : Ctx) (f : F) : Checked (load ctx f) :=
  fun s => Good.of_one _ s ⟨ctx, .load f (s.flags f)⟩ rfl (fun k st h => by cases h)

theorem Checked.store [DecidableEq F] (ctx : Ctx) (f : F) (v : Bool) :
    Checked (store ctx f v) :=
  fun s => Good.of_one _ s ⟨ctx, .store f v⟩ rfl (fun k st h => by cases h)

theorem Checked.CHECK (c : Bool) (msg : String) : Checked (CHECK c msg : M F Unit) := by
  intro s
  apply Good.of_same
  unfold Athos.CHECK
  split_ifs <;> rfl

/-- A driver call whose status is checked right away. -/
theorem Checked.drv_CHECK (env : Env) (ctx : Ctx) (k : Call) (msg : String) :
    Checked (drv env ctx k >>= fun st => (Athos.CHECK (st == .kOk) msg : M F Unit)) := by
  intro s
  simp only [bind_apply, drv, Athos.CHECK]
  by_cases hst : env.status s.trace.length = .kOk
  · simp only [hst, beq_self_eq_true, if_true]
    exact Good.of_one _ s ⟨ctx, .call k .kOk⟩ rfl (fun k' st' h => by cases h; rfl)
  · have hb : (env.status s.trace.length == Status.kOk) = false := by simpa using hst
    simp only [hb]
    exact ⟨[⟨ctx, .call k (env.status s.trace.length)⟩], rfl, all_ok_nil,
      fun _ => ⟨msg, rfl⟩⟩

theorem Checked.table_lookup (h : Hdr) (id : Nat) : Checked (table_lookup h id : M F Nat) := by
  intro s
  apply Good.of_same
  unfold Athos.table_lookup
  split <;> rfl

/-- After some events without a failed call, a good run is still good. -/
theorem Good.after_ok {α : Type} (r : Res F α) (s s1 : St F) (t0 : List (Event F))
    (h1 : s1.trace = s.trace ++ t0) (h0 : all_ok t0) (hg : Good r s1) : Good r s := by
  obtain ⟨t, ht, hd, hf⟩ := hg
  refine ⟨t0 ++ t, by rw [ht, h1, List.append_assoc], ?_, ?_⟩
  · rcases List.eq_nil_or_concat t with rfl | ⟨l, x, rfl⟩
    · simpa using all_ok_dropLast h0
    · simp only [List.concat_eq_append] at hd ⊢
      rw [List.dropLast_concat] at hd
      rw [← List.append_assoc, List.dropLast_concat]
      exact all_ok_append h0 hd
  · intro hn
    exact hf (fun h2 => hn (all_ok_append h0 h2))

/-- A claim whose status is checked right away. -/
theorem Checked.claim_CHECK {β : Type} (env : Env) (ctx : Ctx) (plic : Ptr) (target : Nat)
    (msg : String) (k : Status × Nat → M F β) (hk : ∀ c, Checked (k c)) :
    Checked (dif_plic_irq_claim env ctx plic target >>= fun c =>
      ((Athos.CHECK (c.1 == .kOk) msg : M F Unit) >>= fun _ => k c)) := by
  intro s
  simp only [bind_apply, dif_plic_irq_claim, Athos.CHECK]
  by_cases hst : env.status s.trace.length = .kOk
  · simp only [hst, beq_self_eq_true, if_true]
    refine Good.after_ok _ s _ [⟨ctx, .call (.dif_plic_irq_claim plic target
      (env.claimed s.trace.length)) .kOk⟩] rfl ?_ (hk _ _)
    intro e he k' st' hop
    rw [List.mem_singleton] at he
    subst he
    cases hop
    rfl
  · have hb : (env.status s.trace.length == Status.kOk) = false := by simpa using hst
    simp only [hb]
    exact ⟨[⟨ctx, .call (.dif_plic_irq_claim plic target (env.claimed s.trace.length))
      (env.status s.trace.length)⟩], rfl, all_ok_nil, fun _ => ⟨msg, rfl⟩⟩

theorem Checked.handle_row [DecidableEq F] (env : Env) (row : Option (Row F)) :
    Checked (handle_row env row) := by
  cases row with
  | none => exact fun s => Good.of_same _ s rfl
  | some r =>
    unfold Athos.handle_row
    exact Checked.bind (Checked.load _ _) (fun _ => Checked.bind (Checked.CHECK _ _)
      (fun _ => Checked.bind (Checked.store _ _ _) (fun _ => Checked.drv_CHECK env _ _ _)))

theorem Checked.router [DecidableEq F] (h : Hdr) (env : Env) (expected : Nat) (msg : String)
    (rows : Nat → Option (Row F)) : Checked (router h env expected msg rows) := by
  unfold Athos.router
  exact Checked.claim_CHECK env _ _ _ _ _ (fun claim =>
    Checked.bind (Checked.table_lookup h _) (fun p => Checked.bind (Checked.CHECK _ _)
      (fun _ => Checked.bind (Checked.handle_row env _)
        (fun _ => Checked.drv_CHECK env _ _ _))))

theorem Checked.irqs {isr : M F Unit} (hisr : Checked isr) (n : Nat) :
    Checked (irqs isr n) := by
  induction n with
  | zero => exact Checked.pure ()
  | succ n ih =>
    rw [Athos.irqs]
    exact Checked.bind hisr (fun _ => ih)

theorem Checked.gap {isr : M F Unit} (hisr : Checked isr) (env : Env) :
    Checked (gap isr env) :=
  fun s => Checked.irqs hisr _ s

end CheckedLemmas

theorem uart_handler_checked (h : Hdr) (env : Env) :
    Checked (Uart.handler_irq_external h env) := by
  rw [Uart.uart_handler_eq_router]
  exact Checked.router h env _ _ _

theorem gpio_handler_checked (h : Hdr) (env : Env) :
    Checked (Gpio.handler_irq_external h env) := by
  rw [Gpio.gpio_handler_eq_router]
  exact Checked.router h env _ _ _

theorem mem_dropLast_of_split {α : Type} (pre post : List α) (e : α) (hpost : post ≠ []) :
    e ∈ (pre ++ e :: post).dropLast := by
  rw [List.dropLast_append_of_ne_nil _ (by simp), List.dropLast_cons_of_ne_nil hpost]
  simp

/-- A good run with a failed call: the failed call is its last event, and it was stopped by a
`CHECK`. -/
theorem Good.failed_call_last {F α : Type} {r : Res F α} {s : St F} (hg : Good r s)
    (pre post : List (Event F)) (e : Event F) (k : Call) (st : Status)
    (hsplit : r.added s = pre ++ e :: post) (hop : e.op = .call k st) (hst : st ≠ .kOk) :
    post = [] ∧ (∃ msg, r.failure = some (.check msg)) ∧ r.returned = false := by
  obtain ⟨t, ht, hd, hf⟩ := hg
  rw [added_of_trace r s t ht] at hsplit
  subst hsplit
  have hpost : post = [] := by
    by_contra hne
    exact hst (hd e (mem_dropLast_of_split pre post e hne) k st hop)
  have hfail : ∃ msg, r.failure = some (.check msg) :=
    hf (fun hall => hst (hall e (by simp) k st hop))
  refine ⟨hpost, hfail, ?_⟩
  obtain ⟨msg, hmsg⟩ := hfail
  cases r with
  | ret a s1 => cases hmsg
  | abort e1 s1 => rfl
  | undef s1 => rfl

section HaltingLemmas
variable {F : Type}

variable [DecidableEq F]

end HaltingLemmas

/-- C11: for every interrupt id that is not the id of one of the eight UART causes (of the two
GPIO causes), `handle_uart_isr` (`handle_gpio_isr`) takes the `default` branch of its `switch`
and does not return: the test is stopped through `LOG_FATAL` and
`test_status_set(kTestStatusFailed)` in the very state the handler was entered in, so no flag
has been written and no acknowledge has been issued, neither for the zero-initialised cause nor
for any other. -/
theorem handle_isr_default_branch (h : Hdr) (env : Env) :
    (∀ (id : Nat) (s : St UartFlag), (∀ c, id ≠ Uart.irq_id h c) →
      Uart.handle_uart_isr h env id s = .abort (.fatal "ISR is not implemented!") s ∧
      driver_calls ((Uart.handle_uart_isr h env id s).added s) = []) ∧
    (∀ (id : Nat) (s : St GpioFlag), (∀ c, id ≠ Gpio.irq_id h c) →
      Gpio.handle_gpio_isr h env id s = .abort (.fatal "ISR is not implemented!") s ∧
      driver_calls ((Gpio.handle_gpio_isr h env id s).added s) = []) := by
  constructor
  · intro id s hid
    rw [Uart.handle_uart_isr_eq, Uart.uart_rows_none h id hid, handle_row_none]
    exact ⟨rfl, by simp [Res.added, Res.st, driver_calls]⟩
  · intro id s hid
    rw [Gpio.handle_gpio_isr_eq, Gpio.gpio_rows_none h id hid, handle_row_none]
    exact ⟨rfl, by simp [Res.added, Res.st, driver_calls]⟩

theorem handle_isr_default_branch_witness :
    (Uart.handle_uart_isr example_hdr (quiet_env 0) 0 (St.init UartFlag) =
        .abort (.fatal "ISR is not implemented!") (St.init UartFlag) ∧
      driver_calls ((Uart.handle_uart_isr example_hdr (quiet_env 0) 0
        (St.init UartFlag)).added (St.init UartFlag)) = []) ∧
    (Gpio.handle_gpio_isr example_hdr (quiet_env 0) 33 (St.init GpioFlag) =
        .abort (.fatal "ISR is not implemented!") (St.init GpioFlag) ∧
      driver_calls ((Gpio.handle_gpio_isr example_hdr (quiet_env 0) 33
        (St.init GpioFlag)).added (St.init GpioFlag)) = []) :=
  ⟨(handle_isr_default_branch example_hdr (quiet_env 0)).1 0 (St.init UartFlag)
      (fun c => by cases c <;> decide),
   (handle_isr_default_branch example_hdr (quiet_env 0)).2 33 (St.init GpioFlag)
      (fun c => by cases c <;> decide)⟩

/-- C12, as stated, fails: with the acknowledge returning an error, `handle_uart_isr`
(`handle_gpio_isr`) ends in a state in which it has turned the flag of the cause true although
the only acknowledge it issued did not return OK. -/
theorem handle_isr_flag_without_acknowledge :
    ((St.init UartFlag).flags .uart_rx_overflow_handled = false ∧
      (Uart.handle_uart_isr example_hdr (failing_env 2) 36 (St.init UartFlag)).st.flags
        .uart_rx_overflow_handled = true ∧
      driver_calls ((Uart.handle_uart_isr example_hdr (failing_env 2) 36
          (St.init UartFlag)).added (St.init UartFlag)) =
        [(.dif_uart_irq_acknowledge .uart0 .kDifUartIrqRxOverflow, .kError)]) ∧
    ((St.init GpioFlag).flags .gpio_gpio1 = false ∧
      (Gpio.handle_gpio_isr example_hdr (failing_env 2) 2 (St.init GpioFlag)).st.flags
        .gpio_gpio1 = true ∧
      driver_calls ((Gpio.handle_gpio_isr example_hdr (failing_env 2) 2
          (St.init GpioFlag)).added (St.init GpioFlag)) =
        [(.dif_gpio_irq_acknowledge .gpio .kDifGpioIrqTriggerEdgeFalling, .kError)]) := by
  decide

/-- What a row of a `switch` leaves behind when it turned a flag true. -/
theorem handle_row_turned_true {F : Type} [DecidableEq F] (env : Env) (row : Option (Row F))
    (s : St F) (f : F) (h0 : s.flags f = false)
    (h1 : (handle_row env row s).st.flags f = true) :
    ∃ r, row = some r ∧ f = r.flag ∧
      (handle_row env row s).st.trace = s.trace ++ [⟨.isr, .load r.flag false⟩,
        ⟨.isr, .store r.flag true⟩, ⟨.isr, .call r.ack (env.status (s.trace.length + 2))⟩] ∧
      ((handle_row env row s).returned = true ↔ env.status (s.trace.length + 2) = .kOk) ∧
      (env.status (s.trace.length + 2) ≠ .kOk →
        (handle_row env row s).failure = some (.check "ISR failed to clear IRQ!")) := by
  cases row with
  | none =>
    rw [handle_row_none] at h1
    simp [Res.st, h0] at h1
  | some r =>
    rw [handle_row_some] at h1 ⊢
    by_cases hf : s.flags r.flag = true
    · simp [hf, Res.st, h0] at h1
    · simp only [hf] at h1 ⊢
      have hfr : f = r.flag := by
        by_contra hne
        by_cases h2 : env.status (s.trace.length + 2) = .kOk
        · simp [h2, Res.st, Function.update, hne, h0] at h1
        · simp [h2, Res.st, Function.update, hne, h0] at h1
      refine ⟨r, rfl, hfr, ?_⟩
      by_cases h2 : env.status (s.trace.length + 2) = .kOk
      · simp [h2, Res.st, Res.returned, Res.failure]
      · simp [h2, Res.st, Res.returned, Res.failure]

/-- C12, amended: the flag is written before the acknowledge is issued. In every state
`handle_uart_isr` (`handle_gpio_isr`) can end in, including the states in which it stops the
test, a flag that the handler turned true is the flag of the cause of the id it was entered with,
and the handler then issued exactly one driver call, the acknowledge of that cause; the handler
returned exactly when that acknowledge returned OK, and otherwise it stopped the test with the
flag already true. -/
theorem handle_isr_flag_then_acknowledge (h : Hdr) (env : Env) :
    (∀ (id : Nat) (s : St UartFlag) (f : UartFlag), s.flags f = false →
      (Uart.handle_uart_isr h env id s).st.flags f = true →
      ∃ c, id = Uart.irq_id h c ∧ f = Uart.flag_of c ∧
        driver_calls ((Uart.handle_uart_isr h env id s).added s) =
          [(.dif_uart_irq_acknowledge .uart0 c, env.status (s.trace.length + 2))] ∧
        ((Uart.handle_uart_isr h env id s).returned = true ↔
          env.status (s.trace.length + 2) = .kOk) ∧
        (env.status (s.trace.length + 2) ≠ .kOk →
          (Uart.handle_uart_isr h env id s).failure =
            some (.check "ISR failed to clear IRQ!"))) ∧
    (∀ (id : Nat) (s : St GpioFlag) (f : GpioFlag), s.flags f = false →
      (Gpio.handle_gpio_isr h env id s).st.flags f = true →
      ∃ c, id = Gpio.irq_id h c ∧ f = Gpio.flag_of c ∧
        driver_calls ((Gpio.handle_gpio_isr h env id s).added s) =
          [(.dif_gpio_irq_acknowledge .gpio c, env.status (s.trace.length + 2))] ∧
        ((Gpio.handle_gpio_isr h env id s).returned = true ↔
          env.status (s.trace.length + 2) = .kOk) ∧
        (env.status (s.trace.length + 2) ≠ .kOk →
          (Gpio.handle_gpio_isr h env id s).failure =
            some (.check "ISR failed to clear IRQ!"))) := by
  constructor
  · intro id s f h0 h1
    rw [Uart.handle_uart_isr_eq] at h1 ⊢
    obtain ⟨r, hr, hf, ht, hret, hfail⟩ := handle_row_turned_true env _ s f h0 h1
    obtain ⟨c, hid, rfl⟩ := Uart.uart_rows_some h id r hr
    refine ⟨c, hid, hf, ?_, hret, hfail⟩
    rw [added_of_trace _ s _ ht]
    simp [driver_calls]
  · intro id s f h0 h1
    rw [Gpio.handle_gpio_isr_eq] at h1 ⊢
    obtain ⟨r, hr, hf, ht, hret, hfail⟩ := handle_row_turned_true env _ s f h0 h1
    obtain ⟨c, hid, rfl⟩ := Gpio.gpio_rows_some h id r hr
    refine ⟨c, hid, hf, ?_, hret, hfail⟩
    rw [added_of_trace _ s _ ht]
    simp [driver_calls]

theorem handle_isr_flag_then_acknowledge_witness :
    (∃ c, 36 = Uart.irq_id example_hdr c ∧ UartFlag.uart_rx_overflow_handled = Uart.flag_of c ∧
      driver_calls ((Uart.handle_uart_isr example_hdr (quiet_env 36) 36
          (St.init UartFlag)).added (St.init UartFlag)) =
        [(.dif_uart_irq_acknowledge .uart0 c,
          (quiet_env 36).status ((St.init UartFlag).trace.length + 2))] ∧
      ((Uart.handle_uart_isr example_hdr (quiet_env 36) 36 (St.init UartFlag)).returned = true ↔
        (quiet_env 36).status ((St.init UartFlag).trace.length + 2) = .kOk) ∧
      ((quiet_env 36).status ((St.init UartFlag).trace.length + 2) ≠ .kOk →
        (Uart.handle_uart_isr example_hdr (quiet_env 36) 36 (St.init UartFlag)).failure =
          some (.check "ISR failed to clear IRQ!"))) ∧
    (∃ c, 2 = Gpio.irq_id example_hdr c ∧ GpioFlag.gpio_gpio1 = Gpio.flag_of c ∧
      driver_calls ((Gpio.handle_gpio_isr example_hdr (failing_env 2) 2
          (St.init GpioFlag)).added (St.init GpioFlag)) =
        [(.dif_gpio_irq_acknowledge .gpio c,
          (failing_env 2).status ((St.init GpioFlag).trace.length + 2))] ∧
      ((Gpio.handle_gpio_isr example_hdr (failing_env 2) 2 (St.init GpioFlag)).returned = true ↔
        (failing_env 2).status ((St.init GpioFlag).trace.length + 2) = .kOk) ∧
      ((failing_env 2).status ((St.init GpioFlag).trace.length + 2) ≠ .kOk →
        (Gpio.handle_gpio_isr example_hdr (failing_env 2) 2 (St.init GpioFlag)).failure =
          some (.check "ISR failed to clear IRQ!"))) :=
  ⟨(handle_isr_flag_then_acknowledge example_hdr (quiet_env 36)).1 36 (St.init UartFlag)
      .uart_rx_overflow_handled rfl (by decide),
   (handle_isr_flag_then_acknowledge example_hdr (failing_env 2)).2 2 (St.init GpioFlag)
      .gpio_gpio1 rfl (by decide)⟩

theorem gpio_execute_test_halves (h : Hdr) (env : Env) (dev : Ptr) :
    Gpio.execute_test h env dev =
      (Gpio.force_falling h env dev >>= fun _ => Gpio.force_rising h env dev) := rfl

/-- The number of events of a passing round with one dispatch. -/
theorem once_trace_length {F : Type} (h : Hdr) (f : F) (k : Call) (r : Row F) (id : Nat)
    (a : Arrival) : (once_trace h f k r id a).length = a.round_length := by
  cases a <;> rfl

/-- A round in which the force leads to exactly one dispatch of the row of its flag passes,
whether the dispatch arrives before the poll, between the poll and the wait or during the wait,
and only that flag is written. -/
theorem force_round_once {F : Type} [DecidableEq F] (h : Hdr) (env : Env) (expected : Nat)
    (msg : String) (rows : Nat → Option (Row F)) (f : F) (k : Call) (m1 m2 : String)
    (s : St F) (id : Nat) (r : Row F) (hr : rows id = some r) (hf : r.flag = f)
    (hp : h.top_athos_plic_interrupt_for_peripheral[id]? = some expected) (a : Arrival)
    (henv : dispatches_once env s.trace.length id a) :
    force_round (router h env expected msg rows) env f k m1 m2 s =
      .ret () ⟨Function.update s.flags f true, s.trace ++ once_trace h f k r id a⟩ := by
  subst hf
  cases a with
  | before_poll =>
    obtain ⟨h1, h2, h3, h4, h5, h6, h7, h8, h9⟩ := henv
    simp [force_round, checked_call, CHECK_main_apply, gap, bind_apply, store, load, drv, CHECK,
      emit, irqs, router_apply, pure_apply, once_trace, block, h1, h2, h3, h4, h5, h6, h7, h8,
      h9, hr, hp, Nat.add_assoc]
  | before_wait =>
    obtain ⟨h1, h2, h3, h4, h5, h6, h7, h8, h9, h10⟩ := henv
    simp [force_round, checked_call, CHECK_main_apply, gap, bind_apply, store, load, drv, CHECK,
      emit, irqs, router_apply, pure_apply, once_trace, block, h1, h2, h3, h4, h5, h6, h7, h8,
      h9, h10, hr, hp, Nat.add_assoc]
  | during_wait =>
    obtain ⟨h1, h2, h3, h4, h5, h6, h7, h8, h9, h10⟩ := henv
    simp [force_round, checked_call, CHECK_main_apply, gap, bind_apply, store, load, drv, CHECK,
      emit, irqs, router_apply, pure_apply, once_trace, block, h1, h2, h3, h4, h5, h6, h7, h8,
      h9, h10, hr, hp, Nat.add_assoc]

/-- C13, as stated, fails: in the GPIO test started from the reset state, with every force
leading to exactly one dispatch of the forced cause, `execute_test` passes, and after the rising
edge was forced the falling flag `gpio_gpio1` is true, not false. -/
theorem gpio_falling_flag_stays_true :
    dispatches_once (passing_env 2) 0 example_hdr.kTopAthosPlicIrqIdGpioGpio1 .before_poll ∧
    dispatches_once (passing_env 2) 9 example_hdr.kTopAthosPlicIrqIdGpioGpio0 .before_poll ∧
    (Gpio.execute_test example_hdr (passing_env 2) .gpio (St.init GpioFlag)).returned = true ∧
    (Gpio.execute_test example_hdr (passing_env 2) .gpio (St.init GpioFlag)).st.flags
      .gpio_gpio1 = true ∧
    (Gpio.execute_test example_hdr (passing_env 2) .gpio (St.init GpioFlag)).st.flags
      .gpio_gpio0 = true := by
  refine ⟨by decide, by decide, ?_, ?_, ?_⟩ <;>
  simp [Gpio.execute_test, force_round, checked_call, CHECK_main_apply, gap, bind_apply, store,
    load, drv, CHECK, emit, irqs, Gpio.gpio_handler_eq_router, router_apply, passing_env,
    example_hdr, St.init, Gpio.gpio_rows, Res.returned, Res.st, pure_apply, Function.update]

/-- C13, amended: in the GPIO test, under the model in which forcing a cause leads to exactly
one dispatch of that cause's id, arriving at any point between the force and the last read of
the flag (before the poll, between the poll and the wait, or during the wait), the first half
of `execute_test` (forcing the falling edge) returns with the falling flag `gpio_gpio1` true and
the rising flag `gpio_gpio0` unchanged and false; the second half (forcing the rising edge)
then returns with the rising flag true and the falling flag unchanged, which means still true;
and `execute_test` as a whole passes, ending in that state. -/
theorem gpio_execute_test_scenario (h : Hdr) (env : Env) (dev : Ptr) (s : St GpioFlag)
    (a1 a2 : Arrival)
    (hd : h.kTopAthosPlicIrqIdGpioGpio0 ≠ h.kTopAthosPlicIrqIdGpioGpio1)
    (hp1 : h.top_athos_plic_interrupt_for_peripheral[h.kTopAthosPlicIrqIdGpioGpio1]? =
      some h.kTopAthosPlicPeripheralGpio)
    (hp0 : h.top_athos_plic_interrupt_for_peripheral[h.kTopAthosPlicIrqIdGpioGpio0]? =
      some h.kTopAthosPlicPeripheralGpio)
    (hfall : dispatches_once env s.trace.length h.kTopAthosPlicIrqIdGpioGpio1 a1)
    (hrise : dispatches_once env (s.trace.length + a1.round_length)
      h.kTopAthosPlicIrqIdGpioGpio0 a2)
    (h0 : s.flags .gpio_gpio0 = false) :
    ∃ s1 s2, Gpio.force_falling h env dev s = .ret () s1 ∧
      s1.flags .gpio_gpio1 = true ∧ s1.flags .gpio_gpio0 = s.flags .gpio_gpio0 ∧
      s1.flags .gpio_gpio0 = false ∧
      Gpio.force_rising h env dev s1 = .ret () s2 ∧
      s2.flags .gpio_gpio0 = true ∧ s2.flags .gpio_gpio1 = s1.flags .gpio_gpio1 ∧
      s2.flags .gpio_gpio1 = true ∧
      Gpio.execute_test h env dev s = .ret () s2 := by
  have e1 := force_round_once h env h.kTopAthosPlicPeripheralGpio
    "ISR interrupted peripheral is not gpio!" (Gpio.gpio_rows h) .gpio_gpio1
    (.dif_gpio_irq_force dev .kDifGpioIrqTriggerEdgeFalling)
    "failed to force Falling edge IRQ!" "Falling edge IRQ has not been handled!" s
    _ _ (Gpio.gpio_rows_irq_id h hd .kDifGpioIrqTriggerEdgeFalling) rfl hp1 a1 hfall
  have e2 := fun s1 hs1 => force_round_once h env h.kTopAthosPlicPeripheralGpio
    "ISR interrupted peripheral is not gpio!" (Gpio.gpio_rows h) .gpio_gpio0
    (.dif_gpio_irq_force dev .kDifGpioIrqTriggerEdgeRising)
    "failed to force Rising edge IRQ!" "Rising edge IRQ has not been handled!" s1
    _ _ (Gpio.gpio_rows_irq_id h hd .kDifGpioIrqTriggerEdgeRising) rfl hp0 a2 hs1
  rw [← Gpio.gpio_handler_eq_router] at e1 e2
  have hlen : ∀ t : List (Event GpioFlag), t.length = a1.round_length →
      dispatches_once env (s.trace ++ t).length h.kTopAthosPlicIrqIdGpioGpio0 a2 := by
    intro t ht
    rw [List.length_append, ht]
    exact hrise
  refine ⟨_, _, e1, ?_, ?_, ?_, e2 _ (hlen _ (once_trace_length _ _ _ _ _ _)), ?_, ?_, ?_, ?_⟩
  · simp
  · simp [Function.update]
  · simp [Function.update, h0]
  · simp
  · simp [Function.update]
  · simp [Function.update]
  · rw [gpio_execute_test_halves, bind_apply]
    simp only [Gpio.force_falling, Gpio.force_rising] at e1 e2 ⊢
    rw [e1]
    exact e2 _ (hlen _ (once_trace_length _ _ _ _ _ _))

/-- C13 at a concrete input: the dispatch of the falling edge arrives during the wait, the
dispatch of the rising edge between the poll and the wait. -/
theorem gpio_execute_test_scenario_witness :
    ∃ s1 s2, Gpio.force_falling example_hdr waiting_env .gpio (St.init GpioFlag) =
        .ret () s1 ∧
      s1.flags .gpio_gpio1 = true ∧ s1.flags .gpio_gpio0 = (St.init GpioFlag).flags .gpio_gpio0 ∧
      s1.flags .gpio_gpio0 = false ∧
      Gpio.force_rising example_hdr waiting_env .gpio s1 = .ret () s2 ∧
      s2.flags .gpio_gpio0 = true ∧ s2.flags .gpio_gpio1 = s1.flags .gpio_gpio1 ∧
      s2.flags .gpio_gpio1 = true ∧
      Gpio.execute_test example_hdr waiting_env .gpio (St.init GpioFlag) = .ret () s2 :=
  gpio_execute_test_scenario example_hdr waiting_env .gpio (St.init GpioFlag)
    .during_wait .before_wait (by decide) (by decide) (by decide) (by decide) (by decide) rfl

/-- The failures of a handler run: the `default` branch, taken after a successful claim of an
id without a row, or a `CHECK`. -/
theorem router_failure {F : Type} [DecidableEq F] (h : Hdr) (env : Env) (expected : Nat)
    (msg : String) (rows : Nat → Option (Row F)) (s : St F) (e : Failure)
    (hf : (router h env expected msg rows s).failure = some e) :
    (e = .fatal "ISR is not implemented!" ∧ env.status s.trace.length = .kOk ∧
      rows (env.claimed s.trace.length) = none) ∨ e.by_CHECK = true := by
  rw [router_apply] at hf
  by_cases h0 : env.status s.trace.length = .kOk
  swap
  · simp only [h0, if_false, Res.failure, Option.some.injEq] at hf
    subst hf; exact Or.inr rfl
  simp only [h0, if_true] at hf
  cases hp : h.top_athos_plic_interrupt_for_peripheral[env.claimed s.trace.length]? with
  | none => simp [hp, Res.failure] at hf
  | some p =>
    simp only [hp] at hf
    by_cases h1 : p = expected
    swap
    · simp only [h1, if_false, Res.failure, Option.some.injEq] at hf
      subst hf; exact Or.inr rfl
    simp only [h1, if_true] at hf
    cases hr : rows (env.claimed s.trace.length) with
    | none =>
      simp only [hr, Res.failure, Option.some.injEq] at hf
      subst hf; exact Or.inl ⟨rfl, h0, rfl⟩
    | some r =>
      simp only [hr] at hf
      by_cases h2 : s.flags r.flag = true
      · simp only [h2, if_true, Res.failure, Option.some.injEq] at hf
        subst hf; exact Or.inr rfl
      simp only [h2, if_false] at hf
      by_cases h3 : env.status (s.trace.length + 3) = .kOk
      swap
      · simp [h3, Res.failure] at hf
        subst hf; exact Or.inr rfl
      simp only [h3, if_true] at hf
      by_cases h4 : env.status (s.trace.length + 4) = .kOk
      · simp [h4, Res.failure] at hf
      · simp [h4, Res.failure] at hf
        subst hf; exact Or.inr rfl

/-- The failure of a handler run whose claim did not return OK. -/
theorem router_claim_failed {F : Type} [DecidableEq F] (h : Hdr) (env : Env) (expected : Nat)
    (msg : String) (rows : Nat → Option (Row F)) (s : St F)
    (h0 : env.status s.trace.length ≠ .kOk) :
    (router h env expected msg rows s).failure = some (.check "ISR is not implemented!") := by
  rw [router_apply]
  simp [h0, Res.failure]

/-- The failure of a handler run that claimed an id of its peripheral without a row. -/
theorem router_unmapped {F : Type} [DecidableEq F] (h : Hdr) (env : Env) (expected : Nat)
    (msg : String) (rows : Nat → Option (Row F)) (s : St F)
    (h0 : env.status s.trace.length = .kOk)
    (hp : h.top_athos_plic_interrupt_for_peripheral[env.claimed s.trace.length]? = some expected)
    (hr : rows (env.claimed s.trace.length) = none) :
    (router h env expected msg rows s).failure = some (.fatal "ISR is not implemented!") := by
  rw [router_apply]
  simp [h0, hp, hr, Res.failure]

theorem uart_rows_irq_id_ne_none (h : Hdr) (c : dif_uart_irq_t) :
    Uart.uart_rows h (Uart.irq_id h c) ≠ none := by
  cases c <;> simp only [Uart.uart_rows, Uart.irq_id] <;> split_ifs <;> simp_all

theorem gpio_rows_irq_id_ne_none (h : Hdr) (c : dif_gpio_irq_trigger_t) :
    Gpio.gpio_rows h (Gpio.irq_id h c) ≠ none := by
  cases c <;> simp only [Gpio.gpio_rows, Gpio.irq_id] <;> split_ifs <;> simp_all

/-- C15, as stated, fails: in the GPIO test the failure raised when the falling flag is
observed twice and the failure raised when the forced falling edge is not observed are both
`CHECK` failures, so they are of one kind and differ in their text only. -/
theorem failures_of_one_kind :
    (Gpio.handle_gpio_isr example_hdr (quiet_env 2) 2 ⟨fun _ => true, []⟩).failure =
      some (.check "gpio gpio1 input for falling edge detection IRQ asserted more than once") ∧
    (Gpio.execute_test example_hdr (quiet_env 2) .gpio (St.init GpioFlag)).failure =
      some (.check "Falling edge IRQ has not been handled!") ∧
    Option.map Failure.by_CHECK
        (Gpio.handle_gpio_isr example_hdr (quiet_env 2) 2 ⟨fun _ => true, []⟩).failure =
      Option.map Failure.by_CHECK
        (Gpio.execute_test example_hdr (quiet_env 2) .gpio (St.init GpioFlag)).failure := by
  have e1 : (Gpio.handle_gpio_isr example_hdr (quiet_env 2) 2 ⟨fun _ => true, []⟩).failure =
      some (.check "gpio gpio1 input for falling edge detection IRQ asserted more than once") := by
    decide
  have e2 : (Gpio.execute_test example_hdr (quiet_env 2) .gpio (St.init GpioFlag)).failure =
      some (.check "Falling edge IRQ has not been handled!") := by
    simp [Gpio.execute_test, force_round, checked_call, CHECK_main_apply, gap, bind_apply, store,
      load, drv, CHECK, emit, irqs, quiet_env, St.init, Res.failure, pure_apply, Function.update]
  refine ⟨e1, e2, ?_⟩
  rw [e1, e2]; rfl

/-- C15, amended: the failures are distinguishable, but not all of them by kind. For every
cause, the failure raised when its flag is observed twice and the failure raised when the forced
cause is not observed (the read after the wait finds the flag false and the test is stopped
there) are both `CHECK` failures, and their texts differ. The failure raised for an unmapped id
is the only failure of `handler_irq_external` that is not raised by `CHECK`: it takes the
`LOG_FATAL` path, so it differs in kind from every other failure of the handler, in particular
from the failure raised when the claim does not return OK, which is a `CHECK` failure. -/
theorem failures_differ_by_text_or_path (h : Hdr) (env : Env) :
    ((∀ c c', Uart.more_than_once_msg c ≠ Uart.not_handled_msg c') ∧
      (∀ (c : dif_uart_irq_t) (s : St UartFlag), Uart.ids_distinct h →
        s.flags (Uart.flag_of c) = true →
        (Uart.handle_uart_isr h env (Uart.irq_id h c) s).failure =
          some (.check (Uart.more_than_once_msg c))) ∧
      (∀ (dev : Ptr) (s : St UartFlag) f,
        ((Uart.execute_test h env dev s).added s).getLast? = some ⟨.main, .load f false⟩ →
        ∃ c, f = Uart.flag_of c ∧
          (Uart.execute_test h env dev s).failure = some (.check (Uart.not_handled_msg c))) ∧
      (∀ (s : St UartFlag) (e : Failure), (Uart.handler_irq_external h env s).failure = some e →
        (e = .fatal "ISR is not implemented!" ∧ env.status s.trace.length = .kOk ∧
          ∀ c, env.claimed s.trace.length ≠ Uart.irq_id h c) ∨ e.by_CHECK = true) ∧
      (∀ s : St UartFlag, env.status s.trace.length = .kOk →
        h.top_athos_plic_interrupt_for_peripheral[env.claimed s.trace.length]? =
          some h.kTopAthosPlicPeripheralUart0 →
        (∀ c, env.claimed s.trace.length ≠ Uart.irq_id h c) →
        (Uart.handler_irq_external h env s).failure =
          some (.fatal "ISR is not implemented!")) ∧
      (∀ s : St UartFlag, env.status s.trace.length ≠ .kOk →
        ∃ e, (Uart.handler_irq_external h env s).failure = some e ∧ e.by_CHECK = true ∧
          e ≠ .fatal "ISR is not implemented!")) ∧
    ((∀ c c', Gpio.more_than_once_msg c ≠ Gpio.not_handled_msg c') ∧
      (∀ (c : dif_gpio_irq_trigger_t) (s : St GpioFlag),
        h.kTopAthosPlicIrqIdGpioGpio0 ≠ h.kTopAthosPlicIrqIdGpioGpio1 →
        s.flags (Gpio.flag_of c) = true →
        (Gpio.handle_gpio_isr h env (Gpio.irq_id h c) s).failure =
          some (.check (Gpio.more_than_once_msg c))) ∧
      (∀ (dev : Ptr) (s : St GpioFlag) f,
        ((Gpio.execute_test h env dev s).added s).getLast? = some ⟨.main, .load f false⟩ →
        ∃ c, f = Gpio.flag_of c ∧
          (Gpio.execute_test h env dev s).failure = some (.check (Gpio.not_handled_msg c))) ∧
      (∀ (s : St GpioFlag) (e : Failure), (Gpio.handler_irq_external h env s).failure = some e →
        (e = .fatal "ISR is not implemented!" ∧ env.status s.trace.length = .kOk ∧
          ∀ c, env.claimed s.trace.length ≠ Gpio.irq_id h c) ∨ e.by_CHECK = true) ∧
      (∀ s : St GpioFlag, env.status s.trace.length = .kOk →
        h.top_athos_plic_interrupt_for_peripheral[env.claimed s.trace.length]? =
          some h.kTopAthosPlicPeripheralGpio →
        (∀ c, env.claimed s.trace.length ≠ Gpio.irq_id h c) →
        (Gpio.handler_irq_external h env s).failure =
          some (.fatal "ISR is not implemented!")) ∧
      (∀ s : St GpioFlag, env.status s.trace.length ≠ .kOk →
        ∃ e, (Gpio.handler_irq_external h env s).failure = some e ∧ e.by_CHECK = true ∧
          e ≠ .fatal "ISR is not implemented!")) := by
  refine ⟨⟨?_, ?_, ?_, ?_, ?_, ?_⟩, ⟨?_, ?_, ?_, ?_, ?_, ?_⟩⟩
  · intro c c'
    cases c <;> cases c' <;> decide
  · intro c s hd hf
    rw [Uart.handle_uart_isr_eq, Uart.uart_rows_irq_id h hd, handle_row_some]
    simp [hf, Res.failure]
  · intro dev s f hl
    rw [uart_execute_test_eq, Uart.uart_handler_eq_router] at hl ⊢
    obtain ⟨t, ht, -, -, -, -, hlast⟩ := run_rounds_any h env
      h.kTopAthosPlicPeripheralUart0 "ISR interrupted peripheral is not UART!" (Uart.uart_rows h)
      (Uart.causes.map (Uart.round dev)) s
    rw [added_of_trace _ s t ht] at hl
    obtain ⟨r, hr, hrf, hfail⟩ := hlast f hl
    obtain ⟨c, -, rfl⟩ := List.mem_map.1 hr
    exact ⟨c, hrf.symm, hfail⟩
  · intro s e hf
    rw [Uart.uart_handler_eq_router] at hf
    rcases router_failure h env _ _ _ s e hf with ⟨he, h0, hr⟩ | hc
    · refine Or.inl ⟨he, h0, fun c hc => ?_⟩
      rw [hc] at hr
      exact uart_rows_irq_id_ne_none h c hr
    · exact Or.inr hc
  · intro s h0 hp hid
    rw [Uart.uart_handler_eq_router]
    exact router_unmapped h env _ _ _ s h0 hp (Uart.uart_rows_none h _ hid)
  · intro s h0
    rw [Uart.uart_handler_eq_router]
    exact ⟨_, router_claim_failed h env _ _ _ s h0, rfl, by decide⟩
  · intro c c'
    cases c <;> cases c' <;> decide
  · intro c s hd hf
    rw [Gpio.handle_gpio_isr_eq, Gpio.gpio_rows_irq_id h hd, handle_row_some]
    simp [hf, Res.failure]
  · intro dev s f hl
    rw [gpio_execute_test_eq, Gpio.gpio_handler_eq_router] at hl ⊢
    obtain ⟨t, ht, -, -, -, -, hlast⟩ := run_rounds_any h env
      h.kTopAthosPlicPeripheralGpio "ISR interrupted peripheral is not gpio!" (Gpio.gpio_rows h)
      (Gpio.causes.map (Gpio.round dev)) s
    rw [added_of_trace _ s t ht] at hl
    obtain ⟨r, hr, hrf, hfail⟩ := hlast f hl
    obtain ⟨c, -, rfl⟩ := List.mem_map.1 hr
    exact ⟨c, hrf.symm, hfail⟩
  · intro s e hf
    rw [Gpio.gpio_handler_eq_router] at hf
    rcases router_failure h env _ _ _ s e hf with ⟨he, h0, hr⟩ | hc
    · refine Or.inl ⟨he, h0, fun c hc => ?_⟩
      rw [hc] at hr
      exact gpio_rows_irq_id_ne_none h c hr
    · exact Or.inr hc
  · intro s h0 hp hid
    rw [Gpio.gpio_handler_eq_router]
    exact router_unmapped h env _ _ _ s h0 hp (Gpio.gpio_rows_none h _ hid)
  · intro s h0
    rw [Gpio.gpio_handler_eq_router]
    exact ⟨_, router_claim_failed h env _ _ _ s h0, rfl, by decide⟩

set_option maxRecDepth 8000 in
/-- C15 at concrete inputs of the GPIO test: the falling flag observed twice; the unmapped id 3;
a claim that fails; the falling edge never observed. -/
theorem failures_differ_by_text_or_path_witness :
    (Gpio.handle_gpio_isr example_hdr (quiet_env 3) (Gpio.irq_id example_hdr
        .kDifGpioIrqTriggerEdgeFalling) ⟨fun _ => true, []⟩).failure =
      some (.check (Gpio.more_than_once_msg .kDifGpioIrqTriggerEdgeFalling)) ∧
    ((Failure.fatal "ISR is not implemented!" = .fatal "ISR is not implemented!" ∧
        (quiet_env 3).status (St.init GpioFlag).trace.length = .kOk ∧
        ∀ c, (quiet_env 3).claimed (St.init GpioFlag).trace.length ≠
          Gpio.irq_id example_hdr c) ∨
      (Failure.fatal "ISR is not implemented!").by_CHECK = true) ∧
    (Gpio.handler_irq_external example_hdr (quiet_env 3) (St.init GpioFlag)).failure =
      some (.fatal "ISR is not implemented!") ∧
    (∃ e, (Gpio.handler_irq_external example_hdr (failing_env 0) (St.init GpioFlag)).failure =
      some e ∧ e.by_CHECK = true ∧ e ≠ .fatal "ISR is not implemented!") ∧
    (∃ c, GpioFlag.gpio_gpio1 = Gpio.flag_of c ∧
      (Gpio.execute_test example_hdr (quiet_env 3) .gpio (St.init GpioFlag)).failure =
        some (.check (Gpio.not_handled_msg c))) :=
  ⟨(failures_differ_by_text_or_path example_hdr (quiet_env 3)).2.2.1 .kDifGpioIrqTriggerEdgeFalling
      ⟨fun _ => true, []⟩ (by decide) rfl,
   (failures_differ_by_text_or_path example_hdr (quiet_env 3)).2.2.2.2.1 (St.init GpioFlag)
      (.fatal "ISR is not implemented!") (by decide),
   (failures_differ_by_text_or_path example_hdr (quiet_env 3)).2.2.2.2.2.1 (St.init GpioFlag)
      rfl rfl (fun c => by cases c <;> decide),
   (failures_differ_by_text_or_path example_hdr (failing_env 0)).2.2.2.2.2.2 (St.init GpioFlag)
      (by decide),
   (failures_differ_by_text_or_path example_hdr (quiet_env 3)).2.2.2.1 .gpio (St.init GpioFlag)
      .gpio_gpio1 (by
        simp [Gpio.execute_test, force_round, checked_call, CHECK_main_apply, gap, bind_apply,
          store, load, drv, CHECK, emit, irqs, quiet_env, St.init, Res.added, Res.st,
          pure_apply, Function.update])⟩

theorem uart_configure_irqs_eq (h : Hdr) (env : Env) (uart : Ptr) :
    Uart.uart_configure_irqs h env uart =
      checked_calls (Uart.handler_irq_external h env) env Uart.uart_config_calls := by
  simp only [Uart.uart_configure_irqs, Uart.uart_config_calls, checked_calls, bind_pure_unit]

theorem uart_plic_configure_irqs_eq (h : Hdr) (env : Env) (plic : Ptr) :
    Uart.plic_configure_irqs h env plic =
      checked_calls (Uart.handler_irq_external h env) env (Uart.plic_config_calls h plic) := by
  simp only [Uart.plic_configure_irqs, Uart.plic_config_calls, checked_calls, bind_pure_unit]

theorem gpio_configure_irqs_eq (h : Hdr) (env : Env) (dev : Ptr) :
    Gpio.gpio_configure_irqs h env dev =
      checked_calls (Gpio.handler_irq_external h env) env (Gpio.gpio_config_calls dev) := by
  simp only [Gpio.gpio_configure_irqs, Gpio.gpio_config_calls, checked_calls, bind_pure_unit]

theorem gpio_plic_configure_irqs_eq (h : Hdr) (env : Env) (plic : Ptr) :
    Gpio.plic_configure_irqs h env plic =
      checked_calls (Gpio.handler_irq_external h env) env (Gpio.plic_config_calls h plic) := by
  simp only [Gpio.plic_configure_irqs, Gpio.plic_config_calls, checked_calls, bind_pure_unit]

/-- The settings are read off the history piece by piece. -/
theorem Config.after_append {F : Type} (c : Config) (a b : List (Event F)) :
    c.after (a ++ b) = (c.after a).after b := by
  simp [Config.after, List.foldl_append]

/-- Complete dispatches whose acknowledges are no configuration calls write no setting. -/
theorem Config.after_blocks {F : Type} (h : Hdr) (c : Config) (xs : List (Row F × Nat))
    (hx : ∀ x ∈ xs, ∀ c : Config, c.apply x.1.ack .kOk = c) :
    c.after (blocks h xs) = c := by
  induction xs generalizing c with
  | nil => rfl
  | cons x xs ih =>
    have h1 : c.apply (.dif_plic_irq_claim .plic0 h.kTopAthosPlicTargetIbex0 x.2) .kOk = c := rfl
    have h2 : c.apply (.dif_plic_irq_complete .plic0 h.kTopAthosPlicTargetIbex0 x.2) .kOk = c :=
      rfl
    have hb : c.after (block h x) = c := by
      simp only [Config.after, block, List.foldl_cons, List.foldl_nil, h1, h2,
        hx x (List.mem_cons_self _ _)]
    rw [blocks, Config.after_append, hb, ih c (fun y hy => hx y (List.mem_cons_of_mem _ hy))]

/-- A checked call that returns has written its setting, whatever the interrupt did before. -/
theorem checked_call_config {F : Type} [DecidableEq F] (h : Hdr) (env : Env) (expected : Nat)
    (msg : String) (rows : Nat → Option (Row F))
    (hrows : ∀ id r, rows id = some r → ∀ c : Config, c.apply r.ack .kOk = c)
    (k : Call) (m : String) (s s' : St F) (a : Unit)
    (hret : checked_call (router h env expected msg rows) env k m s = .ret a s') (c : Config) :
    c.after s'.trace = (c.after s.trace).apply k .kOk := by
  simp only [checked_call, bind_ret_iff, drv_ret_iff, CHECK_main_ret_iff] at hret
  obtain ⟨u, s1, hg, st, s2, ⟨hst, hs2⟩, hc, hs'⟩ := hret
  obtain ⟨xs, ht, hx, -⟩ := gap_ret h env expected msg rows s s1 u hg
  subst hs' hs2 hst
  have hok := hc
  rw [ht] at hok
  simp at hok
  simp only [Config.after_append, ht]
  rw [Config.after_blocks h _ xs (fun x hxm c' => hrows _ _ (hx x hxm) c')]
  simp [Config.after, hok]

/-- A sequence of checked calls that returns has written its settings in order. -/
theorem checked_calls_config {F : Type} [DecidableEq F] (h : Hdr) (env : Env) (expected : Nat)
    (msg : String) (rows : Nat → Option (Row F))
    (hrows : ∀ id r, rows id = some r → ∀ c : Config, c.apply r.ack .kOk = c)
    (ks : List (Call × String)) (s s' : St F) (a : Unit)
    (hret : checked_calls (router h env expected msg rows) env ks s = .ret a s') (c : Config) :
    c.after s'.trace = ks.foldl (fun c k => c.apply k.1 .kOk) (c.after s.trace) := by
  induction ks generalizing s with
  | nil =>
    simp only [checked_calls, pure_ret_iff] at hret
    rw [← hret.2]; rfl
  | cons k ks ih =>
    simp only [checked_calls, bind_ret_iff] at hret
    obtain ⟨u, s1, h1, h2⟩ := hret
    rw [ih s1 h2, checked_call_config h env expected msg rows hrows k.1 k.2 s s1 u h1 c]
    rfl

theorem uart_rows_ack (h : Hdr) (id : Nat) (r : Row UartFlag) (hr : Uart.uart_rows h id = some r)
    (c : Config) : c.apply r.ack .kOk = c := by
  obtain ⟨_, -, rfl⟩ := Uart.uart_rows_some h id r hr
  rfl

theorem gpio_rows_ack (h : Hdr) (id : Nat) (r : Row GpioFlag) (hr : Gpio.gpio_rows h id = some r)
    (c : Config) : c.apply r.ack .kOk = c := by
  obtain ⟨_, -, rfl⟩ := Gpio.gpio_rows_some h id r hr
  rfl

/-- C14: when the two configuration functions of a PLIC test return (`uart_configure_irqs`
and `plic_configure_irqs` on `uart0` and `plic0`, resp. `gpio_configure_irqs` and
`plic_configure_irqs` on `gpio` and `plic0`, as `test_main` calls them), then, whatever the
settings were before and whatever interrupts were served in between, every one of the eight
(two) causes is enabled at the peripheral, is enabled in the controller for the target Ibex0
and has the priority `kDifPlicMaxPriority`, and the threshold of the target is
`kDifPlicMinPriority`; and `execute_test` forces nothing but these causes, on the handle it is
given. -/
theorem configure_irqs_cover_forced_causes (h : Hdr) (env : Env) :
    (∀ (s s' : St UartFlag) (c0 : Config),
      (Uart.uart_configure_irqs h env .uart0 >>= fun _ =>
        Uart.plic_configure_irqs h env .plic0) s = .ret () s' →
      ∀ cause : dif_uart_irq_t,
        (c0.after s'.trace).uart_irq_enabled .uart0 cause = some .kToggleEnabled ∧
        (c0.after s'.trace).plic_enabled .plic0 (Uart.irq_id h cause)
          h.kTopAthosPlicTargetIbex0 = some .kToggleEnabled ∧
        (c0.after s'.trace).plic_priority .plic0 (Uart.irq_id h cause) =
          some h.kDifPlicMaxPriority ∧
        (c0.after s'.trace).plic_threshold .plic0 h.kTopAthosPlicTargetIbex0 =
          some h.kDifPlicMinPriority) ∧
    (∀ (dev : Ptr) (s : St UartFlag),
      ∀ k ∈ called (main_ops ((Uart.execute_test h env dev s).added s)),
        ∃ cause, k = .dif_uart_irq_force dev cause) ∧
    (∀ (s s' : St GpioFlag) (c0 : Config),
      (Gpio.gpio_configure_irqs h env .gpio >>= fun _ =>
        Gpio.plic_configure_irqs h env .plic0) s = .ret () s' →
      ∀ cause : dif_gpio_irq_trigger_t,
        (c0.after s'.trace).gpio_irq_enabled .gpio cause = some .kToggleEnabled ∧
        (c0.after s'.trace).plic_enabled .plic0 (Gpio.irq_id h cause)
          h.kTopAthosPlicTargetIbex0 = some .kToggleEnabled ∧
        (c0.after s'.trace).plic_priority .plic0 (Gpio.irq_id h cause) =
          some h.kDifPlicMaxPriority ∧
        (c0.after s'.trace).plic_threshold .plic0 h.kTopAthosPlicTargetIbex0 =
          some h.kDifPlicMinPriority) ∧
    (∀ (dev : Ptr) (s : St GpioFlag),
      ∀ k ∈ called (main_ops ((Gpio.execute_test h env dev s).added s)),
        ∃ cause, k = .dif_gpio_irq_force dev cause) := by
  refine ⟨?_, ?_, ?_, ?_⟩
  · intro s s' c0 hret cause
    rw [bind_ret_iff] at hret
    obtain ⟨u, s1, h1, h2⟩ := hret
    rw [uart_configure_irqs_eq, Uart.uart_handler_eq_router] at h1
    rw [uart_plic_configure_irqs_eq, Uart.uart_handler_eq_router] at h2
    rw [checked_calls_config h env _ _ _ (uart_rows_ack h) _ s1 s' () h2 c0,
      checked_calls_config h env _ _ _ (uart_rows_ack h) _ s s1 u h1 c0]
    cases cause <;>
      simp [Uart.uart_config_calls, Uart.plic_config_calls, Config.apply, Uart.irq_id,
        kPlicTarget]
  · intro dev s k hk
    rw [uart_execute_test_eq, Uart.uart_handler_eq_router] at hk
    obtain ⟨t, ht, -, -, hcalled, -⟩ := run_rounds_any h env
      h.kTopAthosPlicPeripheralUart0 "ISR interrupted peripheral is not UART!" (Uart.uart_rows h)
      (Uart.causes.map (Uart.round dev)) s
    rw [added_of_trace _ s t ht] at hk
    have hm := hcalled.subset hk
    simp only [List.map_map, List.mem_map, Function.comp, Uart.round] at hm
    obtain ⟨c, -, rfl⟩ := hm
    exact ⟨c, rfl⟩
  · intro s s' c0 hret cause
    rw [bind_ret_iff] at hret
    obtain ⟨u, s1, h1, h2⟩ := hret
    rw [gpio_configure_irqs_eq, Gpio.gpio_handler_eq_router] at h1
    rw [gpio_plic_configure_irqs_eq, Gpio.gpio_handler_eq_router] at h2
    rw [checked_calls_config h env _ _ _ (gpio_rows_ack h) _ s1 s' () h2 c0,
      checked_calls_config h env _ _ _ (gpio_rows_ack h) _ s s1 u h1 c0]
    cases cause <;>
      simp [Gpio.gpio_config_calls, Gpio.plic_config_calls, Config.apply, Gpio.irq_id,
        kPlicTarget]
  · intro dev s k hk
    rw [gpio_execute_test_eq, Gpio.gpio_handler_eq_router] at hk
    obtain ⟨t, ht, -, -, hcalled, -⟩ := run_rounds_any h env
      h.kTopAthosPlicPeripheralGpio "ISR interrupted peripheral is not gpio!" (Gpio.gpio_rows h)
      (Gpio.causes.map (Gpio.round dev)) s
    rw [added_of_trace _ s t ht] at hk
    have hm := hcalled.subset hk
    simp only [List.map_map, List.mem_map, Function.comp, Gpio.round] at hm
    obtain ⟨c, -, rfl⟩ := hm
    exact ⟨c, rfl⟩

/-- A run that returned is its final state. -/
theorem Res.eq_ret_of_returned {F : Type} (r : Res F Unit) (h : r.returned = true) :
    r = .ret () r.st := by
  cases r <;> simp_all [Res.returned, Res.st]

set_option maxRecDepth 8000 in
theorem configure_irqs_cover_forced_causes_witness :
    ((Config.reset.after ((Uart.uart_configure_irqs example_hdr (quiet_env 0) .uart0 >>= fun _ =>
        Uart.plic_configure_irqs example_hdr (quiet_env 0) .plic0)
          (St.init UartFlag)).st.trace).uart_irq_enabled .uart0 .kDifUartIrqRxOverflow =
        some .kToggleEnabled ∧
      (Config.reset.after ((Uart.uart_configure_irqs example_hdr (quiet_env 0) .uart0 >>= fun _ =>
        Uart.plic_configure_irqs example_hdr (quiet_env 0) .plic0)
          (St.init UartFlag)).st.trace).plic_enabled .plic0
            (Uart.irq_id example_hdr .kDifUartIrqRxOverflow)
            example_hdr.kTopAthosPlicTargetIbex0 = some .kToggleEnabled ∧
      (Config.reset.after ((Uart.uart_configure_irqs example_hdr (quiet_env 0) .uart0 >>= fun _ =>
        Uart.plic_configure_irqs example_hdr (quiet_env 0) .plic0)
          (St.init UartFlag)).st.trace).plic_priority .plic0
            (Uart.irq_id example_hdr .kDifUartIrqRxOverflow) =
        some example_hdr.kDifPlicMaxPriority ∧
      (Config.reset.after ((Uart.uart_configure_irqs example_hdr (quiet_env 0) .uart0 >>= fun _ =>
        Uart.plic_configure_irqs example_hdr (quiet_env 0) .plic0)
          (St.init UartFlag)).st.trace).plic_threshold .plic0
            example_hdr.kTopAthosPlicTargetIbex0 = some example_hdr.kDifPlicMinPriority) ∧
    ((Config.reset.after ((Gpio.gpio_configure_irqs example_hdr (quiet_env 0) .gpio >>= fun _ =>
        Gpio.plic_configure_irqs example_hdr (quiet_env 0) .plic0)
          (St.init GpioFlag)).st.trace).gpio_irq_enabled .gpio .kDifGpioIrqTriggerEdgeFalling =
        some .kToggleEnabled ∧
      (Config.reset.after ((Gpio.gpio_configure_irqs example_hdr (quiet_env 0) .gpio >>= fun _ =>
        Gpio.plic_configure_irqs example_hdr (quiet_env 0) .plic0)
          (St.init GpioFlag)).st.trace).plic_enabled .plic0
            (Gpio.irq_id example_hdr .kDifGpioIrqTriggerEdgeFalling)
            example_hdr.kTopAthosPlicTargetIbex0 = some .kToggleEnabled ∧
      (Config.reset.after ((Gpio.gpio_configure_irqs example_hdr (quiet_env 0) .gpio >>= fun _ =>
        Gpio.plic_configure_irqs example_hdr (quiet_env 0) .plic0)
          (St.init GpioFlag)).st.trace).plic_priority .plic0
            (Gpio.irq_id example_hdr .kDifGpioIrqTriggerEdgeFalling) =
        some example_hdr.kDifPlicMaxPriority ∧
      (Config.reset.after ((Gpio.gpio_configure_irqs example_hdr (quiet_env 0) .gpio >>= fun _ =>
        Gpio.plic_configure_irqs example_hdr (quiet_env 0) .plic0)
          (St.init GpioFlag)).st.trace).plic_threshold .plic0
            example_hdr.kTopAthosPlicTargetIbex0 = some example_hdr.kDifPlicMinPriority) :=
  ⟨(configure_irqs_cover_forced_causes example_hdr (quiet_env 0)).1 (St.init UartFlag) _
      Config.reset (Res.eq_ret_of_returned _ (by
        simp [Uart.uart_configure_irqs, Uart.plic_configure_irqs, checked_call, CHECK_main_apply,
          gap, bind_apply,
          drv, CHECK, irqs, quiet_env, St.init, Res.returned, pure_apply]))
      .kDifUartIrqRxOverflow,
   (configure_irqs_cover_forced_causes example_hdr (quiet_env 0)).2.2.1 (St.init GpioFlag) _
      Config.reset (Res.eq_ret_of_returned _ (by
        simp [Gpio.gpio_configure_irqs, Gpio.plic_configure_irqs, checked_call, CHECK_main_apply,
          gap, bind_apply,
          drv, CHECK, irqs, quiet_env, St.init, Res.returned, pure_apply]))
      .kDifGpioIrqTriggerEdgeFalling⟩

section TidyLemmas
variable {F : Type} [DecidableEq F]

omit [DecidableEq F] in
theorem steps_trace_append (h : Hdr) (a b : List (Step F)) :
    steps_trace h (a ++ b) = steps_trace h a ++ steps_trace h b := by
  induction a with
  | nil => rfl
  | cons st r ih =>
    cases st with
    | main op => simp [steps_trace, ih]
    | served x => simp [steps_trace, ih]

theorem steps_flags_append (fl : F → Bool) (a b : List (Step F)) :
    steps_flags fl (a ++ b) = steps_flags (steps_flags fl a) b := by
  induction a generalizing fl with
  | nil => rfl
  | cons st r ih => simp [steps_flags, ih]

theorem steps_ok_append (fl : F → Bool) (a b : List (Step F)) :
    steps_ok fl (a ++ b) ↔ steps_ok fl a ∧ steps_ok (steps_flags fl a) b := by
  induction a generalizing fl with
  | nil => simp [steps_ok, steps_flags]
  | cons st r ih => simp [steps_ok, steps_flags, ih, and_assoc]

theorem tidy_bind {α β : Type} {h : Hdr} {rows : Nat → Option (Row F)} {m : M F α}
    {k : α → M F β} (hm : Tidy h rows m) (hk : ∀ a, Tidy h rows (k a)) :
    Tidy h rows (m >>= k) := by
  intro s
  obtain ⟨ss1, tail1, ht1, hi1, ho1, hr1, hret1⟩ := hm s
  rw [bind_apply]
  cases hr : m s with
  | ret a s1 =>
    rw [hr] at ht1 hret1
    obtain ⟨htl, hfl⟩ := hret1 rfl
    subst htl
    simp only [Res.st, List.append_nil] at ht1 hfl
    obtain ⟨ss2, tail2, ht2, hi2, ho2, hr2, hret2⟩ := hk a s1
    refine ⟨ss1 ++ ss2, tail2, ?_, hi2, ?_, ?_, ?_⟩
    · rw [ht2, ht1, steps_trace_append]
      simp [List.append_assoc]
    · rw [steps_ok_append, ← hfl]
      exact ⟨ho1, ho2⟩
    · intro x hx
      rcases List.mem_append.1 hx with hx | hx
      · exact hr1 x hx
      · exact hr2 x hx
    · intro hret
      obtain ⟨htl2, hfl2⟩ := hret2 hret
      exact ⟨htl2, by rw [hfl2, hfl, steps_flags_append]⟩
  | abort e s1 =>
    rw [hr] at ht1
    exact ⟨ss1, tail1, ht1, hi1, ho1, hr1, fun hc => by cases hc⟩
  | undef s1 =>
    rw [hr] at ht1
    exact ⟨ss1, tail1, ht1, hi1, ho1, hr1, fun hc => by cases hc⟩

/-- A run that appended nothing and kept the flags. -/
theorem tidy_of_same {α : Type} (h : Hdr) (rows : Nat → Option (Row F)) (m : M F α)
    (hm : ∀ s, (m s).st = s) : Tidy h rows m := by
  intro s
  refine ⟨[], [], by rw [hm]; simp [steps_trace], isr_only_nil, trivial, ?_, ?_⟩
  · intro x hx; cases hx
  · intro _; exact ⟨rfl, by rw [hm]; rfl⟩

/-- A run that returned after one step of the main flow. -/
theorem tidy_of_step {α : Type} (h : Hdr) (rows : Nat → Option (Row F)) (m : M F α)
    (op : St F → Op F)
    (hm : ∀ s, (m s).st = ⟨step_flags s.flags (.main (op s)), s.trace ++ [⟨.main, op s⟩]⟩)
    (hok : ∀ s, step_ok s.flags (.main (op s))) : Tidy h rows m := by
  intro s
  refine ⟨[.main (op s)], [], by rw [hm]; simp [steps_trace], isr_only_nil, ⟨hok s, trivial⟩,
    ?_, ?_⟩
  · intro x hx
    simp at hx
  · intro _; exact ⟨rfl, by rw [hm]; rfl⟩

theorem tidy_pure {α : Type} (h : Hdr) (rows : Nat → Option (Row F)) (a : α) :
    Tidy h rows (pure a : M F α) :=
  tidy_of_same h rows _ (fun _ => rfl)

theorem tidy_CHECK (h : Hdr) (rows : Nat → Option (Row F)) (c : Bool) (msg : String) :
    Tidy h rows (CHECK c msg : M F Unit) := by
  apply tidy_of_same
  intro s
  unfold Athos.CHECK
  split_ifs <;> rfl

theorem tidy_load (h : Hdr) (rows : Nat → Option (Row F)) (f : F) :
    Tidy h rows (load .main f) :=
  tidy_of_step h rows _ (fun s => .load f (s.flags f)) (fun _ => rfl) (fun _ => rfl)

theorem tidy_store (h : Hdr) (rows : Nat → Option (Row F)) (f : F) :
    Tidy h rows (store .main f false) :=
  tidy_of_step h rows _ (fun _ => .store f false) (fun _ => rfl) (fun _ => rfl)

theorem tidy_usleep (h : Hdr) (rows : Nat → Option (Row F)) (n : Nat) :
    Tidy h rows (emit .main (.usleep n) : M F Unit) :=
  tidy_of_step h rows _ (fun _ => .usleep n) (fun _ => rfl) (fun _ => trivial)

theorem tidy_drv (h : Hdr) (rows : Nat → Option (Row F)) (env : Env) (k : Call) :
    Tidy h rows (drv env .main k : M F Status) :=
  tidy_of_step h rows _ (fun s => .call k (env.status s.trace.length)) (fun _ => rfl)
    (fun _ => trivial)

theorem tidy_router (h : Hdr) (env : Env) (expected : Nat) (msg : String)
    (rows : Nat → Option (Row F)) : Tidy h rows (router h env expected msg rows) := by
  intro s
  by_cases hret : (Athos.router h env expected msg rows s).returned = true
  · obtain ⟨r, hrow, hf0, -, heq⟩ := router_ret h env expected msg rows s hret
    rw [heq]
    refine ⟨[.served (r, env.claimed s.trace.length)], [], ?_, isr_only_nil, ⟨hf0, trivial⟩,
      ?_, ?_⟩
    · simp [Res.st, steps_trace, block]
    · intro x hx
      simp at hx
      subst hx
      exact hrow
    · intro _; exact ⟨rfl, rfl⟩
  · obtain ⟨t, ht, hi, -⟩ := router_any h env expected msg rows s
    refine ⟨[], t, by simpa [steps_trace] using ht, hi, trivial, ?_, fun hc => absurd hc hret⟩
    intro x hx; cases hx

theorem tidy_irqs {h : Hdr} {rows : Nat → Option (Row F)} {isr : M F Unit}
    (hisr : Tidy h rows isr) (n : Nat) : Tidy h rows (irqs isr n) := by
  induction n with
  | zero => exact tidy_pure h rows ()
  | succ n ih =>
    rw [Athos.irqs]
    exact tidy_bind hisr (fun _ => ih)

theorem tidy_gap {h : Hdr} {rows : Nat → Option (Row F)} {isr : M F Unit}
    (hisr : Tidy h rows isr) (env : Env) : Tidy h rows (gap isr env) :=
  fun s => tidy_irqs hisr _ s

/-- A `CHECK` of the main flow: the dispatches served before its abort are steps like all
others. -/
theorem tidy_CHECK_main {h : Hdr} {rows : Nat → Option (Row F)} {isr : M F Unit}
    (hisr : Tidy h rows isr) (env : Env) (c : Bool) (msg : String) :
    Tidy h rows (CHECK_main isr env c msg) := by
  cases c
  · exact tidy_bind (tidy_gap hisr env) (fun _ => tidy_CHECK h rows _ _)
  · exact tidy_bind (tidy_pure h rows _) (fun _ => tidy_CHECK h rows _ _)

theorem tidy_checked_call {h : Hdr} {rows : Nat → Option (Row F)} {isr : M F Unit}
    (hisr : Tidy h rows isr) (env : Env) (k : Call) (msg : String) :
    Tidy h rows (checked_call isr env k msg) := by
  unfold Athos.checked_call
  exact tidy_bind (tidy_gap hisr env) (fun _ => tidy_bind (tidy_drv h rows env k)
    (fun _ => tidy_CHECK_main hisr env _ _))

theorem tidy_ite {α : Type} {h : Hdr} {rows : Nat → Option (Row F)} (c : Prop) [Decidable c]
    {a b : M F α} (ha : Tidy h rows a) (hb : Tidy h rows b) :
    Tidy h rows (if c then a else b) := by
  split_ifs
  · exact ha
  · exact hb

theorem tidy_force_round {h : Hdr} {rows : Nat → Option (Row F)} {isr : M F Unit}
    (hisr : Tidy h rows isr) (env : Env) (f : F) (k : Call) (m1 m2 : String) :
    Tidy h rows (force_round isr env f k m1 m2) := by
  unfold Athos.force_round
  refine tidy_bind (tidy_gap hisr env) (fun _ => tidy_bind (tidy_store h rows _)
    (fun _ => tidy_bind (tidy_checked_call hisr env _ _) (fun _ =>
      tidy_bind (tidy_gap hisr env) (fun _ => tidy_bind (tidy_load h rows _)
        (fun p => tidy_ite _ ?_ ?_)))))
  · exact tidy_bind (tidy_gap hisr env) (fun _ => tidy_bind
      (tidy_usleep h rows _) (fun _ => tidy_bind (tidy_gap hisr env)
        (fun _ => tidy_bind (tidy_load h rows _) (fun _ => tidy_CHECK_main hisr env _ _))))
  · exact tidy_bind (tidy_pure h rows _) (fun _ => tidy_bind (tidy_gap hisr env)
      (fun _ => tidy_bind (tidy_load h rows _) (fun _ => tidy_CHECK_main hisr env _ _)))

theorem tidy_run_rounds {h : Hdr} {rows : Nat → Option (Row F)} {isr : M F Unit}
    (hisr : Tidy h rows isr) (env : Env) (rs : List (F × Call × String × String)) :
    Tidy h rows (run_rounds isr env rs) := by
  induction rs with
  | nil => exact tidy_pure h rows ()
  | cons r rs ih =>
    rw [Athos.run_rounds]
    exact tidy_bind (tidy_force_round hisr env _ _ _ _) (fun _ => ih)

end TidyLemmas

section ReadLemmas
variable {F : Type} [DecidableEq F]

/-- In a history of fitting steps, a read of `true` by the main flow comes after a complete
dispatch of that flag with no write to the flag in between, unless the flag was true from the
start and has not been written at all. -/
theorem steps_read_true (h : Hdr) (fl : F → Bool) (ss : List (Step F)) (hok : steps_ok fl ss)
    (pre post : List (Event F)) (f : F)
    (hsplit : steps_trace h ss = pre ++ ⟨.main, .load f true⟩ :: post) :
    (∃ pre' x mid, Step.served x ∈ ss ∧ x.1.flag = f ∧ pre = pre' ++ block h x ++ mid ∧
        ∀ e ∈ mid, ∀ v, e.op ≠ .store f v) ∨
      (fl f = true ∧ ∀ e ∈ pre, ∀ v, e.op ≠ .store f v) := by
  induction ss generalizing fl pre with
  | nil =>
    simp [steps_trace] at hsplit
  | cons st r ih =>
    cases st with
    | main op =>
      simp only [steps_trace] at hsplit
      cases pre with
      | nil =>
        simp only [List.nil_append, List.cons.injEq, Event.mk.injEq, true_and] at hsplit
        obtain ⟨hop, -⟩ := hsplit
        subst hop
        have h1 : true = fl f := hok.1
        exact Or.inr ⟨h1.symm, fun e he => by cases he⟩
      | cons e pre2 =>
        simp only [List.cons_append, List.cons.injEq] at hsplit
        obtain ⟨he, hT⟩ := hsplit
        subst he
        rcases ih _ hok.2 pre2 hT with ⟨pre', x, mid, hx, hxf, hpre, hmid⟩ | ⟨hfl, hns⟩
        · exact Or.inl ⟨⟨.main, op⟩ :: pre', x, mid, List.mem_cons_of_mem _ hx, hxf,
            by simp [hpre], hmid⟩
        · right
          have key : fl f = true ∧ ∀ v, op ≠ .store f v := by
            cases op with
            | store g v =>
              have hv : v = false := hok.1
              subst hv
              by_cases hg : g = f
              · subst hg
                simp [step_flags] at hfl
              · have hg' : f ≠ g := fun h' => hg h'.symm
                refine ⟨by simpa [step_flags, Function.update, hg'] using hfl, ?_⟩
                intro v hc
                cases hc
                exact hg rfl
            | call k st => exact ⟨hfl, fun v hc => by cases hc⟩
            | load g v => exact ⟨hfl, fun v hc => by cases hc⟩
            | usleep n => exact ⟨hfl, fun v hc => by cases hc⟩
            | irq_global_ctrl en => exact ⟨hfl, fun v hc => by cases hc⟩
            | irq_external_ctrl en => exact ⟨hfl, fun v hc => by cases hc⟩
          refine ⟨key.1, ?_⟩
          intro e he v
          rcases List.mem_cons.1 he with rfl | he
          · exact key.2 v
          · exact hns e he v
    | served x =>
      simp only [steps_trace] at hsplit
      have hcase : ∃ a', pre = block h x ++ a' ∧
          steps_trace h r = a' ++ ⟨.main, .load f true⟩ :: post := by
        rcases List.append_eq_append_iff.1 hsplit with ⟨a', hpre, hT⟩ | ⟨c', hb, hL⟩
        · exact ⟨a', hpre, hT⟩
        · cases c' with
          | nil =>
            simp only [List.nil_append, List.append_nil] at hb hL
            exact ⟨[], by simp [hb], by simp [hL]⟩
          | cons e c'' =>
            simp only [List.cons_append, List.cons.injEq] at hL
            obtain ⟨he, -⟩ := hL
            have hmem : e ∈ block h x := by rw [hb]; simp
            have := isr_only_block h x e hmem
            rw [← he] at this
            cases this
      obtain ⟨a', hpre, hT⟩ := hcase
      rcases ih _ hok.2 a' hT with ⟨pre', y, mid, hy, hyf, hpre', hmid⟩ | ⟨hfl, hns⟩
      · exact Or.inl ⟨block h x ++ pre', y, mid, List.mem_cons_of_mem _ hy, hyf,
          by simp [hpre, hpre'], hmid⟩
      · by_cases hxf : x.1.flag = f
        · exact Or.inl ⟨[], x, a', List.mem_cons_self _ _, hxf, by simp [hpre], hns⟩
        · right
          have hxf' : f ≠ x.1.flag := fun h' => hxf h'.symm
          refine ⟨by simpa [step_flags, Function.update, hxf'] using hfl, ?_⟩
          intro e he v
          rw [hpre] at he
          rcases List.mem_append.1 he with he | he
          · simp only [block, List.mem_cons, List.mem_singleton, List.not_mem_nil,
              or_false] at he
            rcases he with rfl | rfl | rfl | rfl | rfl <;> intro hc <;> cases hc
            exact hxf rfl
          · exact hns e he v

omit [DecidableEq F] in
/-- In a list of operations that starts with the reset of `f` and reads no other flag, every
read comes after the reset of the flag it reads. -/
theorem read_after_reset_of (f : F) (l l' : List (Op F)) (hl : l = .store f false :: l')
    (hloads : ∀ g v, Op.load g v ∈ l → g = f) (pre post : List (Op F)) (g : F) (v : Bool)
    (hsplit : l = pre ++ .load g v :: post) : Op.store g false ∈ pre := by
  have hg : g = f := hloads g v (by rw [hsplit]; simp)
  subst hg
  cases pre with
  | nil =>
    rw [hl] at hsplit
    simp at hsplit
  | cons a pre1 =>
    rw [hl] at hsplit
    simp only [List.cons_append, List.cons.injEq] at hsplit
    rw [← hsplit.1]
    exact List.mem_cons_self _ _

omit [DecidableEq F] in
theorem round_ops_read_after_reset (f : F) (k : Call) (p : Bool) (pre post : List (Op F))
    (g : F) (v : Bool) (hsplit : round_ops f k p = pre ++ .load g v :: post) :
    Op.store g false ∈ pre := by
  refine read_after_reset_of f (round_ops f k p) _ rfl ?_ pre post g v hsplit
  intro g v hm
  cases p <;> simp [round_ops] at hm <;> tauto

/-- In every run of the rounds, passing or not, the main flow reads a flag only after it has
reset it. -/
theorem run_rounds_read_after_reset (h : Hdr) (env : Env) (expected : Nat) (msg : String)
    (rows : Nat → Option (Row F)) (rs : List (F × Call × String × String)) (s : St F) :
    ∃ t, (run_rounds (router h env expected msg rows) env rs s).st.trace = s.trace ++ t ∧
      ∀ pre g v post, main_ops t = pre ++ .load g v :: post → Op.store g false ∈ pre := by
  refine run_rounds_induct h env expected msg rows
    (fun _ t _ => ∀ pre g v post, main_ops t = pre ++ .load g v :: post →
      Op.store g false ∈ pre)
    ?_ ?_ ?_ rs s
  · intro _ pre g v post hsplit
    simp [main_ops_nil] at hsplit
  · intro r rs t res _ hs pre g v post hsplit
    rcases hs with ⟨⟨p, ⟨rest, hrest⟩, -⟩, -⟩ | ⟨st, -, hops, -⟩ | ⟨hops, -⟩
    · refine round_ops_read_after_reset r.1 r.2.1 p pre (post ++ rest) g v ?_
      rw [← hrest, hsplit]
      simp
    · refine read_after_reset_of r.1 (main_ops t) _ hops ?_ pre post g v hsplit
      intro g v hm
      rw [hops] at hm
      simp at hm
    · refine read_after_reset_of r.1 (main_ops t) _ hops ?_ pre post g v hsplit
      intro g v hm
      rw [hops] at hm
      simp at hm
      tauto
  · intro r rs p t1 t res hp _ ih pre g v post hsplit
    rw [main_ops_append, hp] at hsplit
    rcases List.append_eq_append_iff.1 hsplit with ⟨a', hpre, hT⟩ | ⟨c', hb, hL⟩
    · rw [hpre]
      exact List.mem_append_right _ (ih a' g v post hT)
    · cases c' with
      | nil =>
        simp only [List.nil_append] at hL
        exact absurd (ih [] g v post hL.symm) (by simp)
      | cons e c'' =>
        simp only [List.cons_append, List.cons.injEq] at hL
        obtain ⟨he, -⟩ := hL
        subst he
        exact round_ops_read_after_reset r.1 r.2.1 p pre c'' g v hb

/-- Every read of `true` by the main flow in a run of the rounds, passing or not, comes after a
complete dispatch of that flag, with no write to the flag in between. -/
theorem run_rounds_read_true (h : Hdr) (env : Env) (expected : Nat) (msg : String)
    (rows : Nat → Option (Row F)) (rs : List (F × Call × String × String)) (s : St F)
    (pre post : List (Event F)) (f : F)
    (hsplit : (run_rounds (router h env expected msg rows) env rs s).added s =
      pre ++ ⟨.main, .load f true⟩ :: post) :
    ∃ pre' x mid, rows x.2 = some x.1 ∧ x.1.flag = f ∧ pre = pre' ++ block h x ++ mid ∧
      ∀ e ∈ mid, ∀ v, e.op ≠ .store f v := by
  obtain ⟨ss, tail, ht, hi, hok, hrows, -⟩ :=
    tidy_run_rounds (tidy_router h env expected msg rows) env rs s
  obtain ⟨t, ht', hreset⟩ := run_rounds_read_after_reset h env expected msg rows rs s
  have hadd : (run_rounds (router h env expected msg rows) env rs s).added s =
      steps_trace h ss ++ tail :=
    added_of_trace _ s _ (by rw [ht, List.append_assoc])
  have hadd' := added_of_trace _ s _ ht'
  rw [hadd] at hsplit
  have hsteps : ∃ post', steps_trace h ss = pre ++ ⟨.main, .load f true⟩ :: post' := by
    rcases List.append_eq_append_iff.1 hsplit with ⟨a', hpre, hT⟩ | ⟨c', hb, hL⟩
    · have := hi ⟨.main, .load f true⟩ (by rw [hT]; simp)
      cases this
    · cases c' with
      | nil =>
        simp only [List.nil_append] at hL
        have := hi ⟨.main, .load f true⟩ (by rw [← hL]; simp)
        cases this
      | cons e c'' =>
        simp only [List.cons_append, List.cons.injEq] at hL
        obtain ⟨he, -⟩ := hL
        subst he
        exact ⟨c'', hb⟩
  obtain ⟨post', hst⟩ := hsteps
  rcases steps_read_true h s.flags ss hok pre post' f hst with
    ⟨pre', x, mid, hx, hxf, hpre, hmid⟩ | ⟨-, hns⟩
  · exact ⟨pre', x, mid, hrows x hx, hxf, hpre, hmid⟩
  · exfalso
    have hops : main_ops t = main_ops pre ++ .load f true :: main_ops post := by
      rw [← hadd', hadd, hsplit, main_ops_append, main_ops_cons_main]
    have hmem := hreset _ f true _ hops
    simp only [main_ops, List.mem_filterMap] at hmem
    obtain ⟨e, he, heq⟩ := hmem
    refine hns e he false ?_
    cases hc : e.ctx with
    | main => simp [hc] at heq; exact heq
    | isr => simp [hc] at heq

end ReadLemmas

/-- C17: in every run of `execute_test` (UART and GPIO), passing or not and whatever the
interrupts do, whenever the main flow reads an observation flag as true, the last write to that
flag before the read was made by a handler run for the cause of that flag which was complete by
then: it claimed the id of the cause, found the flag false, set it, and its acknowledge of the
cause and its complete of the claimed id both returned OK before the read. The handler runs to
completion between two steps of the main flow, and a handler run that fails stops the test, so
the main flow never reads after a dispatch that was cut short. -/
theorem execute_test_reads_complete_dispatch (h : Hdr) (env : Env) (dev : Ptr) :
    (∀ (s : St UartFlag) (pre post : List (Event UartFlag)) (f : UartFlag),
      (Uart.execute_test h env dev s).added s = pre ++ ⟨.main, .load f true⟩ :: post →
      ∃ c pre' mid, f = Uart.flag_of c ∧
        pre = pre' ++ block h (⟨Uart.flag_of c, .dif_uart_irq_acknowledge .uart0 c,
          Uart.more_than_once_msg c⟩, Uart.irq_id h c) ++ mid ∧
        ∀ e ∈ mid, ∀ v, e.op ≠ .store f v) ∧
    (∀ (s : St GpioFlag) (pre post : List (Event GpioFlag)) (f : GpioFlag),
      (Gpio.execute_test h env dev s).added s = pre ++ ⟨.main, .load f true⟩ :: post →
      ∃ c pre' mid, f = Gpio.flag_of c ∧
        pre = pre' ++ block h (⟨Gpio.flag_of c, .dif_gpio_irq_acknowledge .gpio c,
          Gpio.more_than_once_msg c⟩, Gpio.irq_id h c) ++ mid ∧
        ∀ e ∈ mid, ∀ v, e.op ≠ .store f v) := by
  constructor
  · intro s pre post f hsplit
    rw [uart_execute_test_eq, Uart.uart_handler_eq_router] at hsplit
    obtain ⟨pre', ⟨r, id⟩, mid, hrow, hf, hpre, hmid⟩ :=
      run_rounds_read_true h env _ _ _ _ s pre post f hsplit
    obtain ⟨c, hid, hr⟩ := Uart.uart_rows_some h id r hrow
    simp only at hid hr hf hpre
    subst hid hr
    exact ⟨c, pre', mid, hf.symm, hpre, hmid⟩
  · intro s pre post f hsplit
    rw [gpio_execute_test_eq, Gpio.gpio_handler_eq_router] at hsplit
    obtain ⟨pre', ⟨r, id⟩, mid, hrow, hf, hpre, hmid⟩ :=
      run_rounds_read_true h env _ _ _ _ s pre post f hsplit
    obtain ⟨c, hid, hr⟩ := Gpio.gpio_rows_some h id r hrow
    simp only at hid hr hf hpre
    subst hid hr
    exact ⟨c, pre', mid, hf.symm, hpre, hmid⟩

set_option maxRecDepth 8000 in
theorem execute_test_reads_complete_dispatch_witness :
    ∃ c pre' mid, GpioFlag.gpio_gpio1 = Gpio.flag_of c ∧
      [(⟨.main, .store .gpio_gpio1 false⟩ : Event GpioFlag),
        ⟨.main, .call (.dif_gpio_irq_force .gpio .kDifGpioIrqTriggerEdgeFalling) .kOk⟩,
        ⟨.isr, .call (.dif_plic_irq_claim .plic0 0 2) .kOk⟩,
        ⟨.isr, .load .gpio_gpio1 false⟩,
        ⟨.isr, .store .gpio_gpio1 true⟩,
        ⟨.isr, .call (.dif_gpio_irq_acknowledge .gpio .kDifGpioIrqTriggerEdgeFalling) .kOk⟩,
        ⟨.isr, .call (.dif_plic_irq_complete .plic0 0 2) .kOk⟩] =
        pre' ++ block example_hdr (⟨Gpio.flag_of c, .dif_gpio_irq_acknowledge .gpio c,
          Gpio.more_than_once_msg c⟩, Gpio.irq_id example_hdr c) ++ mid ∧
      ∀ e ∈ mid, ∀ v, e.op ≠ .store GpioFlag.gpio_gpio1 v :=
  (execute_test_reads_complete_dispatch example_hdr (passing_env 2) .gpio).2 (St.init GpioFlag)
    [⟨.main, .store .gpio_gpio1 false⟩,
      ⟨.main, .call (.dif_gpio_irq_force .gpio .kDifGpioIrqTriggerEdgeFalling) .kOk⟩,
      ⟨.isr, .call (.dif_plic_irq_claim .plic0 0 2) .kOk⟩,
      ⟨.isr, .load .gpio_gpio1 false⟩,
      ⟨.isr, .store .gpio_gpio1 true⟩,
      ⟨.isr, .call (.dif_gpio_irq_acknowledge .gpio .kDifGpioIrqTriggerEdgeFalling) .kOk⟩,
      ⟨.isr, .call (.dif_plic_irq_complete .plic0 0 2) .kOk⟩]
    [⟨.main, .load .gpio_gpio1 true⟩,
      ⟨.main, .store .gpio_gpio0 false⟩,
      ⟨.main, .call (.dif_gpio_irq_force .gpio .kDifGpioIrqTriggerEdgeRising) .kOk⟩,
      ⟨.isr, .call (.dif_plic_irq_claim .plic0 0 1) .kOk⟩,
      ⟨.isr, .load .gpio_gpio0 false⟩,
      ⟨.isr, .store .gpio_gpio0 true⟩,
      ⟨.isr, .call (.dif_gpio_irq_acknowledge .gpio .kDifGpioIrqTriggerEdgeRising) .kOk⟩,
      ⟨.isr, .call (.dif_plic_irq_complete .plic0 0 1) .kOk⟩,
      ⟨.main, .load .gpio_gpio0 true⟩,
      ⟨.main, .load .gpio_gpio0 true⟩]
    .gpio_gpio1 (by
      simp [Gpio.execute_test, force_round, checked_call, CHECK_main_apply, gap, bind_apply,
        store, load, drv,
        CHECK, emit, irqs, Gpio.gpio_handler_eq_router, router_apply, passing_env, example_hdr,
        St.init, Gpio.gpio_rows, Res.added, Res.st, pure_apply, Function.update])

theorem prog_bind_apply {σ α β : Type} (m : Prog σ α) (k : α → Prog σ β) (s : σ) :
    (m >>= k) s = match m s with
      | .ok a s1 => k a s1
      | .fail e s1 => .fail e s1 := rfl

theorem prog_pure_apply {σ α : Type} (a : α) (s : σ) : (pure a : Prog σ α) s = .ok a s := rfl

theorem prog_bind_ok_iff {σ α β : Type} (m : Prog σ α) (k : α → Prog σ β) (s s' : σ) (b : β) :
    (m >>= k) s = .ok b s' ↔ ∃ a s1, m s = .ok a s1 ∧ k a s1 = .ok b s' := by
  rw [prog_bind_apply]
  cases m s with
  | ok a s1 =>
    constructor
    · intro hk; exact ⟨a, s1, rfl, hk⟩
    · rintro ⟨a', s1', heq, hk⟩; cases heq; exact hk
  | fail e s1 => simp

/-- What the reset manager test does when both driver calls return OK: it passes exactly when
the bitfield has no bit outside the POR mask. -/
theorem rstmgr_test_main_passes_iff (por : Nat) (env : Rstmgr.Env)
    (h1 : env.init_status = .kOk) (h2 : env.info_status = .kOk) (s : List (Rstmgr.Call × Status)) :
    (Rstmgr.test_main por env s).value = some true ↔ env.info &&& por = env.info := by
  simp only [Rstmgr.test_main, Rstmgr.dif_rstmgr_init, Rstmgr.dif_rstmgr_reset_info_get,
    prog_bind_apply, Prog.CHECK, h1, h2, beq_self_eq_true, if_true]
  by_cases hi : env.info &&& por = env.info
  · simp [hi, Out.value, prog_pure_apply]
  · simp [hi, Out.value]

/-- C19, the code at the failing input: with both driver calls returning OK and the reset-info
bitfield 0, in which no cause is set and in particular not the POR bit (mask 1),
`test_main` of the reset manager test returns true. -/
theorem rstmgr_test_main_passes_without_por :
    Rstmgr.test_main 1 ⟨.kOk, .kOk, 0⟩ [] =
      .ok true [(.dif_rstmgr_init, .kOk), (.dif_rstmgr_reset_info_get 0, .kOk)] ∧
    (0 : Nat) &&& 1 ≠ 1 :=
  ⟨rfl, by decide⟩

/-- C20: `test_handler` of the RV timer test requires `irq_fired` to be false on entry.
Entered with `irq_fired` true, which is the initial value of the variable and its value after a
handled interrupt, it stops the test at its first `CHECK`: the only thing it has done is to read
`irq_fired`, no timer call has been made. Entered with `irq_fired` false, with the interrupt
flag of the comparator set and the three driver calls returning OK, it reads the flag, disables
the counter of the hart, then clears the interrupt of comparator 0, then sets `irq_fired` to
true and returns; in the state it returns in, a second entry stops the test. -/
theorem test_handler_needs_irq_fired_false (kHart : Nat) (env : RvTimer.Env) :
    RvTimer.St.init.irq_fired = true ∧
    (∀ s : RvTimer.St, s.irq_fired = true →
      RvTimer.test_handler kHart env s =
        .fail (.check "Entered IRQ handler, but `irq_fired` was not false!")
          ⟨true, s.trace ++ [.load_irq_fired true]⟩) ∧
    (∀ s : RvTimer.St, s.irq_fired = false →
      env.status (s.trace.length + 1) = .kOk → env.irq_flag (s.trace.length + 1) = true →
      env.status (s.trace.length + 2) = .kOk → env.status (s.trace.length + 3) = .kOk →
      RvTimer.test_handler kHart env s =
        .ok () ⟨true, s.trace ++
          [.load_irq_fired false,
           .call (.dif_rv_timer_irq_get kHart 0 true) .kOk,
           .call (.dif_rv_timer_counter_set_enabled kHart .kToggleDisabled) .kOk,
           .call (.dif_rv_timer_irq_clear kHart 0) .kOk,
           .store_irq_fired true]⟩) ∧
    (∀ (env' : RvTimer.Env) (s s' : RvTimer.St), RvTimer.test_handler kHart env s = .ok () s' →
      s'.irq_fired = true ∧
      RvTimer.test_handler kHart env' s' =
        .fail (.check "Entered IRQ handler, but `irq_fired` was not false!")
          ⟨true, s'.trace ++ [.load_irq_fired true]⟩) := by
  have hfail : ∀ (env : RvTimer.Env) (s : RvTimer.St), s.irq_fired = true →
      RvTimer.test_handler kHart env s =
        .fail (.check "Entered IRQ handler, but `irq_fired` was not false!")
          ⟨true, s.trace ++ [.load_irq_fired true]⟩ := by
    intro env s hs
    simp [RvTimer.test_handler, RvTimer.load_irq_fired, prog_bind_apply, Prog.CHECK, hs]
  refine ⟨rfl, hfail env, ?_, ?_⟩
  · intro s hs h1 hf h2 h3
    simp [RvTimer.test_handler, RvTimer.load_irq_fired, RvTimer.store_irq_fired, prog_bind_apply,
      Prog.CHECK, RvTimer.dif_rv_timer_irq_get, RvTimer.drv, RvTimer.kComparator, hs, h1, hf, h2, h3, Nat.add_assoc]
  · intro env' s s' hret
    have hs' : s'.irq_fired = true := by
      simp only [RvTimer.test_handler, prog_bind_ok_iff] at hret
      obtain ⟨_, _, -, _, _, -, _, _, -, _, _, -, _, _, -, _, _, -, _, _, -, _, _, -, _, s9, -,
        hfin⟩ := hret
      cases hfin
      rfl
    exact ⟨hs', hfail env' s' hs'⟩

theorem test_handler_needs_irq_fired_false_witness :
    RvTimer.test_handler 0 ⟨fun _ => .kOk, fun _ => true⟩ RvTimer.St.init =
      .fail (.check "Entered IRQ handler, but `irq_fired` was not false!")
        ⟨true, RvTimer.St.init.trace ++ [.load_irq_fired true]⟩ ∧
    RvTimer.test_handler 0 ⟨fun _ => .kOk, fun _ => true⟩ ⟨false, []⟩ =
      .ok () ⟨true, ([] : List RvTimer.Ev) ++
        [.load_irq_fired false,
         .call (.dif_rv_timer_irq_get 0 0 true) .kOk,
         .call (.dif_rv_timer_counter_set_enabled 0 .kToggleDisabled) .kOk,
         .call (.dif_rv_timer_irq_clear 0 0) .kOk,
         .store_irq_fired true]⟩ ∧
    ((RvTimer.test_handler 0 ⟨fun _ => .kOk, fun _ => true⟩ ⟨false, []⟩).st.irq_fired = true ∧
      RvTimer.test_handler 0 ⟨fun _ => .kOk, fun _ => true⟩
          (RvTimer.test_handler 0 ⟨fun _ => .kOk, fun _ => true⟩ ⟨false, []⟩).st =
        .fail (.check "Entered IRQ handler, but `irq_fired` was not false!")
          ⟨true, (RvTimer.test_handler 0 ⟨fun _ => .kOk, fun _ => true⟩ ⟨false, []⟩).st.trace ++
            [.load_irq_fired true]⟩) :=
  ⟨(test_handler_needs_irq_fired_false 0 ⟨fun _ => .kOk, fun _ => true⟩).2.1 RvTimer.St.init rfl,
   (test_handler_needs_irq_fired_false 0 ⟨fun _ => .kOk, fun _ => true⟩).2.2.1 ⟨false, []⟩
      rfl rfl rfl rfl rfl,
   (test_handler_needs_irq_fired_false 0 ⟨fun _ => .kOk, fun _ => true⟩).2.2.2
      ⟨fun _ => .kOk, fun _ => true⟩ ⟨false, []⟩ _ rfl⟩

namespace Clkmgr

theorem toggle_of_enabled (b : Bool) : (toggle_of b == .kToggleEnabled) = b := by
  cases b <;> rfl

/-- Under the last-set driver the test of one gateable clock passes, sets not-b then b and
leaves the hardware as it was. -/
theorem gateable_clock_test_last_set (status : Nat → Bool → Bool) (clock : Nat) (hw : Hw)
    (t0 : List (Call × Status)) :
    gateable_clock_test (last_set status) clock ⟨hw, t0⟩ =
      .ok () ⟨hw, t0 ++
        [(.dif_clkmgr_gateable_clock_get_enabled clock (hw.gate clock), .kOk),
         (.dif_clkmgr_gateable_clock_set_enabled clock (toggle_of (!hw.gate clock)), .kOk),
         (.dif_clkmgr_gateable_clock_get_enabled clock (!hw.gate clock), .kOk),
         (.dif_clkmgr_gateable_clock_set_enabled clock (toggle_of (hw.gate clock)), .kOk),
         (.dif_clkmgr_gateable_clock_get_enabled clock (hw.gate clock), .kOk)]⟩ := by
  simp [gateable_clock_test, gateable_toggle, Prog.times, prog_bind_apply, prog_pure_apply,
    Prog.CHECK, gateable_clock_get_enabled, gateable_clock_set_enabled, last_set,
    toggle_of_enabled]

/-- Under the last-set driver, with the clock running whenever its hint is enabled, the test
of one hintable clock passes, sets the hint to not-b then b, reads the status once, and leaves
the hardware as it was. -/
theorem hintable_clock_test_last_set (status : Nat → Bool → Bool) (clock : Nat) (hw : Hw)
    (t0 : List (Call × Status)) (hs : status clock true = true) :
    hintable_clock_test (last_set status) clock ⟨hw, t0⟩ =
      .ok () ⟨hw, t0 ++
        [(.dif_clkmgr_hintable_clock_get_hint clock (hw.hint clock), .kOk),
         (.dif_clkmgr_hintable_clock_set_hint clock (toggle_of (!hw.hint clock)), .kOk),
         (.dif_clkmgr_hintable_clock_get_hint clock (!hw.hint clock), .kOk)] ++
        (if !hw.hint clock then
          [(.dif_clkmgr_hintable_clock_get_enabled clock true, .kOk)] else []) ++
        [(.dif_clkmgr_hintable_clock_set_hint clock (toggle_of (hw.hint clock)), .kOk),
         (.dif_clkmgr_hintable_clock_get_hint clock (hw.hint clock), .kOk)] ++
        (if hw.hint clock then
          [(.dif_clkmgr_hintable_clock_get_enabled clock true, .kOk)] else [])⟩ := by
  cases hb : hw.hint clock
  · have hfix : Function.update hw.hint clock false = hw.hint := by
      rw [← hb]; exact Function.update_eq_self _ _
    simp [hintable_clock_test, hintable_toggle, Prog.times, prog_bind_apply, prog_pure_apply,
      Prog.CHECK, hintable_clock_get_hint, hintable_clock_set_hint, hintable_clock_get_enabled,
      last_set, toggle_of_enabled, hb, hs, hfix]
  · have hfix : Function.update hw.hint clock true = hw.hint := by
      rw [← hb]; exact Function.update_eq_self _ _
    simp [hintable_clock_test, hintable_toggle, Prog.times, prog_bind_apply, prog_pure_apply,
      Prog.CHECK, hintable_clock_get_hint, hintable_clock_set_hint, hintable_clock_get_enabled,
      last_set, toggle_of_enabled, hb, hs, hfix]

end Clkmgr

/-- C16: under the driver model in which every call returns OK and a get returns the value of
the last set, for every state of the hardware `test_gateable_clocks` passes: for each of its two
clocks, with `b` the enable bit the clock had, it reads `b`, sets not-`b`, reads not-`b`, sets
`b` and reads `b`, and the hardware ends as it was. When in addition a hintable clock runs
whenever its hint is enabled, `test_hintable_clocks` passes in the same way for the hints of its
two clocks, reading the status after the one set that enabled the hint. -/
theorem clkmgr_toggle_twice_restores (c : Clkmgr.Clocks) (status : Nat → Bool → Bool)
    (hw : Clkmgr.Hw) (t0 : List (Clkmgr.Call × Status)) :
    Clkmgr.test_gateable_clocks (Clkmgr.last_set status) c ⟨hw, t0⟩ =
      .ok () ⟨hw, t0 ++
        [(.dif_clkmgr_gateable_clock_get_enabled c.kTopAthosGateableClocksIoDiv4Peri
            (hw.gate c.kTopAthosGateableClocksIoDiv4Peri), .kOk),
         (.dif_clkmgr_gateable_clock_set_enabled c.kTopAthosGateableClocksIoDiv4Peri
            (Clkmgr.toggle_of (!hw.gate c.kTopAthosGateableClocksIoDiv4Peri)), .kOk),
         (.dif_clkmgr_gateable_clock_get_enabled c.kTopAthosGateableClocksIoDiv4Peri
            (!hw.gate c.kTopAthosGateableClocksIoDiv4Peri), .kOk),
         (.dif_clkmgr_gateable_clock_set_enabled c.kTopAthosGateableClocksIoDiv4Peri
            (Clkmgr.toggle_of (hw.gate c.kTopAthosGateableClocksIoDiv4Peri)), .kOk),
         (.dif_clkmgr_gateable_clock_get_enabled c.kTopAthosGateableClocksIoDiv4Peri
            (hw.gate c.kTopAthosGateableClocksIoDiv4Peri), .kOk)] ++
        [(.dif_clkmgr_gateable_clock_get_enabled c.kTopAthosGateableClocksUsbPeri
            (hw.gate c.kTopAthosGateableClocksUsbPeri), .kOk),
         (.dif_clkmgr_gateable_clock_set_enabled c.kTopAthosGateableClocksUsbPeri
            (Clkmgr.toggle_of (!hw.gate c.kTopAthosGateableClocksUsbPeri)), .kOk),
         (.dif_clkmgr_gateable_clock_get_enabled c.kTopAthosGateableClocksUsbPeri
            (!hw.gate c.kTopAthosGateableClocksUsbPeri), .kOk),
         (.dif_clkmgr_gateable_clock_set_enabled c.kTopAthosGateableClocksUsbPeri
            (Clkmgr.toggle_of (hw.gate c.kTopAthosGateableClocksUsbPeri)), .kOk),
         (.dif_clkmgr_gateable_clock_get_enabled c.kTopAthosGateableClocksUsbPeri
            (hw.gate c.kTopAthosGateableClocksUsbPeri), .kOk)]⟩ ∧
    ((∀ clock, status clock true = true) →
      Clkmgr.test_hintable_clocks (Clkmgr.last_set status) c ⟨hw, t0⟩ =
        .ok () ⟨hw, t0 ++
          ([(.dif_clkmgr_hintable_clock_get_hint c.kTopAthosHintableClocksMainHmac
              (hw.hint c.kTopAthosHintableClocksMainHmac), .kOk),
            (.dif_clkmgr_hintable_clock_set_hint c.kTopAthosHintableClocksMainHmac
              (Clkmgr.toggle_of (!hw.hint c.kTopAthosHintableClocksMainHmac)), .kOk),
            (.dif_clkmgr_hintable_clock_get_hint c.kTopAthosHintableClocksMainHmac
              (!hw.hint c.kTopAthosHintableClocksMainHmac), .kOk)] ++
           (if !hw.hint c.kTopAthosHintableClocksMainHmac then
             [(.dif_clkmgr_hintable_clock_get_enabled c.kTopAthosHintableClocksMainHmac true,
               .kOk)] else []) ++
           [(.dif_clkmgr_hintable_clock_set_hint c.kTopAthosHintableClocksMainHmac
              (Clkmgr.toggle_of (hw.hint c.kTopAthosHintableClocksMainHmac)), .kOk),
            (.dif_clkmgr_hintable_clock_get_hint c.kTopAthosHintableClocksMainHmac
              (hw.hint c.kTopAthosHintableClocksMainHmac), .kOk)] ++
           (if hw.hint c.kTopAthosHintableClocksMainHmac then
             [(.dif_clkmgr_hintable_clock_get_enabled c.kTopAthosHintableClocksMainHmac true,
               .kOk)] else [])) ++
          ([(.dif_clkmgr_hintable_clock_get_hint c.kTopAthosHintableClocksMainKmac
              (hw.hint c.kTopAthosHintableClocksMainKmac), .kOk),
            (.dif_clkmgr_hintable_clock_set_hint c.kTopAthosHintableClocksMainKmac
              (Clkmgr.toggle_of (!hw.hint c.kTopAthosHintableClocksMainKmac)), .kOk),
            (.dif_clkmgr_hintable_clock_get_hint c.kTopAthosHintableClocksMainKmac
              (!hw.hint c.kTopAthosHintableClocksMainKmac), .kOk)] ++
           (if !hw.hint c.kTopAthosHintableClocksMainKmac then
             [(.dif_clkmgr_hintable_clock_get_enabled c.kTopAthosHintableClocksMainKmac true,
               .kOk)] else []) ++
           [(.dif_clkmgr_hintable_clock_set_hint c.kTopAthosHintableClocksMainKmac
              (Clkmgr.toggle_of (hw.hint c.kTopAthosHintableClocksMainKmac)), .kOk),
            (.dif_clkmgr_hintable_clock_get_hint c.kTopAthosHintableClocksMainKmac
              (hw.hint c.kTopAthosHintableClocksMainKmac), .kOk)] ++
           (if hw.hint c.kTopAthosHintableClocksMainKmac then
             [(.dif_clkmgr_hintable_clock_get_enabled c.kTopAthosHintableClocksMainKmac true,
               .kOk)] else []))⟩) := by
  constructor
  · simp only [Clkmgr.test_gateable_clocks, Prog.for_each, prog_bind_apply,
      Clkmgr.gateable_clock_test_last_set, prog_pure_apply, List.append_assoc]
  · intro hs
    simp only [Clkmgr.test_hintable_clocks, Prog.for_each, prog_bind_apply,
      Clkmgr.hintable_clock_test_last_set _ _ _ _ (hs _), prog_pure_apply, List.append_assoc]

theorem clkmgr_toggle_twice_restores_witness :
    Clkmgr.test_gateable_clocks (Clkmgr.last_set (fun _ b => b)) Clkmgr.example_clocks
        ⟨⟨fun _ => false, fun _ => true⟩, []⟩ =
      .ok () ⟨⟨fun _ => false, fun _ => true⟩,
        [(.dif_clkmgr_gateable_clock_get_enabled 0 false, .kOk),
         (.dif_clkmgr_gateable_clock_set_enabled 0 .kToggleEnabled, .kOk),
         (.dif_clkmgr_gateable_clock_get_enabled 0 true, .kOk),
         (.dif_clkmgr_gateable_clock_set_enabled 0 .kToggleDisabled, .kOk),
         (.dif_clkmgr_gateable_clock_get_enabled 0 false, .kOk),
         (.dif_clkmgr_gateable_clock_get_enabled 3 false, .kOk),
         (.dif_clkmgr_gateable_clock_set_enabled 3 .kToggleEnabled, .kOk),
         (.dif_clkmgr_gateable_clock_get_enabled 3 true, .kOk),
         (.dif_clkmgr_gateable_clock_set_enabled 3 .kToggleDisabled, .kOk),
         (.dif_clkmgr_gateable_clock_get_enabled 3 false, .kOk)]⟩ ∧
    Clkmgr.test_hintable_clocks (Clkmgr.last_set (fun _ b => b)) Clkmgr.example_clocks
        ⟨⟨fun _ => false, fun _ => true⟩, []⟩ =
      .ok () ⟨⟨fun _ => false, fun _ => true⟩,
        [(.dif_clkmgr_hintable_clock_get_hint 1 true, .kOk),
         (.dif_clkmgr_hintable_clock_set_hint 1 .kToggleDisabled, .kOk),
         (.dif_clkmgr_hintable_clock_get_hint 1 false, .kOk),
         (.dif_clkmgr_hintable_clock_set_hint 1 .kToggleEnabled, .kOk),
         (.dif_clkmgr_hintable_clock_get_hint 1 true, .kOk),
         (.dif_clkmgr_hintable_clock_get_enabled 1 true, .kOk),
         (.dif_clkmgr_hintable_clock_get_hint 2 true, .kOk),
         (.dif_clkmgr_hintable_clock_set_hint 2 .kToggleDisabled, .kOk),
         (.dif_clkmgr_hintable_clock_get_hint 2 false, .kOk),
         (.dif_clkmgr_hintable_clock_set_hint 2 .kToggleEnabled, .kOk),
         (.dif_clkmgr_hintable_clock_get_hint 2 true, .kOk),
         (.dif_clkmgr_hintable_clock_get_enabled 2 true, .kOk)]⟩ :=
  ⟨(clkmgr_toggle_twice_restores Clkmgr.example_clocks (fun _ b => b)
      ⟨fun _ => false, fun _ => true⟩ []).1,
   (clkmgr_toggle_twice_restores Clkmgr.example_clocks (fun _ b => b)
      ⟨fun _ => false, fun _ => true⟩ []).2 (fun _ => rfl)⟩

/-- A handler run indexes the table out of bounds exactly when the claim returned OK with an id
that is not smaller than the number of entries; the claim is then the only event. -/
theorem router_undef {F : Type} [DecidableEq F] (h : Hdr) (env : Env) (expected : Nat)
    (msg : String) (rows : Nat → Option (Row F)) (s : St F) :
    (env.status s.trace.length = .kOk →
      h.top_athos_plic_interrupt_for_peripheral.length ≤ env.claimed s.trace.length →
      router h env expected msg rows s =
        .undef ⟨s.flags, s.trace ++ [⟨.isr, .call (.dif_plic_irq_claim .plic0
          h.kTopAthosPlicTargetIbex0 (env.claimed s.trace.length)) .kOk⟩]⟩) ∧
    (∀ s', router h env expected msg rows s = .undef s' →
      env.status s.trace.length = .kOk ∧
        h.top_athos_plic_interrupt_for_peripheral.length ≤ env.claimed s.trace.length) := by
  constructor
  · intro h0 hlen
    rw [router_apply]
    simp only [h0, if_true, List.getElem?_eq_none hlen]
  · intro s' hu
    rw [router_apply] at hu
    by_cases h0 : env.status s.trace.length = .kOk
    swap
    · simp [h0] at hu
    refine ⟨h0, ?_⟩
    simp only [h0, if_true] at hu
    cases hp : h.top_athos_plic_interrupt_for_peripheral[env.claimed s.trace.length]? with
    | none => exact List.getElem?_eq_none_iff.1 hp
    | some p =>
      exfalso
      simp only [hp] at hu
      by_cases h1 : p = expected
      swap
      · simp [h1] at hu
      simp only [h1, if_true] at hu
      cases hr : rows (env.claimed s.trace.length) with
      | none => simp [hr] at hu
      | some r =>
        simp only [hr] at hu
        split_ifs at hu

/-- C22: in `handler_irq_external` (UART and GPIO) the id-to-peripheral table is indexed with
the claimed id as it comes from the controller, with no range check in between. When the claim
returns OK and the claimed id is not smaller than the number of entries of
`top_athos_plic_interrupt_for_peripheral`, the handler reaches the lookup right after the claim
(the claim is the only event, no `CHECK` has stopped the run) and the lookup is out of bounds:
the behaviour is undefined. When the claimed id is smaller than the number of entries the lookup
is defined, and an out-of-bounds lookup happens in no other case. -/
theorem handler_irq_external_lookup_unchecked (h : Hdr) (env : Env) :
    (∀ s : St UartFlag,
      (env.status s.trace.length = .kOk →
        h.top_athos_plic_interrupt_for_peripheral.length ≤ env.claimed s.trace.length →
        Uart.handler_irq_external h env s =
          .undef ⟨s.flags, s.trace ++ [⟨.isr, .call (.dif_plic_irq_claim .plic0
            h.kTopAthosPlicTargetIbex0 (env.claimed s.trace.length)) .kOk⟩]⟩) ∧
      (env.claimed s.trace.length < h.top_athos_plic_interrupt_for_peripheral.length →
        ∀ s', Uart.handler_irq_external h env s ≠ .undef s') ∧
      (∀ s', Uart.handler_irq_external h env s = .undef s' →
        env.status s.trace.length = .kOk ∧
          h.top_athos_plic_interrupt_for_peripheral.length ≤ env.claimed s.trace.length)) ∧
    (∀ s : St GpioFlag,
      (env.status s.trace.length = .kOk →
        h.top_athos_plic_interrupt_for_peripheral.length ≤ env.claimed s.trace.length →
        Gpio.handler_irq_external h env s =
          .undef ⟨s.flags, s.trace ++ [⟨.isr, .call (.dif_plic_irq_claim .plic0
            h.kTopAthosPlicTargetIbex0 (env.claimed s.trace.length)) .kOk⟩]⟩) ∧
      (env.claimed s.trace.length < h.top_athos_plic_interrupt_for_peripheral.length →
        ∀ s', Gpio.handler_irq_external h env s ≠ .undef s') ∧
      (∀ s', Gpio.handler_irq_external h env s = .undef s' →
        env.status s.trace.length = .kOk ∧
          h.top_athos_plic_interrupt_for_peripheral.length ≤ env.claimed s.trace.length)) := by
  constructor
  · intro s
    rw [Uart.uart_handler_eq_router]
    obtain ⟨h1, h2⟩ := router_undef h env h.kTopAthosPlicPeripheralUart0
      "ISR interrupted peripheral is not UART!" (Uart.uart_rows h) s
    exact ⟨h1, fun hlt s' hu => absurd (h2 s' hu).2 (Nat.not_le.2 hlt), h2⟩
  · intro s
    rw [Gpio.gpio_handler_eq_router]
    obtain ⟨h1, h2⟩ := router_undef h env h.kTopAthosPlicPeripheralGpio
      "ISR interrupted peripheral is not gpio!" (Gpio.gpio_rows h) s
    exact ⟨h1, fun hlt s' hu => absurd (h2 s' hu).2 (Nat.not_le.2 hlt), h2⟩

theorem handler_irq_external_lookup_unchecked_witness :
    Uart.handler_irq_external example_hdr (quiet_env 41) (St.init UartFlag) =
      .undef ⟨(St.init UartFlag).flags, (St.init UartFlag).trace ++
        [⟨.isr, .call (.dif_plic_irq_claim .plic0 example_hdr.kTopAthosPlicTargetIbex0
          ((quiet_env 41).claimed (St.init UartFlag).trace.length)) .kOk⟩]⟩ ∧
    (∀ s', Uart.handler_irq_external example_hdr (quiet_env 40) (St.init UartFlag) ≠
      .undef s') ∧
    Gpio.handler_irq_external example_hdr (quiet_env 1000) (St.init GpioFlag) =
      .undef ⟨(St.init GpioFlag).flags, (St.init GpioFlag).trace ++
        [⟨.isr, .call (.dif_plic_irq_claim .plic0 example_hdr.kTopAthosPlicTargetIbex0
          ((quiet_env 1000).claimed (St.init GpioFlag).trace.length)) .kOk⟩]⟩ ∧
    (∀ s', Gpio.handler_irq_external example_hdr (quiet_env 40) (St.init GpioFlag) ≠
      .undef s') :=
  ⟨((handler_irq_external_lookup_unchecked example_hdr (quiet_env 41)).1
      (St.init UartFlag)).1 rfl (by decide),
   ((handler_irq_external_lookup_unchecked example_hdr (quiet_env 40)).1
      (St.init UartFlag)).2.1 (by decide),
   ((handler_irq_external_lookup_unchecked example_hdr (quiet_env 1000)).2
      (St.init GpioFlag)).1 rfl (by decide),
   ((handler_irq_external_lookup_unchecked example_hdr (quiet_env 40)).2
      (St.init GpioFlag)).2.1 (by decide)⟩

section OnlyCalls
variable {F : Type}

theorem only_calls_bind {α β : Type} {P : Call → Prop} {m : M F α} {k : α → M F β}
    (hm : only_calls P m) (hk : ∀ a, only_calls P (k a)) : only_calls P (m >>= k) := by
  intro s
  obtain ⟨t1, ht1, hp1⟩ := hm s
  rw [bind_apply]
  cases hr : m s with
  | ret a s1 =>
    rw [hr] at ht1
    simp only [Res.st] at ht1
    obtain ⟨t2, ht2, hp2⟩ := hk a s1
    refine ⟨t1 ++ t2, by rw [ht2, ht1, List.append_assoc], ?_⟩
    intro e he
    rcases List.mem_append.1 he with he | he
    · exact hp1 e he
    · exact hp2 e he
  | abort e s1 =>
    rw [hr] at ht1
    exact ⟨t1, ht1, hp1⟩
  | undef s1 =>
    rw [hr] at ht1
    exact ⟨t1, ht1, hp1⟩

/-- A program that appends nothing. -/
theorem only_calls_of_same {α : Type} (P : Call → Prop) (m : M F α)
    (hm : ∀ s, (m s).st.trace = s.trace) : only_calls P m := by
  intro s
  exact ⟨[], by rw [hm]; simp, fun e he => by cases he⟩

/-- A program that appends one event. -/
theorem only_calls_of_one {α : Type} (P : Call → Prop) (m : M F α) (ev : St F → Event F)
    (hm : ∀ s, (m s).st.trace = s.trace ++ [ev s])
    (hp : ∀ s k st, (ev s).op = .call k st → P k) : only_calls P m := by
  intro s
  refine ⟨[ev s], hm s, ?_⟩
  intro e he k st hop
  rw [List.mem_singleton] at he
  subst he
  exact hp s k st hop

theorem only_calls_pure {α : Type} (P : Call → Prop) (a : α) :
    only_calls P (pure a : M F α) :=
  only_calls_of_same P _ (fun _ => rfl)

theorem only_calls_CHECK (P : Call → Prop) (c : Bool) (msg : String) :
    only_calls P (CHECK c msg : M F Unit) := by
  apply only_calls_of_same
  intro s
  unfold CHECK
  split_ifs <;> rfl

theorem only_calls_table_lookup (P : Call → Prop) (h : Hdr) (id : Nat) :
    only_calls P (table_lookup h id : M F Nat) := by
  apply only_calls_of_same
  intro s
  unfold table_lookup
  split <;> rfl

theorem only_calls_load (P : Call → Prop) (ctx : Ctx) (f : F) : only_calls P (load ctx f) :=
  only_calls_of_one P _ (fun s => ⟨ctx, .load f (s.flags f)⟩) (fun _ => rfl)
    (fun _ _ _ h => by cases h)

theorem only_calls_store [DecidableEq F] (P : Call → Prop) (ctx : Ctx) (f : F) (v : Bool) :
    only_calls P (store ctx f v) :=
  only_calls_of_one P _ (fun _ => ⟨ctx, .store f v⟩) (fun _ => rfl) (fun _ _ _ h => by cases h)

theorem only_calls_drv (P : Call → Prop) (env : Env) (ctx : Ctx) (k : Call) (hk : P k) :
    only_calls P (drv env ctx k : M F Status) :=
  only_calls_of_one P _ (fun s => ⟨ctx, .call k (env.status s.trace.length)⟩) (fun _ => rfl)
    (fun _ _ _ h => by cases h; exact hk)

theorem only_calls_claim (P : Call → Prop) (env : Env) (ctx : Ctx) (plic : Ptr) (target : Nat)
    (hk : ∀ id, P (.dif_plic_irq_claim plic target id)) :
    only_calls P (dif_plic_irq_claim env ctx plic target : M F (Status × Nat)) :=
  only_calls_of_one P _ (fun s => ⟨ctx, .call (.dif_plic_irq_claim plic target
    (env.claimed s.trace.length)) (env.status s.trace.length)⟩) (fun _ => rfl)
    (fun _ _ _ h => by cases h; exact hk _)

theorem only_calls_handle_row [DecidableEq F] (P : Call → Prop) (env : Env)
    (row : Option (Row F)) (hrow : ∀ r, row = some r → P r.ack) :
    only_calls P (handle_row env row) := by
  cases row with
  | none => exact only_calls_of_same P _ (fun _ => rfl)
  | some r =>
    unfold handle_row
    exact only_calls_bind (only_calls_load P _ _) (fun _ => only_calls_bind
      (only_calls_CHECK P _ _) (fun _ => only_calls_bind (only_calls_store P _ _ _)
        (fun _ => only_calls_bind (only_calls_drv P env _ _ (hrow r rfl))
          (fun _ => only_calls_CHECK P _ _))))

theorem only_calls_router [DecidableEq F] (P : Call → Prop) (h : Hdr) (env : Env)
    (expected : Nat) (msg : String) (rows : Nat → Option (Row F))
    (hclaim : ∀ t id, P (.dif_plic_irq_claim .plic0 t id))
    (hcomplete : ∀ t id, P (.dif_plic_irq_complete .plic0 t id))
    (hack : ∀ id r, rows id = some r → P r.ack) :
    only_calls P (router h env expected msg rows) := by
  unfold router
  exact only_calls_bind (only_calls_claim P env _ _ _ (hclaim _)) (fun claim =>
    only_calls_bind (only_calls_CHECK P _ _) (fun _ =>
      only_calls_bind (only_calls_table_lookup P h _) (fun p =>
        only_calls_bind (only_calls_CHECK P _ _) (fun _ =>
          only_calls_bind (only_calls_handle_row P env _ (hack _)) (fun _ =>
            only_calls_bind (only_calls_drv P env _ _ (hcomplete _ _))
              (fun _ => only_calls_CHECK P _ _))))))

theorem only_calls_irqs {P : Call → Prop} {isr : M F Unit} (hisr : only_calls P isr)
    (n : Nat) : only_calls P (irqs isr n) := by
  induction n with
  | zero => exact only_calls_pure P ()
  | succ n ih =>
    rw [irqs]
    exact only_calls_bind hisr (fun _ => ih)

theorem only_calls_gap {P : Call → Prop} {isr : M F Unit} (hisr : only_calls P isr)
    (env : Env) : only_calls P (gap isr env) :=
  fun s => only_calls_irqs hisr _ s

theorem only_calls_CHECK_main {P : Call → Prop} {isr : M F Unit} (hisr : only_calls P isr)
    (env : Env) (c : Bool) (msg : String) : only_calls P (CHECK_main isr env c msg) := by
  cases c
  · exact only_calls_bind (only_calls_gap hisr env) (fun _ => only_calls_CHECK P _ _)
  · exact only_calls_bind (only_calls_pure P _) (fun _ => only_calls_CHECK P _ _)

theorem only_calls_checked_call {P : Call → Prop} {isr : M F Unit} (hisr : only_calls P isr)
    (env : Env) (k : Call) (msg : String) (hk : P k) :
    only_calls P (checked_call isr env k msg) := by
  unfold checked_call
  exact only_calls_bind (only_calls_gap hisr env) (fun _ =>
    only_calls_bind (only_calls_drv P env _ _ hk) (fun _ => only_calls_CHECK_main hisr env _ _))

theorem only_calls_checked_calls {P : Call → Prop} {isr : M F Unit}
    (hisr : only_calls P isr) (env : Env) (ks : List (Call × String))
    (hks : ∀ k ∈ ks, P k.1) : only_calls P (checked_calls isr env ks) := by
  induction ks with
  | nil => exact only_calls_pure P ()
  | cons k ks ih =>
    rw [checked_calls]
    exact only_calls_bind (only_calls_checked_call hisr env _ _ (hks k (List.mem_cons_self _ _)))
      (fun _ => ih (fun k' hk' => hks k' (List.mem_cons_of_mem _ hk')))

/-- A part of the settings that no call of a history writes is the same after the history. -/
theorem Config.after_frame {X : Type} (π : Config → X) (t : List (Event F)) (c : Config)
    (ht : ∀ e ∈ t, ∀ k st, e.op = .call k st → ∀ c' : Config, π (c'.apply k st) = π c') :
    π (c.after t) = π c := by
  induction t generalizing c with
  | nil => rfl
  | cons e t ih =>
    have hstep : π (c.after [e]) = π c := by
      cases hop : e.op with
      | call k st =>
        simp only [Config.after, List.foldl_cons, List.foldl_nil, hop]
        exact ht e (List.mem_cons_self _ _) k st hop c
      | load f v => simp [Config.after, hop]
      | store f v => simp [Config.after, hop]
      | usleep n => simp [Config.after, hop]
      | irq_global_ctrl en => simp [Config.after, hop]
      | irq_external_ctrl en => simp [Config.after, hop]
    have happ : c.after (e :: t) = (c.after [e]).after t := by
      rw [← Config.after_append]; rfl
    rw [happ, ih _ (fun e' he' => ht e' (List.mem_cons_of_mem _ he')), hstep]

end OnlyCalls

/-- A call that is no configuration call writes no setting. -/
theorem Config.apply_claim (c : Config) (plic : Ptr) (t id : Nat) (st : Status) :
    c.apply (.dif_plic_irq_claim plic t id) st = c := by
  cases st <;> rfl

theorem Config.apply_complete (c : Config) (plic : Ptr) (t id : Nat) (st : Status) :
    c.apply (.dif_plic_irq_complete plic t id) st = c := by
  cases st <;> rfl

theorem Config.apply_uart_acknowledge (c : Config) (uart : Ptr) (irq : dif_uart_irq_t)
    (st : Status) : c.apply (.dif_uart_irq_acknowledge uart irq) st = c := by
  cases st <;> rfl

theorem Config.apply_gpio_acknowledge (c : Config) (dev : Ptr) (irq : dif_gpio_irq_trigger_t)
    (st : Status) : c.apply (.dif_gpio_irq_acknowledge dev irq) st = c := by
  cases st <;> rfl

/-- The UART handler writes no setting. -/
theorem uart_handler_only_calls {X : Type} (π : Config → X) (h : Hdr) (env : Env) :
    only_calls (fun k => ∀ (c : Config) (st : Status), π (c.apply k st) = π c)
      (Uart.handler_irq_external h env) := by
  rw [Uart.uart_handler_eq_router]
  refine only_calls_router _ h env _ _ _ ?_ ?_ ?_
  · intro t id c st; rw [Config.apply_claim]
  · intro t id c st; rw [Config.apply_complete]
  · intro id r hr c st
    obtain ⟨_, -, rfl⟩ := Uart.uart_rows_some h id r hr
    rw [Config.apply_uart_acknowledge]

/-- The GPIO handler writes no setting. -/
theorem gpio_handler_only_calls {X : Type} (π : Config → X) (h : Hdr) (env : Env) :
    only_calls (fun k => ∀ (c : Config) (st : Status), π (c.apply k st) = π c)
      (Gpio.handler_irq_external h env) := by
  rw [Gpio.gpio_handler_eq_router]
  refine only_calls_router _ h env _ _ _ ?_ ?_ ?_
  · intro t id c st; rw [Config.apply_claim]
  · intro t id c st; rw [Config.apply_complete]
  · intro id r hr c st
    obtain ⟨_, -, rfl⟩ := Gpio.gpio_rows_some h id r hr
    rw [Config.apply_gpio_acknowledge]

/-- The settings a run leaves, for a part of the settings that none of its calls writes. -/
theorem only_calls_frame {F α X : Type} (π : Config → X) (m : M F α)
    (hm : only_calls (fun k => ∀ (c : Config) (st : Status), π (c.apply k st) = π c) m)
    (s : St F) (c0 : Config) : π (c0.after (m s).st.trace) = π (c0.after s.trace) := by
  obtain ⟨t, ht, hp⟩ := hm s
  rw [ht, Config.after_append]
  exact Config.after_frame π t _ (fun e he k st hop c' => hp e he k st hop c' st)

/-- No call of `uart_configure_irqs` writes an enable of a handle other than `uart0`. -/
theorem uart_config_calls_frame (uart : Ptr) (hne : uart ≠ .uart0) :
    ∀ k ∈ Uart.uart_config_calls, ∀ (c : Config) (st : Status),
      (c.apply k.1 st).uart_irq_enabled uart = c.uart_irq_enabled uart := by
  intro k hk c st
  simp only [Uart.uart_config_calls, List.mem_cons, List.mem_singleton, List.not_mem_nil,
    or_false] at hk
  rcases hk with rfl | rfl | rfl | rfl | rfl | rfl | rfl | rfl <;> cases st <;>
    first | rfl | (funext i; simp [Config.apply, hne])

/-- No call of the `plic_configure_irqs` of the UART test writes a threshold of a handle other
than `plic0`. -/
theorem uart_plic_config_calls_frame (h : Hdr) (plic : Ptr) (hne : plic ≠ .plic0) :
    ∀ k ∈ Uart.plic_config_calls h plic, ∀ (c : Config) (st : Status),
      (c.apply k.1 st).plic_threshold plic = c.plic_threshold plic := by
  intro k hk c st
  simp only [Uart.plic_config_calls, List.mem_cons, List.mem_singleton, List.not_mem_nil,
    or_false] at hk
  rcases hk with rfl | rfl | rfl | rfl | rfl | rfl | rfl | rfl | rfl | rfl | rfl | rfl | rfl |
      rfl | rfl | rfl | rfl | rfl | rfl | rfl | rfl | rfl | rfl | rfl | rfl <;> cases st <;>
    first | rfl | (funext i; simp [Config.apply, hne])

/-- No call of the `plic_configure_irqs` of the GPIO test writes a threshold of a handle other
than `plic0`. -/
theorem gpio_plic_config_calls_frame (h : Hdr) (plic : Ptr) (hne : plic ≠ .plic0) :
    ∀ k ∈ Gpio.plic_config_calls h plic, ∀ (c : Config) (st : Status),
      (c.apply k.1 st).plic_threshold plic = c.plic_threshold plic := by
  intro k hk c st
  simp only [Gpio.plic_config_calls, List.mem_cons, List.mem_singleton, List.not_mem_nil,
    or_false] at hk
  rcases hk with rfl | rfl | rfl | rfl | rfl | rfl | rfl <;> cases st <;>
    first | rfl | (funext i; simp [Config.apply, hne])

/-- With every call returning OK and no interrupt, a sequence of checked calls returns, having
made exactly its calls, in order. -/
theorem checked_calls_quiet {F : Type} (isr : M F Unit) (env : Env)
    (hok : ∀ n, env.status n = .kOk) (hq : ∀ n, env.fires n = 0) (ks : List (Call × String))
    (s : St F) :
    checked_calls isr env ks s =
      .ret () ⟨s.flags, s.trace ++ ks.map (fun k => ⟨.main, .call k.1 .kOk⟩)⟩ := by
  induction ks generalizing s with
  | nil => simp [checked_calls, pure_apply]
  | cons k ks ih =>
    rw [checked_calls, bind_apply]
    have h1 : checked_call isr env k.1 k.2 s =
        .ret () ⟨s.flags, s.trace ++ [⟨.main, .call k.1 .kOk⟩]⟩ := by
      simp [checked_call, gap, hq, irqs, bind_apply, drv, hok, CHECK_main_pass, pure_apply]
    rw [h1]
    simp only []
    rw [ih]
    simp

/-- C23: the configuration functions partly ignore the handle they are given.
`uart_configure_irqs` does not use its argument at all: whatever handle is passed it behaves as
for `uart0`; when it returns, all eight causes are enabled on `uart0`, and when the handle passed
is not `uart0` no run of it, returning or not, changes a cause enable of the handle passed.
Both `plic_configure_irqs` set the threshold of the target on `plic0`: when they return, the
threshold of Ibex0 on `plic0` is `kDifPlicMinPriority`, while the enables and priorities of the
causes have been written on the handle passed; and when the handle passed is not `plic0`, no run
of them, returning or not, changes a threshold of the handle passed. The three functions do
return when every call returns OK and no interrupt fires: they have then made exactly the calls
of their lists, in source order, so that the eight causes are enabled on `uart0`, resp. the
threshold of Ibex0 is set on `plic0`, whatever handle was passed. -/
theorem configure_irqs_ignore_handle (h : Hdr) (env : Env) :
    ((∀ uart, Uart.uart_configure_irqs h env uart = Uart.uart_configure_irqs h env .uart0) ∧
      (∀ (uart : Ptr) (s s' : St UartFlag) (c0 : Config),
        Uart.uart_configure_irqs h env uart s = .ret () s' →
        ∀ irq, (c0.after s'.trace).uart_irq_enabled .uart0 irq = some .kToggleEnabled) ∧
      (∀ (uart : Ptr) (s : St UartFlag) (c0 : Config), uart ≠ .uart0 →
        ∀ irq, (c0.after (Uart.uart_configure_irqs h env uart s).st.trace).uart_irq_enabled
          uart irq = (c0.after s.trace).uart_irq_enabled uart irq) ∧
      (∀ (uart : Ptr) (s : St UartFlag) (c0 : Config),
        (∀ n, env.status n = .kOk) → (∀ n, env.fires n = 0) →
        Uart.uart_configure_irqs h env uart s =
          .ret () ⟨s.flags, s.trace ++
            Uart.uart_config_calls.map (fun k => ⟨.main, .call k.1 .kOk⟩)⟩ ∧
        ∀ irq, (c0.after (Uart.uart_configure_irqs h env uart s).st.trace).uart_irq_enabled
          .uart0 irq = some .kToggleEnabled)) ∧
    ((∀ (plic : Ptr) (s s' : St UartFlag) (c0 : Config),
        Uart.plic_configure_irqs h env plic s = .ret () s' →
        (c0.after s'.trace).plic_threshold .plic0 h.kTopAthosPlicTargetIbex0 =
          some h.kDifPlicMinPriority ∧
        ∀ cause, (c0.after s'.trace).plic_enabled plic (Uart.irq_id h cause)
            h.kTopAthosPlicTargetIbex0 = some .kToggleEnabled ∧
          (c0.after s'.trace).plic_priority plic (Uart.irq_id h cause) =
            some h.kDifPlicMaxPriority) ∧
      (∀ (plic : Ptr) (s : St UartFlag) (c0 : Config), plic ≠ .plic0 →
        ∀ target, (c0.after (Uart.plic_configure_irqs h env plic s).st.trace).plic_threshold
          plic target = (c0.after s.trace).plic_threshold plic target) ∧
      (∀ (plic : Ptr) (s : St UartFlag) (c0 : Config),
        (∀ n, env.status n = .kOk) → (∀ n, env.fires n = 0) →
        Uart.plic_configure_irqs h env plic s =
          .ret () ⟨s.flags, s.trace ++
            (Uart.plic_config_calls h plic).map (fun k => ⟨.main, .call k.1 .kOk⟩)⟩ ∧
        (c0.after (Uart.plic_configure_irqs h env plic s).st.trace).plic_threshold .plic0
          h.kTopAthosPlicTargetIbex0 = some h.kDifPlicMinPriority)) ∧
    ((∀ (plic : Ptr) (s s' : St GpioFlag) (c0 : Config),
        Gpio.plic_configure_irqs h env plic s = .ret () s' →
        (c0.after s'.trace).plic_threshold .plic0 h.kTopAthosPlicTargetIbex0 =
          some h.kDifPlicMinPriority ∧
        ∀ cause, (c0.after s'.trace).plic_enabled plic (Gpio.irq_id h cause)
            h.kTopAthosPlicTargetIbex0 = some .kToggleEnabled ∧
          (c0.after s'.trace).plic_priority plic (Gpio.irq_id h cause) =
            some h.kDifPlicMaxPriority) ∧
      (∀ (plic : Ptr) (s : St GpioFlag) (c0 : Config), plic ≠ .plic0 →
        ∀ target, (c0.after (Gpio.plic_configure_irqs h env plic s).st.trace).plic_threshold
          plic target = (c0.after s.trace).plic_threshold plic target) ∧
      (∀ (plic : Ptr) (s : St GpioFlag) (c0 : Config),
        (∀ n, env.status n = .kOk) → (∀ n, env.fires n = 0) →
        Gpio.plic_configure_irqs h env plic s =
          .ret () ⟨s.flags, s.trace ++
            (Gpio.plic_config_calls h plic).map (fun k => ⟨.main, .call k.1 .kOk⟩)⟩ ∧
        (c0.after (Gpio.plic_configure_irqs h env plic s).st.trace).plic_threshold .plic0
          h.kTopAthosPlicTargetIbex0 = some h.kDifPlicMinPriority)) := by
  have A2 : ∀ (uart : Ptr) (s s' : St UartFlag) (c0 : Config),
      Uart.uart_configure_irqs h env uart s = .ret () s' →
      ∀ irq, (c0.after s'.trace).uart_irq_enabled .uart0 irq = some .kToggleEnabled := by
    intro uart s s' c0 hret irq
    rw [uart_configure_irqs_eq, Uart.uart_handler_eq_router] at hret
    rw [checked_calls_config h env _ _ _ (uart_rows_ack h) _ s s' () hret c0]
    cases irq <;> simp [Uart.uart_config_calls, Config.apply]
  have B1 : ∀ (plic : Ptr) (s s' : St UartFlag) (c0 : Config),
      Uart.plic_configure_irqs h env plic s = .ret () s' →
      (c0.after s'.trace).plic_threshold .plic0 h.kTopAthosPlicTargetIbex0 =
        some h.kDifPlicMinPriority ∧
      ∀ cause, (c0.after s'.trace).plic_enabled plic (Uart.irq_id h cause)
          h.kTopAthosPlicTargetIbex0 = some .kToggleEnabled ∧
        (c0.after s'.trace).plic_priority plic (Uart.irq_id h cause) =
          some h.kDifPlicMaxPriority := by
    intro plic s s' c0 hret
    rw [uart_plic_configure_irqs_eq, Uart.uart_handler_eq_router] at hret
    rw [checked_calls_config h env _ _ _ (uart_rows_ack h) _ s s' () hret c0]
    refine ⟨by simp [Uart.plic_config_calls, Config.apply, kPlicTarget], fun cause => ?_⟩
    cases cause <;> simp [Uart.plic_config_calls, Config.apply, Uart.irq_id, kPlicTarget]
  have C1 : ∀ (plic : Ptr) (s s' : St GpioFlag) (c0 : Config),
      Gpio.plic_configure_irqs h env plic s = .ret () s' →
      (c0.after s'.trace).plic_threshold .plic0 h.kTopAthosPlicTargetIbex0 =
        some h.kDifPlicMinPriority ∧
      ∀ cause, (c0.after s'.trace).plic_enabled plic (Gpio.irq_id h cause)
          h.kTopAthosPlicTargetIbex0 = some .kToggleEnabled ∧
        (c0.after s'.trace).plic_priority plic (Gpio.irq_id h cause) =
          some h.kDifPlicMaxPriority := by
    intro plic s s' c0 hret
    rw [gpio_plic_configure_irqs_eq, Gpio.gpio_handler_eq_router] at hret
    rw [checked_calls_config h env _ _ _ (gpio_rows_ack h) _ s s' () hret c0]
    refine ⟨by simp [Gpio.plic_config_calls, Config.apply, kPlicTarget], fun cause => ?_⟩
    cases cause <;> simp [Gpio.plic_config_calls, Config.apply, Gpio.irq_id, kPlicTarget]
  refine ⟨⟨fun _ => rfl, A2, ?_, ?_⟩, ⟨B1, ?_, ?_⟩, ⟨C1, ?_, ?_⟩⟩
  · intro uart s c0 hne irq
    have hm := only_calls_frame (fun c => c.uart_irq_enabled uart)
      (Uart.uart_configure_irqs h env uart) (by
        rw [uart_configure_irqs_eq]
        exact only_calls_checked_calls
          (uart_handler_only_calls (fun c => c.uart_irq_enabled uart) h env) env _
          (uart_config_calls_frame uart hne)) s c0
    exact congrFun hm irq
  · intro uart s c0 hok hq
    have e : Uart.uart_configure_irqs h env uart s =
        .ret () ⟨s.flags, s.trace ++
          Uart.uart_config_calls.map (fun k => ⟨.main, .call k.1 .kOk⟩)⟩ := by
      rw [uart_configure_irqs_eq]
      exact checked_calls_quiet _ env hok hq _ s
    refine ⟨e, fun irq => ?_⟩
    have := A2 uart s _ c0 e irq
    rw [e]
    exact this
  · intro plic s c0 hne target
    have hm := only_calls_frame (fun c => c.plic_threshold plic)
      (Uart.plic_configure_irqs h env plic) (by
        rw [uart_plic_configure_irqs_eq]
        exact only_calls_checked_calls
          (uart_handler_only_calls (fun c => c.plic_threshold plic) h env) env _
          (uart_plic_config_calls_frame h plic hne)) s c0
    exact congrFun hm target
  · intro plic s c0 hok hq
    have e : Uart.plic_configure_irqs h env plic s =
        .ret () ⟨s.flags, s.trace ++
          (Uart.plic_config_calls h plic).map (fun k => ⟨.main, .call k.1 .kOk⟩)⟩ := by
      rw [uart_plic_configure_irqs_eq]
      exact checked_calls_quiet _ env hok hq _ s
    refine ⟨e, ?_⟩
    have := (B1 plic s _ c0 e).1
    rw [e]
    exact this
  · intro plic s c0 hne target
    have hm := only_calls_frame (fun c => c.plic_threshold plic)
      (Gpio.plic_configure_irqs h env plic) (by
        rw [gpio_plic_configure_irqs_eq]
        exact only_calls_checked_calls
          (gpio_handler_only_calls (fun c => c.plic_threshold plic) h env) env _
          (gpio_plic_config_calls_frame h plic hne)) s c0
    exact congrFun hm target
  · intro plic s c0 hok hq
    have e : Gpio.plic_configure_irqs h env plic s =
        .ret () ⟨s.flags, s.trace ++
          (Gpio.plic_config_calls h plic).map (fun k => ⟨.main, .call k.1 .kOk⟩)⟩ := by
      rw [gpio_plic_configure_irqs_eq]
      exact checked_calls_quiet _ env hok hq _ s
    refine ⟨e, ?_⟩
    have := (C1 plic s _ c0 e).1
    rw [e]
    exact this

set_option maxRecDepth 8000 in
/-- C23 at concrete inputs: the three functions called with the handle `other 7` from the reset
state, every call returning OK and no interrupt firing. -/
theorem configure_irqs_ignore_handle_witness :
    (Config.reset.after (Uart.uart_configure_irqs example_hdr (quiet_env 0) (.other 7)
        (St.init UartFlag)).st.trace).uart_irq_enabled .uart0 .kDifUartIrqRxOverflow =
      some .kToggleEnabled ∧
    (Config.reset.after (Uart.uart_configure_irqs example_hdr (quiet_env 0) (.other 7)
        (St.init UartFlag)).st.trace).uart_irq_enabled (.other 7) .kDifUartIrqRxOverflow =
      (Config.reset.after (St.init UartFlag).trace).uart_irq_enabled (.other 7)
        .kDifUartIrqRxOverflow ∧
    (Config.reset.after (Gpio.plic_configure_irqs example_hdr (quiet_env 0) (.other 7)
        (St.init GpioFlag)).st.trace).plic_threshold .plic0
          example_hdr.kTopAthosPlicTargetIbex0 = some example_hdr.kDifPlicMinPriority ∧
    ((Config.reset.after (Gpio.plic_configure_irqs example_hdr (quiet_env 0) (.other 7)
        (St.init GpioFlag)).st.trace).plic_enabled (.other 7)
          (Gpio.irq_id example_hdr .kDifGpioIrqTriggerEdgeFalling)
          example_hdr.kTopAthosPlicTargetIbex0 = some .kToggleEnabled ∧
      (Config.reset.after (Gpio.plic_configure_irqs example_hdr (quiet_env 0) (.other 7)
        (St.init GpioFlag)).st.trace).plic_priority (.other 7)
          (Gpio.irq_id example_hdr .kDifGpioIrqTriggerEdgeFalling) =
        some example_hdr.kDifPlicMaxPriority) ∧
    (Config.reset.after (Gpio.plic_configure_irqs example_hdr (quiet_env 0) (.other 7)
        (St.init GpioFlag)).st.trace).plic_threshold (.other 7) 0 =
      (Config.reset.after (St.init GpioFlag).trace).plic_threshold (.other 7) 0 ∧
    (Uart.plic_configure_irqs example_hdr (quiet_env 0) (.other 7) (St.init UartFlag) =
        .ret () ⟨(St.init UartFlag).flags, (St.init UartFlag).trace ++
          (Uart.plic_config_calls example_hdr (.other 7)).map
            (fun k => ⟨.main, .call k.1 .kOk⟩)⟩ ∧
      (Config.reset.after (Uart.plic_configure_irqs example_hdr (quiet_env 0) (.other 7)
        (St.init UartFlag)).st.trace).plic_threshold .plic0
          example_hdr.kTopAthosPlicTargetIbex0 = some example_hdr.kDifPlicMinPriority) ∧
    (Config.reset.after (Uart.plic_configure_irqs example_hdr (quiet_env 0) (.other 7)
        (St.init UartFlag)).st.trace).plic_threshold (.other 7) 0 =
      (Config.reset.after (St.init UartFlag).trace).plic_threshold (.other 7) 0 ∧
    ((Config.reset.after (Uart.plic_configure_irqs example_hdr (quiet_env 0) (.other 7)
        (St.init UartFlag)).st.trace).plic_enabled (.other 7)
          (Uart.irq_id example_hdr .kDifUartIrqRxOverflow)
          example_hdr.kTopAthosPlicTargetIbex0 = some .kToggleEnabled ∧
      (Config.reset.after (Uart.plic_configure_irqs example_hdr (quiet_env 0) (.other 7)
        (St.init UartFlag)).st.trace).plic_priority (.other 7)
          (Uart.irq_id example_hdr .kDifUartIrqRxOverflow) =
        some example_hdr.kDifPlicMaxPriority) :=
  ⟨(configure_irqs_ignore_handle example_hdr (quiet_env 0)).1.2.1 (.other 7) (St.init UartFlag) _
      Config.reset (Res.eq_ret_of_returned _ (by
        simp [Uart.uart_configure_irqs, checked_call, CHECK_main_apply, gap, bind_apply, drv,
          CHECK, irqs, quiet_env, St.init, Res.returned, pure_apply])) .kDifUartIrqRxOverflow,
   (configure_irqs_ignore_handle example_hdr (quiet_env 0)).1.2.2.1 (.other 7)
      (St.init UartFlag) Config.reset (by decide) .kDifUartIrqRxOverflow,
   ((configure_irqs_ignore_handle example_hdr (quiet_env 0)).2.2.1 (.other 7) (St.init GpioFlag)
      _ Config.reset (Res.eq_ret_of_returned _ (by
        simp [Gpio.plic_configure_irqs, checked_call, CHECK_main_apply, gap, bind_apply, drv,
          CHECK, irqs, quiet_env, St.init, Res.returned, pure_apply]))).1,
   ((configure_irqs_ignore_handle example_hdr (quiet_env 0)).2.2.1 (.other 7) (St.init GpioFlag)
      _ Config.reset (Res.eq_ret_of_returned _ (by
        simp [Gpio.plic_configure_irqs, checked_call, CHECK_main_apply, gap, bind_apply, drv,
          CHECK, irqs, quiet_env, St.init, Res.returned, pure_apply]))).2
      .kDifGpioIrqTriggerEdgeFalling,
   (configure_irqs_ignore_handle example_hdr (quiet_env 0)).2.2.2.1 (.other 7)
      (St.init GpioFlag) Config.reset (by decide) 0,
   (configure_irqs_ignore_handle example_hdr (quiet_env 0)).2.1.2.2 (.other 7)
      (St.init UartFlag) Config.reset (fun _ => rfl) (fun _ => rfl),
   (configure_irqs_ignore_handle example_hdr (quiet_env 0)).2.1.2.1 (.other 7)
      (St.init UartFlag) Config.reset (by decide) 0,
   ((configure_irqs_ignore_handle example_hdr (quiet_env 0)).2.1.1 (.other 7) (St.init UartFlag)
      _ Config.reset (Res.eq_ret_of_returned _ (by
        simp [Uart.plic_configure_irqs, checked_call, CHECK_main_apply, gap, bind_apply, drv,
          CHECK, irqs, quiet_env, St.init, Res.returned, pure_apply]))).2
      .kDifUartIrqRxOverflow⟩

section LoopLemmas
variable {σ E : Type}

/-- A loop over `a, a+1, .., a+n-1` all of whose iterations are good returns, and its events
are those of the iterations in order. -/
theorem for_each_range_pass (tr : σ → List E) (body : Nat → Prog σ Unit) (ev : Nat → List E)
    (Inv : Nat → σ → Prop) (good : Nat → Prop)
    (hstep : ∀ i s, Inv i s → good i →
      ∃ s', body i s = .ok () s' ∧ tr s' = tr s ++ ev i ∧ Inv (i + 1) s')
    (n a : Nat) (s : σ) (hinv : Inv a s) (hgood : ∀ i, a ≤ i → i < a + n → good i) :
    ∃ s', Prog.for_each (List.range' a n) body s = .ok () s' ∧
      tr s' = tr s ++ (List.range' a n).flatMap ev ∧ Inv (a + n) s' := by
  induction n generalizing a s with
  | zero => exact ⟨s, rfl, by simp, hinv⟩
  | succ n ih =>
    obtain ⟨s1, h1, ht1, hi1⟩ := hstep a s hinv (hgood a (Nat.le_refl _) (by omega))
    obtain ⟨s2, h2, ht2, hi2⟩ := ih (a + 1) s1 hi1 (fun i hi hlt => hgood i (by omega) (by omega))
    refine ⟨s2, ?_, ?_, ?_⟩
    · rw [List.range'_succ, Prog.for_each, prog_bind_apply, h1]
      exact h2
    · rw [ht2, ht1, List.range'_succ, List.flatMap_cons, List.append_assoc]
    · rw [show a + (n + 1) = a + 1 + n by omega]
      exact hi2

/-- A loop whose iterations are good up to `m` and whose iteration `m` is not stops there: its
events are those of the iterations `a, .., m`. -/
theorem for_each_range_fail (tr : σ → List E) (body : Nat → Prog σ Unit) (ev : Nat → List E)
    (Inv : Nat → σ → Prop) (good : Nat → Prop) (e : Failure)
    (hstep : ∀ i s, Inv i s → good i →
      ∃ s', body i s = .ok () s' ∧ tr s' = tr s ++ ev i ∧ Inv (i + 1) s')
    (hfail : ∀ i s, Inv i s → ¬ good i → ∃ s', body i s = .fail e s' ∧ tr s' = tr s ++ ev i)
    (n a : Nat) (s : σ) (m : Nat) (hinv : Inv a s) (ham : a ≤ m) (hmn : m < a + n)
    (hgood : ∀ i, a ≤ i → i < m → good i) (hbad : ¬ good m) :
    ∃ s', Prog.for_each (List.range' a n) body s = .fail e s' ∧
      tr s' = tr s ++ (List.range' a (m + 1 - a)).flatMap ev := by
  induction n generalizing a s with
  | zero => omega
  | succ n ih =>
    rw [List.range'_succ, Prog.for_each, prog_bind_apply]
    by_cases hma : m = a
    · subst hma
      obtain ⟨s1, h1, ht1⟩ := hfail m s hinv hbad
      refine ⟨s1, by rw [h1], ?_⟩
      rw [ht1, show m + 1 - m = 1 by omega]
      simp [List.range']
    · obtain ⟨s1, h1, ht1, hi1⟩ := hstep a s hinv (hgood a (Nat.le_refl _) (by omega))
      obtain ⟨s2, h2, ht2⟩ := ih (a + 1) s1 hi1 (by omega) (by omega)
        (fun i hi hlt => hgood i (by omega) hlt)
      refine ⟨s2, by rw [h1]; exact h2, ?_⟩
      rw [ht2, ht1, show m + 1 - a = (m + 1 - (a + 1)) + 1 by omega, List.range'_succ,
        List.flatMap_cons, List.append_assoc]

/-- Where the iterations of a range are not all good there is a first one that is not. -/
theorem exists_first_bad (good : Nat → Prop) (n : Nat) (h : ¬ ∀ i, i < n → good i) :
    ∃ m, m < n ∧ (∀ i, i < m → good i) ∧ ¬ good m := by
  classical
  have hex : ∃ m, m < n ∧ ¬ good m := by
    by_contra hne
    exact h (fun i hi => by_contra (fun hg => hne ⟨i, hi, hg⟩))
  refine ⟨Nat.find hex, (Nat.find_spec hex).1, ?_, (Nat.find_spec hex).2⟩
  intro i hi
  by_contra hg
  exact Nat.find_min hex hi ⟨Nat.lt_trans hi (Nat.find_spec hex).1, hg⟩

end LoopLemmas

namespace Loopback

theorem received_append (a b : List Ev) : received (a ++ b) = received a + received b := by
  induction a with
  | nil => simp [received]
  | cons e a ih =>
    cases e with
    | call k r => cases k <;> simp [received, ih] <;> omega
    | log_info msg => simp [received, ih]

/-- The setup returns when its four calls return OK; it receives nothing. -/
theorem setup_ok (env : Env) (hok : ∀ n, env.status n = .kOk) (s : St) :
    setup env s = .ok () { s with trace := s.trace ++ setup_events } := by
  simp [setup, prog_bind_apply, Prog.CHECK, drv, hok, setup_events]

/-- What a loop over the indices of `data` does when every iteration, entered after `c + i`
received bytes, either receives the byte `data[i]` and goes on, or receives another byte and
stops the test. -/
theorem byte_loop (data : List Nat) (env : Env) (c : Nat) (body : Nat → Prog St Unit)
    (e : Failure)
    (hstep : ∀ i s, received s.trace = c + i → env.rx (c + i) % 256 = data.getD i 0 →
      ∃ s', body i s = .ok () s' ∧ s'.trace = s.trace ++ echo data env c i ∧
        received s'.trace = c + (i + 1))
    (hfail : ∀ i s, received s.trace = c + i → ¬ env.rx (c + i) % 256 = data.getD i 0 →
      ∃ s', body i s = .fail e s' ∧ s'.trace = s.trace ++ echo data env c i)
    (n : Nat) (s : St) (hs : received s.trace = c) :
    ((∀ i, i < n → env.rx (c + i) % 256 = data.getD i 0) →
      ∃ s', Prog.for_each (List.range n) body s = .ok () s' ∧
        s'.trace = s.trace ++ (List.range n).flatMap (echo data env c)) ∧
    (∀ m, m < n → (∀ i, i < m → env.rx (c + i) % 256 = data.getD i 0) →
      ¬ env.rx (c + m) % 256 = data.getD m 0 →
      ∃ s', Prog.for_each (List.range n) body s = .fail e s' ∧
        s'.trace = s.trace ++ (List.range (m + 1)).flatMap (echo data env c)) := by
  constructor
  · intro hall
    obtain ⟨s', h1, h2, -⟩ := for_each_range_pass St.trace body (echo data env c)
      (fun i s => received s.trace = c + i) (fun i => env.rx (c + i) % 256 = data.getD i 0)
      hstep n 0 s (by simpa using hs) (fun i _ hi => hall i (by omega))
    rw [← List.range_eq_range'] at h1 h2
    exact ⟨s', h1, h2⟩
  · intro m hm hgood hbad
    obtain ⟨s', h1, h2⟩ := for_each_range_fail St.trace body (echo data env c)
      (fun i s => received s.trace = c + i) (fun i => env.rx (c + i) % 256 = data.getD i 0) e
      hstep hfail n 0 s m (by simpa using hs) (Nat.zero_le _) (by omega)
      (fun i _ hi => hgood i hi) hbad
    rw [← List.range_eq_range'] at h1
    rw [Nat.sub_zero, ← List.range_eq_range'] at h2
    exact ⟨s', h1, h2⟩

theorem smoketest_step (env : Env) (hok : ∀ n, env.status n = .kOk) (c i : Nat) (s : St)
    (hs : received s.trace = c + i)
    (hg : env.rx (c + i) % 256 = Smoketest.kSendData.getD i 0) :
    ∃ s', Smoketest.loop_body env i s = .ok () s' ∧
      s'.trace = s.trace ++ echo Smoketest.kSendData env c i ∧
      received s'.trace = c + (i + 1) := by
  refine ⟨{ trace := s.trace ++ echo Smoketest.kSendData env c i,
            debugSendData := Function.update s.debugSendData i (Smoketest.kSendData.getD i 0),
            debugRecvData := Function.update s.debugRecvData i (env.rx (c + i) % 256) },
    ?_, rfl, ?_⟩
  · simp only [Smoketest.loop_body, prog_bind_apply, Prog.CHECK, drv,
      dif_uart_byte_receive_polled, store_debug, hok, received_append, received, hs,
      Nat.add_zero, beq_self_eq_true, if_true, hg, echo, List.append_assoc,
      List.singleton_append]
  · simp [received_append, received, hs, echo]; omega

theorem smoketest_stop (env : Env) (hok : ∀ n, env.status n = .kOk) (c i : Nat) (s : St)
    (hs : received s.trace = c + i)
    (hg : ¬ env.rx (c + i) % 256 = Smoketest.kSendData.getD i 0) :
    ∃ s', Smoketest.loop_body env i s = .fail (.check "receive_byte == kSendData[i]") s' ∧
      s'.trace = s.trace ++ echo Smoketest.kSendData env c i := by
  refine ⟨{ s with trace := s.trace ++ echo Smoketest.kSendData env c i }, ?_, rfl⟩
  have hb : (env.rx (c + i) % 256 == Smoketest.kSendData.getD i 0) = false := by
    simpa using hg
  simp only [Smoketest.loop_body, prog_bind_apply, Prog.CHECK, drv,
    dif_uart_byte_receive_polled, store_debug, hok, received_append, received, hs,
    Nat.add_zero, beq_self_eq_true, if_true, hb, echo, List.append_assoc,
    List.singleton_append]
  rfl

theorem helloworld_step (env : Env) (hok : ∀ n, env.status n = .kOk) (c i : Nat) (s : St)
    (hs : received s.trace = c + i)
    (hg : env.rx (c + i) % 256 = Helloworld.kSendData.getD i 0) :
    ∃ s', Helloworld.loop_body env i s = .ok () s' ∧
      s'.trace = s.trace ++ echo Helloworld.kSendData env c i ∧
      received s'.trace = c + (i + 1) := by
  refine ⟨{ s with trace := s.trace ++ echo Helloworld.kSendData env c i }, ?_, rfl, ?_⟩
  · simp only [Helloworld.loop_body, prog_bind_apply, Prog.CHECK, drv,
      dif_uart_byte_receive_polled, hok, received_append, received, hs,
      Nat.add_zero, beq_self_eq_true, if_true, hg, echo, List.append_assoc,
      List.singleton_append]
  · simp [received_append, received, hs, echo]; omega

theorem helloworld_stop (env : Env) (hok : ∀ n, env.status n = .kOk) (c i : Nat) (s : St)
    (hs : received s.trace = c + i)
    (hg : ¬ env.rx (c + i) % 256 = Helloworld.kSendData.getD i 0) :
    ∃ s', Helloworld.loop_body env i s = .fail (.check "receive_byte == kSendData[i]") s' ∧
      s'.trace = s.trace ++ echo Helloworld.kSendData env c i := by
  refine ⟨{ s with trace := s.trace ++ echo Helloworld.kSendData env c i }, ?_, rfl⟩
  have hb : (env.rx (c + i) % 256 == Helloworld.kSendData.getD i 0) = false := by
    simpa using hg
  simp only [Helloworld.loop_body, prog_bind_apply, Prog.CHECK, drv,
    dif_uart_byte_receive_polled, hok, received_append, received, hs,
    Nat.add_zero, beq_self_eq_true, if_true, hb, echo, List.append_assoc,
    List.singleton_append]
  rfl

/-- The runs of the smoke test when every call returns OK: it returns true after the whole
echo when every byte comes back, and stops at the first byte that does not. -/
theorem smoketest_runs (env : Env) (hok : ∀ n, env.status n = .kOk) (s : St) :
    ((∀ i, i < Smoketest.kSendData.length →
        env.rx (received s.trace + i) % 256 = Smoketest.kSendData.getD i 0) →
      ∃ s', Smoketest.test_main env s = .ok true s' ∧
        s'.trace = s.trace ++ [.log_info "Running uart smoketest"] ++ setup_events ++
          (List.range Smoketest.kSendData.length).flatMap
            (echo Smoketest.kSendData env (received s.trace)) ++
          [.log_info "Completed Running uart smoketest"]) ∧
    (∀ m, m < Smoketest.kSendData.length →
      (∀ i, i < m → env.rx (received s.trace + i) % 256 = Smoketest.kSendData.getD i 0) →
      ¬ env.rx (received s.trace + m) % 256 = Smoketest.kSendData.getD m 0 →
      ∃ s', Smoketest.test_main env s = .fail (.check "receive_byte == kSendData[i]") s' ∧
        s'.trace = s.trace ++ [.log_info "Running uart smoketest"] ++ setup_events ++
          (List.range (m + 1)).flatMap (echo Smoketest.kSendData env (received s.trace))) := by
  have hloop := byte_loop Smoketest.kSendData env (received s.trace) (Smoketest.loop_body env)
    (.check "receive_byte == kSendData[i]") (smoketest_step env hok _) (smoketest_stop env hok _)
    Smoketest.kSendData.length
    { s with trace := s.trace ++ [.log_info "Running uart smoketest"] ++ setup_events }
    (by simp [received_append, received, setup_events])
  constructor
  · intro hall
    obtain ⟨s1, h1, ht⟩ := hloop.1 hall
    refine ⟨{ s1 with trace := s1.trace ++ [.log_info "Completed Running uart smoketest"] },
      ?_, by rw [ht]⟩
    simp only [Smoketest.test_main, prog_bind_apply, LOG_INFO, setup_ok env hok,
      List.append_assoc] at h1 ⊢
    rw [h1]
    rfl
  · intro m hm hgood hbad
    obtain ⟨s1, h1, ht⟩ := hloop.2 m hm hgood hbad
    refine ⟨s1, ?_, ht⟩
    simp only [Smoketest.test_main, prog_bind_apply, LOG_INFO, setup_ok env hok,
      List.append_assoc] at h1 ⊢
    rw [h1]

/-- The runs of the hello-world test when every call returns OK. -/
theorem helloworld_runs (env : Env) (hok : ∀ n, env.status n = .kOk) (s : St) :
    ((∀ i, i < Helloworld.kSendData.length →
        env.rx (received s.trace + i) % 256 = Helloworld.kSendData.getD i 0) →
      ∃ s', Helloworld.test_main env s = .ok true s' ∧
        s'.trace = s.trace ++ [.log_info "Running uart helloworld test"] ++ setup_events ++
          (List.range Helloworld.kSendData.length).flatMap
            (echo Helloworld.kSendData env (received s.trace))) ∧
    (∀ m, m < Helloworld.kSendData.length →
      (∀ i, i < m → env.rx (received s.trace + i) % 256 = Helloworld.kSendData.getD i 0) →
      ¬ env.rx (received s.trace + m) % 256 = Helloworld.kSendData.getD m 0 →
      ∃ s', Helloworld.test_main env s = .fail (.check "receive_byte == kSendData[i]") s' ∧
        s'.trace = s.trace ++ [.log_info "Running uart helloworld test"] ++ setup_events ++
          (List.range (m + 1)).flatMap (echo Helloworld.kSendData env (received s.trace))) := by
  have hloop := byte_loop Helloworld.kSendData env (received s.trace) (Helloworld.loop_body env)
    (.check "receive_byte == kSendData[i]") (helloworld_step env hok _)
    (helloworld_stop env hok _) Helloworld.kSendData.length
    { s with trace := s.trace ++ [.log_info "Running uart helloworld test"] ++ setup_events }
    (by simp [received_append, received, setup_events])
  constructor
  · intro hall
    obtain ⟨s1, h1, ht⟩ := hloop.1 hall
    refine ⟨s1, ?_, ht⟩
    simp only [Helloworld.test_main, prog_bind_apply, LOG_INFO, setup_ok env hok,
      List.append_assoc] at h1 ⊢
    rw [h1]
    rfl
  · intro m hm hgood hbad
    obtain ⟨s1, h1, ht⟩ := hloop.2 m hm hgood hbad
    refine ⟨s1, ?_, ht⟩
    simp only [Helloworld.test_main, prog_bind_apply, LOG_INFO, setup_ok env hok,
      List.append_assoc] at h1 ⊢
    rw [h1]

theorem flatMap_no_events (l : List Nat) : l.flatMap (fun _ => ([] : List Ev)) = [] := by
  induction l with
  | nil => rfl
  | cons a l ih => rw [List.flatMap_cons, ih]; rfl

/-- The comparison loop of the bulk test over a buffer: it makes no call; it returns when the
buffer agrees with the message at every index and stops at the first index where it does
not. -/
theorem bci_loop (buf : List Nat) (n : Nat) (s : St) :
    ((∀ i, i < n → buf.getD i 0 = BciTest.kSendData.getD i 0) →
      ∃ s', Prog.for_each (List.range n) (BciTest.loop_body buf) s = .ok () s' ∧
        s'.trace = s.trace) ∧
    (∀ m, m < n → (∀ i, i < m → buf.getD i 0 = BciTest.kSendData.getD i 0) →
      ¬ buf.getD m 0 = BciTest.kSendData.getD m 0 →
      ∃ s', Prog.for_each (List.range n) (BciTest.loop_body buf) s =
          .fail (.check "receive_bytes[i] == kSendData[i]") s' ∧
        s'.trace = s.trace) := by
  have hstep : ∀ i (s : St), True → buf.getD i 0 = BciTest.kSendData.getD i 0 →
      ∃ s', BciTest.loop_body buf i s = .ok () s' ∧ s'.trace = s.trace ++ [] ∧ True := by
    intro i s _ hg
    refine ⟨⟨s.trace, Function.update s.debugSendData i (BciTest.kSendData.getD i 0),
      Function.update s.debugRecvData i (buf.getD i 0)⟩, ?_, by simp, trivial⟩
    simp only [BciTest.loop_body, prog_bind_apply, Prog.CHECK, store_debug, hg,
      beq_self_eq_true, if_true]
  have hfail : ∀ i (s : St), True → ¬ buf.getD i 0 = BciTest.kSendData.getD i 0 →
      ∃ s', BciTest.loop_body buf i s = .fail (.check "receive_bytes[i] == kSendData[i]") s' ∧
        s'.trace = s.trace ++ [] := by
    intro i s _ hg
    have hb : (buf.getD i 0 == BciTest.kSendData.getD i 0) = false := by simpa using hg
    refine ⟨s, ?_, by simp⟩
    simp only [BciTest.loop_body, prog_bind_apply, Prog.CHECK, store_debug, hb]
    rfl
  constructor
  · intro hall
    obtain ⟨s', h1, h2, -⟩ := for_each_range_pass St.trace (BciTest.loop_body buf)
      (fun _ => []) (fun _ _ => True) (fun i => buf.getD i 0 = BciTest.kSendData.getD i 0)
      hstep n 0 s trivial (fun i _ hi => hall i (by omega))
    rw [← List.range_eq_range'] at h1
    exact ⟨s', h1, by rw [h2, flatMap_no_events, List.append_nil]⟩
  · intro m hm hgood hbad
    obtain ⟨s', h1, h2⟩ := for_each_range_fail St.trace (BciTest.loop_body buf)
      (fun _ => []) (fun _ _ => True) (fun i => buf.getD i 0 = BciTest.kSendData.getD i 0)
      (.check "receive_bytes[i] == kSendData[i]")
      hstep hfail n 0 s m trivial (Nat.zero_le _) (by omega) (fun i _ hi => hgood i hi) hbad
    rw [← List.range_eq_range'] at h1
    exact ⟨s', h1, by rw [h2, flatMap_no_events, List.append_nil]⟩

/-- The buffer that `dif_uart_receive_N_bytes` fills holds at `i` the `i`-th byte received. -/
theorem receive_buffer_getD (env : Env) (c n i : Nat) (hi : i < n) :
    ((List.range n).map fun j => env.rx (c + j) % 256).getD i 0 = env.rx (c + i) % 256 := by
  simp [List.getD_eq_getElem?_getD, hi]

/-- The runs of the bulk test when every call returns OK: the whole message is sent in one
call, then received in one call, then compared. -/
theorem bci_runs (env : Env) (hok : ∀ n, env.status n = .kOk) (s : St) :
    ((∀ i, i < BciTest.kSendData.length →
        env.rx (received s.trace + i) % 256 = BciTest.kSendData.getD i 0) →
      ∃ s', BciTest.test_main env s = .ok true s' ∧
        s'.trace = s.trace ++ [.log_info "Running new BCI uart dif test"] ++ setup_events ++
          [.call (.dif_uart_send_N_bytes BciTest.kSendData) .kOk,
           .call (.dif_uart_receive_N_bytes BciTest.kSendData.length
             ((List.range BciTest.kSendData.length).map
               fun j => env.rx (received s.trace + j) % 256)) .kOk] ++
          [.log_info "Completed Running BCI uart dif test"]) ∧
    (∀ m, m < BciTest.kSendData.length →
      (∀ i, i < m → env.rx (received s.trace + i) % 256 = BciTest.kSendData.getD i 0) →
      ¬ env.rx (received s.trace + m) % 256 = BciTest.kSendData.getD m 0 →
      ∃ s', BciTest.test_main env s = .fail (.check "receive_bytes[i] == kSendData[i]") s' ∧
        s'.trace = s.trace ++ [.log_info "Running new BCI uart dif test"] ++ setup_events ++
          [.call (.dif_uart_send_N_bytes BciTest.kSendData) .kOk,
           .call (.dif_uart_receive_N_bytes BciTest.kSendData.length
             ((List.range BciTest.kSendData.length).map
               fun j => env.rx (received s.trace + j) % 256)) .kOk]) := by
  have hc : received (s.trace ++ Ev.log_info "Running new BCI uart dif test" ::
      (setup_events ++ [Ev.call (.dif_uart_send_N_bytes BciTest.kSendData) .kOk])) =
      received s.trace := by
    simp [received_append, received, setup_events]
  have hloop := bci_loop
    ((List.range BciTest.kSendData.length).map fun j => env.rx (received s.trace + j) % 256)
    BciTest.kSendData.length
    { s with trace := s.trace ++ ([Ev.log_info "Running new BCI uart dif test"] ++
        (setup_events ++ [Ev.call (.dif_uart_send_N_bytes BciTest.kSendData) .kOk,
          .call (.dif_uart_receive_N_bytes BciTest.kSendData.length
            ((List.range BciTest.kSendData.length).map
              fun j => env.rx (received s.trace + j) % 256)) .kOk])) }
  constructor
  · intro hall
    obtain ⟨s1, h1, ht⟩ := hloop.1
      (fun i hi => by rw [receive_buffer_getD env _ _ i hi]; exact hall i hi)
    refine ⟨{ s1 with trace := s1.trace ++ [.log_info "Completed Running BCI uart dif test"] },
      ?_, by rw [ht]; simp⟩
    simp only [BciTest.test_main, prog_bind_apply, LOG_INFO, setup_ok env hok, drv,
      dif_uart_receive_N_bytes, Prog.CHECK, hok, beq_self_eq_true, if_true,
      List.append_assoc, List.singleton_append, List.cons_append, List.nil_append, hc]
      at h1 ⊢
    rw [h1]
    rfl
  · intro m hm hgood hbad
    obtain ⟨s1, h1, ht⟩ := hloop.2 m hm
      (fun i hi => by rw [receive_buffer_getD env _ _ i (by omega)]; exact hgood i hi)
      (by rw [receive_buffer_getD env _ _ m hm]; exact hbad)
    refine ⟨s1, ?_, by rw [ht]; simp⟩
    simp only [BciTest.test_main, prog_bind_apply, LOG_INFO, setup_ok env hok, drv,
      dif_uart_receive_N_bytes, Prog.CHECK, hok, beq_self_eq_true, if_true,
      List.append_assoc, List.singleton_append, List.cons_append, List.nil_append, hc]
      at h1 ⊢
    rw [h1]

/-- A test that returns true when all of `n` indices are good and stops at the first one that
is not returns true exactly when all are good. -/
theorem value_true_iff (prog : Prog St Bool) (s : St) (good : Nat → Prop) (n : Nat)
    (e : Failure) (P : St → Prop) (Q : Nat → St → Prop)
    (hpass : (∀ i, i < n → good i) → ∃ s', prog s = .ok true s' ∧ P s')
    (hstop : ∀ m, m < n → (∀ i, i < m → good i) → ¬ good m →
      ∃ s', prog s = .fail e s' ∧ Q m s') :
    (prog s).value = some true ↔ ∀ i, i < n → good i := by
  constructor
  · intro hv
    by_contra hall
    obtain ⟨m, hm, hgood, hbad⟩ := exists_first_bad good n hall
    obtain ⟨s', h1, -⟩ := hstop m hm hgood hbad
    rw [h1] at hv
    simp [Out.value] at hv
  · intro hall
    obtain ⟨s', h1, -⟩ := hpass hall
    rw [h1]
    rfl

/-- The lengths of the three messages, and their last bytes. -/
theorem kSendData_sizes :
    Smoketest.kSendData.length = 12 ∧ Smoketest.kSendData.getD 11 0 = 0 ∧
    Helloworld.kSendData.length = 12 ∧ Helloworld.kSendData.getD 11 0 = 0 ∧
    BciTest.kSendData.length = 14 ∧ BciTest.kSendData.getD 13 0 = 0 := by
  decide

end Loopback

/-- C21: the UART loopback tests, run from any state `s` with every driver call returning OK;
the `i`-th received byte is the byte number `received s.trace + i` that the receiver delivers
(number `i` when the test starts from reset). The messages have 12, 12 and 14 bytes, the last of
which is the terminating NUL. Each of the three `test_main` returns true if and only if for
every index `i` below the length of its message the `i`-th received byte equals `kSendData[i]`.
In the two byte-by-byte tests the history of a passing run is the first log line, the four setup
calls, then for `i = 0, 1, ..` in order the pair "send `kSendData[i]`, receive byte `i`" (and the
last log line in the smoke test); where `m` is the first index whose byte comes back different,
the run is stopped by the `CHECK` on the received byte and its history ends with the pair of
index `m`: the bytes after `m` are neither sent nor received. So in every run the pairs made
are those of the indices below some `k`, and every byte before the last pair came back
equal. -/
theorem uart_loopback_passes_iff (env : Loopback.Env) (hok : ∀ n, env.status n = .kOk)
    (s : Loopback.St) :
    (Loopback.Smoketest.kSendData.length = 12 ∧ Loopback.Smoketest.kSendData.getD 11 0 = 0 ∧
      Loopback.Helloworld.kSendData.length = 12 ∧ Loopback.Helloworld.kSendData.getD 11 0 = 0 ∧
      Loopback.BciTest.kSendData.length = 14 ∧ Loopback.BciTest.kSendData.getD 13 0 = 0) ∧
    ((Loopback.Smoketest.test_main env s).value = some true ↔
      ∀ i, i < Loopback.Smoketest.kSendData.length →
        env.rx (Loopback.received s.trace + i) % 256 = Loopback.Smoketest.kSendData.getD i 0) ∧
    ((Loopback.Helloworld.test_main env s).value = some true ↔
      ∀ i, i < Loopback.Helloworld.kSendData.length →
        env.rx (Loopback.received s.trace + i) % 256 = Loopback.Helloworld.kSendData.getD i 0) ∧
    ((Loopback.BciTest.test_main env s).value = some true ↔
      ∀ i, i < Loopback.BciTest.kSendData.length →
        env.rx (Loopback.received s.trace + i) % 256 = Loopback.BciTest.kSendData.getD i 0) ∧
    ((∀ i, i < Loopback.Smoketest.kSendData.length →
        env.rx (Loopback.received s.trace + i) % 256 = Loopback.Smoketest.kSendData.getD i 0) →
      (Loopback.Smoketest.test_main env s).st.trace =
        s.trace ++ [.log_info "Running uart smoketest"] ++ Loopback.setup_events ++
          (List.range Loopback.Smoketest.kSendData.length).flatMap
            (Loopback.echo Loopback.Smoketest.kSendData env (Loopback.received s.trace)) ++
          [.log_info "Completed Running uart smoketest"]) ∧
    (∀ m, m < Loopback.Smoketest.kSendData.length →
      (∀ i, i < m →
        env.rx (Loopback.received s.trace + i) % 256 = Loopback.Smoketest.kSendData.getD i 0) →
      ¬ env.rx (Loopback.received s.trace + m) % 256 = Loopback.Smoketest.kSendData.getD m 0 →
      (Loopback.Smoketest.test_main env s).failure =
        some (.check "receive_byte == kSendData[i]") ∧
      (Loopback.Smoketest.test_main env s).st.trace =
        s.trace ++ [.log_info "Running uart smoketest"] ++ Loopback.setup_events ++
          (List.range (m + 1)).flatMap
            (Loopback.echo Loopback.Smoketest.kSendData env (Loopback.received s.trace))) ∧
    ((∀ i, i < Loopback.Helloworld.kSendData.length →
        env.rx (Loopback.received s.trace + i) % 256 = Loopback.Helloworld.kSendData.getD i 0) →
      (Loopback.Helloworld.test_main env s).st.trace =
        s.trace ++ [.log_info "Running uart helloworld test"] ++ Loopback.setup_events ++
          (List.range Loopback.Helloworld.kSendData.length).flatMap
            (Loopback.echo Loopback.Helloworld.kSendData env (Loopback.received s.trace))) ∧
    (∀ m, m < Loopback.Helloworld.kSendData.length →
      (∀ i, i < m →
        env.rx (Loopback.received s.trace + i) % 256 = Loopback.Helloworld.kSendData.getD i 0) →
      ¬ env.rx (Loopback.received s.trace + m) % 256 = Loopback.Helloworld.kSendData.getD m 0 →
      (Loopback.Helloworld.test_main env s).failure =
        some (.check "receive_byte == kSendData[i]") ∧
      (Loopback.Helloworld.test_main env s).st.trace =
        s.trace ++ [.log_info "Running uart helloworld test"] ++ Loopback.setup_events ++
          (List.range (m + 1)).flatMap
            (Loopback.echo Loopback.Helloworld.kSendData env (Loopback.received s.trace))) ∧
    (∃ k, k ≤ Loopback.Smoketest.kSendData.length ∧
      (∀ i, i + 1 < k →
        env.rx (Loopback.received s.trace + i) % 256 = Loopback.Smoketest.kSendData.getD i 0) ∧
      ((Loopback.Smoketest.test_main env s).st.trace =
          s.trace ++ [.log_info "Running uart smoketest"] ++ Loopback.setup_events ++
            (List.range k).flatMap
              (Loopback.echo Loopback.Smoketest.kSendData env (Loopback.received s.trace)) ∨
        (Loopback.Smoketest.test_main env s).st.trace =
          s.trace ++ [.log_info "Running uart smoketest"] ++ Loopback.setup_events ++
            (List.range k).flatMap
              (Loopback.echo Loopback.Smoketest.kSendData env (Loopback.received s.trace)) ++
            [.log_info "Completed Running uart smoketest"])) ∧
    (∃ k, k ≤ Loopback.Helloworld.kSendData.length ∧
      (∀ i, i + 1 < k →
        env.rx (Loopback.received s.trace + i) % 256 = Loopback.Helloworld.kSendData.getD i 0) ∧
      (Loopback.Helloworld.test_main env s).st.trace =
        s.trace ++ [.log_info "Running uart helloworld test"] ++ Loopback.setup_events ++
          (List.range k).flatMap
            (Loopback.echo Loopback.Helloworld.kSendData env (Loopback.received s.trace))) := by
  have hS := Loopback.smoketest_runs env hok s
  have hH := Loopback.helloworld_runs env hok s
  have hB := Loopback.bci_runs env hok s
  have hSp : (∀ i, i < Loopback.Smoketest.kSendData.length →
        env.rx (Loopback.received s.trace + i) % 256 = Loopback.Smoketest.kSendData.getD i 0) →
      (Loopback.Smoketest.test_main env s).st.trace =
        s.trace ++ [.log_info "Running uart smoketest"] ++ Loopback.setup_events ++
          (List.range Loopback.Smoketest.kSendData.length).flatMap
            (Loopback.echo Loopback.Smoketest.kSendData env (Loopback.received s.trace)) ++
          [.log_info "Completed Running uart smoketest"] := by
    intro hall
    obtain ⟨s', h1, h2⟩ := hS.1 hall
    rw [h1]
    exact h2
  have hSf : ∀ m, m < Loopback.Smoketest.kSendData.length →
      (∀ i, i < m →
        env.rx (Loopback.received s.trace + i) % 256 = Loopback.Smoketest.kSendData.getD i 0) →
      ¬ env.rx (Loopback.received s.trace + m) % 256 = Loopback.Smoketest.kSendData.getD m 0 →
      (Loopback.Smoketest.test_main env s).failure =
        some (.check "receive_byte == kSendData[i]") ∧
      (Loopback.Smoketest.test_main env s).st.trace =
        s.trace ++ [.log_info "Running uart smoketest"] ++ Loopback.setup_events ++
          (List.range (m + 1)).flatMap
            (Loopback.echo Loopback.Smoketest.kSendData env (Loopback.received s.trace)) := by
    intro m hm hgood hbad
    obtain ⟨s', h1, h2⟩ := hS.2 m hm hgood hbad
    rw [h1]
    exact ⟨rfl, h2⟩
  have hHp : (∀ i, i < Loopback.Helloworld.kSendData.length →
        env.rx (Loopback.received s.trace + i) % 256 = Loopback.Helloworld.kSendData.getD i 0) →
      (Loopback.Helloworld.test_main env s).st.trace =
        s.trace ++ [.log_info "Running uart helloworld test"] ++ Loopback.setup_events ++
          (List.range Loopback.Helloworld.kSendData.length).flatMap
            (Loopback.echo Loopback.Helloworld.kSendData env (Loopback.received s.trace)) := by
    intro hall
    obtain ⟨s', h1, h2⟩ := hH.1 hall
    rw [h1]
    exact h2
  have hHf : ∀ m, m < Loopback.Helloworld.kSendData.length →
      (∀ i, i < m →
        env.rx (Loopback.received s.trace + i) % 256 = Loopback.Helloworld.kSendData.getD i 0) →
      ¬ env.rx (Loopback.received s.trace + m) % 256 = Loopback.Helloworld.kSendData.getD m 0 →
      (Loopback.Helloworld.test_main env s).failure =
        some (.check "receive_byte == kSendData[i]") ∧
      (Loopback.Helloworld.test_main env s).st.trace =
        s.trace ++ [.log_info "Running uart helloworld test"] ++ Loopback.setup_events ++
          (List.range (m + 1)).flatMap
            (Loopback.echo Loopback.Helloworld.kSendData env (Loopback.received s.trace)) := by
    intro m hm hgood hbad
    obtain ⟨s', h1, h2⟩ := hH.2 m hm hgood hbad
    rw [h1]
    exact ⟨rfl, h2⟩
  refine ⟨Loopback.kSendData_sizes,
    Loopback.value_true_iff _ s _ _ _ _ _ hS.1 hS.2,
    Loopback.value_true_iff _ s _ _ _ _ _ hH.1 hH.2,
    Loopback.value_true_iff _ s _ _ _ _ _ hB.1 hB.2,
    hSp, hSf, hHp, hHf, ?_, ?_⟩
  · by_cases hall : ∀ i, i < Loopback.Smoketest.kSendData.length →
        env.rx (Loopback.received s.trace + i) % 256 = Loopback.Smoketest.kSendData.getD i 0
    · exact ⟨_, Nat.le_refl _, fun i hi => hall i (by omega), Or.inr (hSp hall)⟩
    · obtain ⟨m, hm, hgood, hbad⟩ := exists_first_bad _ _ hall
      exact ⟨m + 1, hm, fun i hi => hgood i (by omega), Or.inl (hSf m hm hgood hbad).2⟩
  · by_cases hall : ∀ i, i < Loopback.Helloworld.kSendData.length →
        env.rx (Loopback.received s.trace + i) % 256 = Loopback.Helloworld.kSendData.getD i 0
    · exact ⟨_, Nat.le_refl _, fun i hi => hall i (by omega), hHp hall⟩
    · obtain ⟨m, hm, hgood, hbad⟩ := exists_first_bad _ _ hall
      exact ⟨m + 1, hm, fun i hi => hgood i (by omega), (hHf m hm hgood hbad).2⟩

/-- C21 at a concrete input: a receiver that delivers the bytes of "Smoke test!" and its NUL in
order, all calls returning OK, from reset. The smoke test returns true; the hello-world test
does not, and is stopped after its first pair, byte 0 being `S` and not `H`. -/
theorem uart_loopback_passes_iff_witness :
    (∀ n, (Loopback.mirror Loopback.Smoketest.kSendData).status n = .kOk) ∧
    (Loopback.Smoketest.test_main (Loopback.mirror Loopback.Smoketest.kSendData)
      Loopback.St.init).value = some true ∧
    ¬ (Loopback.Helloworld.test_main (Loopback.mirror Loopback.Smoketest.kSendData)
      Loopback.St.init).value = some true ∧
    (Loopback.Helloworld.test_main (Loopback.mirror Loopback.Smoketest.kSendData)
      Loopback.St.init).st.trace =
      [.log_info "Running uart helloworld test", .call .dif_uart_init .kOk,
       .call .dif_uart_configure .kOk, .call (.dif_uart_loopback_set .kToggleEnabled) .kOk,
       .call .dif_uart_fifo_reset .kOk, .call (.dif_uart_byte_send_polled 72) .kOk,
       .call (.dif_uart_byte_receive_polled 83) .kOk] :=
  have h := uart_loopback_passes_iff (Loopback.mirror Loopback.Smoketest.kSendData)
    (fun _ => rfl) Loopback.St.init
  ⟨fun _ => rfl, h.2.1.2 (by decide),
    fun hv => absurd (h.2.2.1.1 hv 0 (by decide)) (by decide),
    (h.2.2.2.2.2.2.2.1 0 (by decide) (fun i hi => absurd hi (Nat.not_lt_zero i))
      (by decide)).2⟩

end Athos
